import Mathlib

/-!
Autosizing resolution engine: the cooling capacity sizer and the water heating
coil UA sizer.

A shallow embedding of `CoolingCapacitySizer::size`
(`src/EnergyPlus/Autosizing/CoolingCapacitySizing.cc`) and, further down, of
`WaterHeatingCoilUASizer::size`, and theorems about them.

Conventions of the embedding:

* `Real64` is modelled by the rationals, so arithmetic is exact.  The quotient
  `a / b` of the model is the C++ quotient before rounding whenever `b ≠ 0`.
  Where a statement is about the very value that a quotient or a product
  leaves (the capacity the guard corrects, the lower end of the UA bracket),
  the operation is rounded to binary64, see `Binary64`.
* `int` is `Int`; 1-based `Array1D` containers and `std::vector`s are total
  functions of the index.
* The embedded code is the body of `size` between the call of `preSize` and the
  call of `selectSizerOutput` (lines 69-547).  Its input is the sizer as
  `preSize` leaves it; its output is the state handed to `selectSizerOutput`.
* The early return of lines 65-67 (sizer not initialised) precedes `preSize`
  and is outside the embedded body.
* Functions and constants that the body uses but that are declared elsewhere in
  the engine (psychrometrics, curve evaluation, fan heat gain, number
  formatting, enumeration constants) are fields of `Env`.
-/

namespace EnergyPlus

/-- Double precision reals of the engine, modelled exactly. -/
abbrev Real64 := ℚ

/-- Upper-case an ASCII letter, leave every other character alone. -/
def toUpperAscii (c : Char) : Char :=
  if 'a' ≤ c ∧ c ≤ 'z' then Char.ofNat (c.toNat - 32) else c

/-- Modelled from the spec: `UtilityRoutines::SameString` is not part of the
source excerpt; it is the engine's case-insensitive string comparison. -/
def SameString (a b : String) : Bool :=
  a.data.map toUpperAscii == b.data.map toUpperAscii

/-! ## Data model -/

/-- Fields of `DataSizing::ZoneEqSizingData` read by the sizer. -/
structure ZoneEqSizingData where
  DesignSizeFromParent : Bool
  CoolingCapacity : Bool
  DesCoolingLoad : Real64
  ATMixerVolFlow : Real64
  OAVolFlow : Real64
  SizingMethod : Int → Int

/-- Fields of `DataSizing::TermUnitSizingData` read by the sizer. -/
structure TermUnitSizingData where
  DesCoolingLoad : Real64

/-- Fields of `DataSizing::ZoneSizingData` (`finalZoneSizing`) read by the sizer. -/
structure ZoneSizingData where
  DesCoolCoilInTemp : Real64
  DesCoolCoilInHumRat : Real64
  CoolDesTemp : Real64
  CoolDesHumRat : Real64
  DesCoolMassFlow : Real64
  ZoneRetTempAtCoolPeak : Real64
  ZoneHumRatAtCoolPeak : Real64
  TimeStepNumAtCoolMax : Int
  CoolDDNum : Int

/-- Fields of `DataSizing::SystemSizingData` (`finalSysSizing`) read by the sizer. -/
structure SystemSizingData where
  CoolingCapMethod : Int
  FractionOfAutosizedCoolingCapacity : Real64
  CoolingTotalCapacity : Real64
  DesOutAirVolFlow : Real64
  OutTempAtCoolPeak : Real64
  OutHumRatAtCoolPeak : Real64
  PrecoolTemp : Real64
  PrecoolHumRat : Real64
  CoolSupTemp : Real64
  CoolSupHumRat : Real64
  MixTempAtCoolPeak : Real64
  MixHumRatAtCoolPeak : Real64
  RetTempAtCoolPeak : Real64
  RetHumRatAtCoolPeak : Real64

/-- Values of `DataSizing::zoneFanPlacement`. -/
inductive zoneFanPlacement
  | zoneFanPlaceNotSet
  | zoneBlowThru
  | zoneDrawThru
  deriving DecidableEq, Repr

/-- Values of `DataAirSystems::fanModelTypeEnum`. -/
inductive fanModelTypeEnum
  | fanModelTypeNotYetSet
  | structArrayLegacyFanModels
  | objectVectorOOFanSystemModel
  deriving DecidableEq, Repr

/-- Values of `DataAirSystems::fanPlacement`. -/
inductive fanPlacement
  | fanPlaceNotSet
  | BlowThru
  | DrawThru
  deriving DecidableEq, Repr

/-- Fields of `DataAirSystems::DefinePrimaryAirSystem` used by the sizer. -/
structure DefinePrimaryAirSystem where
  NumOACoolCoils : Int
  supFanModelTypeEnum : fanModelTypeEnum
  retFanModelTypeEnum : fanModelTypeEnum
  supFanLocation : fanPlacement
  FanDesCoolLoad : Real64

/-- Field of `DataAirLoop::OutsideAirSysProps` used by the sizer. -/
structure OutsideAirSysProps where
  AirLoopDOASNum : Int

/-- Fields of `AirLoopHVACDOAS::AirLoopDOAS` used by the sizer. -/
structure AirLoopDOAS where
  SizingMassFlow : Real64
  DXCoilFlag : Bool
  SizingCoolOATemp : Real64
  SizingCoolOAHumRat : Real64
  PrecoolTemp : Real64
  PrecoolHumRat : Real64
  m_FanIndex : Int
  FanBlowTroughFlag : Bool
  m_FanTypeNum : Int

/-- The sizer object (`this`) as `preSize` leaves it: the sizing request. -/
structure CoolingCapacitySizer where
  autoSizedValue : Real64
  originalValue : Real64
  wasAutoSized : Bool
  hardSizeNoDesignRun : Bool
  sizingDesRunThisZone : Bool
  sizingDesRunThisAirSys : Bool
  dataEMSOverrideON : Bool
  dataEMSOverride : Real64
  dataConstantUsedForSizing : Real64
  dataFractionUsedForSizing : Real64
  curZoneEqNum : Int
  curSysNum : Int
  curOASysNum : Int
  curTermUnitSizingNum : Int
  zoneEqSizing : Int → ZoneEqSizingData
  oaSysEqSizing : Int → ZoneEqSizingData
  unitarySysEqSizing : Int → ZoneEqSizingData
  termUnitSizing : Int → TermUnitSizingData
  finalZoneSizing : Int → ZoneSizingData
  finalSysSizing : Int → SystemSizingData
  primaryAirSystem : Int → DefinePrimaryAirSystem
  outsideAirSys : Int → OutsideAirSysProps
  airloopDOAS : Int → AirLoopDOAS
  compType : String
  compName : String
  callingRoutine : String
  sizingString : String
  sizingStringScalable : String
  termUnitIU : Bool
  zoneEqFanCoil : Bool
  zoneEqUnitVent : Bool
  oaSysFlag : Bool
  airLoopSysFlag : Bool
  dataFlowUsedForSizing : Real64
  dataAirFlowUsedForSizing : Real64
  dataDesOutletAirTemp : Real64
  dataDesOutletAirHumRat : Real64
  dataDesInletAirTemp : Real64
  dataDesInletAirHumRat : Real64
  dataTotCapCurveIndex : Int
  dataTotCapCurveValue : Real64
  dataFracOfAutosizedCoolingCapacity : Real64
  dataDesAccountForFanHeat : Bool
  dataNonZoneNonAirloopValue : Real64
  dataScalableSizingON : Bool
  dataScalableCapSizingON : Bool
  dataIsDXCoil : Bool
  printWarningFlag : Bool
  overrideSizeString : Bool
  isEpJSON : Bool

/-- Global data on entry: the `DataSizing`, `DataEnvironment`, `DataGlobals`
and `DataHVACGlobals` variables the sizer reads, and the run-level flag
`DataSizing::DataErrorsFound`. -/
structure Globals where
  DataCoilSizingAirInTemp : Real64
  DataCoilSizingAirInHumRat : Real64
  DataCoilSizingAirOutTemp : Real64
  DataCoilSizingAirOutHumRat : Real64
  DataCoilSizingFanCoolLoad : Real64
  DataCoilSizingCapFT : Real64
  ZoneEqDXCoil : Bool
  DataFanPlacement : zoneFanPlacement
  DesDayWeathTemp : Int → Int → Real64
  StdRhoAir : Real64
  StdBaroPress : Real64
  DisplayExtraWarnings : Bool
  SmallAirVolFlow : Real64
  MinRatedVolFlowPerRatedTotCap : Int → Real64
  MaxRatedVolFlowPerRatedTotCap : Int → Real64
  DXCT : Int
  DataErrorsFound : Bool

/-- Collaborators of the sizer that are declared outside the source excerpt:
psychrometric functions, the performance-curve evaluator, helper methods of the
base sizer, the number formatter and enumeration constants. -/
structure Env where
  PsyHFnTdbW : Real64 → Real64 → Real64
  PsyRhoAirFnPbTdbW : Real64 → Real64 → Real64 → String → Real64
  PsyTwbFnTdbWPb : Real64 → Real64 → Real64 → String → Real64
  PsyCpAirFnW : Real64 → Real64
  CurveValue : Int → Real64 → Real64 → Real64
  calcFanDesHeatGain : Real64 → Real64
  setOAFracForZoneEqSizing : Real64 → ZoneEqSizingData → Real64
  setCoolCoilInletTempForZoneEqSizing : Real64 → ZoneEqSizingData → ZoneSizingData → Real64
  setCoolCoilInletHumRatForZoneEqSizing : Real64 → ZoneEqSizingData → ZoneSizingData → Real64
  getFanDesignTemperatureRise : Int → Real64
  isCompTypeCoil : String → Bool
  TrimSigDigits : Real64 → Nat → String
  Fan_System_Object : Int
  CapacityPerFloorArea : Int
  CoolingDesignCapacity : Int
  FractionOfAutosizedCoolingCapacity : Int
  FractionOfAutosizedHeatingCapacity : Int
  CoolingCapacitySizing : Int

/-- Observable calls made by the sizer: diagnostics, recorded error messages
and calls on the coil selection report object. -/
inductive Emitted
  | ShowWarningMessage (m : String)
  | ShowWarningError (m : String)
  | ShowContinueError (m : String)
  | ShowSevereError (m : String)
  | addErrorMessage (m : String)
  | setCoilEntAirHumRat (compName compType : String) (v : Real64)
  | setCoilEntAirTemp (compName compType : String) (v : Real64) (curSysNum curZoneEqNum : Int)
  | setCoilLvgAirTemp (compName compType : String) (v : Real64)
  | setCoilLvgAirHumRat (compName compType : String) (v : Real64)
  deriving DecidableEq, Repr

/-- Everything `size` can change: the sizer fields it assigns, the handoff
slots of `DataSizing`, the fan load of the primary air systems, the
`errorsFound` out-flag, the locals of `size` and the calls emitted so far.
`DataErrorsFound` is the run-level flag `DataSizing::DataErrorsFound`, carried
through the call: no statement of `CoolingCapacitySizer::size` names it. -/
structure St where
  autoSizedValue : Real64
  dataFracOfAutosizedCoolingCapacity : Real64
  dataDesAccountForFanHeat : Bool
  sizingString : String
  sizingStringScalable : String
  DataCoilSizingAirInTemp : Real64
  DataCoilSizingAirInHumRat : Real64
  DataCoilSizingAirOutTemp : Real64
  DataCoilSizingAirOutHumRat : Real64
  DataCoilSizingFanCoolLoad : Real64
  DataCoilSizingCapFT : Real64
  FanDesCoolLoad : Int → Real64
  errorsFound : Bool
  DesVolFlow : Real64
  CoilInTemp : Real64
  CoilInHumRat : Real64
  CoilOutTemp : Real64
  CoilOutHumRat : Real64
  FanCoolLoad : Real64
  TotCapTempModFac : Real64
  DXFlowPerCapMinRatio : Real64
  DXFlowPerCapMaxRatio : Real64
  OutAirFrac : Real64
  emitted : List Emitted
  DataErrorsFound : Bool

/-- Append diagnostics to the state. -/
def St.emit (st : St) (ms : List Emitted) : St :=
  { st with emitted := st.emitted ++ ms }

/-- State on entry to the resolver: locals initialised as in lines 71-79. -/
def initSt (s : CoolingCapacitySizer) (g : Globals) (errorsFound : Bool) : St :=
  { autoSizedValue := s.autoSizedValue
    dataFracOfAutosizedCoolingCapacity := s.dataFracOfAutosizedCoolingCapacity
    dataDesAccountForFanHeat := s.dataDesAccountForFanHeat
    sizingString := s.sizingString
    sizingStringScalable := s.sizingStringScalable
    DataCoilSizingAirInTemp := g.DataCoilSizingAirInTemp
    DataCoilSizingAirInHumRat := g.DataCoilSizingAirInHumRat
    DataCoilSizingAirOutTemp := g.DataCoilSizingAirOutTemp
    DataCoilSizingAirOutHumRat := g.DataCoilSizingAirOutHumRat
    DataCoilSizingFanCoolLoad := g.DataCoilSizingFanCoolLoad
    DataCoilSizingCapFT := g.DataCoilSizingCapFT
    FanDesCoolLoad := fun i => (s.primaryAirSystem i).FanDesCoolLoad
    errorsFound := errorsFound
    DesVolFlow := 0
    CoilInTemp := -999
    CoilInHumRat := -999
    CoilOutTemp := -999
    CoilOutHumRat := -999
    FanCoolLoad := 0
    TotCapTempModFac := 1
    DXFlowPerCapMinRatio := 1
    DXFlowPerCapMaxRatio := 1
    OutAirFrac := 0
    emitted := []
    DataErrorsFound := g.DataErrorsFound }

/-! ## Zone-equipment scope (lines 87-254) -/

/-- Component types sized as water coils in zone scope (lines 103-105). -/
def isZoneWaterCoilType (s : CoolingCapacitySizer) : Bool :=
  SameString s.compType "COIL:COOLING:WATER" ||
    SameString s.compType "COIL:COOLING:WATER:DETAILEDGEOMETRY" ||
    SameString s.compType "ZONEHVAC:IDEALLOADSAIRSYSTEM"

/-- Parent object calculated the capacity (lines 94-101): inherit the load and
read the air state from the handoff slots. -/
def zoneFromParent (s : CoolingCapacitySizer) (st : St) : St :=
  { st with
    autoSizedValue := (s.zoneEqSizing s.curZoneEqNum).DesCoolingLoad
    DesVolFlow := s.dataFlowUsedForSizing
    CoilInTemp := st.DataCoilSizingAirInTemp
    CoilInHumRat := st.DataCoilSizingAirInHumRat
    CoilOutTemp := st.DataCoilSizingAirOutTemp
    CoilOutHumRat := st.DataCoilSizingAirOutHumRat
    FanCoolLoad := st.DataCoilSizingFanCoolLoad
    TotCapTempModFac := st.DataCoilSizingCapFT }

/-- Fan heat of the zone-scope derivations: `FanCoolLoad += calcFanDesHeatGain`
(lines 120 and 181). -/
def zoneFanCoolLoad (env : Env) (st : St) (DesVolFlow : Real64) : Real64 :=
  st.FanCoolLoad + env.calcFanDesHeatGain DesVolFlow

/-- Water coils and ideal loads systems in zone scope (lines 106-122). -/
def zoneWaterCoil (env : Env) (s : CoolingCapacitySizer) (g : Globals) (st : St) : St :=
  if s.termUnitIU ∧ s.curTermUnitSizingNum > 0 then
    { st with autoSizedValue := (s.termUnitSizing s.curTermUnitSizingNum).DesCoolingLoad }
  else if s.zoneEqFanCoil then
    { st with autoSizedValue := (s.zoneEqSizing s.curZoneEqNum).DesCoolingLoad }
  else
    let fz := s.finalZoneSizing s.curZoneEqNum
    let CoilInTemp := fz.DesCoolCoilInTemp
    let CoilInHumRat := fz.DesCoolCoilInHumRat
    let CoilOutTemp := min CoilInTemp fz.CoolDesTemp
    let CoilOutHumRat := min CoilInHumRat fz.CoolDesHumRat
    let load := fz.DesCoolMassFlow *
      (env.PsyHFnTdbW CoilInTemp CoilInHumRat - env.PsyHFnTdbW CoilOutTemp CoilOutHumRat)
    let DesVolFlow := fz.DesCoolMassFlow / g.StdRhoAir
    let FanCoolLoad := zoneFanCoolLoad env st DesVolFlow
    { st with
      CoilInTemp := CoilInTemp
      CoilInHumRat := CoilInHumRat
      CoilOutTemp := CoilOutTemp
      CoilOutHumRat := CoilOutHumRat
      DesVolFlow := DesVolFlow
      FanCoolLoad := FanCoolLoad
      autoSizedValue := load + FanCoolLoad }

/-- Coil inlet dry-bulb selected in the zone-scope DX derivation (lines 127-161). -/
def zoneDXCoilInTemp (env : Env) (s : CoolingCapacitySizer) (g : Globals)
    (DesVolFlow : Real64) : Real64 :=
  let z := s.zoneEqSizing s.curZoneEqNum
  let fz := s.finalZoneSizing s.curZoneEqNum
  if g.ZoneEqDXCoil then
    if z.ATMixerVolFlow > 0 then
      let DesMassFlow := DesVolFlow * g.StdRhoAir
      env.setCoolCoilInletTempForZoneEqSizing (env.setOAFracForZoneEqSizing DesMassFlow z) z fz
    else if z.OAVolFlow > 0 then
      fz.DesCoolCoilInTemp
    else
      fz.ZoneRetTempAtCoolPeak
  else if s.zoneEqFanCoil then
    let DesMassFlow := fz.DesCoolMassFlow
    env.setCoolCoilInletTempForZoneEqSizing (env.setOAFracForZoneEqSizing DesMassFlow z) z fz
  else
    fz.DesCoolCoilInTemp

/-- Coil inlet humidity ratio selected in the zone-scope DX derivation
(lines 127-161). -/
def zoneDXCoilInHumRat (env : Env) (s : CoolingCapacitySizer) (g : Globals)
    (DesVolFlow : Real64) : Real64 :=
  let z := s.zoneEqSizing s.curZoneEqNum
  let fz := s.finalZoneSizing s.curZoneEqNum
  if g.ZoneEqDXCoil then
    if z.ATMixerVolFlow > 0 then
      let DesMassFlow := DesVolFlow * g.StdRhoAir
      env.setCoolCoilInletHumRatForZoneEqSizing (env.setOAFracForZoneEqSizing DesMassFlow z) z fz
    else if z.OAVolFlow > 0 then
      fz.DesCoolCoilInHumRat
    else
      fz.ZoneHumRatAtCoolPeak
  else if s.zoneEqFanCoil then
    let DesMassFlow := fz.DesCoolMassFlow
    env.setCoolCoilInletHumRatForZoneEqSizing (env.setOAFracForZoneEqSizing DesMassFlow z) z fz
  else
    fz.DesCoolCoilInHumRat

/-- Rated capacity from the peak coil load and the modifier factor
(lines 201-205 and 428-432): divide only by a positive factor. -/
def ratedFromPeak (PeakCoilLoad TotCapTempModFac : Real64) : Real64 :=
  if TotCapTempModFac > 0 then PeakCoilLoad / TotCapTempModFac else PeakCoilLoad

/-- Modifier factor of the zone-scope derivation (lines 194-200). -/
def zoneTotCapTempModFac (env : Env) (s : CoolingCapacitySizer)
    (CoilInWetBulb OutTemp : Real64) : Real64 :=
  if s.dataTotCapCurveIndex > 0 then
    env.CurveValue s.dataTotCapCurveIndex CoilInWetBulb OutTemp
  else if s.dataTotCapCurveValue > 0 then
    s.dataTotCapCurveValue
  else
    1

/-- The local `PeakCoilLoad` of the zone-scope DX derivation with the fan heat
added (lines 162-182). -/
def zoneDXPeakCoilLoad (env : Env) (s : CoolingCapacitySizer) (g : Globals) (st : St) :
    Real64 :=
  let DesVolFlow := s.dataFlowUsedForSizing
  let fz := s.finalZoneSizing s.curZoneEqNum
  let CoilInTemp := zoneDXCoilInTemp env s g DesVolFlow
  let CoilInHumRat := zoneDXCoilInHumRat env s g DesVolFlow
  let CoilOutTemp := min CoilInTemp fz.CoolDesTemp
  let CoilOutHumRat := min CoilInHumRat fz.CoolDesHumRat
  let rhoair := env.PsyRhoAirFnPbTdbW g.StdBaroPress CoilInTemp CoilInHumRat s.callingRoutine
  let CoilInEnth := env.PsyHFnTdbW CoilInTemp CoilInHumRat
  let CoilOutEnth := env.PsyHFnTdbW CoilOutTemp CoilOutHumRat
  let PeakCoilLoad :=
    if s.zoneEqFanCoil then max 0 (g.StdRhoAir * DesVolFlow * (CoilInEnth - CoilOutEnth))
    else if s.zoneEqUnitVent then max 0 (g.StdRhoAir * DesVolFlow * (CoilInEnth - CoilOutEnth))
    else max 0 (rhoair * DesVolFlow * (CoilInEnth - CoilOutEnth))
  PeakCoilLoad + zoneFanCoolLoad env st DesVolFlow

/-- All other component types in zone scope (lines 124-216): derive the
capacity from the zone design air state. -/
def zoneDX (env : Env) (s : CoolingCapacitySizer) (g : Globals) (st : St) : St :=
  let DesVolFlow := s.dataFlowUsedForSizing
  if DesVolFlow ≥ g.SmallAirVolFlow then
    let fz := s.finalZoneSizing s.curZoneEqNum
    let CoilInTemp := zoneDXCoilInTemp env s g DesVolFlow
    let CoilInHumRat := zoneDXCoilInHumRat env s g DesVolFlow
    let CoilOutTemp := min CoilInTemp fz.CoolDesTemp
    let CoilOutHumRat := min CoilInHumRat fz.CoolDesHumRat
    let TimeStepNumAtMax := fz.TimeStepNumAtCoolMax
    let DDNum := fz.CoolDDNum
    let OutTemp := if DDNum > 0 ∧ TimeStepNumAtMax > 0 then
      g.DesDayWeathTemp DDNum TimeStepNumAtMax else 0
    let FanCoolLoad := zoneFanCoolLoad env st DesVolFlow
    let PeakCoilLoad := zoneDXPeakCoilLoad env s g st
    let CpAir := env.PsyCpAirFnW CoilInHumRat
    let CoilInTemp1 :=
      if st.dataDesAccountForFanHeat ∧ g.DataFanPlacement = zoneFanPlacement.zoneBlowThru then
        CoilInTemp + FanCoolLoad / (CpAir * g.StdRhoAir * DesVolFlow)
      else CoilInTemp
    let CoilOutTemp1 :=
      if st.dataDesAccountForFanHeat ∧ g.DataFanPlacement = zoneFanPlacement.zoneDrawThru then
        CoilOutTemp - FanCoolLoad / (CpAir * g.StdRhoAir * DesVolFlow)
      else CoilOutTemp
    let CoilInWetBulb := env.PsyTwbFnTdbWPb CoilInTemp1 CoilInHumRat g.StdBaroPress s.callingRoutine
    let TotCapTempModFac := zoneTotCapTempModFac env s CoilInWetBulb OutTemp
    { st with
      DesVolFlow := DesVolFlow
      CoilInTemp := CoilInTemp1
      CoilInHumRat := CoilInHumRat
      CoilOutTemp := CoilOutTemp1
      CoilOutHumRat := CoilOutHumRat
      FanCoolLoad := FanCoolLoad
      TotCapTempModFac := TotCapTempModFac
      autoSizedValue := ratedFromPeak PeakCoilLoad TotCapTempModFac
      DataCoilSizingAirInTemp := CoilInTemp1
      DataCoilSizingAirInHumRat := CoilInHumRat
      DataCoilSizingAirOutTemp := CoilOutTemp1
      DataCoilSizingAirOutHumRat := CoilOutHumRat
      DataCoilSizingFanCoolLoad := FanCoolLoad
      DataCoilSizingCapFT := TotCapTempModFac }
  else
    { st with DesVolFlow := DesVolFlow, autoSizedValue := 0, CoilOutTemp := -999 }

/-- The three air-state lines shared by the extra warnings
(lines 235-239, 243-247). -/
def airStateLines (env : Env) (st : St) : List Emitted :=
  [Emitted.ShowContinueError
      ("...Air flow rate used for sizing = " ++ env.TrimSigDigits st.DesVolFlow 5 ++ " [m3/s]"),
   Emitted.ShowContinueError
      ("...Coil inlet air temperature used for sizing = " ++
        env.TrimSigDigits st.CoilInTemp 2 ++ " [C]"),
   Emitted.ShowContinueError
      ("...Coil outlet air temperature used for sizing = " ++
        env.TrimSigDigits st.CoilOutTemp 2 ++ " [C]")]

/-- Line reporting a capacity passed by the parent object (lines 225, 232, 453). -/
def parentCapacityLine (env : Env) (st : St) : Emitted :=
  Emitted.ShowContinueError
    ("...Capacity passed by parent object to size child component = " ++
      env.TrimSigDigits st.autoSizedValue 2 ++ " [W]")

/-- The two opening lines of the extra warning (lines 222-223, 447-448). -/
def potentialIssueLines (env : Env) (s : CoolingCapacitySizer) (st : St) : List Emitted :=
  [Emitted.ShowWarningMessage
      (s.callingRoutine ++ ": Potential issue with equipment sizing for " ++
        s.compType ++ " " ++ s.compName),
   Emitted.ShowContinueError
      ("...Rated Total Cooling Capacity = " ++ env.TrimSigDigits st.autoSizedValue 2 ++ " [W]")]

/-- Lines of the extra warning of the zone branch for a capacity that is not
positive (lines 221-253); no line when the warning is not due. -/
def zoneWarningLines (env : Env) (s : CoolingCapacitySizer) (g : Globals) (st : St) :
    List Emitted :=
  if g.DisplayExtraWarnings ∧ st.autoSizedValue ≤ 0 then
    potentialIssueLines env s st ++
      (if (s.zoneEqSizing s.curZoneEqNum).CoolingCapacity then
        [parentCapacityLine env st]
      else if isZoneWaterCoilType s then
        (if s.termUnitIU ∨ s.zoneEqFanCoil then [parentCapacityLine env st]
         else airStateLines env st)
      else
        (if st.CoilOutTemp > -999 then airStateLines env st
         else [Emitted.ShowContinueError
                "...Capacity used to size child component set to 0 [W]"]))
  else []

/-- Extra warning of the zone branch (lines 221-253). -/
def zoneWarnings (env : Env) (s : CoolingCapacitySizer) (g : Globals) (st : St) : St :=
  st.emit (zoneWarningLines env s g st)

/-- Fraction scaling and fan-heat flag reset closing the zone derivation
(lines 219-220). -/
def zoneScale (st : St) : St :=
  { st with
    autoSizedValue := st.autoSizedValue * st.dataFracOfAutosizedCoolingCapacity
    dataDesAccountForFanHeat := true }

/-- Zone-equipment scope, `curZoneEqNum > 0` (lines 88-254). -/
def sizeZone (env : Env) (s : CoolingCapacitySizer) (g : Globals)
    (_originalValue : Real64) (st : St) : St :=
  if ¬ s.wasAutoSized ∧ ¬ s.sizingDesRunThisZone then
    { st with autoSizedValue := _originalValue }
  else if (s.zoneEqSizing s.curZoneEqNum).DesignSizeFromParent then
    { st with autoSizedValue := (s.zoneEqSizing s.curZoneEqNum).DesCoolingLoad }
  else
    let st1 :=
      if (s.zoneEqSizing s.curZoneEqNum).CoolingCapacity then zoneFromParent s st
      else if isZoneWaterCoilType s then zoneWaterCoil env s g st
      else zoneDX env s g st
    zoneWarnings env s g (zoneScale st1)

/-! ## Air-system scope (lines 255-462) -/

/-- Outdoor-air-system coil (lines 262-263). -/
def sysOASys (s : CoolingCapacitySizer) (st : St) : St :=
  { st with
    autoSizedValue := (s.oaSysEqSizing s.curOASysNum).DesCoolingLoad
    DesVolFlow := s.dataFlowUsedForSizing }

/-- Coil owned by a unitary system (lines 265-278): inherit the load and read
the air state from the handoff slots. -/
def sysUnitary (env : Env) (s : CoolingCapacitySizer) (st : St) : St :=
  let st1 : St :=
    { st with
      autoSizedValue := (s.unitarySysEqSizing s.curSysNum).DesCoolingLoad
      DesVolFlow := s.dataFlowUsedForSizing
      CoilInTemp := st.DataCoilSizingAirInTemp
      CoilInHumRat := st.DataCoilSizingAirInHumRat
      CoilOutTemp := st.DataCoilSizingAirOutTemp
      CoilOutHumRat := st.DataCoilSizingAirOutHumRat
      FanCoolLoad := st.DataCoilSizingFanCoolLoad
      TotCapTempModFac := st.DataCoilSizingCapFT }
  if env.isCompTypeCoil s.compType then
    st1.emit
      [Emitted.setCoilEntAirHumRat s.compName s.compType st1.CoilInHumRat,
       Emitted.setCoilEntAirTemp s.compName s.compType st1.CoilInTemp s.curSysNum s.curZoneEqNum,
       Emitted.setCoilLvgAirTemp s.compName s.compType st1.CoilOutTemp,
       Emitted.setCoilLvgAirHumRat s.compName s.compType st1.CoilOutHumRat]
  else st1

/-- Coil of a dedicated outdoor air system (lines 280-300). -/
def sysDOAS (env : Env) (s : CoolingCapacitySizer) (g : Globals) (st : St) : St :=
  let d := s.airloopDOAS (s.outsideAirSys s.curOASysNum).AirLoopDOASNum
  let DesVolFlow := d.SizingMassFlow / g.StdRhoAir
  if d.DXCoilFlag then
    { st with DesVolFlow := DesVolFlow, autoSizedValue := DesVolFlow / (5 / 100000) }
  else
    let CoilInTemp :=
      if d.m_FanIndex > -1 ∧ d.FanBlowTroughFlag ∧ d.m_FanTypeNum = env.Fan_System_Object then
        d.SizingCoolOATemp + env.getFanDesignTemperatureRise d.m_FanIndex
      else d.SizingCoolOATemp
    let CoilInHumRat := d.SizingCoolOAHumRat
    let CoilOutTemp := d.PrecoolTemp
    let CoilOutHumRat := d.PrecoolHumRat
    { st with
      DesVolFlow := DesVolFlow
      CoilInTemp := CoilInTemp
      CoilInHumRat := CoilInHumRat
      CoilOutTemp := CoilOutTemp
      CoilOutHumRat := CoilOutHumRat
      autoSizedValue := DesVolFlow * g.StdRhoAir *
        (env.PsyHFnTdbW CoilInTemp CoilInHumRat - env.PsyHFnTdbW CoilOutTemp CoilOutHumRat) }

/-- Outdoor air fraction (lines 316-321 and 346-351). -/
def outAirFrac (DesOutAirVolFlow DesVolFlow : Real64) : Real64 :=
  min 1 (max 0 (if DesVolFlow > 0 then DesOutAirVolFlow / DesVolFlow else 1))

/-- Design flow of the full air-system derivation after line 330. -/
def sysPrimaryDesVolFlow (s : CoolingCapacitySizer) : Real64 :=
  if s.curOASysNum > 0 then s.dataFlowUsedForSizing
  else if s.dataAirFlowUsedForSizing > 0 then s.dataAirFlowUsedForSizing
  else s.dataFlowUsedForSizing

/-- Outdoor air fraction of the full air-system derivation after line 359. -/
def sysPrimaryOutAirFrac (s : CoolingCapacitySizer) : Real64 :=
  let fs := s.finalSysSizing s.curSysNum
  if s.curOASysNum > 0 then outAirFrac fs.DesOutAirVolFlow s.dataFlowUsedForSizing
  else if (s.primaryAirSystem s.curSysNum).NumOACoolCoils = 0 then
    outAirFrac fs.DesOutAirVolFlow s.dataFlowUsedForSizing
  else outAirFrac fs.DesOutAirVolFlow (sysPrimaryDesVolFlow s)

/-- Coil inlet dry-bulb of the full air-system derivation (lines 322-359). -/
def sysPrimaryCoilInTemp (s : CoolingCapacitySizer) : Real64 :=
  let fs := s.finalSysSizing s.curSysNum
  if s.curOASysNum > 0 then fs.OutTempAtCoolPeak
  else
    let mixed :=
      if (s.primaryAirSystem s.curSysNum).NumOACoolCoils = 0 then fs.MixTempAtCoolPeak
      else
        sysPrimaryOutAirFrac s * fs.PrecoolTemp +
          (1 - sysPrimaryOutAirFrac s) * fs.RetTempAtCoolPeak
    if s.dataDesInletAirTemp > 0 then s.dataDesInletAirTemp else mixed

/-- Coil inlet humidity ratio of the full air-system derivation (lines 322-359). -/
def sysPrimaryCoilInHumRat (s : CoolingCapacitySizer) : Real64 :=
  let fs := s.finalSysSizing s.curSysNum
  if s.curOASysNum > 0 then fs.OutHumRatAtCoolPeak
  else
    let mixed :=
      if (s.primaryAirSystem s.curSysNum).NumOACoolCoils = 0 then fs.MixHumRatAtCoolPeak
      else
        sysPrimaryOutAirFrac s * fs.PrecoolHumRat +
          (1 - sysPrimaryOutAirFrac s) * fs.RetHumRatAtCoolPeak
    if s.dataDesInletAirHumRat > 0 then s.dataDesInletAirHumRat else mixed

/-- Coil outlet dry-bulb before the clamp of line 368 (lines 325, 331-335). -/
def sysPrimaryCoilOutTemp0 (s : CoolingCapacitySizer) : Real64 :=
  let fs := s.finalSysSizing s.curSysNum
  if s.curOASysNum > 0 then fs.PrecoolTemp
  else if s.dataDesOutletAirTemp > 0 then s.dataDesOutletAirTemp
  else fs.CoolSupTemp

/-- Coil outlet humidity ratio before the clamp of line 369 (lines 326, 336-340). -/
def sysPrimaryCoilOutHumRat0 (s : CoolingCapacitySizer) : Real64 :=
  let fs := s.finalSysSizing s.curSysNum
  if s.curOASysNum > 0 then fs.PrecoolHumRat
  else if s.dataDesOutletAirHumRat > 0 then s.dataDesOutletAirHumRat
  else fs.CoolSupHumRat

/-- Fan heat of the full air-system derivation (lines 374-408): supply fan plus
the return fan share. -/
def sysPrimaryFanCoolLoad (env : Env) (s : CoolingCapacitySizer) (st : St)
    (DesVolFlow OutAirFrac : Real64) : Real64 :=
  if s.curOASysNum > 0 then st.FanCoolLoad
  else
    let sup :=
      match (s.primaryAirSystem s.curSysNum).supFanModelTypeEnum with
      | fanModelTypeEnum.structArrayLegacyFanModels => env.calcFanDesHeatGain DesVolFlow
      | fanModelTypeEnum.objectVectorOOFanSystemModel => env.calcFanDesHeatGain DesVolFlow
      | fanModelTypeEnum.fanModelTypeNotYetSet => st.FanCoolLoad
    match (s.primaryAirSystem s.curSysNum).retFanModelTypeEnum with
    | fanModelTypeEnum.structArrayLegacyFanModels =>
        sup + (1 - OutAirFrac) * env.calcFanDesHeatGain DesVolFlow
    | fanModelTypeEnum.objectVectorOOFanSystemModel =>
        sup + (1 - OutAirFrac) * env.calcFanDesHeatGain DesVolFlow
    | fanModelTypeEnum.fanModelTypeNotYetSet => sup

/-- The local `PeakCoilLoad` of the full air-system derivation
(lines 360-413). -/
def sysPrimaryPeakCoilLoad (env : Env) (s : CoolingCapacitySizer) (g : Globals) (st : St) :
    Real64 :=
  let DesVolFlow := sysPrimaryDesVolFlow s
  let CoilInTemp := sysPrimaryCoilInTemp s
  let CoilInHumRat := sysPrimaryCoilInHumRat s
  let rhoair :=
    if SameString s.compType "COIL:COOLING:WATER" ∨
        SameString s.compType "COIL:COOLING:WATER:DETAILEDGEOMETRY" then g.StdRhoAir
    else env.PsyRhoAirFnPbTdbW g.StdBaroPress CoilInTemp CoilInHumRat s.callingRoutine
  let CoilOutTemp := min CoilInTemp (sysPrimaryCoilOutTemp0 s)
  let CoilOutHumRat := min CoilInHumRat (sysPrimaryCoilOutHumRat0 s)
  let CoilInEnth := env.PsyHFnTdbW CoilInTemp CoilInHumRat
  let CoilOutEnth := env.PsyHFnTdbW CoilOutTemp CoilOutHumRat
  let FanCoolLoad := sysPrimaryFanCoolLoad env s st DesVolFlow (sysPrimaryOutAirFrac s)
  if st.dataDesAccountForFanHeat then
    max 0 (rhoair * DesVolFlow * (CoilInEnth - CoilOutEnth) + FanCoolLoad)
  else max 0 (rhoair * DesVolFlow * (CoilInEnth - CoilOutEnth))

/-- Full primary-air-system derivation once the design flow passed the
small-flow check (lines 316-438).  Returns the state and `NominalCapacityDes`. -/
def sysPrimaryDerive (env : Env) (s : CoolingCapacitySizer) (g : Globals) (st : St) :
    St × Real64 :=
  let fs := s.finalSysSizing s.curSysNum
  let DesVolFlow := sysPrimaryDesVolFlow s
  let OutAirFrac := sysPrimaryOutAirFrac s
  let CoilInTemp := sysPrimaryCoilInTemp s
  let CoilInHumRat := sysPrimaryCoilInHumRat s
  let OutTemp := fs.OutTempAtCoolPeak
  let CoilOutTemp := min CoilInTemp (sysPrimaryCoilOutTemp0 s)
  let CoilOutHumRat := min CoilInHumRat (sysPrimaryCoilOutHumRat0 s)
  let CoilInWetBulb := env.PsyTwbFnTdbWPb CoilInTemp CoilInHumRat g.StdBaroPress s.callingRoutine
  let FanCoolLoad := sysPrimaryFanCoolLoad env s st DesVolFlow OutAirFrac
  let FanDesCoolLoad : Int → Real64 :=
    if s.curOASysNum > 0 then st.FanDesCoolLoad
    else fun i => if i = s.curSysNum then FanCoolLoad else st.FanDesCoolLoad i
  let PeakCoilLoad := sysPrimaryPeakCoilLoad env s g st
  let CpAir := env.PsyCpAirFnW CoilInHumRat
  let blow : Prop := st.dataDesAccountForFanHeat ∧
    (s.primaryAirSystem s.curSysNum).supFanLocation = fanPlacement.BlowThru
  let draw : Prop := st.dataDesAccountForFanHeat ∧
    (s.primaryAirSystem s.curSysNum).supFanLocation = fanPlacement.DrawThru
  let CoilInTemp1 :=
    if blow then CoilInTemp + FanCoolLoad / (CpAir * g.StdRhoAir * DesVolFlow) else CoilInTemp
  let CoilInWetBulb1 :=
    if blow then env.PsyTwbFnTdbWPb CoilInTemp1 CoilInHumRat g.StdBaroPress s.callingRoutine
    else CoilInWetBulb
  let CoilOutTemp1 :=
    if draw then CoilOutTemp - FanCoolLoad / (CpAir * g.StdRhoAir * DesVolFlow) else CoilOutTemp
  let TotCapTempModFac :=
    if s.dataTotCapCurveIndex > 0 then env.CurveValue s.dataTotCapCurveIndex CoilInWetBulb1 OutTemp
    else 1
  ({ st with
      DesVolFlow := DesVolFlow
      OutAirFrac := OutAirFrac
      CoilInTemp := CoilInTemp1
      CoilInHumRat := CoilInHumRat
      CoilOutTemp := CoilOutTemp1
      CoilOutHumRat := CoilOutHumRat
      FanCoolLoad := FanCoolLoad
      FanDesCoolLoad := FanDesCoolLoad
      TotCapTempModFac := TotCapTempModFac
      DataCoilSizingAirInTemp := CoilInTemp1
      DataCoilSizingAirInHumRat := CoilInHumRat
      DataCoilSizingAirOutTemp := CoilOutTemp1
      DataCoilSizingAirOutHumRat := CoilOutHumRat
      DataCoilSizingFanCoolLoad := FanCoolLoad
      DataCoilSizingCapFT := TotCapTempModFac },
    ratedFromPeak PeakCoilLoad TotCapTempModFac)

/-- Full primary-air-system sizing (lines 302-443).  `CheckSysSizing`
(line 302) only verifies that a system sizing run exists and stops the program
otherwise; it has no effect on the state and is not represented. -/
def sysPrimary (env : Env) (s : CoolingCapacitySizer) (g : Globals) (st : St) : St :=
  let fs := s.finalSysSizing s.curSysNum
  let DesVolFlow := s.dataFlowUsedForSizing
  let st0 : St := { st with DesVolFlow := DesVolFlow }
  let st1 : St :=
    if fs.CoolingCapMethod = env.FractionOfAutosizedCoolingCapacity then
      { st0 with dataFracOfAutosizedCoolingCapacity := fs.FractionOfAutosizedCoolingCapacity }
    else st0
  let r : St × Real64 :=
    if fs.CoolingCapMethod = env.CapacityPerFloorArea then
      ({ st1 with autoSizedValue := fs.CoolingTotalCapacity }, fs.CoolingTotalCapacity)
    else if fs.CoolingCapMethod = env.CoolingDesignCapacity ∧ fs.CoolingTotalCapacity > 0 then
      ({ st1 with autoSizedValue := fs.CoolingTotalCapacity }, fs.CoolingTotalCapacity)
    else if DesVolFlow ≥ g.SmallAirVolFlow then sysPrimaryDerive env s g st1
    else (st1, 0)
  { r.1 with autoSizedValue := r.2 * r.1.dataFracOfAutosizedCoolingCapacity }

/-- Lines of the extra warning of the air-system branch for a capacity that is
not positive (lines 446-461); no line when the warning is not due. -/
def sysWarningLines (env : Env) (s : CoolingCapacitySizer) (g : Globals) (st : St) :
    List Emitted :=
  let fs := s.finalSysSizing s.curSysNum
  if g.DisplayExtraWarnings ∧ st.autoSizedValue ≤ 0 then
    potentialIssueLines env s st ++
      (if s.oaSysFlag ∨ s.airLoopSysFlag ∨ fs.CoolingCapMethod = env.CapacityPerFloorArea ∨
          (fs.CoolingCapMethod = env.CoolingDesignCapacity ∧ fs.CoolingTotalCapacity ≠ 0) then
        [parentCapacityLine env st]
      else
        [Emitted.ShowContinueError
            ("...Air flow rate used for sizing = " ++ env.TrimSigDigits st.DesVolFlow 5 ++
              " [m3/s]"),
         Emitted.ShowContinueError
            ("...Outdoor air fraction used for sizing = " ++ env.TrimSigDigits st.OutAirFrac 2),
         Emitted.ShowContinueError
            ("...Coil inlet air temperature used for sizing = " ++
              env.TrimSigDigits st.CoilInTemp 2 ++ " [C]"),
         Emitted.ShowContinueError
            ("...Coil outlet air temperature used for sizing = " ++
              env.TrimSigDigits st.CoilOutTemp 2 ++ " [C]")])
  else []

/-- Extra warning of the air-system branch (lines 446-461). -/
def sysWarnings (env : Env) (s : CoolingCapacitySizer) (g : Globals) (st : St) : St :=
  st.emit (sysWarningLines env s g st)

/-- Air-system scope, `curSysNum > 0` (lines 256-462). -/
def sizeSys (env : Env) (s : CoolingCapacitySizer) (g : Globals)
    (_originalValue : Real64) (st : St) : St :=
  if ¬ s.wasAutoSized ∧ ¬ s.sizingDesRunThisAirSys then
    { st with autoSizedValue := _originalValue }
  else
    let st0 : St := { st with OutAirFrac := 0, dataFracOfAutosizedCoolingCapacity := 1 }
    let st1 :=
      if s.oaSysFlag then sysOASys s st0
      else if s.airLoopSysFlag then sysUnitary env s st0
      else if s.curOASysNum > 0 ∧ (s.outsideAirSys s.curOASysNum).AirLoopDOASNum > -1 then
        sysDOAS env s g st0
      else sysPrimary env s g st0
    sysWarnings env s g { st1 with dataDesAccountForFanHeat := true }

/-! ## Resolver (lines 81-476) -/

/-- Configuration error: no scope resolved the value (lines 468-474). -/
def developerError (env : Env) (s : CoolingCapacitySizer) (st : St) : St :=
  let msg := s.callingRoutine ++ " " ++ s.compType ++ " " ++ s.compName ++
    ", Developer Error: Component sizing incomplete."
  let msg2 := "SizingString = " ++ st.sizingString ++ ", SizingResult = " ++
    env.TrimSigDigits st.autoSizedValue 1
  { st.emit [Emitted.ShowSevereError msg, Emitted.addErrorMessage msg,
             Emitted.ShowContinueError msg2, Emitted.addErrorMessage msg2] with
    errorsFound := true }

/-- The sizing context resolver (lines 81-476). -/
def resolve (env : Env) (s : CoolingCapacitySizer) (g : Globals)
    (_originalValue : Real64) (st : St) : St :=
  if s.dataEMSOverrideON then
    { st with autoSizedValue := s.dataEMSOverride }
  else if s.dataConstantUsedForSizing ≥ 0 ∧ s.dataFractionUsedForSizing > 0 then
    { st with autoSizedValue := s.dataConstantUsedForSizing * s.dataFractionUsedForSizing }
  else if s.curZoneEqNum > 0 then sizeZone env s g _originalValue st
  else if s.curSysNum > 0 then sizeSys env s g _originalValue st
  else if s.dataNonZoneNonAirloopValue > 0 then
    { st with autoSizedValue := s.dataNonZoneNonAirloopValue }
  else if ¬ s.wasAutoSized then
    { st with autoSizedValue := s.originalValue }
  else developerError env s st

/-! ## Plausibility guard (lines 477-532) -/

/-- The flag `FlagCheckVolFlowPerRatedTotCap` (lines 481-484). -/
def FlagCheckVolFlowPerRatedTotCap (s : CoolingCapacitySizer) : Bool :=
  !(SameString s.compType "Coil:Cooling:DX:VariableRefrigerantFlow:FluidTemperatureControl" ||
    SameString s.compType "Coil:Heating:DX:VariableRefrigerantFlow:FluidTemperatureControl")

/-- The guard's ratio test is reached (conditions of lines 477, 478 and 486). -/
def guardApplies (s : CoolingCapacitySizer) : Bool :=
  (!s.hardSizeNoDesignRun || s.dataScalableSizingON || s.dataScalableCapSizingON) &&
    s.wasAutoSized && (s.dataIsDXCoil && FlagCheckVolFlowPerRatedTotCap s)

/-- The local `RatedVolFlowPerRatedTotCap` (lines 487-490). -/
def ratedVolFlowPerRatedTotCap (DesVolFlow autoSizedValue : Real64) : Real64 :=
  if autoSizedValue > 0 then DesVolFlow / autoSizedValue else 0

/-- Whether the guard's diagnostics are printed (lines 492, 507, 511, 526);
`dataEMSOverride` is the override value itself, read as a truth value. -/
def guardPrints (s : CoolingCapacitySizer) (g : Globals) : Bool :=
  decide (s.dataEMSOverride = 0) && g.DisplayExtraWarnings && s.printWarningFlag

/-- Diagnostics of the minimum branch (lines 492-501 and 507-509). -/
def guardMinLines (env : Env) (s : CoolingCapacitySizer) (g : Globals) (st : St) :
    List Emitted :=
  let minR := g.MinRatedVolFlowPerRatedTotCap g.DXCT
  if guardPrints s g then
    [Emitted.ShowWarningError (s.callingRoutine ++ " " ++ s.compType ++ " " ++ s.compName),
     Emitted.ShowContinueError ("..." ++ st.sizingString ++
        " will be limited by the minimum rated volume flow per rated total capacity ratio."),
     Emitted.ShowContinueError ("...DX coil volume flow rate (m3/s ) = " ++
        env.TrimSigDigits st.DesVolFlow 6),
     Emitted.ShowContinueError ("...Requested capacity (W ) = " ++
        env.TrimSigDigits st.autoSizedValue 3),
     Emitted.ShowContinueError ("...Requested flow/capacity ratio (m3/s/W ) = " ++
        env.TrimSigDigits (ratedVolFlowPerRatedTotCap st.DesVolFlow st.autoSizedValue) 3),
     Emitted.ShowContinueError ("...Minimum flow/capacity ratio (m3/s/W ) = " ++
        env.TrimSigDigits minR 3),
     Emitted.ShowContinueError ("...Adjusted capacity ( W ) = " ++
        env.TrimSigDigits (st.DesVolFlow / minR) 3)]
  else []

/-- Diagnostics of the maximum branch (lines 511-520 and 526-528). -/
def guardMaxLines (env : Env) (s : CoolingCapacitySizer) (g : Globals) (st : St) :
    List Emitted :=
  let maxR := g.MaxRatedVolFlowPerRatedTotCap g.DXCT
  if guardPrints s g then
    [Emitted.ShowWarningError (s.callingRoutine ++ " " ++ s.compType ++ " " ++ s.compName),
     Emitted.ShowContinueError ("..." ++ st.sizingString ++
        " will be limited by the maximum rated volume flow per rated total capacity ratio."),
     Emitted.ShowContinueError ("...DX coil volume flow rate ( m3/s ) = " ++
        env.TrimSigDigits st.DesVolFlow 6),
     Emitted.ShowContinueError ("...Requested capacity ( W ) = " ++
        env.TrimSigDigits st.autoSizedValue 3),
     Emitted.ShowContinueError ("...Requested flow/capacity ratio ( m3/s/W ) = " ++
        env.TrimSigDigits (ratedVolFlowPerRatedTotCap st.DesVolFlow st.autoSizedValue) 3),
     Emitted.ShowContinueError ("...Maximum flow/capacity ratio ( m3/s/W ) = " ++
        env.TrimSigDigits maxR 3),
     Emitted.ShowContinueError ("...Adjusted capacity ( W ) = " ++
        env.TrimSigDigits (st.DesVolFlow / maxR) 3)]
  else []

/-- The ratio test and its two corrections (lines 487-529), applied to the
resolved design flow and capacity. -/
def guardCorrect (env : Env) (s : CoolingCapacitySizer) (g : Globals) (st : St) : St :=
  let minR := g.MinRatedVolFlowPerRatedTotCap g.DXCT
  let maxR := g.MaxRatedVolFlowPerRatedTotCap g.DXCT
  let RatedVolFlowPerRatedTotCap := ratedVolFlowPerRatedTotCap st.DesVolFlow st.autoSizedValue
  if RatedVolFlowPerRatedTotCap < minR then
    { st.emit (guardMinLines env s g st) with
      DXFlowPerCapMinRatio := (st.DesVolFlow / minR) / st.autoSizedValue
      autoSizedValue := st.DesVolFlow / minR }
  else if RatedVolFlowPerRatedTotCap > maxR then
    { st.emit (guardMaxLines env s g st) with
      DXFlowPerCapMaxRatio := st.DesVolFlow / maxR / st.autoSizedValue
      autoSizedValue := st.DesVolFlow / maxR }
  else st

/-- The plausibility guard (lines 477-532). -/
def guard (env : Env) (s : CoolingCapacitySizer) (g : Globals) (st : St) : St :=
  if ¬ s.hardSizeNoDesignRun ∨ s.dataScalableSizingON ∨ s.dataScalableCapSizingON then
    if s.wasAutoSized then
      if s.dataIsDXCoil ∧ FlagCheckVolFlowPerRatedTotCap s then guardCorrect env s g st
      else st
    else st
  else st

/-! ## Sizing strings (lines 534-546) and the whole body -/

/-- The sizing string after lines 535-537. -/
def overriddenSizingString (s : CoolingCapacitySizer) (st : St) : String :=
  if s.overrideSizeString ∧ s.isEpJSON then "cooling_design_capacity [W]" else st.sizingString

/-- The scalable sizing string after lines 538-546. -/
def overriddenSizingStringScalable (env : Env) (s : CoolingCapacitySizer) (st : St) : String :=
  if s.dataScalableCapSizingON then
    let m := (s.zoneEqSizing s.curZoneEqNum).SizingMethod env.CoolingCapacitySizing
    if m = env.CapacityPerFloorArea then "(scaled by capacity / area) "
    else if m = env.FractionOfAutosizedHeatingCapacity ∨
        m = env.FractionOfAutosizedCoolingCapacity then "(scaled by fractional multiplier) "
    else st.sizingStringScalable
  else st.sizingStringScalable

/-- Override of the sizing strings (lines 535-546). -/
def overrideStrings (env : Env) (s : CoolingCapacitySizer) (st : St) : St :=
  { st with
    sizingString := overriddenSizingString s st
    sizingStringScalable := overriddenSizingStringScalable env s st }

/-- The body of `CoolingCapacitySizer::size` between `preSize` and
`selectSizerOutput` (lines 69-547): resolver, plausibility guard, sizing
strings.  The result is the state handed to `selectSizerOutput`; its
`autoSizedValue` is the resolved capacity. -/
def CoolingCapacitySizer.size (env : Env) (s : CoolingCapacitySizer) (g : Globals)
    (_originalValue : Real64) (errorsFound : Bool) : St :=
  overrideStrings env s (guard env s g (resolve env s g _originalValue (initSt s g errorsFound)))

/-! ## Path conditions of the resolver

Each predicate is the conjunction of the branch conditions of `size` that lead
to the named block. -/

/-- The resolver reaches the scope dispatch of line 87: override off and the
constant-times-fraction branch not taken (lines 81-86). -/
def reachesScopeDispatch (s : CoolingCapacitySizer) : Prop :=
  s.dataEMSOverrideON = false ∧
    ¬ (s.dataConstantUsedForSizing ≥ 0 ∧ s.dataFractionUsedForSizing > 0)

/-- The zone branch computes or inherits with fraction scaling: the block of
lines 93-253 is entered. -/
def reachesZoneSizing (s : CoolingCapacitySizer) : Prop :=
  reachesScopeDispatch s ∧ s.curZoneEqNum > 0 ∧
    (s.wasAutoSized = true ∨ s.sizingDesRunThisZone = true) ∧
    (s.zoneEqSizing s.curZoneEqNum).DesignSizeFromParent = false

/-- The zone-scope water-coil derivation from design air states (lines 111-121). -/
def reachesZoneWaterDerivation (s : CoolingCapacitySizer) : Prop :=
  reachesZoneSizing s ∧ (s.zoneEqSizing s.curZoneEqNum).CoolingCapacity = false ∧
    isZoneWaterCoilType s = true ∧ ¬ (s.termUnitIU = true ∧ s.curTermUnitSizingNum > 0) ∧
    s.zoneEqFanCoil = false

/-- The zone-scope derivation for all other component types, with its
small-flow check (lines 124-216). -/
def reachesZoneDX (s : CoolingCapacitySizer) : Prop :=
  reachesZoneSizing s ∧ (s.zoneEqSizing s.curZoneEqNum).CoolingCapacity = false ∧
    isZoneWaterCoilType s = false

/-- The air-system branch computes or inherits: the block of lines 259-461 is
entered. -/
def reachesSysSizing (s : CoolingCapacitySizer) : Prop :=
  reachesScopeDispatch s ∧ s.curZoneEqNum ≤ 0 ∧ s.curSysNum > 0 ∧
    (s.wasAutoSized = true ∨ s.sizingDesRunThisAirSys = true)

/-- The dedicated-outdoor-air-system branch (lines 279-300). -/
def reachesDOAS (s : CoolingCapacitySizer) : Prop :=
  reachesSysSizing s ∧ s.oaSysFlag = false ∧ s.airLoopSysFlag = false ∧
    (s.curOASysNum > 0 ∧ (s.outsideAirSys s.curOASysNum).AirLoopDOASNum > -1)

/-- The full primary-air-system branch (lines 301-444). -/
def reachesSysPrimary (s : CoolingCapacitySizer) : Prop :=
  reachesSysSizing s ∧ s.oaSysFlag = false ∧ s.airLoopSysFlag = false ∧
    ¬ (s.curOASysNum > 0 ∧ (s.outsideAirSys s.curOASysNum).AirLoopDOASNum > -1)

/-- The full primary-air-system branch without a capacity-method override: the
small-flow check of line 315 is reached. -/
def reachesSysSmallFlowCheck (env : Env) (s : CoolingCapacitySizer) : Prop :=
  reachesSysPrimary s ∧
    (s.finalSysSizing s.curSysNum).CoolingCapMethod ≠ env.CapacityPerFloorArea ∧
    ¬ ((s.finalSysSizing s.curSysNum).CoolingCapMethod = env.CoolingDesignCapacity ∧
        (s.finalSysSizing s.curSysNum).CoolingTotalCapacity > 0)

/-! ## Concrete data used to exercise the embedding -/

/-- Collaborators with the engine's closed-form psychrometrics: moist-air
enthalpy `1.00484e3 T + max(W, 1e-5) (2.50094e6 + 1.85895e3 T)`, specific heat
`1.00484e3 + 1.85895e3 W`, ideal-gas density; a flat capacity curve, no fan
heat and a formatter that prints nothing. -/
def exEnv : Env :=
  { PsyHFnTdbW := fun T W => 100484 / 100 * T + max W (1 / 100000) * (2500940 + 185895 / 100 * T)
    PsyRhoAirFnPbTdbW := fun pb T W _ =>
      pb / (287 * (T + 27315 / 100) * (1 + 16077687 / 10000000 * max W (1 / 100000)))
    PsyTwbFnTdbWPb := fun T _ _ _ => T
    PsyCpAirFnW := fun W => 100484 / 100 + 185895 / 100 * W
    CurveValue := fun _ _ _ => 1
    calcFanDesHeatGain := fun _ => 0
    setOAFracForZoneEqSizing := fun _ _ => 0
    setCoolCoilInletTempForZoneEqSizing := fun _ _ fz => fz.ZoneRetTempAtCoolPeak
    setCoolCoilInletHumRatForZoneEqSizing := fun _ _ fz => fz.ZoneHumRatAtCoolPeak
    getFanDesignTemperatureRise := fun _ => 0
    isCompTypeCoil := fun _ => false
    TrimSigDigits := fun _ _ => ""
    Fan_System_Object := 28
    CapacityPerFloorArea := 10
    CoolingDesignCapacity := 8
    FractionOfAutosizedCoolingCapacity := 11
    FractionOfAutosizedHeatingCapacity := 12
    CoolingCapacitySizing := 17 }

/-- Globals with the engine's standard constants: air density 1.2 kg/m3,
small-flow threshold 0.001 m3/s, flow-per-capacity bounds 4.027e-5 and
6.041e-5 m3/s/W, handoff slots holding a 26 C to 13 C coil, and no run-level
error so far. -/
def exGlobals : Globals :=
  { DataCoilSizingAirInTemp := 26
    DataCoilSizingAirInHumRat := 1 / 100
    DataCoilSizingAirOutTemp := 13
    DataCoilSizingAirOutHumRat := 8 / 1000
    DataCoilSizingFanCoolLoad := 0
    DataCoilSizingCapFT := 9 / 10
    ZoneEqDXCoil := false
    DataFanPlacement := zoneFanPlacement.zoneFanPlaceNotSet
    DesDayWeathTemp := fun _ _ => 35
    StdRhoAir := 12 / 10
    StdBaroPress := 101325
    DisplayExtraWarnings := false
    SmallAirVolFlow := 1 / 1000
    MinRatedVolFlowPerRatedTotCap := fun _ => 4027 / 100000000
    MaxRatedVolFlowPerRatedTotCap := fun _ => 6041 / 100000000
    DXCT := 1
    DataErrorsFound := false }

/-- Zone equipment sizing record with no parent data. -/
def exZoneEqSizing : ZoneEqSizingData :=
  { DesignSizeFromParent := false
    CoolingCapacity := false
    DesCoolingLoad := 0
    ATMixerVolFlow := 0
    OAVolFlow := 0
    SizingMethod := fun _ => 0 }

/-- Zone design day result: 26 C return air, 13 C supply air. -/
def exZoneSizing : ZoneSizingData :=
  { DesCoolCoilInTemp := 26
    DesCoolCoilInHumRat := 1 / 100
    CoolDesTemp := 13
    CoolDesHumRat := 8 / 1000
    DesCoolMassFlow := 12 / 10
    ZoneRetTempAtCoolPeak := 26
    ZoneHumRatAtCoolPeak := 1 / 100
    TimeStepNumAtCoolMax := 1
    CoolDDNum := 1 }

/-- System design day result: 35 C outdoor air, 13 C supply air. -/
def exSysSizing : SystemSizingData :=
  { CoolingCapMethod := 0
    FractionOfAutosizedCoolingCapacity := 1
    CoolingTotalCapacity := 0
    DesOutAirVolFlow := 1 / 10
    OutTempAtCoolPeak := 35
    OutHumRatAtCoolPeak := 14 / 1000
    PrecoolTemp := 20
    PrecoolHumRat := 8 / 1000
    CoolSupTemp := 13
    CoolSupHumRat := 8 / 1000
    MixTempAtCoolPeak := 28
    MixHumRatAtCoolPeak := 11 / 1000
    RetTempAtCoolPeak := 26
    RetHumRatAtCoolPeak := 1 / 100 }

/-- Primary air system without fans. -/
def exPrimaryAirSystem : DefinePrimaryAirSystem :=
  { NumOACoolCoils := 0
    supFanModelTypeEnum := fanModelTypeEnum.fanModelTypeNotYetSet
    retFanModelTypeEnum := fanModelTypeEnum.fanModelTypeNotYetSet
    supFanLocation := fanPlacement.fanPlaceNotSet
    FanDesCoolLoad := 0 }

/-- Dedicated outdoor air system: 1.2 kg/s of outdoor air at 10 C, precool
target 20 C, water coil, no fan. -/
def exAirLoopDOAS : AirLoopDOAS :=
  { SizingMassFlow := 12 / 10
    DXCoilFlag := false
    SizingCoolOATemp := 10
    SizingCoolOAHumRat := 5 / 1000
    PrecoolTemp := 20
    PrecoolHumRat := 5 / 1000
    m_FanIndex := -1
    FanBlowTroughFlag := false
    m_FanTypeNum := 0 }

/-- An auto-sized single-speed DX cooling coil in zone equipment 1 after a
zone design run, with no override configured. -/
def exSizer : CoolingCapacitySizer :=
  { autoSizedValue := 0
    originalValue := -99999
    wasAutoSized := true
    hardSizeNoDesignRun := false
    sizingDesRunThisZone := true
    sizingDesRunThisAirSys := false
    dataEMSOverrideON := false
    dataEMSOverride := 0
    dataConstantUsedForSizing := -1
    dataFractionUsedForSizing := 0
    curZoneEqNum := 1
    curSysNum := 0
    curOASysNum := 0
    curTermUnitSizingNum := 0
    zoneEqSizing := fun _ => exZoneEqSizing
    oaSysEqSizing := fun _ => exZoneEqSizing
    unitarySysEqSizing := fun _ => exZoneEqSizing
    termUnitSizing := fun _ => { DesCoolingLoad := 0 }
    finalZoneSizing := fun _ => exZoneSizing
    finalSysSizing := fun _ => exSysSizing
    primaryAirSystem := fun _ => exPrimaryAirSystem
    outsideAirSys := fun _ => { AirLoopDOASNum := -1 }
    airloopDOAS := fun _ => exAirLoopDOAS
    compType := "Coil:Cooling:DX:SingleSpeed"
    compName := "ZONE1 COOLING COIL"
    callingRoutine := "SizeDXCoil"
    sizingString := "Gross Rated Total Cooling Capacity [W]"
    sizingStringScalable := ""
    termUnitIU := false
    zoneEqFanCoil := false
    zoneEqUnitVent := false
    oaSysFlag := false
    airLoopSysFlag := false
    dataFlowUsedForSizing := 1
    dataAirFlowUsedForSizing := 0
    dataDesOutletAirTemp := 0
    dataDesOutletAirHumRat := 0
    dataDesInletAirTemp := 0
    dataDesInletAirHumRat := 0
    dataTotCapCurveIndex := 0
    dataTotCapCurveValue := 0
    dataFracOfAutosizedCoolingCapacity := 1
    dataDesAccountForFanHeat := true
    dataNonZoneNonAirloopValue := 0
    dataScalableSizingON := false
    dataScalableCapSizingON := false
    dataIsDXCoil := true
    printWarningFlag := false
    overrideSizeString := false
    isEpJSON := false }

/-- The example coil with an external override of 1000 W switched on. -/
def exEMSOverride : CoolingCapacitySizer :=
  { exSizer with dataEMSOverrideON := true, dataEMSOverride := 1000 }

/-- A chilled-water coil with an external override of 1000 W switched on. -/
def exEMSOverrideWater : CoolingCapacitySizer :=
  { exSizer with
    dataEMSOverrideON := true, dataEMSOverride := 1000,
    compType := "Coil:Cooling:Water", dataIsDXCoil := false }

/-- Scenario A: a user-specified capacity of 500 W in zone scope, no design run. -/
def exPassthrough : CoolingCapacitySizer :=
  { exSizer with
    wasAutoSized := false, sizingDesRunThisZone := false, hardSizeNoDesignRun := true,
    originalValue := 500 }

/-- Scenario B with a sizing fraction: a chilled-water coil whose parent computed
a design load of 1200 W, sized at half of the autosized capacity. -/
def exParentHalf : CoolingCapacitySizer :=
  { exSizer with
    zoneEqSizing := fun _ => { exZoneEqSizing with CoolingCapacity := true, DesCoolingLoad := 1200 },
    dataFracOfAutosizedCoolingCapacity := 1 / 2,
    compType := "Coil:Cooling:Water", dataIsDXCoil := false }

/-- Scenario B for the auto-sized DX coil: parent load 1200 W, design flow 1 m3/s. -/
def exParentDX : CoolingCapacitySizer :=
  { exSizer with
    zoneEqSizing := fun _ => { exZoneEqSizing with CoolingCapacity := true, DesCoolingLoad := 1200 } }

/-- Scenario B with both parent flags set on a chilled-water coil. -/
def exParentBoth : CoolingCapacitySizer :=
  { exSizer with
    zoneEqSizing := fun _ =>
      { exZoneEqSizing with
        DesignSizeFromParent := true, CoolingCapacity := true, DesCoolingLoad := 1200 },
    compType := "Coil:Cooling:Water", dataIsDXCoil := false }

/-- Scenario B as the spec words it: chilled-water coil, parent load 1200 W,
sizing fraction 1. -/
def exParent : CoolingCapacitySizer :=
  { exSizer with
    zoneEqSizing := fun _ => { exZoneEqSizing with CoolingCapacity := true, DesCoolingLoad := 1200 },
    compType := "Coil:Cooling:Water", dataIsDXCoil := false }

/-- A chilled-water coil in the outdoor air stream of a dedicated outdoor air
system on air loop 1: outdoor air at 10 C, precool target 20 C. -/
def exDOAS : CoolingCapacitySizer :=
  { exSizer with
    curZoneEqNum := 0, curSysNum := 1, curOASysNum := 1,
    sizingDesRunThisZone := false, sizingDesRunThisAirSys := true,
    outsideAirSys := fun _ => { AirLoopDOASNum := 0 },
    compType := "Coil:Cooling:Water", dataIsDXCoil := false }

/-- The example DX coil with a design flow of 0.0005 m3/s, half the small-flow
threshold. -/
def exSmallFlow : CoolingCapacitySizer :=
  { exSizer with dataFlowUsedForSizing := 1 / 2000 }

/-- A unitary fan coil, not a DX coil, with the same small design flow. -/
def exSmallFlowNoGuard : CoolingCapacitySizer :=
  { exSizer with dataFlowUsedForSizing := 1 / 2000, dataIsDXCoil := false }

/-- Collaborators whose capacity curve evaluates to 0 everywhere. -/
def exEnvZeroCurve : Env :=
  { exEnv with CurveValue := fun _ _ _ => 0 }

/-- The example DX coil with a capacity curve attached. -/
def exCurveCoil : CoolingCapacitySizer :=
  { exSizer with dataTotCapCurveIndex := 1 }

/-- The example coil as a DX coil on the main branch of air loop 1 after a
system design run. -/
def exSysPrimary : CoolingCapacitySizer :=
  { exSizer with
    curZoneEqNum := 0, curSysNum := 1,
    sizingDesRunThisZone := false, sizingDesRunThisAirSys := true }

/-- The example DX coil with a parent load of 100 kW on a design flow of 1 m3/s:
flow per capacity 1e-5, below the minimum bound. -/
def exOversized : CoolingCapacitySizer :=
  { exSizer with
    zoneEqSizing := fun _ =>
      { exZoneEqSizing with CoolingCapacity := true, DesCoolingLoad := 100000 } }

/-- The example DX coil with a parent load of 20 kW on a design flow of 1 m3/s:
flow per capacity 5e-5, inside the envelope. -/
def exInRange : CoolingCapacitySizer :=
  { exSizer with
    zoneEqSizing := fun _ =>
      { exZoneEqSizing with CoolingCapacity := true, DesCoolingLoad := 20000 } }

/-- The example coil as a chilled-water coil in zone equipment 1. -/
def exZoneWater : CoolingCapacitySizer :=
  { exSizer with compType := "Coil:Cooling:Water", dataIsDXCoil := false }

/-! ## Water heating coil UA sizer

A shallow embedding of `WaterHeatingCoilUASizer::size`
(`src/EnergyPlus/Autosizing/WaterHeatingCoilUASizing.cc`): the body between
`preSize` and `selectSizerOutput` (lines 63-394).  The root-finder
`TempSolveRoot::SolveRoot` and the residual
`WaterCoils::SimpleHeatingCoilUAResidual` are declared outside the source
excerpt; the sizer takes them as collaborators. -/

namespace WaterHeatingCoilUA

/-- Values of `AutoSizingResultType`. -/
inductive AutoSizingResultType
  | NoError
  | ErrorType1
  | ErrorType2
  deriving DecidableEq, Repr

/-- Fields of `finalZoneSizing` read by the UA sizer. -/
structure ZoneSizingData where
  ZoneName : String
  HeatDesTemp : Real64
  HeatDesHumRat : Real64

/-- Field of `finalSysSizing` read by the UA sizer. -/
structure SystemSizingData where
  AirPriLoopName : String

/-- Fields of `plantSizData` read by the UA sizer. -/
structure PlantSizingData where
  PlantLoopName : String
  ExitTemp : Real64

/-- Arguments of one call of `TempSolveRoot::SolveRoot`: accuracy, iteration
ceiling, bracket and parameter array. -/
structure SolveRootCall where
  Eps : Real64
  MaxIte : Int
  X_0 : Real64
  X_1 : Real64
  Par : List Real64
  deriving DecidableEq, Repr

/-- Collaborators of the UA sizer declared outside the source excerpt: the
root-finder (returning the solver flag and the result `XRes`), the residual
function handed to it, and the number formatter. -/
structure Collaborators where
  SolveRoot : Real64 → Int → (Real64 → List Real64 → Real64) → Real64 → Real64 →
    List Real64 → Int × Real64
  SimpleHeatingCoilUAResidual : Real64 → List Real64 → Real64
  TrimSigDigits : Real64 → Nat → String

/-- Global data read by the UA sizer: `DataHVACGlobals::SmallLoad` and the
run-level flag `DataSizing::DataErrorsFound` on entry. -/
structure UAGlobals where
  SmallLoad : Real64
  DataErrorsFound : Bool

/-- Everything the UA sizer can change: the sizer fields it assigns, the
`errorsFound` out-flag, the run-level flag, the local `SolFla`, the calls of
the root-finder and the messages emitted. -/
structure St where
  autoSizedValue : Real64
  errorsFound : Bool
  dataErrorsFound : Bool
  errorType : AutoSizingResultType
  DataErrorsFound : Bool
  sizingString : String
  SolFla : Int
  solveRootCalls : List SolveRootCall
  emitted : List Emitted

end WaterHeatingCoilUA

/-- The UA sizer object (`this`) as `preSize` leaves it. -/
structure WaterHeatingCoilUASizer where
  autoSizedValue : Real64
  wasAutoSized : Bool
  sizingDesRunThisZone : Bool
  sizingDesRunThisAirSys : Bool
  curZoneEqNum : Int
  curSysNum : Int
  dataCapacityUsedForSizing : Real64
  dataWaterFlowUsedForSizing : Real64
  dataFlowUsedForSizing : Real64
  dataCoilNum : Int
  dataFanOpMode : Int
  compName : String
  finalZoneSizing : Int → WaterHeatingCoilUA.ZoneSizingData
  finalSysSizing : Int → WaterHeatingCoilUA.SystemSizingData
  plantSizData : Int → WaterHeatingCoilUA.PlantSizingData
  dataPltSizHeatNum : Int
  dataWaterCoilSizHeatDeltaT : Real64
  dataDesInletAirTemp : Real64
  dataDesInletAirHumRat : Real64
  dataDesOutletAirTemp : Real64
  dataDesOutletAirHumRat : Real64
  dataDesignCoilCapacity : Real64
  dataNomCapInpMeth : Bool
  termUnitSingDuct : Bool
  termUnitPIU : Bool
  termUnitIU : Bool
  zoneEqFanCoil : Bool
  dataErrorsFound : Bool
  errorType : WaterHeatingCoilUA.AutoSizingResultType
  overrideSizeString : Bool
  isEpJSON : Bool
  sizingString : String

namespace WaterHeatingCoilUA

/-- State on entry: `SolFla = 0` (line 66), nothing called or emitted yet. -/
def initSt (s : WaterHeatingCoilUASizer) (g : UAGlobals) (errorsFound : Bool) : St :=
  { autoSizedValue := s.autoSizedValue
    errorsFound := errorsFound
    dataErrorsFound := s.dataErrorsFound
    errorType := s.errorType
    DataErrorsFound := g.DataErrorsFound
    sizingString := s.sizingString
    SolFla := 0
    solveRootCalls := []
    emitted := [] }

/-- Append messages to the state. -/
def St.emit (st : St) (ms : List Emitted) : St :=
  { st with emitted := st.emitted ++ ms }

/-- The double quote character as a string. -/
def quote : String := String.singleton (Char.ofNat 34)

/-- Record a message and show it as a severe error (`addErrorMessage` then
`ShowSevereError`). -/
def recordSevere (msg : String) : List Emitted :=
  [Emitted.addErrorMessage msg, Emitted.ShowSevereError msg]

/-- Record a message and show it as a continuation line (`addErrorMessage`
then `ShowContinueError`). -/
def recordContinue (msg : String) : List Emitted :=
  [Emitted.addErrorMessage msg, Emitted.ShowContinueError msg]

/-- Record a message and show it as a warning (`addErrorMessage` then
`ShowWarningError`). -/
def recordWarning (msg : String) : List Emitted :=
  [Emitted.addErrorMessage msg, Emitted.ShowWarningError msg]

/-- The constant `Acc` (line 64). -/
def Acc : Real64 := 1 / 10000

/-- The constant `MaxIte` (line 65). -/
def MaxIte : Int := 500

/-- The local `UA0` (lines 78, 257). -/
def UA0 (s : WaterHeatingCoilUASizer) : Real64 := 1 / 1000 * s.dataCapacityUsedForSizing

/-- The local `UA1` (lines 79, 258). -/
def UA1 (s : WaterHeatingCoilUASizer) : Real64 := s.dataCapacityUsedForSizing

/-- The array `Par` as filled in lines 74-77 and 253-256. -/
def Par (s : WaterHeatingCoilUASizer) : List Real64 :=
  [s.dataCapacityUsedForSizing, (s.dataCoilNum : Real64), (s.dataFanOpMode : Real64), 1]

/-- The call of the root-finder (lines 82, 261): `SolFla` and
`autoSizedValue` receive its results. -/
def callSolveRoot (env : Collaborators) (s : WaterHeatingCoilUASizer) (st : St) : St :=
  let r := env.SolveRoot Acc MaxIte env.SimpleHeatingCoilUAResidual (UA0 s) (UA1 s) (Par s)
  { st with
    SolFla := r.1
    autoSizedValue := r.2
    solveRootCalls := st.solveRootCalls ++
      [{ Eps := Acc, MaxIte := MaxIte, X_0 := UA0 s, X_1 := UA1 s, Par := Par s }] }

/-- First line of both failure reports (lines 85, 149, 264, 310). -/
def failedLine (s : WaterHeatingCoilUASizer) : String :=
  "Autosizing of heating coil UA failed for Coil:Heating:Water " ++ quote ++ s.compName ++ quote

/-- Upper bracket line (lines 94, 158, 273, 319). -/
def upperLine (env : Collaborators) (s : WaterHeatingCoilUASizer) : String :=
  "  Upper UA estimate = " ++ env.TrimSigDigits (UA1 s) 6 ++ " W/m2-K (100% of Design Coil Load)"

/-- Final iterate line (lines 97, 276). -/
def finalLine (env : Collaborators) (st : St) : String :=
  "  Final UA estimate when iterations exceeded limit = " ++
    env.TrimSigDigits st.autoSizedValue 6 ++ " W/m2-K"

/-- Coil inlet conditions and design coil capacity (lines 104-116, 165-176,
283-294, 326-337). -/
def inletLines (env : Collaborators) (s : WaterHeatingCoilUASizer) : List Emitted :=
  recordContinue ("  Coil inlet air temperature     = " ++
      env.TrimSigDigits s.dataDesInletAirTemp 3 ++ " C") ++
    recordContinue ("  Coil inlet air humidity ratio  = " ++
      env.TrimSigDigits s.dataDesInletAirHumRat 3 ++ " kgWater/kgDryAir") ++
    recordContinue ("  Coil inlet air mass flow rate  = " ++
      env.TrimSigDigits s.dataFlowUsedForSizing 6 ++ " kg/s") ++
    recordContinue ("  Design Coil Capacity           = " ++
      env.TrimSigDigits s.dataDesignCoilCapacity 3 ++ " W")

/-- Design coil load line. -/
def loadLine (env : Collaborators) (s : WaterHeatingCoilUASizer) : List Emitted :=
  recordContinue ("  Design Coil Load               = " ++
    env.TrimSigDigits s.dataCapacityUsedForSizing 3 ++ " W")

/-- Coil outlet conditions from the nominal-capacity inputs (lines 121-126,
181-186, 299-304, 342-347). -/
def outletLines (env : Collaborators) (s : WaterHeatingCoilUASizer) : List Emitted :=
  recordContinue ("  Coil outlet air temperature    = " ++
      env.TrimSigDigits s.dataDesOutletAirTemp 3 ++ " C") ++
    recordContinue ("  Coil outlet air humidity ratio = " ++
      env.TrimSigDigits s.dataDesOutletAirHumRat 3 ++ " kgWater/kgDryAir")

/-- Design load and outlet conditions of the zone reports (lines 117-144,
177-204). -/
def zoneLoadLines (env : Collaborators) (s : WaterHeatingCoilUASizer) : List Emitted :=
  if s.dataNomCapInpMeth then loadLine env s ++ outletLines env s
  else if s.termUnitSingDuct ∨ s.termUnitPIU ∨ s.termUnitIU ∨ s.zoneEqFanCoil then
    loadLine env s
  else
    loadLine env s ++
      recordContinue ("  Coil outlet air temperature    = " ++
        env.TrimSigDigits (s.finalZoneSizing s.curZoneEqNum).HeatDesTemp 3 ++ " C") ++
      recordContinue ("  Coil outlet air humidity ratio = " ++
        env.TrimSigDigits (s.finalZoneSizing s.curZoneEqNum).HeatDesHumRat 3 ++
        " kgWater/kgDryAir")

/-- Plant sizing hint (lines 207-222, 350-365). -/
def plantLines (env : Collaborators) (s : WaterHeatingCoilUASizer) : List Emitted :=
  recordContinue "  Inadequate water side capacity: in Plant Sizing for this hot water loop" ++
    recordContinue "  increase design loop exit temperature and/or decrease design loop delta T" ++
    recordContinue ("  Plant Sizing object = " ++
      (s.plantSizData s.dataPltSizHeatNum).PlantLoopName) ++
    recordContinue ("  Plant design loop exit temperature = " ++
      env.TrimSigDigits (s.plantSizData s.dataPltSizHeatNum).ExitTemp 3 ++ " C") ++
    recordContinue ("  Plant design loop delta T          = " ++
      env.TrimSigDigits s.dataWaterCoilSizHeatDeltaT 3 ++ " C")

/-- Heading of the zone sizing conditions (lines 100-101, 161-162). -/
def zoneHeading (s : WaterHeatingCoilUASizer) : String :=
  "  Zone " ++ quote ++ (s.finalZoneSizing s.curZoneEqNum).ZoneName ++ quote ++
    " coil sizing conditions (may be different than Sizing inputs):"

/-- Heading of the air loop sizing conditions (lines 279-280, 322-323). -/
def sysHeading (s : WaterHeatingCoilUASizer) : String :=
  "  AirloopHVAC " ++ quote ++ (s.finalSysSizing s.curSysNum).AirPriLoopName ++ quote ++
    " coil sizing conditions (may be different than Sizing inputs):"

/-- Zone scope, iteration limit exceeded, `SolFla == -1` (lines 84-145). -/
def zoneIterationLimit (env : Collaborators) (s : WaterHeatingCoilUASizer) (st : St) : St :=
  { st.emit
      (recordSevere (failedLine s) ++
        recordContinue "  Iteration limit exceeded in calculating coil UA" ++
        recordContinue ("  Lower UA estimate = " ++ env.TrimSigDigits (UA0 s) 6 ++
          " W/m2-K (0.1% of Design Coil Load)") ++
        recordContinue (upperLine env s) ++
        recordContinue (finalLine env st) ++
        recordContinue (zoneHeading s) ++
        inletLines env s ++
        zoneLoadLines env s) with
    errorsFound := true
    dataErrorsFound := true }

/-- Zone scope, invalid bracket, `SolFla == -2` (lines 147-224). -/
def zoneBadStart (env : Collaborators) (s : WaterHeatingCoilUASizer) (st : St) : St :=
  { st.emit
      (recordSevere (failedLine s) ++
        recordContinue "  Bad starting values for UA" ++
        recordContinue ("  Lower UA estimate = " ++ env.TrimSigDigits (UA0 s) 6 ++
          " W/m2-K (0.1% of Design Coil Load)") ++
        recordContinue (upperLine env s) ++
        recordContinue (zoneHeading s) ++
        inletLines env s ++
        zoneLoadLines env s ++
        (if s.dataDesignCoilCapacity < s.dataCapacityUsedForSizing then plantLines env s
         else [])) with
    errorType := AutoSizingResultType.ErrorType1
    errorsFound := true
    dataErrorsFound := true }

/-- Air-system scope, iteration limit exceeded, `SolFla == -1` (lines 263-306). -/
def sysIterationLimit (env : Collaborators) (s : WaterHeatingCoilUASizer) (st : St) : St :=
  { st.emit
      (recordSevere (failedLine s) ++
        recordContinue "  Iteration limit exceeded in calculating coil UA" ++
        recordContinue ("  Lower UA estimate = " ++ env.TrimSigDigits (UA0 s) 6 ++
          " W/m2-K (1% of Design Coil Load)") ++
        recordContinue (upperLine env s) ++
        recordContinue (finalLine env st) ++
        recordContinue (sysHeading s) ++
        inletLines env s ++
        loadLine env s ++
        (if s.dataNomCapInpMeth then outletLines env s else [])) with
    errorsFound := true
    dataErrorsFound := true }

/-- Air-system scope, invalid bracket, `SolFla == -2` (lines 308-367). -/
def sysBadStart (env : Collaborators) (s : WaterHeatingCoilUASizer) (st : St) : St :=
  { st.emit
      (recordSevere (failedLine s) ++
        recordContinue "  Bad starting values for UA" ++
        recordContinue ("  Lower UA estimate = " ++ env.TrimSigDigits (UA0 s) 6 ++
          " W/m2-K (1% of Design Coil Load)") ++
        recordContinue (upperLine env s) ++
        recordContinue (sysHeading s) ++
        inletLines env s ++
        loadLine env s ++
        (if s.dataNomCapInpMeth then outletLines env s else []) ++
        (if s.dataDesignCoilCapacity < s.dataCapacityUsedForSizing ∧ ¬ s.dataNomCapInpMeth then
          plantLines env s
         else [])) with
    errorType := AutoSizingResultType.ErrorType1
    errorsFound := true
    dataErrorsFound := true }

/-- Warning for a zero design coil load (lines 229-243, 372-386). -/
def zeroLoadLines (s : WaterHeatingCoilUASizer) : List Emitted :=
  recordWarning ("The design coil load used for UA sizing is zero for Coil:Heating:Water " ++
      s.compName) ++
    recordContinue "An autosize value for UA cannot be calculated" ++
    recordContinue "Input a value for UA, change the heating design day, or raise" ++
    recordContinue "  the zone heating design supply air temperature" ++
    recordContinue "Water coil UA is set to 1 and the simulation continues."

/-- Zone scope, solve skipped (lines 227-244). -/
def zoneDegenerate (s : WaterHeatingCoilUASizer) (st : St) : St :=
  { st.emit
      (if s.dataWaterFlowUsedForSizing > 0 ∧ s.dataCapacityUsedForSizing = 0 then zeroLoadLines s
       else []) with
    autoSizedValue := 1 }

/-- Air-system scope, solve skipped (lines 370-387). -/
def sysDegenerate (s : WaterHeatingCoilUASizer) (g : UAGlobals) (st : St) : St :=
  { st.emit
      (if s.dataWaterFlowUsedForSizing > 0 ∧ s.dataCapacityUsedForSizing < g.SmallLoad then
        zeroLoadLines s
       else []) with
    autoSizedValue := 1 }

/-- Zone-equipment scope, `curZoneEqNum > 0` (lines 70-246). -/
def sizeZone (env : Collaborators) (s : WaterHeatingCoilUASizer)
    (_originalValue : Real64) (st : St) : St :=
  if ¬ s.wasAutoSized ∧ ¬ s.sizingDesRunThisZone then
    { st with autoSizedValue := _originalValue }
  else if s.dataCapacityUsedForSizing > 0 ∧ s.dataWaterFlowUsedForSizing > 0 ∧
      s.dataFlowUsedForSizing > 0 then
    let st1 := callSolveRoot env s st
    if st1.SolFla = -1 then zoneIterationLimit env s st1
    else if st1.SolFla = -2 then zoneBadStart env s st1
    else st1
  else zoneDegenerate s st

/-- Air-system scope, `curSysNum > 0` (lines 248-389). -/
def sizeSys (env : Collaborators) (s : WaterHeatingCoilUASizer) (g : UAGlobals)
    (_originalValue : Real64) (st : St) : St :=
  if ¬ s.wasAutoSized ∧ ¬ s.sizingDesRunThisAirSys then
    { st with autoSizedValue := _originalValue }
  else if s.dataCapacityUsedForSizing ≥ g.SmallLoad ∧ s.dataWaterFlowUsedForSizing > 0 ∧
      s.dataFlowUsedForSizing > 0 then
    let st1 := callSolveRoot env s st
    if st1.SolFla = -1 then sysIterationLimit env s st1
    else if st1.SolFla = -2 then sysBadStart env s st1
    else st1
  else sysDegenerate s g st

/-- Scope dispatch (lines 69-390). -/
def resolve (env : Collaborators) (s : WaterHeatingCoilUASizer) (g : UAGlobals)
    (_originalValue : Real64) (st : St) : St :=
  if s.curZoneEqNum > 0 then sizeZone env s _originalValue st
  else if s.curSysNum > 0 then sizeSys env s g _originalValue st
  else st

/-- Propagation to the run-level flag and sizing string override
(lines 391-394). -/
def finish (s : WaterHeatingCoilUASizer) (st : St) : St :=
  { st with
    DataErrorsFound := if st.dataErrorsFound then true else st.DataErrorsFound
    sizingString :=
      if s.overrideSizeString ∧ s.isEpJSON then "u-factor_times_area_value [W/K]"
      else st.sizingString }

end WaterHeatingCoilUA

/-- The body of `WaterHeatingCoilUASizer::size` between `preSize` and
`selectSizerOutput` (lines 63-394).  The result is the state handed to
`selectSizerOutput`; its `autoSizedValue` is the resolved UA. -/
def WaterHeatingCoilUASizer.size (env : WaterHeatingCoilUA.Collaborators)
    (s : WaterHeatingCoilUASizer) (g : WaterHeatingCoilUA.UAGlobals)
    (_originalValue : Real64) (errorsFound : Bool) : WaterHeatingCoilUA.St :=
  WaterHeatingCoilUA.finish s
    (WaterHeatingCoilUA.resolve env s g _originalValue (WaterHeatingCoilUA.initSt s g errorsFound))

/-! ## Root-finder and residual of the UA solve, from the spec -/

namespace TempSolveRoot

/-- Modelled from the spec: the new estimate of the root inside the bracket in
`TempSolveRoot::SolveRoot`, which is not part of the source excerpt.  The spec
names a regula-falsi/bisection hybrid: the secant through the bracket ends, and
the midpoint when the secant is degenerate. -/
def estimate (X0 Y0 X1 Y1 : Real64) : Real64 :=
  if Y0 = Y1 then (X0 + X1) / 2 else (Y0 * X1 - Y1 * X0) / (Y0 - Y1)

/-- Modelled from the spec: the bounded loop of `TempSolveRoot::SolveRoot`,
which is not part of the source excerpt.  Each pass evaluates the residual at
the new estimate; it stops with the pass count as flag when the residual is
within the tolerance (converged), stops with flag -1 and the last iterate when
the iteration ceiling is reached, and otherwise replaces the bracket end whose
residual has the sign of the new one.  `fuel` is the number of passes left
after this one. -/
def iterate (Eps : Real64) (f : Real64 → Real64) :
    Nat → Nat → Real64 → Real64 → Real64 → Real64 → Int × Real64
  | 0, NIte, X0, Y0, X1, Y1 =>
      if |f (estimate X0 Y0 X1 Y1)| < Eps then (((NIte + 1 : Nat) : Int), estimate X0 Y0 X1 Y1)
      else (-1, estimate X0 Y0 X1 Y1)
  | fuel + 1, NIte, X0, Y0, X1, Y1 =>
      if |f (estimate X0 Y0 X1 Y1)| < Eps then (((NIte + 1 : Nat) : Int), estimate X0 Y0 X1 Y1)
      else if Y0 * f (estimate X0 Y0 X1 Y1) > 0 then
        iterate Eps f fuel (NIte + 1) (estimate X0 Y0 X1 Y1) (f (estimate X0 Y0 X1 Y1)) X1 Y1
      else
        iterate Eps f fuel (NIte + 1) X0 Y0 (estimate X0 Y0 X1 Y1) (f (estimate X0 Y0 X1 Y1))

/-- Modelled from the spec: `TempSolveRoot::SolveRoot`, which is not part of the
source excerpt: a bounded bracketing root-finder with a fixed iteration ceiling
and an accuracy tolerance.  Outcomes: bracket invalid (the residual has the
same sign at both ends), flag -2; converged, a non-negative flag and the root;
iteration limit reached, flag -1 and the last iterate. -/
def SolveRoot (Eps : Real64) (MaxIte : Int) (f : Real64 → List Real64 → Real64)
    (X_0 X_1 : Real64) (Par : List Real64) : Int × Real64 :=
  if f X_0 Par * f X_1 Par > 0 then (-2, X_0)
  else iterate Eps (fun x => f x Par) (MaxIte.toNat - 1) 0 X_0 (f X_0 Par) X_1 (f X_1 Par)

end TempSolveRoot

namespace WaterCoils

/-- Modelled from the spec: `WaterCoils::SimpleHeatingCoilUAResidual`, which is
not part of the source excerpt.  The spec defines the residual as the load the
coil model predicts at the trial UA minus the target load; the sizer hands the
target load over as the first parameter `Par(1)`.  `predictedLoad` is the
coil's forward thermal model. -/
def SimpleHeatingCoilUAResidual (predictedLoad : Real64 → List Real64 → Real64)
    (UA : Real64) (Par : List Real64) : Real64 :=
  predictedLoad UA Par - Par.headD 0

end WaterCoils

namespace WaterHeatingCoilUA

/-- The collaborators as the spec describes them, for a given forward coil
model and number formatter. -/
def specCollaborators (predictedLoad : Real64 → List Real64 → Real64)
    (TrimSigDigits : Real64 → Nat → String) : Collaborators :=
  { SolveRoot := TempSolveRoot.SolveRoot
    SimpleHeatingCoilUAResidual := WaterCoils.SimpleHeatingCoilUAResidual predictedLoad
    TrimSigDigits := TrimSigDigits }

/-- The root-finder is invoked: the conditions of lines 69-73 in zone scope and
of lines 247-252 in air-system scope. -/
def solvePerformed (s : WaterHeatingCoilUASizer) (g : UAGlobals) : Prop :=
  (s.curZoneEqNum > 0 ∧ (s.wasAutoSized = true ∨ s.sizingDesRunThisZone = true) ∧
      s.dataCapacityUsedForSizing > 0 ∧ s.dataWaterFlowUsedForSizing > 0 ∧
      s.dataFlowUsedForSizing > 0) ∨
    (s.curZoneEqNum ≤ 0 ∧ s.curSysNum > 0 ∧
      (s.wasAutoSized = true ∨ s.sizingDesRunThisAirSys = true) ∧
      s.dataCapacityUsedForSizing ≥ g.SmallLoad ∧ s.dataWaterFlowUsedForSizing > 0 ∧
      s.dataFlowUsedForSizing > 0)

/-- The computing path is taken but the solve is skipped: the `else` branches
of lines 226 and 369. -/
def solveSkipped (s : WaterHeatingCoilUASizer) (g : UAGlobals) : Prop :=
  (s.curZoneEqNum > 0 ∧ (s.wasAutoSized = true ∨ s.sizingDesRunThisZone = true) ∧
      ¬ (s.dataCapacityUsedForSizing > 0 ∧ s.dataWaterFlowUsedForSizing > 0 ∧
        s.dataFlowUsedForSizing > 0)) ∨
    (s.curZoneEqNum ≤ 0 ∧ s.curSysNum > 0 ∧
      (s.wasAutoSized = true ∨ s.sizingDesRunThisAirSys = true) ∧
      ¬ (s.dataCapacityUsedForSizing ≥ g.SmallLoad ∧ s.dataWaterFlowUsedForSizing > 0 ∧
        s.dataFlowUsedForSizing > 0))

/-- Globals of the examples: small load 1 W, no run-level error so far. -/
def exGlobals : UAGlobals :=
  { SmallLoad := 1
    DataErrorsFound := false }

/-- An auto-sized hot water coil in zone equipment 1 after a zone design run:
design load 1000 W, water flow 1e-4 m3/s, air flow 1 kg/s. -/
def exSizer : WaterHeatingCoilUASizer :=
  { autoSizedValue := 0
    wasAutoSized := true
    sizingDesRunThisZone := true
    sizingDesRunThisAirSys := false
    curZoneEqNum := 1
    curSysNum := 0
    dataCapacityUsedForSizing := 1000
    dataWaterFlowUsedForSizing := 1 / 10000
    dataFlowUsedForSizing := 1
    dataCoilNum := 1
    dataFanOpMode := 1
    compName := "ZONE1 REHEAT COIL"
    finalZoneSizing := fun _ => { ZoneName := "ZONE1", HeatDesTemp := 35, HeatDesHumRat := 8 / 1000 }
    finalSysSizing := fun _ => { AirPriLoopName := "AIRLOOP1" }
    plantSizData := fun _ => { PlantLoopName := "HOT WATER LOOP", ExitTemp := 82 }
    dataPltSizHeatNum := 1
    dataWaterCoilSizHeatDeltaT := 11
    dataDesInletAirTemp := 16
    dataDesInletAirHumRat := 8 / 1000
    dataDesOutletAirTemp := 35
    dataDesOutletAirHumRat := 8 / 1000
    dataDesignCoilCapacity := 1000
    dataNomCapInpMeth := false
    termUnitSingDuct := false
    termUnitPIU := false
    termUnitIU := false
    zoneEqFanCoil := false
    dataErrorsFound := false
    errorType := AutoSizingResultType.NoError
    overrideSizeString := false
    isEpJSON := false
    sizingString := "U-Factor Times Area Value [W/K]" }

/-- The example coil on air loop 1 after a system design run. -/
def exSysSizer : WaterHeatingCoilUASizer :=
  { exSizer with
    curZoneEqNum := 0, curSysNum := 1,
    sizingDesRunThisZone := false, sizingDesRunThisAirSys := true }

/-- The example coil with a zero design load. -/
def exZeroLoad : WaterHeatingCoilUASizer :=
  { exSizer with dataCapacityUsedForSizing := 0 }

/-- A forward coil model whose load is twice the UA. -/
def exPredictedLoad : Real64 → List Real64 → Real64 :=
  fun UA _ => 2 * UA

/-- Collaborators as the spec describes them with the linear coil model. -/
def exCollaborators : Collaborators :=
  specCollaborators exPredictedLoad (fun _ _ => "")

/-- Scenario D: the spec's root-finder with a residual of +5 at and below the
lower end of the bracket and +2 above it. -/
def exSameSign : Collaborators :=
  { SolveRoot := TempSolveRoot.SolveRoot
    SimpleHeatingCoilUAResidual := fun UA _ => if UA ≤ 1 then 5 else 2
    TrimSigDigits := fun _ _ => "" }

/-- The spec's root-finder with a residual that jumps from -1 to 1 at UA = 500
and is never within the tolerance. -/
def exNeverConverges : Collaborators :=
  { SolveRoot := TempSolveRoot.SolveRoot
    SimpleHeatingCoilUAResidual := fun UA _ => if UA < 500 then -1 else 1
    TrimSigDigits := fun _ _ => "" }

end WaterHeatingCoilUA

/-! ## Error records of the cooling capacity sizer -/

/-- The emitted call is an `addErrorMessage`. -/
def Emitted.isErrorRecord : Emitted → Bool
  | Emitted.addErrorMessage _ => true
  | _ => false

/-- No `addErrorMessage` among the emitted calls. -/
def noErrorRecord (l : List Emitted) : Prop :=
  ∀ e ∈ l, e.isErrorRecord = false

/-- The conditions under which the resolver reaches the configuration error of
lines 467-475. -/
def reachesDeveloperError (s : CoolingCapacitySizer) : Prop :=
  reachesScopeDispatch s ∧ s.curZoneEqNum ≤ 0 ∧ s.curSysNum ≤ 0 ∧
    s.dataNonZoneNonAirloopValue ≤ 0 ∧ s.wasAutoSized = true

/-- The example DX coil with the constant-times-fraction input 5000 W times 0.8. -/
def exConstFrac : CoolingCapacitySizer :=
  { exSizer with
    dataConstantUsedForSizing := 5000, dataFractionUsedForSizing := 8 / 10,
    dataIsDXCoil := false }

/-- A component outside zone and air-system scope with a standalone value of
3000 W, not auto-sized. -/
def exStandalone : CoolingCapacitySizer :=
  { exSizer with
    curZoneEqNum := 0, curSysNum := 0, wasAutoSized := false,
    dataNonZoneNonAirloopValue := 3000, originalValue := 750 }

/-- A component outside zone and air-system scope, not auto-sized, with a user
value of 750 W and no standalone value. -/
def exHardSized : CoolingCapacitySizer :=
  { exSizer with
    curZoneEqNum := 0, curSysNum := 0, wasAutoSized := false, originalValue := 750 }

/-- An auto-sized component with no scope and no standalone value. -/
def exNoScope : CoolingCapacitySizer :=
  { exSizer with curZoneEqNum := 0, curSysNum := 0 }

/-- The example DX coil named in lower case as a VRF fluid-temperature-control
coil. -/
def exVRF : CoolingCapacitySizer :=
  { exSizer with
    compType := "coil:cooling:dx:variablerefrigerantflow:fluidtemperaturecontrol" }

/-- The step from `st` to `st'` leaves the `errorsFound` out-flag alone and
records no error message: it only appends calls other than `addErrorMessage`. -/
def extendsQuietly (st st' : St) : Prop :=
  st'.errorsFound = st.errorsFound ∧ ∃ l, st'.emitted = st.emitted ++ l ∧ noErrorRecord l

/-! ## Path conditions, divisors and example data for the frame and guard facts -/

/-- The zone-scope derivation for the other component types computes from
design air states: the small-flow check of line 125 is passed (lines 126-212). -/
def reachesZoneDXDerivation (s : CoolingCapacitySizer) (g : Globals) : Prop :=
  reachesZoneDX s ∧ s.dataFlowUsedForSizing ≥ g.SmallAirVolFlow

/-- The full primary-air-system derivation computes from design air states:
no capacity-method override and the small-flow check of line 315 is passed
(lines 316-438). -/
def reachesSysPrimaryDerivation (env : Env) (s : CoolingCapacitySizer) (g : Globals) : Prop :=
  reachesSysSmallFlowCheck env s ∧ s.dataFlowUsedForSizing ≥ g.SmallAirVolFlow

/-- The dedicated-outdoor-air-system derivation from design air states: the
coil is not a DX coil (lines 285-299). -/
def reachesDOASDerivation (s : CoolingCapacitySizer) : Prop :=
  reachesDOAS s ∧
    (s.airloopDOAS (s.outsideAirSys s.curOASysNum).AirLoopDOASNum).DXCoilFlag = false

/-- The parent-computed capacity of zone scope is inherited (lines 93-101). -/
def reachesZoneFromParent (s : CoolingCapacitySizer) : Prop :=
  reachesZoneSizing s ∧ (s.zoneEqSizing s.curZoneEqNum).CoolingCapacity = true

/-- The `DesignSizeFromParent` inheritance of zone scope (lines 90-91). -/
def reachesDesignSizeFromParent (s : CoolingCapacitySizer) : Prop :=
  reachesScopeDispatch s ∧ s.curZoneEqNum > 0 ∧
    (s.wasAutoSized = true ∨ s.sizingDesRunThisZone = true) ∧
    (s.zoneEqSizing s.curZoneEqNum).DesignSizeFromParent = true

/-- The outdoor-air-system inheritance of air-system scope (lines 261-263). -/
def reachesOASys (s : CoolingCapacitySizer) : Prop :=
  reachesSysSizing s ∧ s.oaSysFlag = true

/-- The unitary-owned inheritance of air-system scope (lines 264-278). -/
def reachesUnitary (s : CoolingCapacitySizer) : Prop :=
  reachesSysSizing s ∧ s.oaSysFlag = false ∧ s.airLoopSysFlag = true

/-- The terminal-unit and fan-coil inheritance of the zone-scope water coils
(lines 106-109). -/
def reachesZoneWaterInherited (s : CoolingCapacitySizer) : Prop :=
  reachesZoneSizing s ∧ (s.zoneEqSizing s.curZoneEqNum).CoolingCapacity = false ∧
    isZoneWaterCoilType s = true ∧
    ((s.termUnitIU = true ∧ s.curTermUnitSizingNum > 0) ∨ s.zoneEqFanCoil = true)

/-- Resolver branches that never assign the local `DesVolFlow` of line 71:
external override (line 82), constant times fraction (line 85),
`DesignSizeFromParent` (line 91), terminal-unit and fan-coil water coils
(lines 107 and 109) and the standalone value (line 464). -/
def leavesDesVolFlowUnset (s : CoolingCapacitySizer) : Prop :=
  s.dataEMSOverrideON = true ∨
    (s.dataEMSOverrideON = false ∧
      (s.dataConstantUsedForSizing ≥ 0 ∧ s.dataFractionUsedForSizing > 0)) ∨
    reachesDesignSizeFromParent s ∨
    reachesZoneWaterInherited s ∨
    (reachesScopeDispatch s ∧ s.curZoneEqNum ≤ 0 ∧ s.curSysNum ≤ 0 ∧
      s.dataNonZoneNonAirloopValue > 0)

/-- The divisors of the divisions the ratio test performs on the path it takes,
in the order of execution: the capacity at line 489 (only when it is positive),
the minimum bound and the capacity at lines 503-504 and the minimum bound at
line 505, or the maximum bound and the capacity at lines 522-523 and the
maximum bound at line 524. -/
def guardDivisors (g : Globals) (st : St) : List Real64 :=
  let minR := g.MinRatedVolFlowPerRatedTotCap g.DXCT
  let maxR := g.MaxRatedVolFlowPerRatedTotCap g.DXCT
  let RatedVolFlowPerRatedTotCap := ratedVolFlowPerRatedTotCap st.DesVolFlow st.autoSizedValue
  (if st.autoSizedValue > 0 then [st.autoSizedValue] else []) ++
    (if RatedVolFlowPerRatedTotCap < minR then [minR, st.autoSizedValue, minR]
     else if RatedVolFlowPerRatedTotCap > maxR then [maxR, st.autoSizedValue, maxR]
     else [])

/-- The global data a later call of the same pass finds after a call that ended
in state `st`: the handoff slots and the run-level flag as that call left
them. -/
def Globals.after (g : Globals) (st : St) : Globals :=
  { g with
    DataCoilSizingAirInTemp := st.DataCoilSizingAirInTemp
    DataCoilSizingAirInHumRat := st.DataCoilSizingAirInHumRat
    DataCoilSizingAirOutTemp := st.DataCoilSizingAirOutTemp
    DataCoilSizingAirOutHumRat := st.DataCoilSizingAirOutHumRat
    DataCoilSizingFanCoolLoad := st.DataCoilSizingFanCoolLoad
    DataCoilSizingCapFT := st.DataCoilSizingCapFT
    DataErrorsFound := st.DataErrorsFound }

/-- The temperature rise `FanCoolLoad / (CpAir * StdRhoAir * DesVolFlow)` of
lines 187, 189, 415 and 420, with `CpAir` evaluated at the coil inlet humidity
ratio (lines 183 and 410). -/
def fanTempRise (env : Env) (g : Globals) (st : St) : Real64 :=
  st.FanCoolLoad / (env.PsyCpAirFnW st.CoilInHumRat * g.StdRhoAir * st.DesVolFlow)

/-- The example chilled-water coil in a zone whose design coil inlet is 30 C. -/
def exZoneWaterWarm : CoolingCapacitySizer :=
  { exZoneWater with
    finalZoneSizing := fun _ => { exZoneSizing with DesCoolCoilInTemp := 30 } }

/-- A chilled-water coil sized from its parent (`DesignSizeFromParent`, load
1200 W) with a sizing fraction of one half configured. -/
def exDesignSizeHalf : CoolingCapacitySizer :=
  { exSizer with
    zoneEqSizing := fun _ =>
      { exZoneEqSizing with DesignSizeFromParent := true, DesCoolingLoad := 1200 },
    dataFracOfAutosizedCoolingCapacity := 1 / 2,
    compType := "Coil:Cooling:Water", dataIsDXCoil := false }

/-- A chilled-water coil owned by a unitary system on air loop 1 (load 1200 W)
with a sizing fraction of one half configured. -/
def exUnitaryHalf : CoolingCapacitySizer :=
  { exSizer with
    curZoneEqNum := 0, curSysNum := 1,
    sizingDesRunThisZone := false, sizingDesRunThisAirSys := true,
    airLoopSysFlag := true,
    unitarySysEqSizing := fun _ => { exZoneEqSizing with DesCoolingLoad := 1200 },
    dataFracOfAutosizedCoolingCapacity := 1 / 2,
    compType := "Coil:Cooling:Water", dataIsDXCoil := false }

/-- Collaborators with a fan heat gain of 1228.1154 W, which warms 1 m3/s of
the example zone's air by 1 K. -/
def exEnvFan : Env :=
  { exEnv with calcFanDesHeatGain := fun _ => 12281154 / 10000 }

/-- The example globals with a blow-through zone fan. -/
def exGlobalsBlowThru : Globals :=
  { exGlobals with DataFanPlacement := zoneFanPlacement.zoneBlowThru }

/-- The example globals with a draw-through zone fan. -/
def exGlobalsDrawThru : Globals :=
  { exGlobals with DataFanPlacement := zoneFanPlacement.zoneDrawThru }

/-- The example DX coil with both the zone-equipment and the air-system scope
active. -/
def exBothScopes : CoolingCapacitySizer :=
  { exSizer with curSysNum := 1 }

namespace WaterHeatingCoilUA

/-- The conditions under which the skipped solve records the zero-load warning
(lines 228 and 371). -/
def zeroLoadWarningDue (s : WaterHeatingCoilUASizer) (g : UAGlobals) : Prop :=
  (s.curZoneEqNum > 0 ∧ s.dataWaterFlowUsedForSizing > 0 ∧ s.dataCapacityUsedForSizing = 0) ∨
    (s.curZoneEqNum ≤ 0 ∧ s.dataWaterFlowUsedForSizing > 0 ∧
      s.dataCapacityUsedForSizing < g.SmallLoad)

/-- The example coil with a design water flow of zero. -/
def exZeroWaterFlow : WaterHeatingCoilUASizer :=
  { exSizer with dataWaterFlowUsedForSizing := 0 }

/-- The example coil, auto-sized, with neither the zone-equipment nor the
air-system scope active. -/
def exUnscoped : WaterHeatingCoilUASizer :=
  { exSizer with curZoneEqNum := 0, curSysNum := 0 }

/-- The example coil with both the zone-equipment and the air-system scope
active. -/
def exBothScopes : WaterHeatingCoilUASizer :=
  { exSizer with curSysNum := 1 }

end WaterHeatingCoilUA

/-- The local `NominalCapacityDes` of the full primary-air-system branch before
the scaling of line 442 (lines 304-441). -/
def sysPrimaryNominalCapacityDes (env : Env) (s : CoolingCapacitySizer) (g : Globals)
    (st : St) : Real64 :=
  let fs := s.finalSysSizing s.curSysNum
  if fs.CoolingCapMethod = env.CapacityPerFloorArea then fs.CoolingTotalCapacity
  else if fs.CoolingCapMethod = env.CoolingDesignCapacity ∧ fs.CoolingTotalCapacity > 0 then
    fs.CoolingTotalCapacity
  else if s.dataFlowUsedForSizing ≥ g.SmallAirVolFlow then (sysPrimaryDerive env s g st).2
  else 0

/-- The six handoff slots of `DataSizing` in a state: coil inlet temperature
and humidity ratio, coil outlet temperature and humidity ratio, fan heat and
modifier factor. -/
def St.handoffSlots (st : St) : List Real64 :=
  [st.DataCoilSizingAirInTemp, st.DataCoilSizingAirInHumRat, st.DataCoilSizingAirOutTemp,
   st.DataCoilSizingAirOutHumRat, st.DataCoilSizingFanCoolLoad, st.DataCoilSizingCapFT]

/-- The six handoff slots of `DataSizing` on entry. -/
def Globals.handoffSlots (g : Globals) : List Real64 :=
  [g.DataCoilSizingAirInTemp, g.DataCoilSizingAirInHumRat, g.DataCoilSizingAirOutTemp,
   g.DataCoilSizingAirOutHumRat, g.DataCoilSizingFanCoolLoad, g.DataCoilSizingCapFT]

/-- The locals of `size` that correspond to the handoff slots, in the same
order: `CoilInTemp`, `CoilInHumRat`, `CoilOutTemp`, `CoilOutHumRat`,
`FanCoolLoad` and `TotCapTempModFac`. -/
def St.airStateLocals (st : St) : List Real64 :=
  [st.CoilInTemp, st.CoilInHumRat, st.CoilOutTemp, st.CoilOutHumRat, st.FanCoolLoad,
   st.TotCapTempModFac]

/-- The request with its air-system inputs replaced: `sizingDesRunThisAirSys`,
`oaSysFlag`, `airLoopSysFlag`, `finalSysSizing` and `primaryAirSystem`. -/
def CoolingCapacitySizer.withAirSystemInputs (s : CoolingCapacitySizer) (a b c : Bool)
    (fs : Int → SystemSizingData) (pas : Int → DefinePrimaryAirSystem) : CoolingCapacitySizer :=
  { s with
    sizingDesRunThisAirSys := a, oaSysFlag := b, airLoopSysFlag := c,
    finalSysSizing := fs, primaryAirSystem := pas }

/-- The UA request with the air-system inputs it reads replaced:
`sizingDesRunThisAirSys` and `finalSysSizing`. -/
def WaterHeatingCoilUASizer.withAirSystemInputs (s : WaterHeatingCoilUASizer) (a : Bool)
    (fs : Int → WaterHeatingCoilUA.SystemSizingData) : WaterHeatingCoilUASizer :=
  { s with sizingDesRunThisAirSys := a, finalSysSizing := fs }

/-- System design day result with a design capacity of 5000 W prescribed per
floor area. -/
def exSysSizingOther : SystemSizingData :=
  { exSysSizing with CoolingCapMethod := 10, CoolingTotalCapacity := 5000 }

/-- Primary air system with a blow-through supply fan. -/
def exPrimaryAirSystemBlowThru : DefinePrimaryAirSystem :=
  { exPrimaryAirSystem with
    supFanModelTypeEnum := fanModelTypeEnum.structArrayLegacyFanModels
    supFanLocation := fanPlacement.BlowThru
    FanDesCoolLoad := 300 }

/-! ## Binary64 arithmetic

`Real64` is the C++ `double`.  The definitions above compute in exact rational
arithmetic.  Where a claim is about the very value a quotient or a product
leaves, the operation is rounded here as the machine rounds it: to the nearest
binary64 number, a tie to the one with the even significand.  Infinities and
NaN are not represented; the facts about rounded operations therefore carry
the hypothesis that the exact result is within the finite range. -/

namespace Binary64

/-- Round to the nearest integer, a tie to the even one. -/
def roundHalfEven (x : ℚ) : ℤ :=
  if Int.fract x < 1 / 2 then ⌊x⌋
  else if 1 / 2 < Int.fract x then ⌊x⌋ + 1
  else if ⌊x⌋ % 2 = 0 then ⌊x⌋ else ⌊x⌋ + 1

/-- The binary exponent of `x`, not below -1022, the exponent of the smallest
normal numbers and of the subnormal ones. -/
def exponent (x : ℚ) : ℤ := max (Int.log 2 |x|) (-1022)

/-- The spacing of the binary64 numbers around `x`: 52 binary places below the
exponent. -/
def ulp (x : ℚ) : ℚ := (2 : ℚ) ^ (exponent x - 52)

/-- Rounding to the nearest binary64 number, a tie to even. -/
def round (x : Real64) : Real64 := roundHalfEven (x / ulp x) * ulp x

/-- The largest finite binary64 number, `(2 ^ 53 - 1) * 2 ^ 971`. -/
def maxFinite : Real64 := (2 ^ 53 - 1) * 2 ^ 971

/-- The smallest positive normal binary64 number, `2 ^ (-1022)`. -/
def minNormal : Real64 := 1 / 2 ^ 1022

/-- The smallest positive binary64 number, the subnormal `2 ^ (-1074)`. -/
def minSubnormal : Real64 := 1 / 2 ^ 1074

/-- The unit roundoff `2 ^ (-53)`, the largest relative change of a rounding
in the normal range. -/
def unitRoundoff : Real64 := 1 / 2 ^ 53

/-- The number is a finite binary64 number. -/
def isFinite (x : Real64) : Prop := round x = x ∧ |x| ≤ maxFinite

/-- The quotient of two binary64 numbers as the machine returns it, for a
divisor other than 0 and an exact quotient within the finite range. -/
def div (a b : Real64) : Real64 := round (a / b)

/-- The product of two binary64 numbers as the machine returns it, for an
exact product within the finite range. -/
def mul (a b : Real64) : Real64 := round (a * b)

end Binary64

/-! ## The plausibility guard with a given quotient (lines 487-529)

The guard once more, with the quotient of two `Real64` as a parameter: with
the exact quotient it is `guardCorrect`, with `Binary64.div` it is the guard
as the machine evaluates it.  The comparisons are exact on binary64 numbers. -/

/-- The local `RatedVolFlowPerRatedTotCap` (lines 487-490). -/
def ratedVolFlowPerRatedTotCapWith (quot : Real64 → Real64 → Real64)
    (DesVolFlow autoSizedValue : Real64) : Real64 :=
  if autoSizedValue > 0 then quot DesVolFlow autoSizedValue else 0

/-- Diagnostics of the minimum branch (lines 492-501 and 507-509). -/
def guardMinLinesWith (quot : Real64 → Real64 → Real64) (env : Env) (s : CoolingCapacitySizer)
    (g : Globals) (st : St) : List Emitted :=
  let minR := g.MinRatedVolFlowPerRatedTotCap g.DXCT
  if guardPrints s g then
    [Emitted.ShowWarningError (s.callingRoutine ++ " " ++ s.compType ++ " " ++ s.compName),
     Emitted.ShowContinueError ("..." ++ st.sizingString ++
        " will be limited by the minimum rated volume flow per rated total capacity ratio."),
     Emitted.ShowContinueError ("...DX coil volume flow rate (m3/s ) = " ++
        env.TrimSigDigits st.DesVolFlow 6),
     Emitted.ShowContinueError ("...Requested capacity (W ) = " ++
        env.TrimSigDigits st.autoSizedValue 3),
     Emitted.ShowContinueError ("...Requested flow/capacity ratio (m3/s/W ) = " ++
        env.TrimSigDigits
          (ratedVolFlowPerRatedTotCapWith quot st.DesVolFlow st.autoSizedValue) 3),
     Emitted.ShowContinueError ("...Minimum flow/capacity ratio (m3/s/W ) = " ++
        env.TrimSigDigits minR 3),
     Emitted.ShowContinueError ("...Adjusted capacity ( W ) = " ++
        env.TrimSigDigits (quot st.DesVolFlow minR) 3)]
  else []

/-- Diagnostics of the maximum branch (lines 511-520 and 526-528). -/
def guardMaxLinesWith (quot : Real64 → Real64 → Real64) (env : Env) (s : CoolingCapacitySizer)
    (g : Globals) (st : St) : List Emitted :=
  let maxR := g.MaxRatedVolFlowPerRatedTotCap g.DXCT
  if guardPrints s g then
    [Emitted.ShowWarningError (s.callingRoutine ++ " " ++ s.compType ++ " " ++ s.compName),
     Emitted.ShowContinueError ("..." ++ st.sizingString ++
        " will be limited by the maximum rated volume flow per rated total capacity ratio."),
     Emitted.ShowContinueError ("...DX coil volume flow rate ( m3/s ) = " ++
        env.TrimSigDigits st.DesVolFlow 6),
     Emitted.ShowContinueError ("...Requested capacity ( W ) = " ++
        env.TrimSigDigits st.autoSizedValue 3),
     Emitted.ShowContinueError ("...Requested flow/capacity ratio ( m3/s/W ) = " ++
        env.TrimSigDigits
          (ratedVolFlowPerRatedTotCapWith quot st.DesVolFlow st.autoSizedValue) 3),
     Emitted.ShowContinueError ("...Maximum flow/capacity ratio ( m3/s/W ) = " ++
        env.TrimSigDigits maxR 3),
     Emitted.ShowContinueError ("...Adjusted capacity ( W ) = " ++
        env.TrimSigDigits (quot st.DesVolFlow maxR) 3)]
  else []

/-- The ratio test and its two corrections (lines 487-529): every `/` of the
source is one application of `quot`. -/
def guardCorrectWith (quot : Real64 → Real64 → Real64) (env : Env) (s : CoolingCapacitySizer)
    (g : Globals) (st : St) : St :=
  let minR := g.MinRatedVolFlowPerRatedTotCap g.DXCT
  let maxR := g.MaxRatedVolFlowPerRatedTotCap g.DXCT
  let RatedVolFlowPerRatedTotCap :=
    ratedVolFlowPerRatedTotCapWith quot st.DesVolFlow st.autoSizedValue
  if RatedVolFlowPerRatedTotCap < minR then
    { st.emit (guardMinLinesWith quot env s g st) with
      DXFlowPerCapMinRatio := quot (quot st.DesVolFlow minR) st.autoSizedValue
      autoSizedValue := quot st.DesVolFlow minR }
  else if RatedVolFlowPerRatedTotCap > maxR then
    { st.emit (guardMaxLinesWith quot env s g st) with
      DXFlowPerCapMaxRatio := quot (quot st.DesVolFlow maxR) st.autoSizedValue
      autoSizedValue := quot st.DesVolFlow maxR }
  else st

/-- The plausibility guard (lines 477-532) with the quotient `quot`. -/
def guardWith (quot : Real64 → Real64 → Real64) (env : Env) (s : CoolingCapacitySizer)
    (g : Globals) (st : St) : St :=
  if ¬ s.hardSizeNoDesignRun ∨ s.dataScalableSizingON ∨ s.dataScalableCapSizingON then
    if s.wasAutoSized then
      if s.dataIsDXCoil ∧ FlagCheckVolFlowPerRatedTotCap s then guardCorrectWith quot env s g st
      else st
    else st
  else st

/-- The body of `CoolingCapacitySizer::size` (lines 69-547) with the guard's
quotient `quot`. -/
def CoolingCapacitySizer.sizeWith (quot : Real64 → Real64 → Real64) (env : Env)
    (s : CoolingCapacitySizer) (g : Globals) (_originalValue : Real64) (errorsFound : Bool) :
    St :=
  overrideStrings env s
    (guardWith quot env s g (resolve env s g _originalValue (initSt s g errorsFound)))

/-- The body of `CoolingCapacitySizer::size` with the guard evaluated in
binary64: what the resolver leaves is corrected by the quotients the machine
returns. -/
def CoolingCapacitySizer.sizeBinary64 (env : Env) (s : CoolingCapacitySizer) (g : Globals)
    (_originalValue : Real64) (errorsFound : Bool) : St :=
  CoolingCapacitySizer.sizeWith Binary64.div env s g _originalValue errorsFound

/-- The bounds of the examples as binary64 numbers: the doubles nearest to
4.027e-5 and 6.041e-5. -/
def exGlobalsBinary64 : Globals :=
  { exGlobals with
    MinRatedVolFlowPerRatedTotCap := fun _ => 5942803070786269 / 147573952589676412928
    MaxRatedVolFlowPerRatedTotCap := fun _ => 557183904746397 / 9223372036854775808 }

/-- A DX coil in zone scope whose parent computed 273.15619567916565 W (the
double 300338413348299 / 2 ^ 40) on a design flow of 0.011 m3/s (the double
3170534137668829 / 2 ^ 58). -/
def exRoundsToMin : CoolingCapacitySizer :=
  { exSizer with
    dataFlowUsedForSizing := 3170534137668829 / 288230376151711744
    zoneEqSizing := fun _ =>
      { exZoneEqSizing with
        CoolingCapacity := true
        DesCoolingLoad := 300338413348299 / 1099511627776 } }

/-- A DX coil in zone scope whose parent computed 16.553550736633007 W (the
double 2329705154036219 / 2 ^ 47) on a design flow of 0.001 m3/s (the double
1152921504606847 / 2 ^ 60). -/
def exRoundsToMax : CoolingCapacitySizer :=
  { exSizer with
    dataFlowUsedForSizing := 1152921504606847 / 1152921504606846976
    zoneEqSizing := fun _ =>
      { exZoneEqSizing with
        CoolingCapacity := true
        DesCoolingLoad := 2329705154036219 / 140737488355328 } }

/-- A DX coil in zone scope whose parent computed 100 kW on a design flow of
0.011 m3/s (the double 3170534137668829 / 2 ^ 58). -/
def exOversizedBinary64 : CoolingCapacitySizer :=
  { exOversized with dataFlowUsedForSizing := 3170534137668829 / 288230376151711744 }

/-- A DX coil in zone scope whose parent computed 100 W on a design flow of
0.011 m3/s (the double 3170534137668829 / 2 ^ 58). -/
def exUndersizedBinary64 : CoolingCapacitySizer :=
  { exSizer with
    dataFlowUsedForSizing := 3170534137668829 / 288230376151711744
    zoneEqSizing := fun _ =>
      { exZoneEqSizing with CoolingCapacity := true, DesCoolingLoad := 100 } }

/-! ## The UA solve with a given accuracy and lower bracket end

The UA sizer once more, with the accuracy and the lower end of the bracket
handed to the root-finder as parameters: with `Acc` and `UA0` it is the exact
embedding above, with the binary64 values of `0.0001` and `0.001 * L` it is
the sizer as the machine evaluates lines 64, 78 and 257. -/

namespace WaterHeatingCoilUA

/-- The call of the root-finder (lines 82, 261): `SolFla` and
`autoSizedValue` receive its results. -/
def callSolveRootWith (acc lower : Real64) (env : Collaborators) (s : WaterHeatingCoilUASizer)
    (st : St) : St :=
  let r := env.SolveRoot acc MaxIte env.SimpleHeatingCoilUAResidual lower (UA1 s) (Par s)
  { st with
    SolFla := r.1
    autoSizedValue := r.2
    solveRootCalls := st.solveRootCalls ++
      [{ Eps := acc, MaxIte := MaxIte, X_0 := lower, X_1 := UA1 s, Par := Par s }] }

/-- Zone scope, iteration limit exceeded, `SolFla == -1` (lines 84-145). -/
def zoneIterationLimitWith (lower : Real64) (env : Collaborators) (s : WaterHeatingCoilUASizer)
    (st : St) : St :=
  { st.emit
      (recordSevere (failedLine s) ++
        recordContinue "  Iteration limit exceeded in calculating coil UA" ++
        recordContinue ("  Lower UA estimate = " ++ env.TrimSigDigits lower 6 ++
          " W/m2-K (0.1% of Design Coil Load)") ++
        recordContinue (upperLine env s) ++
        recordContinue (finalLine env st) ++
        recordContinue (zoneHeading s) ++
        inletLines env s ++
        zoneLoadLines env s) with
    errorsFound := true
    dataErrorsFound := true }

/-- Zone scope, invalid bracket, `SolFla == -2` (lines 147-224). -/
def zoneBadStartWith (lower : Real64) (env : Collaborators) (s : WaterHeatingCoilUASizer)
    (st : St) : St :=
  { st.emit
      (recordSevere (failedLine s) ++
        recordContinue "  Bad starting values for UA" ++
        recordContinue ("  Lower UA estimate = " ++ env.TrimSigDigits lower 6 ++
          " W/m2-K (0.1% of Design Coil Load)") ++
        recordContinue (upperLine env s) ++
        recordContinue (zoneHeading s) ++
        inletLines env s ++
        zoneLoadLines env s ++
        (if s.dataDesignCoilCapacity < s.dataCapacityUsedForSizing then plantLines env s
         else [])) with
    errorType := AutoSizingResultType.ErrorType1
    errorsFound := true
    dataErrorsFound := true }

/-- Air-system scope, iteration limit exceeded, `SolFla == -1` (lines 263-306). -/
def sysIterationLimitWith (lower : Real64) (env : Collaborators) (s : WaterHeatingCoilUASizer)
    (st : St) : St :=
  { st.emit
      (recordSevere (failedLine s) ++
        recordContinue "  Iteration limit exceeded in calculating coil UA" ++
        recordContinue ("  Lower UA estimate = " ++ env.TrimSigDigits lower 6 ++
          " W/m2-K (1% of Design Coil Load)") ++
        recordContinue (upperLine env s) ++
        recordContinue (finalLine env st) ++
        recordContinue (sysHeading s) ++
        inletLines env s ++
        loadLine env s ++
        (if s.dataNomCapInpMeth then outletLines env s else [])) with
    errorsFound := true
    dataErrorsFound := true }

/-- Air-system scope, invalid bracket, `SolFla == -2` (lines 308-367). -/
def sysBadStartWith (lower : Real64) (env : Collaborators) (s : WaterHeatingCoilUASizer)
    (st : St) : St :=
  { st.emit
      (recordSevere (failedLine s) ++
        recordContinue "  Bad starting values for UA" ++
        recordContinue ("  Lower UA estimate = " ++ env.TrimSigDigits lower 6 ++
          " W/m2-K (1% of Design Coil Load)") ++
        recordContinue (upperLine env s) ++
        recordContinue (sysHeading s) ++
        inletLines env s ++
        loadLine env s ++
        (if s.dataNomCapInpMeth then outletLines env s else []) ++
        (if s.dataDesignCoilCapacity < s.dataCapacityUsedForSizing ∧ ¬ s.dataNomCapInpMeth then
          plantLines env s
         else [])) with
    errorType := AutoSizingResultType.ErrorType1
    errorsFound := true
    dataErrorsFound := true }

/-- Zone-equipment scope, `curZoneEqNum > 0` (lines 70-246). -/
def sizeZoneWith (acc lower : Real64) (env : Collaborators) (s : WaterHeatingCoilUASizer)
    (_originalValue : Real64) (st : St) : St :=
  if ¬ s.wasAutoSized ∧ ¬ s.sizingDesRunThisZone then
    { st with autoSizedValue := _originalValue }
  else if s.dataCapacityUsedForSizing > 0 ∧ s.dataWaterFlowUsedForSizing > 0 ∧
      s.dataFlowUsedForSizing > 0 then
    let st1 := callSolveRootWith acc lower env s st
    if st1.SolFla = -1 then zoneIterationLimitWith lower env s st1
    else if st1.SolFla = -2 then zoneBadStartWith lower env s st1
    else st1
  else zoneDegenerate s st

/-- Air-system scope, `curSysNum > 0` (lines 248-389). -/
def sizeSysWith (acc lower : Real64) (env : Collaborators) (s : WaterHeatingCoilUASizer)
    (g : UAGlobals) (_originalValue : Real64) (st : St) : St :=
  if ¬ s.wasAutoSized ∧ ¬ s.sizingDesRunThisAirSys then
    { st with autoSizedValue := _originalValue }
  else if s.dataCapacityUsedForSizing ≥ g.SmallLoad ∧ s.dataWaterFlowUsedForSizing > 0 ∧
      s.dataFlowUsedForSizing > 0 then
    let st1 := callSolveRootWith acc lower env s st
    if st1.SolFla = -1 then sysIterationLimitWith lower env s st1
    else if st1.SolFla = -2 then sysBadStartWith lower env s st1
    else st1
  else sysDegenerate s g st

/-- Scope dispatch (lines 69-390). -/
def resolveWith (acc lower : Real64) (env : Collaborators) (s : WaterHeatingCoilUASizer)
    (g : UAGlobals) (_originalValue : Real64) (st : St) : St :=
  if s.curZoneEqNum > 0 then sizeZoneWith acc lower env s _originalValue st
  else if s.curSysNum > 0 then sizeSysWith acc lower env s g _originalValue st
  else st

/-- The constant `Acc` (line 64) as the machine holds it: the double nearest
to 0.0001. -/
def AccBinary64 : Real64 := Binary64.round Acc

/-- The local `UA0` (lines 78, 257) as the machine evaluates it: the product
of the double nearest to 0.001 and the design load, rounded. -/
def UA0Binary64 (s : WaterHeatingCoilUASizer) : Real64 :=
  Binary64.mul (Binary64.round (1 / 1000)) s.dataCapacityUsedForSizing

/-- The example coil in zone scope with the smallest positive design load a
double can hold, `2 ^ (-1074)` W. -/
def exTinyLoad : WaterHeatingCoilUASizer :=
  { exSizer with dataCapacityUsedForSizing := Binary64.minSubnormal }

/-- A stand-in for the root-finder that reports what it was called with: the
flag 1 and the upper end of the bracket when the lower end is positive, the
flag 0 and the lower end otherwise. -/
def exEcho : Collaborators :=
  { SolveRoot := fun _ _ _ X_0 X_1 _ => if 0 < X_0 then (1, X_1) else (0, X_0)
    SimpleHeatingCoilUAResidual := fun _ _ => 0
    TrimSigDigits := fun _ _ => "" }

end WaterHeatingCoilUA

/-- The body of `WaterHeatingCoilUASizer::size` (lines 63-394) with the
accuracy `acc` and the lower bracket end `lower`. -/
def WaterHeatingCoilUASizer.sizeWith (acc lower : Real64)
    (env : WaterHeatingCoilUA.Collaborators) (s : WaterHeatingCoilUASizer)
    (g : WaterHeatingCoilUA.UAGlobals) (_originalValue : Real64) (errorsFound : Bool) :
    WaterHeatingCoilUA.St :=
  WaterHeatingCoilUA.finish s
    (WaterHeatingCoilUA.resolveWith acc lower env s g _originalValue
      (WaterHeatingCoilUA.initSt s g errorsFound))

/-- The body of `WaterHeatingCoilUASizer::size` with the constant of line 64
and the product of lines 78 and 257 evaluated in binary64. -/
def WaterHeatingCoilUASizer.sizeBinary64 (env : WaterHeatingCoilUA.Collaborators)
    (s : WaterHeatingCoilUASizer) (g : WaterHeatingCoilUA.UAGlobals)
    (_originalValue : Real64) (errorsFound : Bool) : WaterHeatingCoilUA.St :=
  WaterHeatingCoilUASizer.sizeWith WaterHeatingCoilUA.AccBinary64
    (WaterHeatingCoilUA.UA0Binary64 s) env s g _originalValue errorsFound

/-! ## General facts about the guard and the frame of each step -/

theorem guard_of_applies (env : Env) (s : CoolingCapacitySizer) (g : Globals) (st : St)
    (h : guardApplies s = true) : guard env s g st = guardCorrect env s g st := by
  simp only [guardApplies, Bool.and_eq_true, Bool.or_eq_true, Bool.not_eq_true'] at h
  obtain ⟨⟨h1, h2⟩, h3, h4⟩ := h
  have h1' : ¬ s.hardSizeNoDesignRun = true ∨ s.dataScalableSizingON = true ∨
      s.dataScalableCapSizingON = true := by
    rcases h1 with (h1 | h1) | h1
    · exact Or.inl (by simp [h1])
    · exact Or.inr (Or.inl h1)
    · exact Or.inr (Or.inr h1)
  rw [guard, if_pos h1', if_pos h2, if_pos ⟨h3, h4⟩]

theorem guard_of_not_applies (env : Env) (s : CoolingCapacitySizer) (g : Globals) (st : St)
    (h : guardApplies s = false) : guard env s g st = st := by
  unfold guard
  split_ifs with h1 h2 h3
  · exfalso
    have : guardApplies s = true := by
      simp only [guardApplies, Bool.and_eq_true, Bool.or_eq_true, Bool.not_eq_true']
      refine ⟨⟨?_, h2⟩, h3.1, h3.2⟩
      rcases h1 with h1 | h1 | h1
      · exact Or.inl (Or.inl (by simpa using h1))
      · exact Or.inl (Or.inr h1)
      · exact Or.inr h1
    rw [h] at this
    exact Bool.noConfusion this
  · rfl
  · rfl
  · rfl

theorem zoneWaterCoil_ratios (env : Env) (s : CoolingCapacitySizer) (g : Globals) (st : St) :
    (zoneWaterCoil env s g st).DXFlowPerCapMinRatio = st.DXFlowPerCapMinRatio ∧
      (zoneWaterCoil env s g st).DXFlowPerCapMaxRatio = st.DXFlowPerCapMaxRatio := by
  unfold zoneWaterCoil
  split_ifs <;> exact ⟨rfl, rfl⟩

theorem zoneDX_ratios (env : Env) (s : CoolingCapacitySizer) (g : Globals) (st : St) :
    (zoneDX env s g st).DXFlowPerCapMinRatio = st.DXFlowPerCapMinRatio ∧
      (zoneDX env s g st).DXFlowPerCapMaxRatio = st.DXFlowPerCapMaxRatio := by
  unfold zoneDX
  dsimp only
  split_ifs <;> exact ⟨rfl, rfl⟩

theorem sizeZone_ratios (env : Env) (s : CoolingCapacitySizer) (g : Globals)
    (ov : Real64) (st : St) :
    (sizeZone env s g ov st).DXFlowPerCapMinRatio = st.DXFlowPerCapMinRatio ∧
      (sizeZone env s g ov st).DXFlowPerCapMaxRatio = st.DXFlowPerCapMaxRatio := by
  unfold sizeZone
  split_ifs
  · exact ⟨rfl, rfl⟩
  · exact ⟨rfl, rfl⟩
  · exact ⟨rfl, rfl⟩
  · exact zoneWaterCoil_ratios env s g st
  · exact zoneDX_ratios env s g st

theorem sysUnitary_ratios (env : Env) (s : CoolingCapacitySizer) (st : St) :
    (sysUnitary env s st).DXFlowPerCapMinRatio = st.DXFlowPerCapMinRatio ∧
      (sysUnitary env s st).DXFlowPerCapMaxRatio = st.DXFlowPerCapMaxRatio := by
  unfold sysUnitary
  dsimp only
  split_ifs <;> exact ⟨rfl, rfl⟩

theorem sysDOAS_ratios (env : Env) (s : CoolingCapacitySizer) (g : Globals) (st : St) :
    (sysDOAS env s g st).DXFlowPerCapMinRatio = st.DXFlowPerCapMinRatio ∧
      (sysDOAS env s g st).DXFlowPerCapMaxRatio = st.DXFlowPerCapMaxRatio := by
  unfold sysDOAS
  dsimp only
  split_ifs <;> exact ⟨rfl, rfl⟩

theorem sysPrimary_ratios (env : Env) (s : CoolingCapacitySizer) (g : Globals) (st : St) :
    (sysPrimary env s g st).DXFlowPerCapMinRatio = st.DXFlowPerCapMinRatio ∧
      (sysPrimary env s g st).DXFlowPerCapMaxRatio = st.DXFlowPerCapMaxRatio := by
  unfold sysPrimary
  dsimp only
  split_ifs <;> exact ⟨rfl, rfl⟩

theorem sizeSys_ratios (env : Env) (s : CoolingCapacitySizer) (g : Globals)
    (ov : Real64) (st : St) :
    (sizeSys env s g ov st).DXFlowPerCapMinRatio = st.DXFlowPerCapMinRatio ∧
      (sizeSys env s g ov st).DXFlowPerCapMaxRatio = st.DXFlowPerCapMaxRatio := by
  unfold sizeSys
  split_ifs
  · exact ⟨rfl, rfl⟩
  · exact ⟨rfl, rfl⟩
  · exact sysUnitary_ratios env s _
  · exact sysDOAS_ratios env s g _
  · exact sysPrimary_ratios env s g _

theorem resolve_ratios (env : Env) (s : CoolingCapacitySizer) (g : Globals)
    (ov : Real64) (st : St) :
    (resolve env s g ov st).DXFlowPerCapMinRatio = st.DXFlowPerCapMinRatio ∧
      (resolve env s g ov st).DXFlowPerCapMaxRatio = st.DXFlowPerCapMaxRatio := by
  unfold resolve
  split_ifs
  · exact ⟨rfl, rfl⟩
  · exact ⟨rfl, rfl⟩
  · exact sizeZone_ratios env s g ov st
  · exact sizeSys_ratios env s g ov st
  · exact ⟨rfl, rfl⟩
  · exact ⟨rfl, rfl⟩
  · exact ⟨rfl, rfl⟩

theorem size_of_applies (env : Env) (s : CoolingCapacitySizer) (g : Globals)
    (ov : Real64) (ef : Bool) (h : guardApplies s = true) :
    CoolingCapacitySizer.size env s g ov ef =
      overrideStrings env s (guardCorrect env s g (resolve env s g ov (initSt s g ef))) := by
  rw [CoolingCapacitySizer.size, guard_of_applies _ _ _ _ h]

theorem size_of_not_applies (env : Env) (s : CoolingCapacitySizer) (g : Globals)
    (ov : Real64) (ef : Bool) (h : guardApplies s = false) :
    CoolingCapacitySizer.size env s g ov ef =
      overrideStrings env s (resolve env s g ov (initSt s g ef)) := by
  rw [CoolingCapacitySizer.size, guard_of_not_applies _ _ _ _ h]

/-! ## External override (C1) -/

/-- C1, counterexample: an auto-sized DX coil with the external override
switched on and set to 1000 W.  The guard is not skipped: its minimum branch
runs with the design flow still 0, the capacity handed on is 0, not the
override, and the recorded minimum-branch ratio is 0, not 1. -/
theorem ems_override_guard_not_skipped :
    exEMSOverride.dataEMSOverrideON = true ∧
      exEMSOverride.dataEMSOverride = 1000 ∧
      (CoolingCapacitySizer.size exEnv exEMSOverride exGlobals (-99999) false).autoSizedValue = 0 ∧
      (CoolingCapacitySizer.size exEnv exEMSOverride exGlobals (-99999) false).autoSizedValue ≠
        exEMSOverride.dataEMSOverride ∧
      (CoolingCapacitySizer.size exEnv exEMSOverride exGlobals (-99999) false).DXFlowPerCapMinRatio
        ≠ 1 := by
  have hg : guardApplies exEMSOverride = true := by decide
  have hr : resolve exEnv exEMSOverride exGlobals (-99999) (initSt exEMSOverride exGlobals false) =
      { initSt exEMSOverride exGlobals false with autoSizedValue := 1000 } := by
    simp [resolve, exEMSOverride]
  rw [size_of_applies _ _ _ _ _ hg, hr]
  refine ⟨rfl, rfl, ?_, ?_, ?_⟩ <;>
    norm_num [overrideStrings, guardCorrect, ratedVolFlowPerRatedTotCap, initSt, St.emit,
      exGlobals, exEMSOverride]

/-- C1, amended: with the external override on, the resolver selects exactly
`dataEMSOverride` and derives no air state (design flow 0, markers at -999,
both ratios 1); the guard is not bypassed by the override, and the capacity
handed to `selectSizerOutput` is `dataEMSOverride` with both ratios 1 whenever
the guard's ratio test is not reached. -/
theorem ems_override_resolved (env : Env) (s : CoolingCapacitySizer) (g : Globals)
    (ov : Real64) (ef : Bool) (h : s.dataEMSOverrideON = true) :
    (resolve env s g ov (initSt s g ef)).autoSizedValue = s.dataEMSOverride ∧
      (resolve env s g ov (initSt s g ef)).DesVolFlow = 0 ∧
      (resolve env s g ov (initSt s g ef)).CoilInTemp = -999 ∧
      (resolve env s g ov (initSt s g ef)).CoilOutTemp = -999 ∧
      (guardApplies s = false →
        (CoolingCapacitySizer.size env s g ov ef).autoSizedValue = s.dataEMSOverride ∧
        (CoolingCapacitySizer.size env s g ov ef).DXFlowPerCapMinRatio = 1 ∧
        (CoolingCapacitySizer.size env s g ov ef).DXFlowPerCapMaxRatio = 1) := by
  have hr : resolve env s g ov (initSt s g ef) =
      { initSt s g ef with autoSizedValue := s.dataEMSOverride } := by
    simp [resolve, h]
  refine ⟨by rw [hr], by rw [hr]; rfl, by rw [hr]; rfl, by rw [hr]; rfl, ?_⟩
  intro hg
  rw [size_of_not_applies _ _ _ _ _ hg, hr]
  exact ⟨rfl, rfl, rfl⟩

/-- C1, witness: the chilled-water coil with an override of 1000 W is handed on
with 1000 W. -/
theorem ems_override_resolved_witness :
    exEMSOverrideWater.dataEMSOverrideON = true ∧ guardApplies exEMSOverrideWater = false ∧
      (CoolingCapacitySizer.size exEnv exEMSOverrideWater exGlobals (-99999) false).autoSizedValue
        = 1000 :=
  ⟨rfl, by decide,
    ((ems_override_resolved exEnv exEMSOverrideWater exGlobals (-99999) false rfl).2.2.2.2
      (by decide)).1⟩

/-! ## Scenario A: passthrough in zone scope (C2) -/

/-- C2: with the override off, the constant-times-fraction branch not taken,
zone scope active, the value user-specified and no zone design run, the
capacity handed on is the original value, the design flow stays 0, the four
coil air-state markers stay at -999, the guard changes nothing (both ratios 1)
and the six handoff slots keep their values. -/
theorem size_zone_passthrough (env : Env) (s : CoolingCapacitySizer) (g : Globals)
    (ov : Real64) (ef : Bool)
    (hEMS : s.dataEMSOverrideON = false)
    (hConst : ¬ (s.dataConstantUsedForSizing ≥ 0 ∧ s.dataFractionUsedForSizing > 0))
    (hZone : s.curZoneEqNum > 0)
    (hAuto : s.wasAutoSized = false)
    (hRun : s.sizingDesRunThisZone = false) :
    (CoolingCapacitySizer.size env s g ov ef).autoSizedValue = ov ∧
      (CoolingCapacitySizer.size env s g ov ef).DesVolFlow = 0 ∧
      (CoolingCapacitySizer.size env s g ov ef).CoilInTemp = -999 ∧
      (CoolingCapacitySizer.size env s g ov ef).CoilInHumRat = -999 ∧
      (CoolingCapacitySizer.size env s g ov ef).CoilOutTemp = -999 ∧
      (CoolingCapacitySizer.size env s g ov ef).CoilOutHumRat = -999 ∧
      guard env s g (resolve env s g ov (initSt s g ef)) = resolve env s g ov (initSt s g ef) ∧
      (CoolingCapacitySizer.size env s g ov ef).DXFlowPerCapMinRatio = 1 ∧
      (CoolingCapacitySizer.size env s g ov ef).DXFlowPerCapMaxRatio = 1 ∧
      (CoolingCapacitySizer.size env s g ov ef).DataCoilSizingAirInTemp
        = g.DataCoilSizingAirInTemp ∧
      (CoolingCapacitySizer.size env s g ov ef).DataCoilSizingAirInHumRat
        = g.DataCoilSizingAirInHumRat ∧
      (CoolingCapacitySizer.size env s g ov ef).DataCoilSizingAirOutTemp
        = g.DataCoilSizingAirOutTemp ∧
      (CoolingCapacitySizer.size env s g ov ef).DataCoilSizingAirOutHumRat
        = g.DataCoilSizingAirOutHumRat ∧
      (CoolingCapacitySizer.size env s g ov ef).DataCoilSizingFanCoolLoad
        = g.DataCoilSizingFanCoolLoad ∧
      (CoolingCapacitySizer.size env s g ov ef).DataCoilSizingCapFT = g.DataCoilSizingCapFT := by
  have hg : guardApplies s = false := by simp [guardApplies, hAuto]
  have hr : resolve env s g ov (initSt s g ef) = { initSt s g ef with autoSizedValue := ov } := by
    simp [resolve, sizeZone, hEMS, hConst, hZone, hAuto, hRun]
  rw [guard_of_not_applies _ _ _ _ hg, size_of_not_applies _ _ _ _ _ hg, hr]
  exact ⟨rfl, rfl, rfl, rfl, rfl, rfl, rfl, rfl, rfl, rfl, rfl, rfl, rfl, rfl, rfl⟩

/-- C2, witness: an original value of 500 W is handed on as 500 W. -/
theorem size_zone_passthrough_witness :
    (CoolingCapacitySizer.size exEnv exPassthrough exGlobals 500 false).autoSizedValue = 500 :=
  (size_zone_passthrough exEnv exPassthrough exGlobals 500 false rfl
    (by norm_num [exPassthrough, exSizer]) (by decide) rfl rfl).1

/-! ## Scenario B: inheritance from the parent in zone scope (C3) -/

/-- What the resolver leaves when the parent computed the capacity and
`DesignSizeFromParent` is off (lines 93-101 and 219-220). -/
theorem resolve_zone_parent (env : Env) (s : CoolingCapacitySizer) (g : Globals)
    (ov : Real64) (ef : Bool)
    (hEMS : s.dataEMSOverrideON = false)
    (hConst : ¬ (s.dataConstantUsedForSizing ≥ 0 ∧ s.dataFractionUsedForSizing > 0))
    (hZone : s.curZoneEqNum > 0)
    (hAuto : s.wasAutoSized = true ∨ s.sizingDesRunThisZone = true)
    (hDSFP : (s.zoneEqSizing s.curZoneEqNum).DesignSizeFromParent = false)
    (hCC : (s.zoneEqSizing s.curZoneEqNum).CoolingCapacity = true) :
    resolve env s g ov (initSt s g ef) =
      zoneWarnings env s g (zoneScale (zoneFromParent s (initSt s g ef))) := by
  have h1 : ¬ (¬ s.wasAutoSized = true ∧ ¬ s.sizingDesRunThisZone = true) := by
    rcases hAuto with h | h <;> simp [h]
  simp only [resolve, sizeZone, hEMS, hConst, hZone, h1, hDSFP, hCC, if_true, if_false,
    Bool.false_eq_true]

/-- C3, counterexample: three requests in zone scope whose parent computed a
design load of 1200 W.  With a sizing fraction of one half the capacity handed
on is 600 W; for the auto-sized DX coil with a design flow of 1 m3/s the guard
moves it to 1 / 6.041e-5 W; with `DesignSizeFromParent` also set the modifier
factor is the default 1, not the 0.9 held in the handoff slot. -/
theorem zone_parent_load_not_verbatim :
    (exParentHalf.zoneEqSizing exParentHalf.curZoneEqNum).CoolingCapacity = true ∧
      (exParentHalf.zoneEqSizing exParentHalf.curZoneEqNum).DesCoolingLoad = 1200 ∧
      (CoolingCapacitySizer.size exEnv exParentHalf exGlobals (-99999) false).autoSizedValue
        = 600 ∧
      (CoolingCapacitySizer.size exEnv exParentDX exGlobals (-99999) false).autoSizedValue
        = 100000000 / 6041 ∧
      exGlobals.DataCoilSizingCapFT = 9 / 10 ∧
      (CoolingCapacitySizer.size exEnv exParentBoth exGlobals (-99999) false).TotCapTempModFac
        = 1 := by
  have hgH : guardApplies exParentHalf = false := by decide
  have hgD : guardApplies exParentDX = true := by decide
  have hgB : guardApplies exParentBoth = false := by decide
  have hH := resolve_zone_parent exEnv exParentHalf exGlobals (-99999) false rfl
    (by norm_num [exParentHalf, exSizer]) (by decide) (Or.inl rfl) rfl rfl
  have hD := resolve_zone_parent exEnv exParentDX exGlobals (-99999) false rfl
    (by norm_num [exParentDX, exSizer]) (by decide) (Or.inl rfl) rfl rfl
  have hB : resolve exEnv exParentBoth exGlobals (-99999) (initSt exParentBoth exGlobals false) =
      { initSt exParentBoth exGlobals false with autoSizedValue := 1200 } := by
    simp [resolve, sizeZone, exParentBoth, exSizer, exZoneEqSizing]
  rw [size_of_not_applies _ _ _ _ _ hgH, size_of_applies _ _ _ _ _ hgD,
    size_of_not_applies _ _ _ _ _ hgB, hH, hD, hB]
  refine ⟨rfl, rfl, ?_, ?_, rfl, rfl⟩
  · norm_num [overrideStrings, zoneWarnings, zoneScale, zoneFromParent, St.emit, initSt,
      exParentHalf, exSizer, exZoneEqSizing]
  · norm_num [overrideStrings, guardCorrect, ratedVolFlowPerRatedTotCap, zoneWarnings, zoneScale,
      zoneFromParent, St.emit, initSt, exParentDX, exSizer, exZoneEqSizing, exGlobals]

/-- C3, amended: in zone scope with the override off, the constant-times-fraction
branch not taken, the value auto-sized or a zone design run done,
`DesignSizeFromParent` off and the parent-computed-capacity flag set, the
resolver selects `DesCoolingLoad * dataFracOfAutosizedCoolingCapacity`, takes
the design flow from `dataFlowUsedForSizing` and reads the modifier factor from
the handoff slot `DataCoilSizingCapFT` (no curve is evaluated); that factor is
the one handed on, and the capacity is handed on unchanged whenever the guard's
ratio test is not reached. -/
theorem zone_parent_load_scaled (env : Env) (s : CoolingCapacitySizer) (g : Globals)
    (ov : Real64) (ef : Bool)
    (hEMS : s.dataEMSOverrideON = false)
    (hConst : ¬ (s.dataConstantUsedForSizing ≥ 0 ∧ s.dataFractionUsedForSizing > 0))
    (hZone : s.curZoneEqNum > 0)
    (hAuto : s.wasAutoSized = true ∨ s.sizingDesRunThisZone = true)
    (hDSFP : (s.zoneEqSizing s.curZoneEqNum).DesignSizeFromParent = false)
    (hCC : (s.zoneEqSizing s.curZoneEqNum).CoolingCapacity = true) :
    (resolve env s g ov (initSt s g ef)).autoSizedValue =
        (s.zoneEqSizing s.curZoneEqNum).DesCoolingLoad * s.dataFracOfAutosizedCoolingCapacity ∧
      (resolve env s g ov (initSt s g ef)).DesVolFlow = s.dataFlowUsedForSizing ∧
      (resolve env s g ov (initSt s g ef)).TotCapTempModFac = g.DataCoilSizingCapFT ∧
      (CoolingCapacitySizer.size env s g ov ef).TotCapTempModFac = g.DataCoilSizingCapFT ∧
      (guardApplies s = false →
        (CoolingCapacitySizer.size env s g ov ef).autoSizedValue =
          (s.zoneEqSizing s.curZoneEqNum).DesCoolingLoad *
            s.dataFracOfAutosizedCoolingCapacity) := by
  have hr := resolve_zone_parent env s g ov ef hEMS hConst hZone hAuto hDSFP hCC
  refine ⟨by rw [hr]; rfl, by rw [hr]; rfl, by rw [hr]; rfl, ?_, ?_⟩
  · unfold CoolingCapacitySizer.size guard
    rw [hr]
    split_ifs
    · unfold guardCorrect
      dsimp only
      split_ifs <;> rfl
    · rfl
    · rfl
    · rfl
  · intro hg
    rw [size_of_not_applies _ _ _ _ _ hg, hr]
    rfl

/-- C3, witness: with a sizing fraction of 1 the chilled-water coil inherits
1200 W from its parent. -/
theorem zone_parent_load_scaled_witness :
    guardApplies exParent = false ∧
      (CoolingCapacitySizer.size exEnv exParent exGlobals (-99999) false).autoSizedValue
        = 1200 := by
  refine ⟨by decide, ?_⟩
  rw [(zone_parent_load_scaled exEnv exParent exGlobals (-99999) false rfl
    (by norm_num [exParent, exSizer]) (by decide) (Or.inl rfl) rfl rfl).2.2.2.2 (by decide)]
  norm_num [exParent, exSizer, exZoneEqSizing]

/-! ## Reduction of the resolver along each path -/

theorem resolve_zoneSizing (env : Env) (s : CoolingCapacitySizer) (g : Globals)
    (ov : Real64) (st : St) (h : reachesZoneSizing s) :
    resolve env s g ov st =
      zoneWarnings env s g (zoneScale
        (if (s.zoneEqSizing s.curZoneEqNum).CoolingCapacity then zoneFromParent s st
         else if isZoneWaterCoilType s then zoneWaterCoil env s g st
         else zoneDX env s g st)) := by
  obtain ⟨⟨hEMS, hConst⟩, hZone, hAuto, hDSFP⟩ := h
  have h1 : ¬ (¬ s.wasAutoSized = true ∧ ¬ s.sizingDesRunThisZone = true) := by
    rcases hAuto with h | h <;> simp [h]
  simp only [resolve, sizeZone, hEMS, hConst, hZone, h1, hDSFP, if_true, if_false,
    Bool.false_eq_true]

theorem resolve_zoneDX (env : Env) (s : CoolingCapacitySizer) (g : Globals)
    (ov : Real64) (st : St) (h : reachesZoneDX s) :
    resolve env s g ov st = zoneWarnings env s g (zoneScale (zoneDX env s g st)) := by
  obtain ⟨hz, hCC, hW⟩ := h
  rw [resolve_zoneSizing env s g ov st hz]
  simp only [hCC, hW, if_false, Bool.false_eq_true]

theorem resolve_zoneWater (env : Env) (s : CoolingCapacitySizer) (g : Globals)
    (ov : Real64) (st : St) (h : reachesZoneWaterDerivation s) :
    resolve env s g ov st = zoneWarnings env s g (zoneScale (zoneWaterCoil env s g st)) := by
  obtain ⟨hz, hCC, hW, _, _⟩ := h
  rw [resolve_zoneSizing env s g ov st hz]
  simp only [hCC, hW, if_false, if_true, Bool.false_eq_true]

theorem resolve_sysSizing (env : Env) (s : CoolingCapacitySizer) (g : Globals)
    (ov : Real64) (st : St) (h : reachesSysSizing s) :
    resolve env s g ov st =
      sysWarnings env s g
        { (if s.oaSysFlag then
              sysOASys s { st with OutAirFrac := 0, dataFracOfAutosizedCoolingCapacity := 1 }
            else if s.airLoopSysFlag then
              sysUnitary env s { st with OutAirFrac := 0, dataFracOfAutosizedCoolingCapacity := 1 }
            else if s.curOASysNum > 0 ∧ (s.outsideAirSys s.curOASysNum).AirLoopDOASNum > -1 then
              sysDOAS env s g { st with OutAirFrac := 0, dataFracOfAutosizedCoolingCapacity := 1 }
            else
              sysPrimary env s g
                { st with OutAirFrac := 0, dataFracOfAutosizedCoolingCapacity := 1 }) with
          dataDesAccountForFanHeat := true } := by
  obtain ⟨⟨hEMS, hConst⟩, hZone, hSys, hAuto⟩ := h
  have h0 : ¬ s.curZoneEqNum > 0 := not_lt.mpr hZone
  have h1 : ¬ (¬ s.wasAutoSized = true ∧ ¬ s.sizingDesRunThisAirSys = true) := by
    rcases hAuto with h | h <;> simp [h]
  simp only [resolve, sizeSys, hEMS, hConst, h0, hSys, h1, if_true, if_false,
    Bool.false_eq_true]

theorem resolve_sysDOAS (env : Env) (s : CoolingCapacitySizer) (g : Globals)
    (ov : Real64) (st : St) (h : reachesDOAS s) :
    resolve env s g ov st =
      sysWarnings env s g
        { sysDOAS env s g { st with OutAirFrac := 0, dataFracOfAutosizedCoolingCapacity := 1 } with
          dataDesAccountForFanHeat := true } := by
  obtain ⟨hs, hOA, hAL, hD⟩ := h
  rw [resolve_sysSizing env s g ov st hs]
  simp only [hOA, hAL, hD, if_false, if_true, Bool.false_eq_true, and_self]

theorem resolve_sysPrimary (env : Env) (s : CoolingCapacitySizer) (g : Globals)
    (ov : Real64) (st : St) (h : reachesSysPrimary s) :
    resolve env s g ov st =
      sysWarnings env s g
        { sysPrimary env s g
            { st with OutAirFrac := 0, dataFracOfAutosizedCoolingCapacity := 1 } with
          dataDesAccountForFanHeat := true } := by
  obtain ⟨hs, hOA, hAL, hD⟩ := h
  rw [resolve_sysSizing env s g ov st hs]
  simp only [hOA, hAL, hD, if_false, Bool.false_eq_true]

theorem sysPrimary_small (env : Env) (s : CoolingCapacitySizer) (g : Globals) (st : St)
    (hM1 : (s.finalSysSizing s.curSysNum).CoolingCapMethod ≠ env.CapacityPerFloorArea)
    (hM2 : ¬ ((s.finalSysSizing s.curSysNum).CoolingCapMethod = env.CoolingDesignCapacity ∧
        (s.finalSysSizing s.curSysNum).CoolingTotalCapacity > 0))
    (h : ¬ s.dataFlowUsedForSizing ≥ g.SmallAirVolFlow) :
    (sysPrimary env s g st).autoSizedValue = 0 ∧
      (sysPrimary env s g st).CoilOutTemp = st.CoilOutTemp ∧
      (sysPrimary env s g st).DesVolFlow = s.dataFlowUsedForSizing := by
  unfold sysPrimary
  dsimp only
  rw [if_neg hM1, if_neg hM2, if_neg h]
  refine ⟨zero_mul _, ?_, ?_⟩ <;> split_ifs <;> rfl

theorem sysPrimary_derived (env : Env) (s : CoolingCapacitySizer) (g : Globals) (st : St)
    (hM1 : (s.finalSysSizing s.curSysNum).CoolingCapMethod ≠ env.CapacityPerFloorArea)
    (hM2 : ¬ ((s.finalSysSizing s.curSysNum).CoolingCapMethod = env.CoolingDesignCapacity ∧
        (s.finalSysSizing s.curSysNum).CoolingTotalCapacity > 0))
    (h : s.dataFlowUsedForSizing ≥ g.SmallAirVolFlow) :
    (sysPrimary env s g st).autoSizedValue =
        ratedFromPeak (sysPrimaryPeakCoilLoad env s g st) (sysPrimary env s g st).TotCapTempModFac *
          (sysPrimary env s g st).dataFracOfAutosizedCoolingCapacity ∧
      (s.dataTotCapCurveIndex ≤ 0 → (sysPrimary env s g st).TotCapTempModFac = 1) := by
  unfold sysPrimary
  dsimp only
  rw [if_neg hM1, if_neg hM2, if_pos h]
  unfold sysPrimaryDerive
  dsimp only
  constructor
  · by_cases hm : (s.finalSysSizing s.curSysNum).CoolingCapMethod =
        env.FractionOfAutosizedCoolingCapacity
    · simp only [hm, if_true]
      rfl
    · simp only [hm, if_false]
      rfl
  · intro hc
    rw [if_neg (not_lt.mpr hc)]

/-! ## Non-negativity of the derived capacity (C4) -/

theorem ratedFromPeak_nonneg (P f : Real64) (hP : 0 ≤ P) : 0 ≤ ratedFromPeak P f := by
  unfold ratedFromPeak
  split_ifs with hf
  · exact div_nonneg hP hf.le
  · exact hP

theorem zoneDX_small (env : Env) (s : CoolingCapacitySizer) (g : Globals) (st : St)
    (h : ¬ s.dataFlowUsedForSizing ≥ g.SmallAirVolFlow) :
    zoneDX env s g st =
      { st with DesVolFlow := s.dataFlowUsedForSizing, autoSizedValue := 0, CoilOutTemp := -999 } := by
  unfold zoneDX
  dsimp only
  rw [if_neg h]

theorem zoneDX_rated (env : Env) (s : CoolingCapacitySizer) (g : Globals) (st : St)
    (h : s.dataFlowUsedForSizing ≥ g.SmallAirVolFlow) :
    (zoneDX env s g st).autoSizedValue =
      ratedFromPeak (zoneDXPeakCoilLoad env s g st) (zoneDX env s g st).TotCapTempModFac := by
  unfold zoneDX
  dsimp only
  rw [if_pos h]

theorem zoneDXPeakCoilLoad_nonneg (env : Env) (s : CoolingCapacitySizer) (g : Globals) (st : St)
    (hFan : 0 ≤ zoneFanCoolLoad env st s.dataFlowUsedForSizing) :
    0 ≤ zoneDXPeakCoilLoad env s g st := by
  unfold zoneDXPeakCoilLoad
  dsimp only
  split_ifs <;> exact add_nonneg (le_max_left _ _) hFan

/-- The zone-scope DX derivation clamps the coil load at zero (lines 174-178):
with a non-negative fan heat its rated capacity is non-negative. -/
theorem zoneDX_nonneg (env : Env) (s : CoolingCapacitySizer) (g : Globals) (st : St)
    (hFan : 0 ≤ zoneFanCoolLoad env st s.dataFlowUsedForSizing) :
    0 ≤ (zoneDX env s g st).autoSizedValue := by
  by_cases h : s.dataFlowUsedForSizing ≥ g.SmallAirVolFlow
  · rw [zoneDX_rated env s g st h]
    exact ratedFromPeak_nonneg _ _ (zoneDXPeakCoilLoad_nonneg env s g st hFan)
  · rw [zoneDX_small env s g st h]

/-- The full air-system derivation clamps the coil load at zero (lines 409 and
413): its nominal capacity is non-negative. -/
theorem sysPrimaryDerive_nonneg (env : Env) (s : CoolingCapacitySizer) (g : Globals) (st : St) :
    0 ≤ (sysPrimaryDerive env s g st).2 := by
  unfold sysPrimaryDerive
  dsimp only
  apply ratedFromPeak_nonneg
  unfold sysPrimaryPeakCoilLoad
  dsimp only
  split_ifs <;> exact le_max_left _ _

/-- The zone-scope water-coil derivation clamps the outlet state at the inlet
state (lines 113-114): with an enthalpy that does not decrease in the dry-bulb
and, above a temperature `T0` below the coil inlet, does not decrease in the
humidity ratio, a non-negative mass flow and a non-negative fan heat its
capacity is non-negative. -/
theorem zoneWaterCoil_nonneg (env : Env) (s : CoolingCapacitySizer) (g : Globals) (st : St)
    (T0 : Real64)
    (hT : ∀ T1 T2 W, T1 ≤ T2 → env.PsyHFnTdbW T1 W ≤ env.PsyHFnTdbW T2 W)
    (hW : ∀ T W1 W2, T0 ≤ T → W1 ≤ W2 → env.PsyHFnTdbW T W1 ≤ env.PsyHFnTdbW T W2)
    (hT0 : T0 ≤ (s.finalZoneSizing s.curZoneEqNum).DesCoolCoilInTemp)
    (hNotTU : ¬ (s.termUnitIU = true ∧ s.curTermUnitSizingNum > 0))
    (hNotFC : s.zoneEqFanCoil = false)
    (hFlow : 0 ≤ (s.finalZoneSizing s.curZoneEqNum).DesCoolMassFlow)
    (hFan : 0 ≤ zoneFanCoolLoad env st
      ((s.finalZoneSizing s.curZoneEqNum).DesCoolMassFlow / g.StdRhoAir)) :
    0 ≤ (zoneWaterCoil env s g st).autoSizedValue := by
  unfold zoneWaterCoil
  rw [if_neg hNotTU, if_neg (by simp [hNotFC])]
  dsimp only
  apply add_nonneg _ hFan
  apply mul_nonneg hFlow
  rw [sub_nonneg]
  exact le_trans (hT _ _ _ (min_le_left _ _)) (hW _ _ _ hT0 (min_le_left _ _))

theorem zoneDX_DesVolFlow (env : Env) (s : CoolingCapacitySizer) (g : Globals) (st : St) :
    (zoneDX env s g st).DesVolFlow = s.dataFlowUsedForSizing ∧
      (zoneDX env s g st).dataFracOfAutosizedCoolingCapacity =
        st.dataFracOfAutosizedCoolingCapacity := by
  by_cases h : s.dataFlowUsedForSizing ≥ g.SmallAirVolFlow
  · unfold zoneDX
    dsimp only
    rw [if_pos h]
    exact ⟨rfl, rfl⟩
  · rw [zoneDX_small env s g st h]
    exact ⟨rfl, rfl⟩

theorem zoneWaterCoil_derived (env : Env) (s : CoolingCapacitySizer) (g : Globals) (st : St)
    (hNotTU : ¬ (s.termUnitIU = true ∧ s.curTermUnitSizingNum > 0))
    (hNotFC : s.zoneEqFanCoil = false) :
    (zoneWaterCoil env s g st).DesVolFlow =
        (s.finalZoneSizing s.curZoneEqNum).DesCoolMassFlow / g.StdRhoAir ∧
      (zoneWaterCoil env s g st).dataFracOfAutosizedCoolingCapacity =
        st.dataFracOfAutosizedCoolingCapacity := by
  unfold zoneWaterCoil
  rw [if_neg hNotTU, if_neg (by simp [hNotFC])]
  exact ⟨rfl, rfl⟩

theorem sysPrimaryDesVolFlow_nonneg (s : CoolingCapacitySizer)
    (hFlow : 0 ≤ s.dataFlowUsedForSizing) : 0 ≤ sysPrimaryDesVolFlow s := by
  unfold sysPrimaryDesVolFlow
  split_ifs with h1 h2
  · exact hFlow
  · exact h2.le
  · exact hFlow

theorem sysPrimary_frac (env : Env) (s : CoolingCapacitySizer) (g : Globals) (st : St) :
    (sysPrimary env s g st).dataFracOfAutosizedCoolingCapacity =
      if (s.finalSysSizing s.curSysNum).CoolingCapMethod = env.FractionOfAutosizedCoolingCapacity
      then (s.finalSysSizing s.curSysNum).FractionOfAutosizedCoolingCapacity
      else st.dataFracOfAutosizedCoolingCapacity := by
  unfold sysPrimary sysPrimaryDerive
  dsimp only
  split_ifs <;> rfl

theorem sysPrimary_derived_DesVolFlow (env : Env) (s : CoolingCapacitySizer) (g : Globals)
    (st : St)
    (hM1 : (s.finalSysSizing s.curSysNum).CoolingCapMethod ≠ env.CapacityPerFloorArea)
    (hM2 : ¬ ((s.finalSysSizing s.curSysNum).CoolingCapMethod = env.CoolingDesignCapacity ∧
        (s.finalSysSizing s.curSysNum).CoolingTotalCapacity > 0))
    (h : s.dataFlowUsedForSizing ≥ g.SmallAirVolFlow) :
    (sysPrimary env s g st).DesVolFlow = sysPrimaryDesVolFlow s := by
  unfold sysPrimary
  dsimp only
  rw [if_neg hM1, if_neg hM2, if_pos h]
  rfl

theorem guardCorrect_nonneg (env : Env) (s : CoolingCapacitySizer) (g : Globals) (st : St)
    (hmin : 0 < g.MinRatedVolFlowPerRatedTotCap g.DXCT)
    (hle : g.MinRatedVolFlowPerRatedTotCap g.DXCT ≤ g.MaxRatedVolFlowPerRatedTotCap g.DXCT)
    (hc : 0 ≤ st.autoSizedValue) (hD : 0 ≤ st.DesVolFlow) :
    0 ≤ (guardCorrect env s g st).autoSizedValue := by
  have hmax : 0 < g.MaxRatedVolFlowPerRatedTotCap g.DXCT := lt_of_lt_of_le hmin hle
  unfold guardCorrect
  dsimp only
  split_ifs
  · exact div_nonneg hD hmin.le
  · exact div_nonneg hD hmax.le
  · exact hc

theorem guard_nonneg (env : Env) (s : CoolingCapacitySizer) (g : Globals) (st : St)
    (hmin : 0 < g.MinRatedVolFlowPerRatedTotCap g.DXCT)
    (hle : g.MinRatedVolFlowPerRatedTotCap g.DXCT ≤ g.MaxRatedVolFlowPerRatedTotCap g.DXCT)
    (hc : 0 ≤ st.autoSizedValue) (hD : 0 ≤ st.DesVolFlow) :
    0 ≤ (guard env s g st).autoSizedValue := by
  cases hg : guardApplies s
  · rw [guard_of_not_applies _ _ _ _ hg]; exact hc
  · rw [guard_of_applies _ _ _ _ hg]; exact guardCorrect_nonneg env s g st hmin hle hc hD

/-- Non-negativity on the three derivations that clamp: in the zone-scope
water-coil derivation, the zone-scope derivation for the other component types
and the full primary-air-system derivation, non-negative design flows, fan heat
gain and sizing fractions (with an enthalpy that does not decrease in the
dry-bulb and, above a temperature `T0` below the zone coil inlet, in the
humidity ratio, a positive standard density and guard bounds `0 < min <= max`)
give a capacity handed on that is non-negative. -/
theorem capacity_nonneg_clamped_derivations (env : Env) (s : CoolingCapacitySizer)
    (g : Globals) (ov : Real64) (ef : Bool) (T0 : Real64)
    (hT : ∀ T1 T2 W, T1 ≤ T2 → env.PsyHFnTdbW T1 W ≤ env.PsyHFnTdbW T2 W)
    (hW : ∀ T W1 W2, T0 ≤ T → W1 ≤ W2 → env.PsyHFnTdbW T W1 ≤ env.PsyHFnTdbW T W2)
    (hT0 : T0 ≤ (s.finalZoneSizing s.curZoneEqNum).DesCoolCoilInTemp)
    (hFan : ∀ v, 0 ≤ env.calcFanDesHeatGain v)
    (hRho : 0 < g.StdRhoAir)
    (hmin : 0 < g.MinRatedVolFlowPerRatedTotCap g.DXCT)
    (hle : g.MinRatedVolFlowPerRatedTotCap g.DXCT ≤ g.MaxRatedVolFlowPerRatedTotCap g.DXCT)
    (hFlow : 0 ≤ s.dataFlowUsedForSizing)
    (hMass : 0 ≤ (s.finalZoneSizing s.curZoneEqNum).DesCoolMassFlow)
    (hFrac : 0 ≤ s.dataFracOfAutosizedCoolingCapacity)
    (hFracSys : 0 ≤ (s.finalSysSizing s.curSysNum).FractionOfAutosizedCoolingCapacity)
    (hPath : reachesZoneWaterDerivation s ∨ reachesZoneDX s ∨ reachesSysSmallFlowCheck env s) :
    0 ≤ (CoolingCapacitySizer.size env s g ov ef).autoSizedValue := by
  have hFan0 : ∀ v, 0 ≤ zoneFanCoolLoad env (initSt s g ef) v := by
    intro v
    have : zoneFanCoolLoad env (initSt s g ef) v = 0 + env.calcFanDesHeatGain v := rfl
    rw [this, zero_add]
    exact hFan v
  have key : 0 ≤ (resolve env s g ov (initSt s g ef)).autoSizedValue ∧
      0 ≤ (resolve env s g ov (initSt s g ef)).DesVolFlow := by
    rcases hPath with hw | hz | ⟨hp, hM1, hM2⟩
    · rw [resolve_zoneWater env s g ov _ hw]
      obtain ⟨_, _, _, hTU, hFC⟩ := hw
      obtain ⟨hd, hf⟩ := zoneWaterCoil_derived env s g (initSt s g ef) hTU hFC
      constructor
      · show 0 ≤ (zoneWaterCoil env s g (initSt s g ef)).autoSizedValue *
          (zoneWaterCoil env s g (initSt s g ef)).dataFracOfAutosizedCoolingCapacity
        rw [hf]
        exact mul_nonneg (zoneWaterCoil_nonneg env s g _ T0 hT hW hT0 hTU hFC hMass (hFan0 _)) hFrac
      · show 0 ≤ (zoneWaterCoil env s g (initSt s g ef)).DesVolFlow
        rw [hd]
        exact div_nonneg hMass hRho.le
    · rw [resolve_zoneDX env s g ov _ hz]
      obtain ⟨hd, hf⟩ := zoneDX_DesVolFlow env s g (initSt s g ef)
      constructor
      · show 0 ≤ (zoneDX env s g (initSt s g ef)).autoSizedValue *
          (zoneDX env s g (initSt s g ef)).dataFracOfAutosizedCoolingCapacity
        rw [hf]
        exact mul_nonneg (zoneDX_nonneg env s g _ (hFan0 _)) hFrac
      · show 0 ≤ (zoneDX env s g (initSt s g ef)).DesVolFlow
        rw [hd]
        exact hFlow
    · rw [resolve_sysPrimary env s g ov _ hp]
      by_cases hs : s.dataFlowUsedForSizing ≥ g.SmallAirVolFlow
      · obtain ⟨h1, _⟩ := sysPrimary_derived env s g
          { initSt s g ef with OutAirFrac := 0, dataFracOfAutosizedCoolingCapacity := 1 }
          hM1 hM2 hs
        have hd := sysPrimary_derived_DesVolFlow env s g
          { initSt s g ef with OutAirFrac := 0, dataFracOfAutosizedCoolingCapacity := 1 }
          hM1 hM2 hs
        have hf := sysPrimary_frac env s g
          { initSt s g ef with OutAirFrac := 0, dataFracOfAutosizedCoolingCapacity := 1 }
        constructor
        · show 0 ≤ (sysPrimary env s g _).autoSizedValue
          rw [h1, hf]
          apply mul_nonneg
          · apply ratedFromPeak_nonneg
            unfold sysPrimaryPeakCoilLoad
            dsimp only
            split_ifs <;> exact le_max_left _ _
          · split_ifs
            · exact hFracSys
            · exact zero_le_one
        · show 0 ≤ (sysPrimary env s g _).DesVolFlow
          rw [hd]
          exact sysPrimaryDesVolFlow_nonneg s hFlow
      · obtain ⟨h1, _, h3⟩ := sysPrimary_small env s g
          { initSt s g ef with OutAirFrac := 0, dataFracOfAutosizedCoolingCapacity := 1 }
          hM1 hM2 hs
        constructor
        · show 0 ≤ (sysPrimary env s g _).autoSizedValue
          rw [h1]
        · show 0 ≤ (sysPrimary env s g _).DesVolFlow
          rw [h3]
          exact hFlow
  show 0 ≤ (overrideStrings env s (guard env s g (resolve env s g ov (initSt s g ef)))).autoSizedValue
  exact guard_nonneg env s g _ hmin hle key.1 key.2

theorem exEnv_enthalpy_mono_temp (T1 T2 W : Real64) (h : T1 ≤ T2) :
    exEnv.PsyHFnTdbW T1 W ≤ exEnv.PsyHFnTdbW T2 W := by
  have hm : (0 : ℚ) ≤ max W (1 / 100000) := le_trans (by norm_num) (le_max_right _ _)
  show 100484 / 100 * T1 + max W (1 / 100000) * (2500940 + 185895 / 100 * T1) ≤
    100484 / 100 * T2 + max W (1 / 100000) * (2500940 + 185895 / 100 * T2)
  nlinarith [mul_nonneg hm (sub_nonneg.mpr h)]

theorem exEnv_enthalpy_mono_humrat (T W1 W2 : Real64) (hT : -1345 ≤ T) (h : W1 ≤ W2) :
    exEnv.PsyHFnTdbW T W1 ≤ exEnv.PsyHFnTdbW T W2 := by
  have hm : max W1 (1 / 100000 : ℚ) ≤ max W2 (1 / 100000) := max_le_max h (le_refl _)
  have hb : (0 : ℚ) ≤ 2500940 + 185895 / 100 * T := by linarith
  show 100484 / 100 * T + max W1 (1 / 100000) * (2500940 + 185895 / 100 * T) ≤
    100484 / 100 * T + max W2 (1 / 100000) * (2500940 + 185895 / 100 * T)
  nlinarith [mul_le_mul_of_nonneg_right hm hb]

/-- Instance of the non-negativity on the clamped derivations: the example
chilled-water coil in zone scope, with the engine's enthalpy formula. -/
theorem capacity_nonneg_clamped_derivations_instance :
    0 ≤ (CoolingCapacitySizer.size exEnv exZoneWater exGlobals (-99999) false).autoSizedValue :=
  capacity_nonneg_clamped_derivations exEnv exZoneWater exGlobals (-99999) false (-1345)
    exEnv_enthalpy_mono_temp exEnv_enthalpy_mono_humrat
    (by norm_num [exZoneWater, exSizer, exZoneSizing])
    (fun _ => le_refl (0 : ℚ))
    (by norm_num [exGlobals]) (by norm_num [exGlobals]) (by norm_num [exGlobals])
    (by norm_num [exZoneWater, exSizer])
    (by norm_num [exZoneWater, exSizer, exZoneSizing])
    (by norm_num [exZoneWater, exSizer])
    (by norm_num [exZoneWater, exSizer, exSysSizing])
    (Or.inl ⟨⟨⟨rfl, by norm_num [exZoneWater, exSizer]⟩, by decide, Or.inl rfl, rfl⟩, rfl,
      by decide, by decide, rfl⟩)

/-- C4, failing input: a chilled-water coil in a dedicated outdoor air system
with a non-negative sizing mass flow (1.2 kg/s), no fan heat and sizing
fraction 1, outdoor air at 10 C and a precool target of 20 C.  The
dedicated-outdoor-air-system branch (lines 285-299) clamps neither the outlet
state nor the load, and the capacity handed on is -12169.617 W. -/
theorem doas_capacity_negative :
    reachesDOAS exDOAS ∧
      0 ≤ (exDOAS.airloopDOAS (exDOAS.outsideAirSys exDOAS.curOASysNum).AirLoopDOASNum).SizingMassFlow ∧
      (∀ v, 0 ≤ exEnv.calcFanDesHeatGain v) ∧
      (CoolingCapacitySizer.size exEnv exDOAS exGlobals (-99999) false).autoSizedValue
        = -12169617 / 1000 ∧
      (CoolingCapacitySizer.size exEnv exDOAS exGlobals (-99999) false).autoSizedValue < 0 := by
  have hp : reachesDOAS exDOAS := by
    refine ⟨⟨⟨rfl, ?_⟩, ?_, ?_, Or.inl rfl⟩, rfl, rfl, ?_, ?_⟩
    · norm_num [exDOAS, exSizer]
    · decide
    · decide
    · decide
    · decide
  have hg : guardApplies exDOAS = false := by decide
  have hv : (CoolingCapacitySizer.size exEnv exDOAS exGlobals (-99999) false).autoSizedValue
      = -12169617 / 1000 := by
    rw [size_of_not_applies _ _ _ _ _ hg, resolve_sysDOAS _ _ _ _ _ hp]
    norm_num [overrideStrings, sysWarnings, St.emit, sysDOAS, initSt, exDOAS, exSizer,
      exAirLoopDOAS, exGlobals, exEnv]
  refine ⟨hp, ?_, ?_, hv, ?_⟩
  · norm_num [exDOAS, exSizer, exAirLoopDOAS]
  · intro v; exact le_refl (0 : ℚ)
  · rw [hv]; norm_num

/-! ## Scenario C: small design flow (C5) -/

/-- Small design flow, what the resolver selects: in the zone-scope derivation
for non-water-coil types and in the full primary-air-system derivation without
a capacity-method override, a design flow below `SmallAirVolFlow` makes the
resolver select 0 and leave the outlet temperature marker at -999; that
capacity is handed on whenever the guard's ratio test is not reached. -/
theorem small_flow_resolved (env : Env) (s : CoolingCapacitySizer) (g : Globals)
    (ov : Real64) (ef : Bool)
    (hPath : reachesZoneDX s ∨ reachesSysSmallFlowCheck env s)
    (hSmall : s.dataFlowUsedForSizing < g.SmallAirVolFlow) :
    (resolve env s g ov (initSt s g ef)).autoSizedValue = 0 ∧
      (resolve env s g ov (initSt s g ef)).CoilOutTemp = -999 ∧
      (resolve env s g ov (initSt s g ef)).DesVolFlow = s.dataFlowUsedForSizing ∧
      (CoolingCapacitySizer.size env s g ov ef).CoilOutTemp = -999 ∧
      (guardApplies s = false → (CoolingCapacitySizer.size env s g ov ef).autoSizedValue = 0) := by
  have hs : ¬ s.dataFlowUsedForSizing ≥ g.SmallAirVolFlow := not_le.mpr hSmall
  have key : (resolve env s g ov (initSt s g ef)).autoSizedValue = 0 ∧
      (resolve env s g ov (initSt s g ef)).CoilOutTemp = -999 ∧
      (resolve env s g ov (initSt s g ef)).DesVolFlow = s.dataFlowUsedForSizing := by
    rcases hPath with hz | ⟨hp, hM1, hM2⟩
    · rw [resolve_zoneDX env s g ov _ hz, zoneDX_small env s g _ hs]
      exact ⟨zero_mul _, rfl, rfl⟩
    · rw [resolve_sysPrimary env s g ov _ hp]
      obtain ⟨h1, h2, h3⟩ := sysPrimary_small env s g
        { initSt s g ef with OutAirFrac := 0, dataFracOfAutosizedCoolingCapacity := 1 } hM1 hM2 hs
      exact ⟨h1, h2, h3⟩
  refine ⟨key.1, key.2.1, key.2.2, ?_, ?_⟩
  · unfold CoolingCapacitySizer.size guard
    split_ifs
    · unfold guardCorrect
      dsimp only
      split_ifs <;> exact key.2.1
    · exact key.2.1
    · exact key.2.1
    · exact key.2.1
  · intro hg
    rw [size_of_not_applies _ _ _ _ _ hg]
    exact key.1

/-- C5, failing input: the auto-sized DX coil in zone scope with a design flow
of 0.0005 m3/s, below the threshold 0.001 m3/s.  The resolver selects 0 and
leaves the outlet marker at -999, but the guard's minimum branch then replaces
the capacity by 0.0005 / 4.027e-5 W, about 12.4 W. -/
theorem small_flow_guard_overrides_zero :
    reachesZoneDX exSmallFlow ∧ guardApplies exSmallFlow = true ∧
      exSmallFlow.dataFlowUsedForSizing < exGlobals.SmallAirVolFlow ∧
      (resolve exEnv exSmallFlow exGlobals (-99999)
        (initSt exSmallFlow exGlobals false)).autoSizedValue = 0 ∧
      (CoolingCapacitySizer.size exEnv exSmallFlow exGlobals (-99999) false).CoilOutTemp = -999 ∧
      (CoolingCapacitySizer.size exEnv exSmallFlow exGlobals (-99999) false).autoSizedValue
        = 50000 / 4027 := by
  have hp : reachesZoneDX exSmallFlow := by
    refine ⟨⟨⟨rfl, ?_⟩, ?_, Or.inl rfl, rfl⟩, rfl, ?_⟩
    · norm_num [exSmallFlow, exSizer]
    · decide
    · decide
  have hg : guardApplies exSmallFlow = true := by decide
  have hlt : exSmallFlow.dataFlowUsedForSizing < exGlobals.SmallAirVolFlow := by
    norm_num [exSmallFlow, exGlobals]
  have hr := small_flow_resolved exEnv exSmallFlow exGlobals (-99999) false (Or.inl hp) hlt
  refine ⟨hp, hg, hlt, hr.1, hr.2.2.2.1, ?_⟩
  rw [size_of_applies _ _ _ _ _ hg]
  simp only [overrideStrings, guardCorrect, ratedVolFlowPerRatedTotCap, St.emit, hr.1, hr.2.2.1]
  norm_num [exSmallFlow, exGlobals]

/-- Small design flow, instance: the fan coil that is not a DX coil is handed
on with capacity 0. -/
theorem small_flow_resolved_witness :
    (CoolingCapacitySizer.size exEnv exSmallFlowNoGuard exGlobals (-99999) false).autoSizedValue
      = 0 :=
  (small_flow_resolved exEnv exSmallFlowNoGuard exGlobals (-99999) false
    (Or.inl ⟨⟨⟨rfl, by norm_num [exSmallFlowNoGuard, exSizer]⟩, by decide, Or.inl rfl, rfl⟩, rfl,
      by decide⟩)
    (by norm_num [exSmallFlowNoGuard, exGlobals])).2.2.2.2 (by decide)

/-! ## Division by the modifier factor (C6) -/

theorem ratedFromPeak_pos (P f : Real64) (hf : 0 < f) : ratedFromPeak P f = P / f := by
  unfold ratedFromPeak
  rw [if_pos hf]

theorem ratedFromPeak_nonpos (P f : Real64) (hf : f ≤ 0) : ratedFromPeak P f = P := by
  unfold ratedFromPeak
  rw [if_neg (not_lt.mpr hf)]

theorem zoneTotCapTempModFac_pos_of_no_curve (env : Env) (s : CoolingCapacitySizer)
    (wb out : Real64) (h : s.dataTotCapCurveIndex ≤ 0) :
    0 < zoneTotCapTempModFac env s wb out := by
  unfold zoneTotCapTempModFac
  rw [if_neg (not_lt.mpr h)]
  split_ifs with h2
  · exact h2
  · exact zero_lt_one

theorem zoneDX_factor_eq (env : Env) (s : CoolingCapacitySizer) (g : Globals)
    (st : St) (hFlow : s.dataFlowUsedForSizing ≥ g.SmallAirVolFlow) :
    ∃ wb out, (zoneDX env s g st).TotCapTempModFac = zoneTotCapTempModFac env s wb out := by
  unfold zoneDX
  dsimp only
  rw [if_pos hFlow]
  exact ⟨_, _, rfl⟩

theorem zoneDX_factor_pos_of_no_curve (env : Env) (s : CoolingCapacitySizer) (g : Globals)
    (st : St) (hFlow : s.dataFlowUsedForSizing ≥ g.SmallAirVolFlow)
    (h : s.dataTotCapCurveIndex ≤ 0) : 0 < (zoneDX env s g st).TotCapTempModFac := by
  obtain ⟨wb, out, hf⟩ := zoneDX_factor_eq env s g st hFlow
  rw [hf]
  exact zoneTotCapTempModFac_pos_of_no_curve env s _ _ h

/-- C6: once the small-flow check is passed, the capacity the resolver selects
is the peak coil load divided by the modifier factor `f` left in
`TotCapTempModFac` when `f > 0`, and the peak coil load itself when `f <= 0`,
each times the sizing fraction; this holds in the zone-scope derivation and in
the full air-system derivation.  Without a capacity curve the factor is
positive (`dataTotCapCurveValue` or 1 in zone scope, 1 in air-system scope), so
a factor `f <= 0` comes from the curve only. -/
theorem rated_capacity_division (env : Env) (s : CoolingCapacitySizer) (g : Globals)
    (ov : Real64) (ef : Bool) (hFlow : s.dataFlowUsedForSizing ≥ g.SmallAirVolFlow) :
    (reachesZoneDX s →
      (0 < (resolve env s g ov (initSt s g ef)).TotCapTempModFac →
        (resolve env s g ov (initSt s g ef)).autoSizedValue =
          zoneDXPeakCoilLoad env s g (initSt s g ef) /
            (resolve env s g ov (initSt s g ef)).TotCapTempModFac *
            s.dataFracOfAutosizedCoolingCapacity) ∧
      ((resolve env s g ov (initSt s g ef)).TotCapTempModFac ≤ 0 →
        (resolve env s g ov (initSt s g ef)).autoSizedValue =
          zoneDXPeakCoilLoad env s g (initSt s g ef) * s.dataFracOfAutosizedCoolingCapacity) ∧
      (s.dataTotCapCurveIndex ≤ 0 → 0 < (resolve env s g ov (initSt s g ef)).TotCapTempModFac)) ∧
    (reachesSysSmallFlowCheck env s →
      (0 < (resolve env s g ov (initSt s g ef)).TotCapTempModFac →
        (resolve env s g ov (initSt s g ef)).autoSizedValue =
          sysPrimaryPeakCoilLoad env s g (initSt s g ef) /
            (resolve env s g ov (initSt s g ef)).TotCapTempModFac *
            (resolve env s g ov (initSt s g ef)).dataFracOfAutosizedCoolingCapacity) ∧
      ((resolve env s g ov (initSt s g ef)).TotCapTempModFac ≤ 0 →
        (resolve env s g ov (initSt s g ef)).autoSizedValue =
          sysPrimaryPeakCoilLoad env s g (initSt s g ef) *
            (resolve env s g ov (initSt s g ef)).dataFracOfAutosizedCoolingCapacity) ∧
      (s.dataTotCapCurveIndex ≤ 0 → (resolve env s g ov (initSt s g ef)).TotCapTempModFac = 1)) := by
  constructor
  · intro hz
    rw [resolve_zoneDX env s g ov _ hz]
    have hv : (zoneWarnings env s g (zoneScale (zoneDX env s g (initSt s g ef)))).autoSizedValue =
        ratedFromPeak (zoneDXPeakCoilLoad env s g (initSt s g ef))
          (zoneDX env s g (initSt s g ef)).TotCapTempModFac *
          (zoneDX env s g (initSt s g ef)).dataFracOfAutosizedCoolingCapacity := by
      rw [← zoneDX_rated env s g _ hFlow]
      rfl
    have hfr : (zoneDX env s g (initSt s g ef)).dataFracOfAutosizedCoolingCapacity =
        s.dataFracOfAutosizedCoolingCapacity := by
      unfold zoneDX
      dsimp only
      rw [if_pos hFlow]
      rfl
    have hf : (zoneWarnings env s g (zoneScale (zoneDX env s g (initSt s g ef)))).TotCapTempModFac =
        (zoneDX env s g (initSt s g ef)).TotCapTempModFac := rfl
    rw [hv, hf, hfr]
    refine ⟨fun h => by rw [ratedFromPeak_pos _ _ h], fun h => by rw [ratedFromPeak_nonpos _ _ h],
      fun h => zoneDX_factor_pos_of_no_curve env s g _ hFlow h⟩
  · rintro ⟨hp, hM1, hM2⟩
    rw [resolve_sysPrimary env s g ov _ hp]
    obtain ⟨h1, h2⟩ := sysPrimary_derived env s g
      { initSt s g ef with OutAirFrac := 0, dataFracOfAutosizedCoolingCapacity := 1 } hM1 hM2 hFlow
    have hv : ∀ st : St, (sysWarnings env s g { st with dataDesAccountForFanHeat := true }).autoSizedValue
        = st.autoSizedValue := fun _ => rfl
    have hf : ∀ st : St, (sysWarnings env s g { st with dataDesAccountForFanHeat := true }).TotCapTempModFac
        = st.TotCapTempModFac := fun _ => rfl
    have hd : ∀ st : St, (sysWarnings env s g
        { st with dataDesAccountForFanHeat := true }).dataFracOfAutosizedCoolingCapacity
        = st.dataFracOfAutosizedCoolingCapacity := fun _ => rfl
    have hP : sysPrimaryPeakCoilLoad env s g
        { initSt s g ef with OutAirFrac := 0, dataFracOfAutosizedCoolingCapacity := 1 } =
        sysPrimaryPeakCoilLoad env s g (initSt s g ef) := rfl
    rw [hv, hf, hd, h1, hP]
    refine ⟨fun h => by rw [ratedFromPeak_pos _ _ h], fun h => by rw [ratedFromPeak_nonpos _ _ h],
      h2⟩

/-- C6, witness: with a curve that evaluates to 0 the zone-scope derivation
hands on the peak coil load undivided; without a curve the zone-scope and the
air-system derivation divide by a positive factor. -/
theorem rated_capacity_division_witness :
    ((resolve exEnvZeroCurve exCurveCoil exGlobals (-99999)
        (initSt exCurveCoil exGlobals false)).TotCapTempModFac = 0 ∧
      (resolve exEnvZeroCurve exCurveCoil exGlobals (-99999)
        (initSt exCurveCoil exGlobals false)).autoSizedValue =
        zoneDXPeakCoilLoad exEnvZeroCurve exCurveCoil exGlobals (initSt exCurveCoil exGlobals false) *
          exCurveCoil.dataFracOfAutosizedCoolingCapacity) ∧
      (resolve exEnv exSizer exGlobals (-99999) (initSt exSizer exGlobals false)).autoSizedValue =
        zoneDXPeakCoilLoad exEnv exSizer exGlobals (initSt exSizer exGlobals false) /
          (resolve exEnv exSizer exGlobals (-99999) (initSt exSizer exGlobals false)).TotCapTempModFac *
          exSizer.dataFracOfAutosizedCoolingCapacity ∧
      (resolve exEnv exSysPrimary exGlobals (-99999)
        (initSt exSysPrimary exGlobals false)).autoSizedValue =
        sysPrimaryPeakCoilLoad exEnv exSysPrimary exGlobals (initSt exSysPrimary exGlobals false) /
          (resolve exEnv exSysPrimary exGlobals (-99999)
            (initSt exSysPrimary exGlobals false)).TotCapTempModFac *
          (resolve exEnv exSysPrimary exGlobals (-99999)
            (initSt exSysPrimary exGlobals false)).dataFracOfAutosizedCoolingCapacity := by
  have hzC : reachesZoneDX exCurveCoil :=
    ⟨⟨⟨rfl, by norm_num [exCurveCoil, exSizer]⟩, by decide, Or.inl rfl, rfl⟩, rfl, by decide⟩
  have hz : reachesZoneDX exSizer :=
    ⟨⟨⟨rfl, by norm_num [exSizer]⟩, by decide, Or.inl rfl, rfl⟩, rfl, by decide⟩
  have hs : reachesSysSmallFlowCheck exEnv exSysPrimary :=
    ⟨⟨⟨⟨rfl, by norm_num [exSysPrimary, exSizer]⟩, by decide, by decide, Or.inl rfl⟩, rfl, rfl,
        by decide⟩, by decide, by decide⟩
  have hfC : exCurveCoil.dataFlowUsedForSizing ≥ exGlobals.SmallAirVolFlow := by
    norm_num [exCurveCoil, exSizer, exGlobals]
  have hf : exSizer.dataFlowUsedForSizing ≥ exGlobals.SmallAirVolFlow := by
    norm_num [exSizer, exGlobals]
  have hfS : exSysPrimary.dataFlowUsedForSizing ≥ exGlobals.SmallAirVolFlow := by
    norm_num [exSysPrimary, exSizer, exGlobals]
  have hz0 : ∀ wb out, zoneTotCapTempModFac exEnvZeroCurve exCurveCoil wb out = 0 := by
    intro wb out
    unfold zoneTotCapTempModFac
    rw [if_pos (by decide)]
    rfl
  have h0 : (resolve exEnvZeroCurve exCurveCoil exGlobals (-99999)
      (initSt exCurveCoil exGlobals false)).TotCapTempModFac = 0 := by
    rw [resolve_zoneDX _ _ _ _ _ hzC]
    show (zoneDX exEnvZeroCurve exCurveCoil exGlobals (initSt exCurveCoil exGlobals false)).TotCapTempModFac
      = 0
    obtain ⟨wb, out, hw⟩ := zoneDX_factor_eq exEnvZeroCurve exCurveCoil exGlobals
      (initSt exCurveCoil exGlobals false) hfC
    rw [hw]
    exact hz0 wb out
  have hC := (rated_capacity_division exEnvZeroCurve exCurveCoil exGlobals (-99999) false hfC).1 hzC
  have hZ := (rated_capacity_division exEnv exSizer exGlobals (-99999) false hf).1 hz
  have hS := (rated_capacity_division exEnv exSysPrimary exGlobals (-99999) false hfS).2 hs
  refine ⟨⟨h0, hC.2.1 (le_of_eq h0)⟩, hZ.1 (hZ.2.2 (by decide)), hS.1 ?_⟩
  rw [hS.2.2 (by decide)]
  exact zero_lt_one

/-! ## The plausibility guard in exact arithmetic (C9, C10) -/

theorem resolve_init_ratios (env : Env) (s : CoolingCapacitySizer) (g : Globals)
    (ov : Real64) (ef : Bool) :
    (resolve env s g ov (initSt s g ef)).DXFlowPerCapMinRatio = 1 ∧
      (resolve env s g ov (initSt s g ef)).DXFlowPerCapMaxRatio = 1 :=
  resolve_ratios env s g ov (initSt s g ef)

theorem guardCorrect_min (env : Env) (s : CoolingCapacitySizer) (g : Globals) (st : St)
    (h : ratedVolFlowPerRatedTotCap st.DesVolFlow st.autoSizedValue <
      g.MinRatedVolFlowPerRatedTotCap g.DXCT) :
    guardCorrect env s g st =
      { st.emit (guardMinLines env s g st) with
        DXFlowPerCapMinRatio :=
          (st.DesVolFlow / g.MinRatedVolFlowPerRatedTotCap g.DXCT) / st.autoSizedValue
        autoSizedValue := st.DesVolFlow / g.MinRatedVolFlowPerRatedTotCap g.DXCT } := by
  unfold guardCorrect
  dsimp only
  rw [if_pos h]

theorem guardCorrect_max (env : Env) (s : CoolingCapacitySizer) (g : Globals) (st : St)
    (h1 : ¬ ratedVolFlowPerRatedTotCap st.DesVolFlow st.autoSizedValue <
      g.MinRatedVolFlowPerRatedTotCap g.DXCT)
    (h2 : ratedVolFlowPerRatedTotCap st.DesVolFlow st.autoSizedValue >
      g.MaxRatedVolFlowPerRatedTotCap g.DXCT) :
    guardCorrect env s g st =
      { st.emit (guardMaxLines env s g st) with
        DXFlowPerCapMaxRatio :=
          st.DesVolFlow / g.MaxRatedVolFlowPerRatedTotCap g.DXCT / st.autoSizedValue
        autoSizedValue := st.DesVolFlow / g.MaxRatedVolFlowPerRatedTotCap g.DXCT } := by
  unfold guardCorrect
  dsimp only
  rw [if_neg h1, if_pos h2]

theorem guardCorrect_inrange (env : Env) (s : CoolingCapacitySizer) (g : Globals) (st : St)
    (h1 : ¬ ratedVolFlowPerRatedTotCap st.DesVolFlow st.autoSizedValue <
      g.MinRatedVolFlowPerRatedTotCap g.DXCT)
    (h2 : ¬ ratedVolFlowPerRatedTotCap st.DesVolFlow st.autoSizedValue >
      g.MaxRatedVolFlowPerRatedTotCap g.DXCT) :
    guardCorrect env s g st = st := by
  unfold guardCorrect
  dsimp only
  rw [if_neg h1, if_neg h2]

theorem ratedVolFlowPerRatedTotCap_pos (D c : Real64) (hc : 0 < c) :
    ratedVolFlowPerRatedTotCap D c = D / c := by
  unfold ratedVolFlowPerRatedTotCap
  rw [if_pos hc]

theorem ratedVolFlowPerRatedTotCap_nonpos (D c : Real64) (hc : c ≤ 0) :
    ratedVolFlowPerRatedTotCap D c = 0 := by
  unfold ratedVolFlowPerRatedTotCap
  rw [if_neg (not_lt.mpr hc)]

/-- What the resolver leaves for a parent-computed capacity in zone scope. -/
theorem resolve_zone_parent_values (env : Env) (s : CoolingCapacitySizer) (g : Globals)
    (ov : Real64) (ef : Bool)
    (hEMS : s.dataEMSOverrideON = false)
    (hConst : ¬ (s.dataConstantUsedForSizing ≥ 0 ∧ s.dataFractionUsedForSizing > 0))
    (hZone : s.curZoneEqNum > 0)
    (hAuto : s.wasAutoSized = true ∨ s.sizingDesRunThisZone = true)
    (hDSFP : (s.zoneEqSizing s.curZoneEqNum).DesignSizeFromParent = false)
    (hCC : (s.zoneEqSizing s.curZoneEqNum).CoolingCapacity = true) :
    (resolve env s g ov (initSt s g ef)).autoSizedValue =
        (s.zoneEqSizing s.curZoneEqNum).DesCoolingLoad * s.dataFracOfAutosizedCoolingCapacity ∧
      (resolve env s g ov (initSt s g ef)).DesVolFlow = s.dataFlowUsedForSizing := by
  rw [resolve_zone_parent env s g ov ef hEMS hConst hZone hAuto hDSFP hCC]
  exact ⟨rfl, rfl⟩

/-- C9: when the guard's ratio test is reached with a capacity `c > 0` left by
the resolver and `min <= DesVolFlow / c <= max`, the capacity is handed on
unchanged and both recorded correction ratios are 1. -/
theorem guard_in_range (env : Env) (s : CoolingCapacitySizer) (g : Globals)
    (ov : Real64) (ef : Bool) (p : St)
    (hp : p = resolve env s g ov (initSt s g ef))
    (hg : guardApplies s = true)
    (hc : 0 < p.autoSizedValue)
    (hlo : g.MinRatedVolFlowPerRatedTotCap g.DXCT ≤ p.DesVolFlow / p.autoSizedValue)
    (hhi : p.DesVolFlow / p.autoSizedValue ≤ g.MaxRatedVolFlowPerRatedTotCap g.DXCT) :
    (CoolingCapacitySizer.size env s g ov ef).autoSizedValue = p.autoSizedValue ∧
      guard env s g p = p ∧
      (CoolingCapacitySizer.size env s g ov ef).DXFlowPerCapMinRatio = 1 ∧
      (CoolingCapacitySizer.size env s g ov ef).DXFlowPerCapMaxRatio = 1 := by
  have h1 : ¬ ratedVolFlowPerRatedTotCap p.DesVolFlow p.autoSizedValue <
      g.MinRatedVolFlowPerRatedTotCap g.DXCT := by
    rw [ratedVolFlowPerRatedTotCap_pos _ _ hc]; exact not_lt.mpr hlo
  have h2 : ¬ ratedVolFlowPerRatedTotCap p.DesVolFlow p.autoSizedValue >
      g.MaxRatedVolFlowPerRatedTotCap g.DXCT := by
    rw [ratedVolFlowPerRatedTotCap_pos _ _ hc]; exact not_lt.mpr hhi
  have hs : CoolingCapacitySizer.size env s g ov ef =
      overrideStrings env s (guardCorrect env s g p) := by
    rw [size_of_applies _ _ _ _ _ hg, hp]
  rw [hs, guard_of_applies _ _ _ _ hg, guardCorrect_inrange env s g p h1 h2]
  refine ⟨rfl, rfl, ?_, ?_⟩
  · show p.DXFlowPerCapMinRatio = 1
    rw [hp]
    exact (resolve_init_ratios env s g ov ef).1
  · show p.DXFlowPerCapMaxRatio = 1
    rw [hp]
    exact (resolve_init_ratios env s g ov ef).2

/-- C9, witness: a parent load of 20 kW on 1 m3/s has the ratio 5e-5, inside
the envelope, and is handed on as 20 kW with both ratios 1. -/
theorem guard_in_range_witness :
    guardApplies exInRange = true ∧
      (CoolingCapacitySizer.size exEnv exInRange exGlobals (-99999) false).autoSizedValue
        = 20000 ∧
      (CoolingCapacitySizer.size exEnv exInRange exGlobals (-99999) false).DXFlowPerCapMinRatio
        = 1 ∧
      (CoolingCapacitySizer.size exEnv exInRange exGlobals (-99999) false).DXFlowPerCapMaxRatio
        = 1 := by
  have hv := resolve_zone_parent_values exEnv exInRange exGlobals (-99999) false rfl
    (by norm_num [exInRange, exSizer]) (by decide) (Or.inl rfl) rfl rfl
  have hc : (resolve exEnv exInRange exGlobals (-99999)
      (initSt exInRange exGlobals false)).autoSizedValue = 20000 := by
    rw [hv.1]; norm_num [exInRange, exSizer, exZoneEqSizing]
  have hd : (resolve exEnv exInRange exGlobals (-99999)
      (initSt exInRange exGlobals false)).DesVolFlow = 1 := by
    rw [hv.2]; rfl
  have h := guard_in_range exEnv exInRange exGlobals (-99999) false _ rfl (by decide)
    (by rw [hc]; norm_num) (by rw [hc, hd]; norm_num [exGlobals])
    (by rw [hc, hd]; norm_num [exGlobals])
  exact ⟨by decide, by rw [h.1, hc], h.2.2.1, h.2.2.2⟩

/-- A capacity equal to `DesVolFlow / min` is a fixed point of the correction. -/
theorem guardCorrect_fixed_min (env : Env) (s : CoolingCapacitySizer) (g : Globals) (st : St)
    (hmin : 0 < g.MinRatedVolFlowPerRatedTotCap g.DXCT)
    (hle : g.MinRatedVolFlowPerRatedTotCap g.DXCT ≤ g.MaxRatedVolFlowPerRatedTotCap g.DXCT)
    (h : st.autoSizedValue = st.DesVolFlow / g.MinRatedVolFlowPerRatedTotCap g.DXCT) :
    (guardCorrect env s g st).autoSizedValue = st.autoSizedValue := by
  by_cases hD : 0 < st.DesVolFlow
  · have hc : 0 < st.autoSizedValue := by rw [h]; exact div_pos hD hmin
    have hr : ratedVolFlowPerRatedTotCap st.DesVolFlow st.autoSizedValue =
        g.MinRatedVolFlowPerRatedTotCap g.DXCT := by
      rw [ratedVolFlowPerRatedTotCap_pos _ _ hc, h, div_div_cancel₀ hD.ne']
    rw [guardCorrect_inrange env s g st (by rw [hr]; exact lt_irrefl _)
      (by rw [hr]; exact not_lt.mpr hle)]
  · have hc : st.autoSizedValue ≤ 0 := by
      rw [h]; exact div_nonpos_of_nonpos_of_nonneg (not_lt.mp hD) hmin.le
    rw [guardCorrect_min env s g st (by rw [ratedVolFlowPerRatedTotCap_nonpos _ _ hc]; exact hmin)]
    exact h.symm

/-- A capacity equal to `DesVolFlow / max` with a positive design flow is a
fixed point of the correction. -/
theorem guardCorrect_fixed_max (env : Env) (s : CoolingCapacitySizer) (g : Globals) (st : St)
    (hmin : 0 < g.MinRatedVolFlowPerRatedTotCap g.DXCT)
    (hle : g.MinRatedVolFlowPerRatedTotCap g.DXCT ≤ g.MaxRatedVolFlowPerRatedTotCap g.DXCT)
    (hD : 0 < st.DesVolFlow)
    (h : st.autoSizedValue = st.DesVolFlow / g.MaxRatedVolFlowPerRatedTotCap g.DXCT) :
    (guardCorrect env s g st).autoSizedValue = st.autoSizedValue := by
  have hmax : 0 < g.MaxRatedVolFlowPerRatedTotCap g.DXCT := lt_of_lt_of_le hmin hle
  have hc : 0 < st.autoSizedValue := by rw [h]; exact div_pos hD hmax
  have hr : ratedVolFlowPerRatedTotCap st.DesVolFlow st.autoSizedValue =
      g.MaxRatedVolFlowPerRatedTotCap g.DXCT := by
    rw [ratedVolFlowPerRatedTotCap_pos _ _ hc, h, div_div_cancel₀ hD.ne']
  rw [guardCorrect_inrange env s g st (by rw [hr]; exact not_lt.mpr hle)
    (by rw [hr]; exact lt_irrefl _)]

theorem guardCorrect_idempotent (env : Env) (s : CoolingCapacitySizer) (g : Globals) (st : St)
    (hmin : 0 < g.MinRatedVolFlowPerRatedTotCap g.DXCT)
    (hle : g.MinRatedVolFlowPerRatedTotCap g.DXCT ≤ g.MaxRatedVolFlowPerRatedTotCap g.DXCT) :
    (guardCorrect env s g (guardCorrect env s g st)).autoSizedValue =
      (guardCorrect env s g st).autoSizedValue := by
  have hmax : 0 < g.MaxRatedVolFlowPerRatedTotCap g.DXCT := lt_of_lt_of_le hmin hle
  by_cases h1 : ratedVolFlowPerRatedTotCap st.DesVolFlow st.autoSizedValue <
      g.MinRatedVolFlowPerRatedTotCap g.DXCT
  · rw [guardCorrect_min env s g st h1]
    exact guardCorrect_fixed_min env s g _ hmin hle rfl
  · by_cases h2 : ratedVolFlowPerRatedTotCap st.DesVolFlow st.autoSizedValue >
        g.MaxRatedVolFlowPerRatedTotCap g.DXCT
    · rw [guardCorrect_max env s g st h1 h2]
      have hcpos : 0 < st.autoSizedValue := by
        by_contra hn
        rw [ratedVolFlowPerRatedTotCap_nonpos _ _ (not_lt.mp hn)] at h2
        exact absurd h2 (not_lt.mpr hmax.le)
      rw [ratedVolFlowPerRatedTotCap_pos _ _ hcpos] at h2
      have hD : 0 < st.DesVolFlow := by
        have := lt_trans hmax h2
        rcases (div_pos_iff.mp this) with h | h
        · exact h.1
        · exact absurd hcpos (not_lt.mpr h.2.le)
      exact guardCorrect_fixed_max env s g _ hmin hle hD rfl
    · rw [guardCorrect_inrange env s g st h1 h2, guardCorrect_inrange env s g st h1 h2]

theorem guardCorrect_DesVolFlow (env : Env) (s : CoolingCapacitySizer) (g : Globals) (st : St) :
    (guardCorrect env s g st).DesVolFlow = st.DesVolFlow := by
  unfold guardCorrect
  dsimp only
  split_ifs <;> rfl

/-- C10: for every state, that is for every design flow and every capacity, and
every pair of bounds `0 < min <= max`, the guard leaves the design flow alone
and applying the guard to the pair it has already corrected returns the same
capacity. -/
theorem guard_idempotent (env : Env) (s : CoolingCapacitySizer) (g : Globals) (st : St)
    (hmin : 0 < g.MinRatedVolFlowPerRatedTotCap g.DXCT)
    (hle : g.MinRatedVolFlowPerRatedTotCap g.DXCT ≤ g.MaxRatedVolFlowPerRatedTotCap g.DXCT) :
    (guard env s g st).DesVolFlow = st.DesVolFlow ∧
      (guard env s g (guard env s g st)).autoSizedValue = (guard env s g st).autoSizedValue := by
  cases hg : guardApplies s
  · rw [guard_of_not_applies _ _ _ _ hg, guard_of_not_applies _ _ _ _ hg]
    exact ⟨rfl, rfl⟩
  · rw [guard_of_applies _ _ _ _ hg, guard_of_applies _ _ _ _ hg]
    exact ⟨guardCorrect_DesVolFlow env s g st, guardCorrect_idempotent env s g st hmin hle⟩

/-- C10, witness: the guard applied twice to the oversized coil, 100 kW on
1 m3/s, gives 1 / 4.027e-5 W both times. -/
theorem guard_idempotent_witness :
    (guard exEnv exOversized exGlobals
        (guard exEnv exOversized exGlobals
          { initSt exOversized exGlobals false with
            DesVolFlow := 1, autoSizedValue := 100000 })).autoSizedValue =
      (guard exEnv exOversized exGlobals
        { initSt exOversized exGlobals false with
          DesVolFlow := 1, autoSizedValue := 100000 }).autoSizedValue ∧
    (guard exEnv exOversized exGlobals
        { initSt exOversized exGlobals false with
          DesVolFlow := 1, autoSizedValue := 100000 }).autoSizedValue = 100000000 / 4027 := by
  refine ⟨(guard_idempotent exEnv exOversized exGlobals _ (by norm_num [exGlobals])
    (by norm_num [exGlobals])).2, ?_⟩
  rw [guard_of_applies _ _ _ _ (by decide), guardCorrect_min]
  · norm_num [exGlobals]
  · norm_num [ratedVolFlowPerRatedTotCap, exGlobals]

/-! ## The guard's applicability (C12) -/

theorem guardApplies_eq_false_iff (s : CoolingCapacitySizer) :
    guardApplies s = false ↔
      (s.wasAutoSized = false ∨ s.dataIsDXCoil = false ∨
        SameString s.compType
          "Coil:Cooling:DX:VariableRefrigerantFlow:FluidTemperatureControl" = true ∨
        SameString s.compType
          "Coil:Heating:DX:VariableRefrigerantFlow:FluidTemperatureControl" = true ∨
        (s.hardSizeNoDesignRun = true ∧ s.dataScalableSizingON = false ∧
          s.dataScalableCapSizingON = false)) := by
  unfold guardApplies FlagCheckVolFlowPerRatedTotCap
  cases s.wasAutoSized <;> cases s.dataIsDXCoil <;> cases s.hardSizeNoDesignRun <;>
    cases s.dataScalableSizingON <;> cases s.dataScalableCapSizingON <;>
    cases SameString s.compType
      "Coil:Cooling:DX:VariableRefrigerantFlow:FluidTemperatureControl" <;>
    cases SameString s.compType
      "Coil:Heating:DX:VariableRefrigerantFlow:FluidTemperatureControl" <;>
    simp

/-- C12: the guard leaves the state alone, so that the capacity handed on is the
resolver's and both correction ratios are 1, whenever `wasAutoSized` is false,
or `dataIsDXCoil` is false, or `compType` is, up to case, one of the two VRF
fluid-temperature-control coil types, or `hardSizeNoDesignRun` is set while
neither `dataScalableSizingON` nor `dataScalableCapSizingON` is; in every other
case the guard is its ratio test. -/
theorem guard_applicability (env : Env) (s : CoolingCapacitySizer) (g : Globals)
    (ov : Real64) (ef : Bool) :
    ((s.wasAutoSized = false ∨ s.dataIsDXCoil = false ∨
        SameString s.compType
          "Coil:Cooling:DX:VariableRefrigerantFlow:FluidTemperatureControl" = true ∨
        SameString s.compType
          "Coil:Heating:DX:VariableRefrigerantFlow:FluidTemperatureControl" = true ∨
        (s.hardSizeNoDesignRun = true ∧ s.dataScalableSizingON = false ∧
          s.dataScalableCapSizingON = false)) →
      (∀ st, guard env s g st = st) ∧
      (CoolingCapacitySizer.size env s g ov ef).autoSizedValue =
        (resolve env s g ov (initSt s g ef)).autoSizedValue ∧
      (CoolingCapacitySizer.size env s g ov ef).DXFlowPerCapMinRatio = 1 ∧
      (CoolingCapacitySizer.size env s g ov ef).DXFlowPerCapMaxRatio = 1) ∧
    (¬ (s.wasAutoSized = false ∨ s.dataIsDXCoil = false ∨
        SameString s.compType
          "Coil:Cooling:DX:VariableRefrigerantFlow:FluidTemperatureControl" = true ∨
        SameString s.compType
          "Coil:Heating:DX:VariableRefrigerantFlow:FluidTemperatureControl" = true ∨
        (s.hardSizeNoDesignRun = true ∧ s.dataScalableSizingON = false ∧
          s.dataScalableCapSizingON = false)) →
      ∀ st, guard env s g st = guardCorrect env s g st) := by
  constructor
  · intro h
    have hg : guardApplies s = false := (guardApplies_eq_false_iff s).mpr h
    refine ⟨fun st => guard_of_not_applies env s g st hg, ?_, ?_, ?_⟩
    · rw [size_of_not_applies _ _ _ _ _ hg]; rfl
    · rw [size_of_not_applies _ _ _ _ _ hg]
      exact (resolve_init_ratios env s g ov ef).1
    · rw [size_of_not_applies _ _ _ _ _ hg]
      exact (resolve_init_ratios env s g ov ef).2
  · intro h st
    have hg : guardApplies s = true := by
      cases hga : guardApplies s
      · exact absurd ((guardApplies_eq_false_iff s).mp hga) h
      · rfl
    exact guard_of_applies env s g st hg

/-- C12, witness: the coil typed in lower case as a VRF fluid-temperature-control
coil passes the guard untouched; the single-speed DX coil meets the ratio
test. -/
theorem guard_applicability_witness :
    SameString exVRF.compType
        "Coil:Cooling:DX:VariableRefrigerantFlow:FluidTemperatureControl" = true ∧
      (CoolingCapacitySizer.size exEnv exVRF exGlobals (-99999) false).DXFlowPerCapMinRatio = 1 ∧
      (CoolingCapacitySizer.size exEnv exVRF exGlobals (-99999) false).DXFlowPerCapMaxRatio = 1 ∧
      (∀ st, guard exEnv exSizer exGlobals st = guardCorrect exEnv exSizer exGlobals st) := by
  have h1 := (guard_applicability exEnv exVRF exGlobals (-99999) false).1
    (Or.inr (Or.inr (Or.inl (by decide))))
  have h2 := (guard_applicability exEnv exSizer exGlobals (-99999) false).2 (by decide)
  exact ⟨by decide, h1.2.2.1, h1.2.2.2, h2⟩

/-! ## Precedence of the resolver outside the scopes (C13, C14) -/

/-- C13: with the override off, `dataConstantUsedForSizing >= 0` and
`dataFractionUsedForSizing > 0`, the resolver selects exactly
`dataConstantUsedForSizing * dataFractionUsedForSizing` and changes nothing
else, whatever the scope indices, the auto-sized flag and the design data are;
with a zero constant the value is 0. -/
theorem constant_times_fraction (env : Env) (s : CoolingCapacitySizer) (g : Globals)
    (ov : Real64) (ef : Bool)
    (hEMS : s.dataEMSOverrideON = false)
    (hC : s.dataConstantUsedForSizing ≥ 0)
    (hF : s.dataFractionUsedForSizing > 0) :
    resolve env s g ov (initSt s g ef) =
        { initSt s g ef with
          autoSizedValue := s.dataConstantUsedForSizing * s.dataFractionUsedForSizing } ∧
      (resolve env s g ov (initSt s g ef)).autoSizedValue =
        s.dataConstantUsedForSizing * s.dataFractionUsedForSizing ∧
      (s.dataConstantUsedForSizing = 0 →
        (resolve env s g ov (initSt s g ef)).autoSizedValue = 0) := by
  have hr : resolve env s g ov (initSt s g ef) =
      { initSt s g ef with
        autoSizedValue := s.dataConstantUsedForSizing * s.dataFractionUsedForSizing } := by
    unfold resolve
    rw [if_neg (by simp [hEMS]), if_pos ⟨hC, hF⟩]
  refine ⟨hr, by rw [hr], ?_⟩
  intro h0
  rw [hr]
  show s.dataConstantUsedForSizing * s.dataFractionUsedForSizing = 0
  rw [h0, zero_mul]

/-- C13, witness: a constant of 5000 W times a fraction of 0.8 resolves to
4000 W in zone scope. -/
theorem constant_times_fraction_witness :
    exConstFrac.curZoneEqNum > 0 ∧
      (resolve exEnv exConstFrac exGlobals (-99999)
        (initSt exConstFrac exGlobals false)).autoSizedValue = 4000 := by
  refine ⟨by decide, ?_⟩
  rw [(constant_times_fraction exEnv exConstFrac exGlobals (-99999) false rfl
    (by norm_num [exConstFrac]) (by norm_num [exConstFrac])).2.1]
  norm_num [exConstFrac]

/-- C14: with the override off, the constant-times-fraction branch not taken,
`curZoneEqNum <= 0` and `curSysNum <= 0`, the resolver selects
`dataNonZoneNonAirloopValue` when that value is `> 0`, also for a request that
is not auto-sized, and otherwise the sizer's original value when `wasAutoSized`
is false. -/
theorem standalone_value (env : Env) (s : CoolingCapacitySizer) (g : Globals)
    (ov : Real64) (ef : Bool)
    (hd : reachesScopeDispatch s)
    (hZ : s.curZoneEqNum ≤ 0)
    (hS : s.curSysNum ≤ 0) :
    (s.dataNonZoneNonAirloopValue > 0 →
      (resolve env s g ov (initSt s g ef)).autoSizedValue = s.dataNonZoneNonAirloopValue) ∧
    (¬ s.dataNonZoneNonAirloopValue > 0 → s.wasAutoSized = false →
      (resolve env s g ov (initSt s g ef)).autoSizedValue = s.originalValue) := by
  obtain ⟨hEMS, hConst⟩ := hd
  constructor
  · intro h
    unfold resolve
    rw [if_neg (by simp [hEMS]), if_neg hConst, if_neg (not_lt.mpr hZ), if_neg (not_lt.mpr hS),
      if_pos h]
  · intro h ha
    unfold resolve
    rw [if_neg (by simp [hEMS]), if_neg hConst, if_neg (not_lt.mpr hZ), if_neg (not_lt.mpr hS),
      if_neg h, if_pos (by simp [ha])]

/-- C14, witness: outside both scopes a standalone value of 3000 W is selected
for a request that is not auto-sized, and without it the original 750 W. -/
theorem standalone_value_witness :
    exStandalone.wasAutoSized = false ∧
      (resolve exEnv exStandalone exGlobals 750
        (initSt exStandalone exGlobals false)).autoSizedValue = 3000 ∧
      (resolve exEnv exHardSized exGlobals 750
        (initSt exHardSized exGlobals false)).autoSizedValue = 750 := by
  have h1 := (standalone_value exEnv exStandalone exGlobals 750 false
    ⟨rfl, by norm_num [exStandalone, exSizer]⟩ (by decide) (by decide)).1
    (by norm_num [exStandalone])
  have h2 := (standalone_value exEnv exHardSized exGlobals 750 false
    ⟨rfl, by norm_num [exHardSized, exSizer]⟩ (by decide) (by decide)).2
    (by norm_num [exHardSized, exSizer]) rfl
  exact ⟨rfl, h1, h2⟩

/-! ## Configuration error (C15) -/

theorem noErrorRecord_nil : noErrorRecord [] := by
  intro e he
  cases he

theorem noErrorRecord_append (a b : List Emitted) (ha : noErrorRecord a) (hb : noErrorRecord b) :
    noErrorRecord (a ++ b) := by
  intro e he
  rcases List.mem_append.mp he with h | h
  · exact ha e h
  · exact hb e h

theorem extendsQuietly_refl (st : St) : extendsQuietly st st :=
  ⟨rfl, [], (List.append_nil _).symm, noErrorRecord_nil⟩

theorem extendsQuietly_trans (a b c : St) (h1 : extendsQuietly a b) (h2 : extendsQuietly b c) :
    extendsQuietly a c := by
  obtain ⟨e1, l1, hl1, n1⟩ := h1
  obtain ⟨e2, l2, hl2, n2⟩ := h2
  refine ⟨e2.trans e1, l1 ++ l2, ?_, noErrorRecord_append _ _ n1 n2⟩
  rw [hl2, hl1, List.append_assoc]

/-- A step that changes neither `errorsFound` nor the emitted calls. -/
theorem extendsQuietly_of_eq (st st' : St) (h1 : st'.errorsFound = st.errorsFound)
    (h2 : st'.emitted = st.emitted) : extendsQuietly st st' :=
  ⟨h1, [], by rw [h2, List.append_nil], noErrorRecord_nil⟩

theorem extendsQuietly_emit (st : St) (l : List Emitted) (h : noErrorRecord l) :
    extendsQuietly st (st.emit l) :=
  ⟨rfl, l, rfl, h⟩

theorem noErrorRecord_airStateLines (env : Env) (st : St) :
    noErrorRecord (airStateLines env st) := by
  intro e he
  simp only [airStateLines, List.mem_cons, List.mem_singleton, List.not_mem_nil, or_false] at he
  rcases he with rfl | rfl | rfl <;> rfl

theorem noErrorRecord_potentialIssueLines (env : Env) (s : CoolingCapacitySizer) (st : St) :
    noErrorRecord (potentialIssueLines env s st) := by
  intro e he
  simp only [potentialIssueLines, List.mem_cons, List.mem_singleton, List.not_mem_nil,
    or_false] at he
  rcases he with rfl | rfl <;> rfl

theorem noErrorRecord_singleton_continue (m : String) :
    noErrorRecord [Emitted.ShowContinueError m] := by
  intro e he
  simp only [List.mem_singleton] at he
  rw [he]
  rfl

theorem noErrorRecord_zoneWarningLines (env : Env) (s : CoolingCapacitySizer) (g : Globals)
    (st : St) : noErrorRecord (zoneWarningLines env s g st) := by
  unfold zoneWarningLines
  split_ifs
  · exact noErrorRecord_append _ _ (noErrorRecord_potentialIssueLines env s st)
      (noErrorRecord_singleton_continue _)
  · exact noErrorRecord_append _ _ (noErrorRecord_potentialIssueLines env s st)
      (noErrorRecord_singleton_continue _)
  · exact noErrorRecord_append _ _ (noErrorRecord_potentialIssueLines env s st)
      (noErrorRecord_airStateLines env st)
  · exact noErrorRecord_append _ _ (noErrorRecord_potentialIssueLines env s st)
      (noErrorRecord_airStateLines env st)
  · exact noErrorRecord_append _ _ (noErrorRecord_potentialIssueLines env s st)
      (noErrorRecord_singleton_continue _)
  · exact noErrorRecord_nil

theorem noErrorRecord_sysWarningLines (env : Env) (s : CoolingCapacitySizer) (g : Globals)
    (st : St) : noErrorRecord (sysWarningLines env s g st) := by
  unfold sysWarningLines
  dsimp only
  split_ifs
  · exact noErrorRecord_append _ _ (noErrorRecord_potentialIssueLines env s st)
      (noErrorRecord_singleton_continue _)
  · apply noErrorRecord_append _ _ (noErrorRecord_potentialIssueLines env s st)
    intro e he
    simp only [List.mem_cons, List.mem_singleton, List.not_mem_nil, or_false] at he
    rcases he with rfl | rfl | rfl | rfl <;> rfl
  · exact noErrorRecord_nil

theorem noErrorRecord_guardMinLines (env : Env) (s : CoolingCapacitySizer) (g : Globals)
    (st : St) : noErrorRecord (guardMinLines env s g st) := by
  unfold guardMinLines
  dsimp only
  split_ifs
  · intro e he
    simp only [List.mem_cons, List.mem_singleton, List.not_mem_nil, or_false] at he
    rcases he with rfl | rfl | rfl | rfl | rfl | rfl | rfl <;> rfl
  · exact noErrorRecord_nil

theorem noErrorRecord_guardMaxLines (env : Env) (s : CoolingCapacitySizer) (g : Globals)
    (st : St) : noErrorRecord (guardMaxLines env s g st) := by
  unfold guardMaxLines
  dsimp only
  split_ifs
  · intro e he
    simp only [List.mem_cons, List.mem_singleton, List.not_mem_nil, or_false] at he
    rcases he with rfl | rfl | rfl | rfl | rfl | rfl | rfl <;> rfl
  · exact noErrorRecord_nil

theorem zoneWaterCoil_quiet (env : Env) (s : CoolingCapacitySizer) (g : Globals) (st : St) :
    extendsQuietly st (zoneWaterCoil env s g st) := by
  unfold zoneWaterCoil
  split_ifs <;> exact extendsQuietly_of_eq _ _ rfl rfl

theorem zoneDX_quiet (env : Env) (s : CoolingCapacitySizer) (g : Globals) (st : St) :
    extendsQuietly st (zoneDX env s g st) := by
  by_cases h : s.dataFlowUsedForSizing ≥ g.SmallAirVolFlow
  · unfold zoneDX
    dsimp only
    rw [if_pos h]
    exact extendsQuietly_of_eq _ _ rfl rfl
  · rw [zoneDX_small env s g st h]
    exact extendsQuietly_of_eq _ _ rfl rfl

theorem sizeZone_quiet (env : Env) (s : CoolingCapacitySizer) (g : Globals)
    (ov : Real64) (st : St) : extendsQuietly st (sizeZone env s g ov st) := by
  unfold sizeZone
  split_ifs
  · exact extendsQuietly_of_eq _ _ rfl rfl
  · exact extendsQuietly_of_eq _ _ rfl rfl
  · exact extendsQuietly_trans _ _ _ (extendsQuietly_of_eq st (zoneScale (zoneFromParent s st)) rfl rfl)
      (extendsQuietly_emit _ _ (noErrorRecord_zoneWarningLines env s g _))
  · exact extendsQuietly_trans _ _ _
      (extendsQuietly_trans _ _ _ (zoneWaterCoil_quiet env s g st)
        (extendsQuietly_of_eq _ (zoneScale (zoneWaterCoil env s g st)) rfl rfl))
      (extendsQuietly_emit _ _ (noErrorRecord_zoneWarningLines env s g _))
  · exact extendsQuietly_trans _ _ _
      (extendsQuietly_trans _ _ _ (zoneDX_quiet env s g st)
        (extendsQuietly_of_eq _ (zoneScale (zoneDX env s g st)) rfl rfl))
      (extendsQuietly_emit _ _ (noErrorRecord_zoneWarningLines env s g _))

theorem sysUnitary_quiet (env : Env) (s : CoolingCapacitySizer) (st : St) :
    extendsQuietly st (sysUnitary env s st) := by
  unfold sysUnitary
  dsimp only
  split_ifs
  · refine ⟨rfl, _, rfl, ?_⟩
    intro e he
    simp only [List.mem_cons, List.mem_singleton, List.not_mem_nil, or_false] at he
    rcases he with rfl | rfl | rfl | rfl <;> rfl
  · exact extendsQuietly_of_eq _ _ rfl rfl

theorem sysDOAS_quiet (env : Env) (s : CoolingCapacitySizer) (g : Globals) (st : St) :
    extendsQuietly st (sysDOAS env s g st) := by
  unfold sysDOAS
  dsimp only
  split_ifs <;> exact extendsQuietly_of_eq _ _ rfl rfl

theorem sysPrimary_quiet (env : Env) (s : CoolingCapacitySizer) (g : Globals) (st : St) :
    extendsQuietly st (sysPrimary env s g st) := by
  unfold sysPrimary sysPrimaryDerive
  dsimp only
  split_ifs <;> exact extendsQuietly_of_eq _ _ rfl rfl

theorem sizeSys_quiet (env : Env) (s : CoolingCapacitySizer) (g : Globals)
    (ov : Real64) (st : St) : extendsQuietly st (sizeSys env s g ov st) := by
  have h0 : extendsQuietly st
      { st with OutAirFrac := 0, dataFracOfAutosizedCoolingCapacity := 1 } :=
    extendsQuietly_of_eq _ _ rfl rfl
  have hfin : ∀ st1 : St, extendsQuietly st1
      (sysWarnings env s g { st1 with dataDesAccountForFanHeat := true }) := fun st1 =>
    extendsQuietly_trans _ _ _
      (extendsQuietly_of_eq st1 { st1 with dataDesAccountForFanHeat := true } rfl rfl)
      (extendsQuietly_emit _ _ (noErrorRecord_sysWarningLines env s g _))
  unfold sizeSys
  split_ifs
  · exact extendsQuietly_of_eq _ _ rfl rfl
  · exact extendsQuietly_trans _ _ _
      (extendsQuietly_trans _ _ _ h0 (extendsQuietly_of_eq _ (sysOASys s _) rfl rfl)) (hfin _)
  · exact extendsQuietly_trans _ _ _
      (extendsQuietly_trans _ _ _ h0 (sysUnitary_quiet env s _)) (hfin _)
  · exact extendsQuietly_trans _ _ _
      (extendsQuietly_trans _ _ _ h0 (sysDOAS_quiet env s g _)) (hfin _)
  · exact extendsQuietly_trans _ _ _
      (extendsQuietly_trans _ _ _ h0 (sysPrimary_quiet env s g _)) (hfin _)

theorem guard_quiet (env : Env) (s : CoolingCapacitySizer) (g : Globals) (st : St) :
    extendsQuietly st (guard env s g st) := by
  cases hg : guardApplies s
  · rw [guard_of_not_applies _ _ _ _ hg]
    exact extendsQuietly_refl st
  · rw [guard_of_applies _ _ _ _ hg]
    unfold guardCorrect
    dsimp only
    split_ifs
    · exact ⟨rfl, _, rfl, noErrorRecord_guardMinLines env s g st⟩
    · exact ⟨rfl, _, rfl, noErrorRecord_guardMaxLines env s g st⟩
    · exact extendsQuietly_refl st

theorem overrideStrings_quiet (env : Env) (s : CoolingCapacitySizer) (st : St) :
    extendsQuietly st (overrideStrings env s st) :=
  extendsQuietly_of_eq _ _ rfl rfl

theorem reachesDeveloperError_iff (s : CoolingCapacitySizer) :
    reachesDeveloperError s ↔
      (¬ s.dataEMSOverrideON = true ∧
        ¬ (s.dataConstantUsedForSizing ≥ 0 ∧ s.dataFractionUsedForSizing > 0) ∧
        ¬ s.curZoneEqNum > 0 ∧ ¬ s.curSysNum > 0 ∧ ¬ s.dataNonZoneNonAirloopValue > 0 ∧
        ¬ ¬ s.wasAutoSized = true) := by
  unfold reachesDeveloperError reachesScopeDispatch
  constructor
  · rintro ⟨⟨hE, hC⟩, hZ, hS, hN, hA⟩
    exact ⟨by simp [hE], hC, not_lt.mpr hZ, not_lt.mpr hS, not_lt.mpr hN, by simp [hA]⟩
  · rintro ⟨h1, h2, h3, h4, h5, h6⟩
    exact ⟨⟨by simpa using h1, h2⟩, not_lt.mp h3, not_lt.mp h4, not_lt.mp h5, by simpa using h6⟩

/-- The resolver either reaches the configuration error, or leaves
`errorsFound` alone and records no error message. -/
theorem resolve_error_or_quiet (env : Env) (s : CoolingCapacitySizer) (g : Globals)
    (ov : Real64) (st : St) :
    (reachesDeveloperError s → resolve env s g ov st = developerError env s st) ∧
      (¬ reachesDeveloperError s → extendsQuietly st (resolve env s g ov st)) := by
  rw [reachesDeveloperError_iff]
  unfold resolve
  constructor
  · rintro ⟨h1, h2, h3, h4, h5, h6⟩
    rw [if_neg h1, if_neg h2, if_neg h3, if_neg h4, if_neg h5, if_neg h6]
  · intro h
    split_ifs with h1 h2 h3 h4 h5 h6
    · exact extendsQuietly_of_eq _ _ rfl rfl
    · exact extendsQuietly_of_eq _ _ rfl rfl
    · exact sizeZone_quiet env s g ov st
    · exact sizeSys_quiet env s g ov st
    · exact extendsQuietly_of_eq _ _ rfl rfl
    · exact absurd ⟨h1, h2, h3, h4, h5, not_not.mpr h6⟩ h
    · exact extendsQuietly_of_eq _ _ rfl rfl

/-- C15: between `preSize` and `selectSizerOutput`, `size` sets `errorsFound`
and records the message built from `callingRoutine`, `compType` and `compName`
when the override is off, the constant-times-fraction branch is not taken,
`curZoneEqNum <= 0`, `curSysNum <= 0`, `dataNonZoneNonAirloopValue <= 0` and
`wasAutoSized` is true; in every other case `errorsFound` is left as passed in
and no error message is recorded, whatever the resolved capacity is. -/
theorem configuration_error (env : Env) (s : CoolingCapacitySizer) (g : Globals)
    (ov : Real64) (ef : Bool) :
    (reachesDeveloperError s →
      (CoolingCapacitySizer.size env s g ov ef).errorsFound = true ∧
      Emitted.addErrorMessage (s.callingRoutine ++ " " ++ s.compType ++ " " ++ s.compName ++
          ", Developer Error: Component sizing incomplete.") ∈
        (CoolingCapacitySizer.size env s g ov ef).emitted) ∧
    (¬ reachesDeveloperError s →
      (CoolingCapacitySizer.size env s g ov ef).errorsFound = ef ∧
      noErrorRecord (CoolingCapacitySizer.size env s g ov ef).emitted) := by
  have hq : extendsQuietly (resolve env s g ov (initSt s g ef))
      (CoolingCapacitySizer.size env s g ov ef) :=
    extendsQuietly_trans _ _ _ (guard_quiet env s g _) (overrideStrings_quiet env s _)
  obtain ⟨he, l, hl, hn⟩ := hq
  constructor
  · intro h
    have hr := (resolve_error_or_quiet env s g ov (initSt s g ef)).1 h
    constructor
    · rw [he, hr]; rfl
    · rw [hl, hr]
      apply List.mem_append_left
      show _ ∈ ([] : List Emitted) ++ _
      simp
  · intro h
    obtain ⟨he2, l2, hl2, hn2⟩ := (resolve_error_or_quiet env s g ov (initSt s g ef)).2 h
    constructor
    · rw [he, he2]; rfl
    · rw [hl, hl2]
      exact noErrorRecord_append _ _ (noErrorRecord_append _ _ noErrorRecord_nil hn2) hn

/-- C15, witness: the auto-sized coil with no scope and no standalone value
sets `errorsFound`; the hard-sized one, and the small-flow coil whose resolved
capacity is 0, leave it as passed in. -/
theorem configuration_error_witness :
    (CoolingCapacitySizer.size exEnv exNoScope exGlobals (-99999) false).errorsFound = true ∧
      (CoolingCapacitySizer.size exEnv exHardSized exGlobals 750 false).errorsFound = false ∧
      (CoolingCapacitySizer.size exEnv exSmallFlowNoGuard exGlobals (-99999) false).errorsFound
        = false := by
  have h1 := (configuration_error exEnv exNoScope exGlobals (-99999) false).1
    ⟨⟨rfl, by norm_num [exNoScope, exSizer]⟩, by decide, by decide,
      by norm_num [exNoScope, exSizer], rfl⟩
  have h2 := (configuration_error exEnv exHardSized exGlobals 750 false).2
    (fun h => Bool.noConfusion h.2.2.2.2)
  have h3 := (configuration_error exEnv exSmallFlowNoGuard exGlobals (-99999) false).2
    (fun h => absurd h.2.1 (by decide))
  exact ⟨h1.1, h2.1, h3.1⟩

/-! ## Water heating coil UA sizer (C16, C18 to C20) -/

namespace WaterHeatingCoilUA

theorem resolve_zone_solve (env : Collaborators) (s : WaterHeatingCoilUASizer) (g : UAGlobals)
    (ov : Real64) (st : St)
    (h : s.curZoneEqNum > 0 ∧ (s.wasAutoSized = true ∨ s.sizingDesRunThisZone = true) ∧
      s.dataCapacityUsedForSizing > 0 ∧ s.dataWaterFlowUsedForSizing > 0 ∧
      s.dataFlowUsedForSizing > 0) :
    resolve env s g ov st =
      if (callSolveRoot env s st).SolFla = -1 then
        zoneIterationLimit env s (callSolveRoot env s st)
      else if (callSolveRoot env s st).SolFla = -2 then
        zoneBadStart env s (callSolveRoot env s st)
      else callSolveRoot env s st := by
  obtain ⟨hz, ha, hc⟩ := h
  have h1 : ¬ (¬ s.wasAutoSized = true ∧ ¬ s.sizingDesRunThisZone = true) := by
    rcases ha with h | h <;> simp [h]
  unfold resolve sizeZone
  rw [if_pos hz, if_neg h1, if_pos hc]

theorem resolve_sys_solve (env : Collaborators) (s : WaterHeatingCoilUASizer) (g : UAGlobals)
    (ov : Real64) (st : St)
    (h : s.curZoneEqNum ≤ 0 ∧ s.curSysNum > 0 ∧
      (s.wasAutoSized = true ∨ s.sizingDesRunThisAirSys = true) ∧
      s.dataCapacityUsedForSizing ≥ g.SmallLoad ∧ s.dataWaterFlowUsedForSizing > 0 ∧
      s.dataFlowUsedForSizing > 0) :
    resolve env s g ov st =
      if (callSolveRoot env s st).SolFla = -1 then
        sysIterationLimit env s (callSolveRoot env s st)
      else if (callSolveRoot env s st).SolFla = -2 then
        sysBadStart env s (callSolveRoot env s st)
      else callSolveRoot env s st := by
  obtain ⟨hz, hs, ha, hc⟩ := h
  have h1 : ¬ (¬ s.wasAutoSized = true ∧ ¬ s.sizingDesRunThisAirSys = true) := by
    rcases ha with h | h <;> simp [h]
  unfold resolve sizeSys
  rw [if_neg (not_lt.mpr hz), if_pos hs, if_neg h1, if_pos hc]

theorem resolve_skipped (env : Collaborators) (s : WaterHeatingCoilUASizer) (g : UAGlobals)
    (ov : Real64) (st : St) (h : solveSkipped s g) :
    resolve env s g ov st = zoneDegenerate s st ∨ resolve env s g ov st = sysDegenerate s g st := by
  rcases h with ⟨hz, ha, hc⟩ | ⟨hz, hs, ha, hc⟩
  · left
    have h1 : ¬ (¬ s.wasAutoSized = true ∧ ¬ s.sizingDesRunThisZone = true) := by
      rcases ha with h | h <;> simp [h]
    unfold resolve sizeZone
    rw [if_pos hz, if_neg h1, if_neg hc]
  · right
    have h1 : ¬ (¬ s.wasAutoSized = true ∧ ¬ s.sizingDesRunThisAirSys = true) := by
      rcases ha with h | h <;> simp [h]
    unfold resolve sizeSys
    rw [if_neg (not_lt.mpr hz), if_pos hs, if_neg h1, if_neg hc]

/-- Without the solve conditions the root-finder is not called. -/
theorem resolve_not_performed (env : Collaborators) (s : WaterHeatingCoilUASizer)
    (g : UAGlobals) (ov : Real64) (st : St) (h : ¬ solvePerformed s g) :
    (resolve env s g ov st).solveRootCalls = st.solveRootCalls := by
  unfold solvePerformed at h
  unfold resolve
  by_cases hz : s.curZoneEqNum > 0
  · rw [if_pos hz]
    unfold sizeZone
    by_cases h1 : ¬ s.wasAutoSized = true ∧ ¬ s.sizingDesRunThisZone = true
    · rw [if_pos h1]
    · rw [if_neg h1]
      have ha : s.wasAutoSized = true ∨ s.sizingDesRunThisZone = true := by
        by_contra hn
        exact h1 ⟨fun hh => hn (Or.inl hh), fun hh => hn (Or.inr hh)⟩
      have hc : ¬ (s.dataCapacityUsedForSizing > 0 ∧ s.dataWaterFlowUsedForSizing > 0 ∧
          s.dataFlowUsedForSizing > 0) := fun hc => h (Or.inl ⟨hz, ha, hc⟩)
      rw [if_neg hc]
      rfl
  · rw [if_neg hz]
    by_cases hs : s.curSysNum > 0
    · rw [if_pos hs]
      unfold sizeSys
      by_cases h1 : ¬ s.wasAutoSized = true ∧ ¬ s.sizingDesRunThisAirSys = true
      · rw [if_pos h1]
      · rw [if_neg h1]
        have ha : s.wasAutoSized = true ∨ s.sizingDesRunThisAirSys = true := by
          by_contra hn
          exact h1 ⟨fun hh => hn (Or.inl hh), fun hh => hn (Or.inr hh)⟩
        have hc : ¬ (s.dataCapacityUsedForSizing ≥ g.SmallLoad ∧
            s.dataWaterFlowUsedForSizing > 0 ∧ s.dataFlowUsedForSizing > 0) :=
          fun hc => h (Or.inr ⟨not_lt.mp hz, hs, ha, hc⟩)
        rw [if_neg hc]
        rfl
    · rw [if_neg hs]

/-- With the solve conditions the root-finder is called exactly once. -/
theorem resolve_performed_calls (env : Collaborators) (s : WaterHeatingCoilUASizer)
    (g : UAGlobals) (ov : Real64) (st : St) (h : solvePerformed s g) :
    (resolve env s g ov st).solveRootCalls = st.solveRootCalls ++
      [{ Eps := Acc, MaxIte := MaxIte, X_0 := UA0 s, X_1 := UA1 s, Par := Par s }] := by
  rcases h with h | h
  · rw [resolve_zone_solve env s g ov st h]
    split_ifs <;> rfl
  · rw [resolve_sys_solve env s g ov st h]
    split_ifs <;> rfl

end WaterHeatingCoilUA

namespace TempSolveRoot

/-- The loop ends with flag -1, or with a positive flag at a point where the
residual is within the tolerance. -/
theorem iterate_outcome (Eps : Real64) (f : Real64 → Real64) (fuel : Nat) :
    ∀ (NIte : Nat) (X0 Y0 X1 Y1 : Real64),
      (iterate Eps f fuel NIte X0 Y0 X1 Y1).1 = -1 ∨
        (0 < (iterate Eps f fuel NIte X0 Y0 X1 Y1).1 ∧
          |f (iterate Eps f fuel NIte X0 Y0 X1 Y1).2| < Eps) := by
  induction fuel with
  | zero =>
    intro NIte X0 Y0 X1 Y1
    unfold iterate
    split_ifs with h
    · right
      exact ⟨Int.ofNat_lt.mpr (Nat.succ_pos NIte), h⟩
    · left; rfl
  | succ k ih =>
    intro NIte X0 Y0 X1 Y1
    unfold iterate
    split_ifs with h h2
    · right
      exact ⟨Int.ofNat_lt.mpr (Nat.succ_pos NIte), h⟩
    · exact ih _ _ _ _ _
    · exact ih _ _ _ _ _

/-- A residual that is never within the tolerance exhausts the iterations. -/
theorem iterate_never_converges (Eps : Real64) (f : Real64 → Real64)
    (hf : ∀ x, ¬ |f x| < Eps) (fuel : Nat) :
    ∀ (NIte : Nat) (X0 Y0 X1 Y1 : Real64), (iterate Eps f fuel NIte X0 Y0 X1 Y1).1 = -1 := by
  intro NIte X0 Y0 X1 Y1
  rcases iterate_outcome Eps f fuel NIte X0 Y0 X1 Y1 with h | h
  · exact h
  · exact absurd h.2 (hf _)

end TempSolveRoot

namespace WaterHeatingCoilUA

theorem exSizer_solvePerformed : solvePerformed exSizer exGlobals :=
  Or.inl ⟨by decide, Or.inl rfl, by norm_num [exSizer], by norm_num [exSizer],
    by norm_num [exSizer]⟩

theorem exSysSizer_solvePerformed : solvePerformed exSysSizer exGlobals :=
  Or.inr ⟨by decide, by decide, Or.inl rfl, by norm_num [exSysSizer, exSizer, exGlobals],
    by norm_num [exSysSizer, exSizer], by norm_num [exSysSizer, exSizer]⟩

/-- C18: in zone scope and in air-system scope, when the root-finder returns
flag -1 the sizer keeps the root-finder's result as the UA handed on, sets
`errorsFound`, its own `dataErrorsFound` and the run-level flag
`DataSizing::DataErrorsFound`, and records and shows the line
"  Iteration limit exceeded in calculating coil UA", the two bracket ends and
the final iterate. -/
theorem ua_iteration_limit (env : Collaborators) (s : WaterHeatingCoilUASizer) (g : UAGlobals)
    (ov : Real64) (ef : Bool)
    (h : solvePerformed s g)
    (hflag : (env.SolveRoot Acc MaxIte env.SimpleHeatingCoilUAResidual (UA0 s) (UA1 s)
      (Par s)).1 = -1) :
    (WaterHeatingCoilUASizer.size env s g ov ef).autoSizedValue =
        (env.SolveRoot Acc MaxIte env.SimpleHeatingCoilUAResidual (UA0 s) (UA1 s) (Par s)).2 ∧
      (WaterHeatingCoilUASizer.size env s g ov ef).errorsFound = true ∧
      (WaterHeatingCoilUASizer.size env s g ov ef).dataErrorsFound = true ∧
      (WaterHeatingCoilUASizer.size env s g ov ef).DataErrorsFound = true ∧
      Emitted.addErrorMessage "  Iteration limit exceeded in calculating coil UA" ∈
        (WaterHeatingCoilUASizer.size env s g ov ef).emitted ∧
      Emitted.ShowContinueError "  Iteration limit exceeded in calculating coil UA" ∈
        (WaterHeatingCoilUASizer.size env s g ov ef).emitted ∧
      (∃ note, Emitted.addErrorMessage
          ("  Lower UA estimate = " ++ env.TrimSigDigits (1 / 1000 * s.dataCapacityUsedForSizing) 6
            ++ note) ∈ (WaterHeatingCoilUASizer.size env s g ov ef).emitted) ∧
      Emitted.addErrorMessage
          ("  Upper UA estimate = " ++ env.TrimSigDigits s.dataCapacityUsedForSizing 6 ++
            " W/m2-K (100% of Design Coil Load)") ∈
        (WaterHeatingCoilUASizer.size env s g ov ef).emitted ∧
      Emitted.addErrorMessage
          ("  Final UA estimate when iterations exceeded limit = " ++
            env.TrimSigDigits
              (env.SolveRoot Acc MaxIte env.SimpleHeatingCoilUAResidual (UA0 s) (UA1 s)
                (Par s)).2 6 ++ " W/m2-K") ∈
        (WaterHeatingCoilUASizer.size env s g ov ef).emitted := by
  have hc : (callSolveRoot env s (initSt s g ef)).SolFla = -1 := hflag
  unfold WaterHeatingCoilUASizer.size
  rcases h with h | h
  · rw [resolve_zone_solve env s g ov _ h, if_pos hc]
    refine ⟨rfl, rfl, rfl, rfl, ?_, ?_, ⟨" W/m2-K (0.1% of Design Coil Load)", ?_⟩, ?_, ?_⟩ <;>
      simp [finish, zoneIterationLimit, St.emit, recordSevere, recordContinue, callSolveRoot,
        initSt, UA0, UA1, upperLine, finalLine]
  · rw [resolve_sys_solve env s g ov _ h, if_pos hc]
    refine ⟨rfl, rfl, rfl, rfl, ?_, ?_, ⟨" W/m2-K (1% of Design Coil Load)", ?_⟩, ?_, ?_⟩ <;>
      simp [finish, sysIterationLimit, St.emit, recordSevere, recordContinue, callSolveRoot,
        initSt, UA0, UA1, upperLine, finalLine]

/-- The spec's root-finder on the residual that jumps from -1 to 1 runs into the
iteration limit. -/
theorem exNeverConverges_flag :
    (exNeverConverges.SolveRoot Acc MaxIte exNeverConverges.SimpleHeatingCoilUAResidual
      (UA0 exSizer) (UA1 exSizer) (Par exSizer)).1 = -1 := by
  show (TempSolveRoot.SolveRoot Acc MaxIte (fun UA _ => if UA < 500 then -1 else 1)
    (UA0 exSizer) (UA1 exSizer) (Par exSizer)).1 = -1
  unfold TempSolveRoot.SolveRoot
  rw [if_neg (by norm_num [UA0, UA1, exSizer])]
  apply TempSolveRoot.iterate_never_converges
  intro x
  dsimp only
  split_ifs <;> norm_num [Acc]

/-- C18, witness: the coil whose residual is never within the tolerance ends
with `errorsFound` and the run-level flag set. -/
theorem ua_iteration_limit_witness :
    (WaterHeatingCoilUASizer.size exNeverConverges exSizer exGlobals 0 false).errorsFound
        = true ∧
      (WaterHeatingCoilUASizer.size exNeverConverges exSizer exGlobals 0 false).DataErrorsFound
        = true ∧
      Emitted.addErrorMessage "  Iteration limit exceeded in calculating coil UA" ∈
        (WaterHeatingCoilUASizer.size exNeverConverges exSizer exGlobals 0 false).emitted := by
  have h := ua_iteration_limit exNeverConverges exSizer exGlobals 0 false exSizer_solvePerformed
    exNeverConverges_flag
  exact ⟨h.2.1, h.2.2.2.1, h.2.2.2.2.1⟩

/-- C19: in zone scope and in air-system scope, when the root-finder returns
flag -2 the sizer records and shows the line "  Bad starting values for UA",
sets `errorType` to `ErrorType1`, sets `errorsFound` and its own
`dataErrorsFound`, and sets the run-level flag `DataSizing::DataErrorsFound`. -/
theorem ua_invalid_bracket (env : Collaborators) (s : WaterHeatingCoilUASizer) (g : UAGlobals)
    (ov : Real64) (ef : Bool)
    (h : solvePerformed s g)
    (hflag : (env.SolveRoot Acc MaxIte env.SimpleHeatingCoilUAResidual (UA0 s) (UA1 s)
      (Par s)).1 = -2) :
    Emitted.addErrorMessage "  Bad starting values for UA" ∈
        (WaterHeatingCoilUASizer.size env s g ov ef).emitted ∧
      Emitted.ShowContinueError "  Bad starting values for UA" ∈
        (WaterHeatingCoilUASizer.size env s g ov ef).emitted ∧
      (WaterHeatingCoilUASizer.size env s g ov ef).errorType = AutoSizingResultType.ErrorType1 ∧
      (WaterHeatingCoilUASizer.size env s g ov ef).errorsFound = true ∧
      (WaterHeatingCoilUASizer.size env s g ov ef).dataErrorsFound = true ∧
      (WaterHeatingCoilUASizer.size env s g ov ef).DataErrorsFound = true := by
  have hc : (callSolveRoot env s (initSt s g ef)).SolFla = -2 := hflag
  have hn : ¬ (callSolveRoot env s (initSt s g ef)).SolFla = -1 := by
    rw [hc]; decide
  unfold WaterHeatingCoilUASizer.size
  rcases h with h | h
  · rw [resolve_zone_solve env s g ov _ h, if_neg hn, if_pos hc]
    refine ⟨?_, ?_, rfl, rfl, rfl, rfl⟩ <;>
      simp [finish, zoneBadStart, St.emit, recordSevere, recordContinue, callSolveRoot, initSt]
  · rw [resolve_sys_solve env s g ov _ h, if_neg hn, if_pos hc]
    refine ⟨?_, ?_, rfl, rfl, rfl, rfl⟩ <;>
      simp [finish, sysBadStart, St.emit, recordSevere, recordContinue, callSolveRoot, initSt]

/-- C19, witness, Scenario D: with a residual of +5 at the lower end and +2 at
the upper end of the bracket the spec's root-finder returns -2, the diagnostic
is recorded, and the error flags are set. -/
theorem ua_invalid_bracket_witness :
    exSameSign.SimpleHeatingCoilUAResidual (UA0 exSizer) (Par exSizer) = 5 ∧
      exSameSign.SimpleHeatingCoilUAResidual (UA1 exSizer) (Par exSizer) = 2 ∧
      Emitted.addErrorMessage "  Bad starting values for UA" ∈
        (WaterHeatingCoilUASizer.size exSameSign exSizer exGlobals 0 false).emitted ∧
      (WaterHeatingCoilUASizer.size exSameSign exSizer exGlobals 0 false).errorType
        = AutoSizingResultType.ErrorType1 ∧
      (WaterHeatingCoilUASizer.size exSameSign exSizer exGlobals 0 false).errorsFound = true ∧
      (WaterHeatingCoilUASizer.size exSameSign exSizer exGlobals 0 false).DataErrorsFound
        = true := by
  have h5 : exSameSign.SimpleHeatingCoilUAResidual (UA0 exSizer) (Par exSizer) = 5 := by
    show (if UA0 exSizer ≤ 1 then (5 : ℚ) else 2) = 5
    rw [if_pos (by norm_num [UA0, exSizer])]
  have h2 : exSameSign.SimpleHeatingCoilUAResidual (UA1 exSizer) (Par exSizer) = 2 := by
    show (if UA1 exSizer ≤ 1 then (5 : ℚ) else 2) = 2
    rw [if_neg (by norm_num [UA1, exSizer])]
  have hf : (exSameSign.SolveRoot Acc MaxIte exSameSign.SimpleHeatingCoilUAResidual
      (UA0 exSizer) (UA1 exSizer) (Par exSizer)).1 = -2 := by
    show (TempSolveRoot.SolveRoot Acc MaxIte exSameSign.SimpleHeatingCoilUAResidual
      (UA0 exSizer) (UA1 exSizer) (Par exSizer)).1 = -2
    unfold TempSolveRoot.SolveRoot
    rw [h5, h2, if_pos (by norm_num)]
  have h := ua_invalid_bracket exSameSign exSizer exGlobals 0 false exSizer_solvePerformed hf
  exact ⟨h5, h2, h.1, h.2.2.1, h.2.2.2.1, h.2.2.2.2.2⟩

/-- C20: on the computing path of either scope, when the target load is not
positive (below `SmallLoad` in air-system scope) or the water flow or the air
flow is not positive, the root-finder is not called, the UA handed on is the
placeholder 1, and `errorsFound`, `errorType` and the sizer's `dataErrorsFound`
keep the values they had on entry. -/
theorem ua_degenerate (env : Collaborators) (s : WaterHeatingCoilUASizer) (g : UAGlobals)
    (ov : Real64) (ef : Bool) (h : solveSkipped s g) :
    (WaterHeatingCoilUASizer.size env s g ov ef).solveRootCalls = [] ∧
      (WaterHeatingCoilUASizer.size env s g ov ef).SolFla = 0 ∧
      (WaterHeatingCoilUASizer.size env s g ov ef).autoSizedValue = 1 ∧
      (WaterHeatingCoilUASizer.size env s g ov ef).errorsFound = ef ∧
      (WaterHeatingCoilUASizer.size env s g ov ef).errorType = s.errorType ∧
      (WaterHeatingCoilUASizer.size env s g ov ef).dataErrorsFound = s.dataErrorsFound := by
  unfold WaterHeatingCoilUASizer.size
  rcases resolve_skipped env s g ov (initSt s g ef) h with hr | hr <;> rw [hr] <;>
    exact ⟨rfl, rfl, rfl, rfl, rfl, rfl⟩

/-- C20, witness: the coil with a zero design load gets UA 1 and no error flag. -/
theorem ua_degenerate_witness :
    (WaterHeatingCoilUASizer.size exCollaborators exZeroLoad exGlobals 0 false).autoSizedValue
        = 1 ∧
      (WaterHeatingCoilUASizer.size exCollaborators exZeroLoad exGlobals 0 false).errorsFound
        = false ∧
      (WaterHeatingCoilUASizer.size exCollaborators exZeroLoad exGlobals 0 false).DataErrorsFound
        = false := by
  have h := ua_degenerate exCollaborators exZeroLoad exGlobals 0 false
    (Or.inl ⟨by decide, Or.inl rfl, fun hc => absurd hc.1 (by norm_num [exZeroLoad])⟩)
  exact ⟨h.2.2.1, h.2.2.2.1, rfl⟩

end WaterHeatingCoilUA

/-! ## Degenerate inputs and missing scope of the UA sizer (C21, C22) -/

namespace WaterHeatingCoilUA

theorem resolve_skipped_emitted (env : Collaborators) (s : WaterHeatingCoilUASizer)
    (g : UAGlobals) (ov : Real64) (ef : Bool) (h : solveSkipped s g) :
    ((WaterHeatingCoilUASizer.size env s g ov ef).emitted =
        if s.dataWaterFlowUsedForSizing > 0 ∧ s.dataCapacityUsedForSizing = 0 then zeroLoadLines s
        else []) ∧ s.curZoneEqNum > 0 ∨
      ((WaterHeatingCoilUASizer.size env s g ov ef).emitted =
        if s.dataWaterFlowUsedForSizing > 0 ∧ s.dataCapacityUsedForSizing < g.SmallLoad then
          zeroLoadLines s
        else []) ∧ s.curZoneEqNum ≤ 0 := by
  unfold WaterHeatingCoilUASizer.size
  rcases h with ⟨hz, ha, hc⟩ | ⟨hz, hs, ha, hc⟩
  · left
    have h1 : ¬ (¬ s.wasAutoSized = true ∧ ¬ s.sizingDesRunThisZone = true) := by
      rcases ha with h | h <;> simp [h]
    refine ⟨?_, hz⟩
    unfold resolve sizeZone
    rw [if_pos hz, if_neg h1, if_neg hc]
    show ([] : List Emitted) ++ _ = _
    rw [List.nil_append]
  · right
    have h1 : ¬ (¬ s.wasAutoSized = true ∧ ¬ s.sizingDesRunThisAirSys = true) := by
      rcases ha with h | h <;> simp [h]
    refine ⟨?_, hz⟩
    unfold resolve sizeSys
    rw [if_neg (not_lt.mpr hz), if_pos hs, if_neg h1, if_neg hc]
    show ([] : List Emitted) ++ _ = _
    rw [List.nil_append]

/-- C21, counterexample: on the computing path with a design water flow of zero
the solve is skipped and the placeholder 1 is substituted, but no message at
all is recorded or shown. -/
theorem ua_zero_water_flow_no_warning :
    solveSkipped exZeroWaterFlow exGlobals ∧
      (WaterHeatingCoilUASizer.size exCollaborators exZeroWaterFlow exGlobals 0
        false).autoSizedValue = 1 ∧
      (WaterHeatingCoilUASizer.size exCollaborators exZeroWaterFlow exGlobals 0
        false).emitted = [] := by
  have hs : solveSkipped exZeroWaterFlow exGlobals :=
    Or.inl ⟨by decide, Or.inl rfl, fun hc => absurd hc.2.1 (by norm_num [exZeroWaterFlow])⟩
  refine ⟨hs, ?_, ?_⟩
  · unfold WaterHeatingCoilUASizer.size
    rcases resolve_skipped exCollaborators exZeroWaterFlow exGlobals 0
      (initSt exZeroWaterFlow exGlobals false) hs with hr | hr <;> rw [hr] <;> rfl
  · rcases resolve_skipped_emitted exCollaborators exZeroWaterFlow exGlobals 0 false hs with
      ⟨he, _⟩ | ⟨_, hz⟩
    · rw [he, if_neg (fun hc => absurd hc.1 (by norm_num [exZeroWaterFlow]))]
    · exact absurd hz (by decide)

/-- C21, amended: on the computing path with the solve skipped the UA handed on
is the placeholder 1.  When the design water flow is positive and the design
load is zero (equal to 0 in zone scope, below `SmallLoad` in air-system scope)
the sizer records and shows the five-line warning that ends with "Water coil UA
is set to 1 and the simulation continues.", first line shown by
`ShowWarningError`.  When the design water flow is not positive, and when the
design load is positive (at least `SmallLoad` in air-system scope), nothing is
recorded or shown. -/
theorem ua_zero_load_warning (env : Collaborators) (s : WaterHeatingCoilUASizer)
    (g : UAGlobals) (ov : Real64) (ef : Bool) (h : solveSkipped s g) :
    (WaterHeatingCoilUASizer.size env s g ov ef).autoSizedValue = 1 ∧
      (zeroLoadWarningDue s g →
        (WaterHeatingCoilUASizer.size env s g ov ef).emitted = zeroLoadLines s ∧
        Emitted.ShowWarningError
            ("The design coil load used for UA sizing is zero for Coil:Heating:Water " ++
              s.compName) ∈ (WaterHeatingCoilUASizer.size env s g ov ef).emitted ∧
        Emitted.addErrorMessage "Water coil UA is set to 1 and the simulation continues." ∈
          (WaterHeatingCoilUASizer.size env s g ov ef).emitted ∧
        Emitted.ShowContinueError "Water coil UA is set to 1 and the simulation continues." ∈
          (WaterHeatingCoilUASizer.size env s g ov ef).emitted) ∧
      (s.dataWaterFlowUsedForSizing ≤ 0 →
        (WaterHeatingCoilUASizer.size env s g ov ef).emitted = []) ∧
      ((s.curZoneEqNum > 0 ∧ s.dataCapacityUsedForSizing > 0) ∨
          (s.curZoneEqNum ≤ 0 ∧ s.dataCapacityUsedForSizing ≥ g.SmallLoad) →
        (WaterHeatingCoilUASizer.size env s g ov ef).emitted = []) := by
  have hv : (WaterHeatingCoilUASizer.size env s g ov ef).autoSizedValue = 1 := by
    unfold WaterHeatingCoilUASizer.size
    rcases resolve_skipped env s g ov (initSt s g ef) h with hr | hr <;> rw [hr] <;> rfl
  have hmem : Emitted.ShowWarningError
        ("The design coil load used for UA sizing is zero for Coil:Heating:Water " ++
          s.compName) ∈ zeroLoadLines s ∧
      Emitted.addErrorMessage "Water coil UA is set to 1 and the simulation continues." ∈
        zeroLoadLines s ∧
      Emitted.ShowContinueError "Water coil UA is set to 1 and the simulation continues." ∈
        zeroLoadLines s := by
    refine ⟨?_, ?_, ?_⟩ <;> simp [zeroLoadLines, recordWarning, recordContinue]
  refine ⟨hv, ?_, ?_, ?_⟩
  · intro hw
    have he : (WaterHeatingCoilUASizer.size env s g ov ef).emitted = zeroLoadLines s := by
      rcases resolve_skipped_emitted env s g ov ef h with ⟨he, hz⟩ | ⟨he, hz⟩
      · rcases hw with ⟨_, hw1, hw2⟩ | ⟨hz', _, _⟩
        · rw [he, if_pos ⟨hw1, hw2⟩]
        · exact absurd hz (not_lt.mpr hz')
      · rcases hw with ⟨hz', _, _⟩ | ⟨_, hw1, hw2⟩
        · exact absurd hz' (not_lt.mpr hz)
        · rw [he, if_pos ⟨hw1, hw2⟩]
    rw [he]
    exact ⟨rfl, hmem⟩
  · intro hw
    rcases resolve_skipped_emitted env s g ov ef h with ⟨he, _⟩ | ⟨he, _⟩ <;>
      rw [he, if_neg (fun hc => absurd hc.1 (not_lt.mpr hw))]
  · intro hp
    rcases resolve_skipped_emitted env s g ov ef h with ⟨he, hz⟩ | ⟨he, hz⟩
    · rcases hp with ⟨_, hp⟩ | ⟨hz', _⟩
      · rw [he, if_neg (fun hc => absurd hc.2 (ne_of_gt hp))]
      · exact absurd hz (not_lt.mpr hz')
    · rcases hp with ⟨hz', _⟩ | ⟨_, hp⟩
      · exact absurd hz' (not_lt.mpr hz)
      · rw [he, if_neg (fun hc => absurd hc.2 (not_lt.mpr hp))]

/-- C21, witness: the coil with a zero design load and a positive water flow
gets UA 1 and the warning. -/
theorem ua_zero_load_warning_witness :
    (WaterHeatingCoilUASizer.size exCollaborators exZeroLoad exGlobals 0 false).autoSizedValue
        = 1 ∧
      Emitted.ShowWarningError
          "The design coil load used for UA sizing is zero for Coil:Heating:Water ZONE1 REHEAT COIL"
        ∈ (WaterHeatingCoilUASizer.size exCollaborators exZeroLoad exGlobals 0 false).emitted ∧
      Emitted.ShowContinueError "Water coil UA is set to 1 and the simulation continues." ∈
        (WaterHeatingCoilUASizer.size exCollaborators exZeroLoad exGlobals 0 false).emitted := by
  have h := ua_zero_load_warning exCollaborators exZeroLoad exGlobals 0 false
    (Or.inl ⟨by decide, Or.inl rfl, fun hc => absurd hc.1 (by norm_num [exZeroLoad])⟩)
  have hw := h.2.1 (Or.inl ⟨by decide, by norm_num [exZeroLoad, exSizer],
    by norm_num [exZeroLoad]⟩)
  exact ⟨h.1, hw.2.1, hw.2.2.2⟩

/-- C22, the code at the failing input: an auto-sized coil with neither scope
active leaves the sizer with the value `preSize` left, `errorsFound` still
false, no run-level error and nothing recorded or shown. -/
theorem ua_no_scope_silent :
    exUnscoped.wasAutoSized = true ∧ exUnscoped.curZoneEqNum ≤ 0 ∧ exUnscoped.curSysNum ≤ 0 ∧
      (WaterHeatingCoilUASizer.size exCollaborators exUnscoped exGlobals 0 false).errorsFound
        = false ∧
      (WaterHeatingCoilUASizer.size exCollaborators exUnscoped exGlobals 0 false).DataErrorsFound
        = false ∧
      (WaterHeatingCoilUASizer.size exCollaborators exUnscoped exGlobals 0 false).emitted = [] ∧
      (WaterHeatingCoilUASizer.size exCollaborators exUnscoped exGlobals 0 false).autoSizedValue
        = exUnscoped.autoSizedValue := by
  have hr : resolve exCollaborators exUnscoped exGlobals 0 (initSt exUnscoped exGlobals false) =
      initSt exUnscoped exGlobals false := by
    unfold resolve
    rw [if_neg (by decide), if_neg (by decide)]
  refine ⟨rfl, by decide, by decide, ?_, ?_, ?_, ?_⟩ <;>
    · unfold WaterHeatingCoilUASizer.size
      rw [hr]
      rfl

end WaterHeatingCoilUA

/-! ## Monotonic error flags (C23) -/

theorem sizeZone_DataErrorsFound (env : Env) (s : CoolingCapacitySizer) (g : Globals)
    (ov : Real64) (st : St) : (sizeZone env s g ov st).DataErrorsFound = st.DataErrorsFound := by
  unfold sizeZone zoneWarnings zoneScale zoneFromParent zoneWaterCoil zoneDX St.emit
  dsimp only
  split_ifs <;> rfl

theorem sysPrimary_DataErrorsFound (env : Env) (s : CoolingCapacitySizer) (g : Globals)
    (st : St) : (sysPrimary env s g st).DataErrorsFound = st.DataErrorsFound := by
  unfold sysPrimary sysPrimaryDerive
  dsimp only
  split_ifs <;> rfl

theorem sysDOAS_DataErrorsFound (env : Env) (s : CoolingCapacitySizer) (g : Globals)
    (st : St) : (sysDOAS env s g st).DataErrorsFound = st.DataErrorsFound := by
  unfold sysDOAS
  dsimp only
  split_ifs <;> rfl

theorem sysUnitary_DataErrorsFound (env : Env) (s : CoolingCapacitySizer) (st : St) :
    (sysUnitary env s st).DataErrorsFound = st.DataErrorsFound := by
  unfold sysUnitary
  dsimp only
  split_ifs <;> rfl

theorem sizeSys_DataErrorsFound (env : Env) (s : CoolingCapacitySizer) (g : Globals)
    (ov : Real64) (st : St) : (sizeSys env s g ov st).DataErrorsFound = st.DataErrorsFound := by
  have hw : ∀ x : St, (sysWarnings env s g { x with dataDesAccountForFanHeat := true }).DataErrorsFound
      = x.DataErrorsFound := fun _ => rfl
  unfold sizeSys
  dsimp only
  split_ifs
  · rfl
  · rw [hw]; rfl
  · rw [hw, sysUnitary_DataErrorsFound]
  · rw [hw, sysDOAS_DataErrorsFound]
  · rw [hw, sysPrimary_DataErrorsFound]

theorem resolve_DataErrorsFound (env : Env) (s : CoolingCapacitySizer) (g : Globals)
    (ov : Real64) (st : St) : (resolve env s g ov st).DataErrorsFound = st.DataErrorsFound := by
  unfold resolve
  split_ifs
  · rfl
  · rfl
  · exact sizeZone_DataErrorsFound env s g ov st
  · exact sizeSys_DataErrorsFound env s g ov st
  · rfl
  · rfl
  · rfl

theorem guard_DataErrorsFound (env : Env) (s : CoolingCapacitySizer) (g : Globals) (st : St) :
    (guard env s g st).DataErrorsFound = st.DataErrorsFound := by
  unfold guard guardCorrect St.emit
  dsimp only
  split_ifs <;> rfl

theorem size_DataErrorsFound (env : Env) (s : CoolingCapacitySizer) (g : Globals)
    (ov : Real64) (ef : Bool) :
    (CoolingCapacitySizer.size env s g ov ef).DataErrorsFound = g.DataErrorsFound := by
  show (guard env s g (resolve env s g ov (initSt s g ef))).DataErrorsFound = g.DataErrorsFound
  rw [guard_DataErrorsFound, resolve_DataErrorsFound]
  rfl

theorem size_errorsFound (env : Env) (s : CoolingCapacitySizer) (g : Globals)
    (ov : Real64) (ef : Bool) :
    (CoolingCapacitySizer.size env s g ov ef).errorsFound = true ∨
      (CoolingCapacitySizer.size env s g ov ef).errorsFound = ef := by
  have hq : extendsQuietly (resolve env s g ov (initSt s g ef))
      (CoolingCapacitySizer.size env s g ov ef) :=
    extendsQuietly_trans _ _ _ (guard_quiet env s g _) (overrideStrings_quiet env s _)
  by_cases h : reachesDeveloperError s
  · left
    rw [hq.1, (resolve_error_or_quiet env s g ov (initSt s g ef)).1 h]
    rfl
  · right
    rw [hq.1, ((resolve_error_or_quiet env s g ov (initSt s g ef)).2 h).1]
    rfl

namespace WaterHeatingCoilUA

theorem ua_resolve_runFlag (env : Collaborators) (s : WaterHeatingCoilUASizer)
    (g : UAGlobals) (ov : Real64) (st : St) :
    (resolve env s g ov st).DataErrorsFound = st.DataErrorsFound := by
  unfold resolve sizeZone sizeSys
  dsimp only
  split_ifs <;> rfl

theorem ua_resolve_errorsFound (env : Collaborators) (s : WaterHeatingCoilUASizer)
    (g : UAGlobals) (ov : Real64) (st : St) :
    (resolve env s g ov st).errorsFound = true ∨
      (resolve env s g ov st).errorsFound = st.errorsFound := by
  unfold resolve sizeZone sizeSys
  dsimp only
  split_ifs <;> first | exact Or.inl rfl | exact Or.inr rfl

theorem ua_resolve_sizerFlag (env : Collaborators) (s : WaterHeatingCoilUASizer)
    (g : UAGlobals) (ov : Real64) (st : St) :
    (resolve env s g ov st).dataErrorsFound = true ∨
      (resolve env s g ov st).dataErrorsFound = st.dataErrorsFound := by
  unfold resolve sizeZone sizeSys
  dsimp only
  split_ifs <;> first | exact Or.inl rfl | exact Or.inr rfl

theorem ua_size_runFlag (env : Collaborators) (s : WaterHeatingCoilUASizer)
    (g : UAGlobals) (ov : Real64) (ef : Bool) :
    (WaterHeatingCoilUASizer.size env s g ov ef).DataErrorsFound = true ∨
      (WaterHeatingCoilUASizer.size env s g ov ef).DataErrorsFound = g.DataErrorsFound := by
  show (if (resolve env s g ov (initSt s g ef)).dataErrorsFound = true then true
      else (resolve env s g ov (initSt s g ef)).DataErrorsFound) = true ∨
    (if (resolve env s g ov (initSt s g ef)).dataErrorsFound = true then true
      else (resolve env s g ov (initSt s g ef)).DataErrorsFound) = g.DataErrorsFound
  split_ifs
  · exact Or.inl rfl
  · right
    rw [ua_resolve_runFlag]
    rfl

end WaterHeatingCoilUA

/-- C23: between `preSize` and `selectSizerOutput` neither sizer clears an
error flag.  After `CoolingCapacitySizer::size` the `errorsFound` out-flag is
true or as passed in, and the run-level flag `DataSizing::DataErrorsFound` is
as it was on entry; after `WaterHeatingCoilUASizer::size` each of the two flags
is true or as it was on entry.  So a flag that was true on entry is true
afterwards. -/
theorem error_flags_monotonic (env : Env) (s : CoolingCapacitySizer) (g : Globals)
    (ov : Real64) (ef : Bool)
    (uenv : WaterHeatingCoilUA.Collaborators) (us : WaterHeatingCoilUASizer)
    (ug : WaterHeatingCoilUA.UAGlobals) (uov : Real64) (uef : Bool) :
    (ef = true → (CoolingCapacitySizer.size env s g ov ef).errorsFound = true) ∧
      (g.DataErrorsFound = true →
        (CoolingCapacitySizer.size env s g ov ef).DataErrorsFound = true) ∧
      (uef = true → (WaterHeatingCoilUASizer.size uenv us ug uov uef).errorsFound = true) ∧
      (ug.DataErrorsFound = true →
        (WaterHeatingCoilUASizer.size uenv us ug uov uef).DataErrorsFound = true) ∧
      ((CoolingCapacitySizer.size env s g ov ef).errorsFound = true ∨
        (CoolingCapacitySizer.size env s g ov ef).errorsFound = ef) ∧
      (CoolingCapacitySizer.size env s g ov ef).DataErrorsFound = g.DataErrorsFound ∧
      ((WaterHeatingCoilUASizer.size uenv us ug uov uef).errorsFound = true ∨
        (WaterHeatingCoilUASizer.size uenv us ug uov uef).errorsFound = uef) ∧
      ((WaterHeatingCoilUASizer.size uenv us ug uov uef).DataErrorsFound = true ∨
        (WaterHeatingCoilUASizer.size uenv us ug uov uef).DataErrorsFound =
          ug.DataErrorsFound) := by
  have h1 := size_errorsFound env s g ov ef
  have h2 := size_DataErrorsFound env s g ov ef
  have h3 : (WaterHeatingCoilUASizer.size uenv us ug uov uef).errorsFound = true ∨
      (WaterHeatingCoilUASizer.size uenv us ug uov uef).errorsFound = uef :=
    WaterHeatingCoilUA.ua_resolve_errorsFound uenv us ug uov (WaterHeatingCoilUA.initSt us ug uef)
  have h4 := WaterHeatingCoilUA.ua_size_runFlag uenv us ug uov uef
  refine ⟨fun h => ?_, fun h => ?_, fun h => ?_, fun h => ?_, h1, h2, h3, h4⟩
  · rcases h1 with h1 | h1
    · exact h1
    · rw [h1, h]
  · rw [h2, h]
  · rcases h3 with h3 | h3
    · exact h3
    · rw [h3, h]
  · rcases h4 with h4 | h4
    · exact h4
    · rw [h4, h]

/-- C23, witness: entered with both flags set, the small-flow DX coil and the
zero-load heating coil, neither of which raises an error, leave both flags
set. -/
theorem error_flags_monotonic_witness :
    (CoolingCapacitySizer.size exEnv exSmallFlow { exGlobals with DataErrorsFound := true }
        (-99999) true).errorsFound = true ∧
      (CoolingCapacitySizer.size exEnv exSmallFlow { exGlobals with DataErrorsFound := true }
        (-99999) true).DataErrorsFound = true ∧
      (WaterHeatingCoilUASizer.size WaterHeatingCoilUA.exCollaborators
        WaterHeatingCoilUA.exZeroLoad { WaterHeatingCoilUA.exGlobals with DataErrorsFound := true }
        0 true).errorsFound = true ∧
      (WaterHeatingCoilUASizer.size WaterHeatingCoilUA.exCollaborators
        WaterHeatingCoilUA.exZeroLoad { WaterHeatingCoilUA.exGlobals with DataErrorsFound := true }
        0 true).DataErrorsFound = true := by
  have h := error_flags_monotonic exEnv exSmallFlow { exGlobals with DataErrorsFound := true }
    (-99999) true WaterHeatingCoilUA.exCollaborators WaterHeatingCoilUA.exZeroLoad
    { WaterHeatingCoilUA.exGlobals with DataErrorsFound := true } 0 true
  exact ⟨h.1 rfl, h.2.1 rfl, h.2.2.1 rfl, h.2.2.2.1 rfl⟩

/-! ## Fraction scaling (C24) -/

theorem zoneWaterCoil_frac (env : Env) (s : CoolingCapacitySizer) (g : Globals) (st : St) :
    (zoneWaterCoil env s g st).dataFracOfAutosizedCoolingCapacity =
      st.dataFracOfAutosizedCoolingCapacity := by
  unfold zoneWaterCoil
  dsimp only
  split_ifs <;> rfl

theorem resolve_designSizeFromParent (env : Env) (s : CoolingCapacitySizer) (g : Globals)
    (ov : Real64) (st : St) (h : reachesDesignSizeFromParent s) :
    resolve env s g ov st =
      { st with autoSizedValue := (s.zoneEqSizing s.curZoneEqNum).DesCoolingLoad } := by
  obtain ⟨⟨hEMS, hConst⟩, hZone, hAuto, hDSFP⟩ := h
  have h1 : ¬ (¬ s.wasAutoSized = true ∧ ¬ s.sizingDesRunThisZone = true) := by
    rcases hAuto with h | h <;> simp [h]
  simp only [resolve, sizeZone, hEMS, hConst, hZone, h1, hDSFP, if_true, if_false,
    Bool.false_eq_true]

theorem resolve_sysOASys (env : Env) (s : CoolingCapacitySizer) (g : Globals)
    (ov : Real64) (st : St) (h : reachesOASys s) :
    resolve env s g ov st =
      sysWarnings env s g
        { sysOASys s { st with OutAirFrac := 0, dataFracOfAutosizedCoolingCapacity := 1 } with
          dataDesAccountForFanHeat := true } := by
  obtain ⟨hs, hOA⟩ := h
  rw [resolve_sysSizing env s g ov st hs]
  simp only [hOA, if_true]

theorem resolve_sysUnitary (env : Env) (s : CoolingCapacitySizer) (g : Globals)
    (ov : Real64) (st : St) (h : reachesUnitary s) :
    resolve env s g ov st =
      sysWarnings env s g
        { sysUnitary env s { st with OutAirFrac := 0, dataFracOfAutosizedCoolingCapacity := 1 } with
          dataDesAccountForFanHeat := true } := by
  obtain ⟨hs, hOA, hAL⟩ := h
  rw [resolve_sysSizing env s g ov st hs]
  simp only [hOA, hAL, if_true, if_false, Bool.false_eq_true]

theorem sysUnitary_autoSizedValue (env : Env) (s : CoolingCapacitySizer) (st : St) :
    (sysUnitary env s st).autoSizedValue = (s.unitarySysEqSizing s.curSysNum).DesCoolingLoad := by
  unfold sysUnitary
  dsimp only
  split_ifs <;> rfl

theorem sysPrimary_scaled (env : Env) (s : CoolingCapacitySizer) (g : Globals) (st : St) :
    (sysPrimary env s g st).autoSizedValue =
      sysPrimaryNominalCapacityDes env s g st *
        (if (s.finalSysSizing s.curSysNum).CoolingCapMethod =
            env.FractionOfAutosizedCoolingCapacity
          then (s.finalSysSizing s.curSysNum).FractionOfAutosizedCoolingCapacity
          else st.dataFracOfAutosizedCoolingCapacity) := by
  unfold sysPrimary sysPrimaryNominalCapacityDes sysPrimaryDerive
  dsimp only
  split_ifs <;> rfl

/-- C24, counterexample: with a sizing fraction of one half configured, the
chilled-water coil that takes its size from the parent (`DesignSizeFromParent`,
zone scope) and the one owned by a unitary system (air-system scope) both get
the inherited 1200 W, not 600 W. -/
theorem fraction_not_applied :
    (exDesignSizeHalf.wasAutoSized = true ∧ exDesignSizeHalf.curZoneEqNum > 0 ∧
      exDesignSizeHalf.dataFracOfAutosizedCoolingCapacity = 1 / 2 ∧
      (exDesignSizeHalf.zoneEqSizing exDesignSizeHalf.curZoneEqNum).DesCoolingLoad = 1200 ∧
      (resolve exEnv exDesignSizeHalf exGlobals (-99999)
        (initSt exDesignSizeHalf exGlobals false)).autoSizedValue = 1200 ∧
      (CoolingCapacitySizer.size exEnv exDesignSizeHalf exGlobals (-99999)
        false).autoSizedValue = 1200) ∧
    (exUnitaryHalf.wasAutoSized = true ∧ exUnitaryHalf.curSysNum > 0 ∧
      exUnitaryHalf.dataFracOfAutosizedCoolingCapacity = 1 / 2 ∧
      (exUnitaryHalf.unitarySysEqSizing exUnitaryHalf.curSysNum).DesCoolingLoad = 1200 ∧
      (resolve exEnv exUnitaryHalf exGlobals (-99999)
        (initSt exUnitaryHalf exGlobals false)).autoSizedValue = 1200 ∧
      (CoolingCapacitySizer.size exEnv exUnitaryHalf exGlobals (-99999)
        false).autoSizedValue = 1200) := by
  have hd : reachesDesignSizeFromParent exDesignSizeHalf :=
    ⟨⟨rfl, by norm_num [exDesignSizeHalf, exSizer]⟩, by decide, Or.inl rfl, rfl⟩
  have hu : reachesUnitary exUnitaryHalf :=
    ⟨⟨⟨rfl, by norm_num [exUnitaryHalf, exSizer]⟩, by decide, by decide, Or.inl rfl⟩, rfl, rfl⟩
  have h1 : (resolve exEnv exDesignSizeHalf exGlobals (-99999)
      (initSt exDesignSizeHalf exGlobals false)).autoSizedValue = 1200 := by
    rw [resolve_designSizeFromParent _ _ _ _ _ hd]
    rfl
  have h2 : (resolve exEnv exUnitaryHalf exGlobals (-99999)
      (initSt exUnitaryHalf exGlobals false)).autoSizedValue = 1200 := by
    rw [resolve_sysUnitary _ _ _ _ _ hu]
    show (sysUnitary exEnv exUnitaryHalf _).autoSizedValue = 1200
    rw [sysUnitary_autoSizedValue]
    rfl
  refine ⟨⟨rfl, by decide, rfl, rfl, h1, ?_⟩, ⟨rfl, by decide, rfl, rfl, h2, ?_⟩⟩
  · rw [size_of_not_applies _ _ _ _ _ (by decide)]
    exact h1
  · rw [size_of_not_applies _ _ _ _ _ (by decide)]
    exact h2

/-- C24, amended: in zone scope without `DesignSizeFromParent` the capacity the
resolver selects is the unscaled capacity of the branch taken (parent load,
water-coil branch or derivation for the other component types) times the factor
`dataFracOfAutosizedCoolingCapacity` configured on the sizer.  With
`DesignSizeFromParent` the parent load is selected unscaled.  In air-system
scope the configured factor is not used: the loads of the outdoor-air-system
and unitary-owned branches and the dedicated-outdoor-air-system capacity are
selected unscaled, and the nominal capacity of the full primary-air-system
branch is scaled by `finalSysSizing.FractionOfAutosizedCoolingCapacity` when the
capacity method is `FractionOfAutosizedCoolingCapacity` and by 1 otherwise. -/
theorem fraction_scaling (env : Env) (s : CoolingCapacitySizer) (g : Globals)
    (ov : Real64) (ef : Bool) :
    (reachesZoneSizing s →
      (resolve env s g ov (initSt s g ef)).autoSizedValue =
        (if (s.zoneEqSizing s.curZoneEqNum).CoolingCapacity then zoneFromParent s (initSt s g ef)
         else if isZoneWaterCoilType s then zoneWaterCoil env s g (initSt s g ef)
         else zoneDX env s g (initSt s g ef)).autoSizedValue *
          s.dataFracOfAutosizedCoolingCapacity) ∧
    (reachesDesignSizeFromParent s →
      (resolve env s g ov (initSt s g ef)).autoSizedValue =
        (s.zoneEqSizing s.curZoneEqNum).DesCoolingLoad) ∧
    (reachesOASys s →
      (resolve env s g ov (initSt s g ef)).autoSizedValue =
        (s.oaSysEqSizing s.curOASysNum).DesCoolingLoad) ∧
    (reachesUnitary s →
      (resolve env s g ov (initSt s g ef)).autoSizedValue =
        (s.unitarySysEqSizing s.curSysNum).DesCoolingLoad) ∧
    (reachesDOAS s →
      (resolve env s g ov (initSt s g ef)).autoSizedValue =
        (sysDOAS env s g (initSt s g ef)).autoSizedValue) ∧
    (reachesSysPrimary s →
      (resolve env s g ov (initSt s g ef)).autoSizedValue =
        sysPrimaryNominalCapacityDes env s g (initSt s g ef) *
          (if (s.finalSysSizing s.curSysNum).CoolingCapMethod =
              env.FractionOfAutosizedCoolingCapacity
            then (s.finalSysSizing s.curSysNum).FractionOfAutosizedCoolingCapacity
            else 1)) := by
  have hv : ∀ st : St, (sysWarnings env s g { st with dataDesAccountForFanHeat := true }).autoSizedValue
      = st.autoSizedValue := fun _ => rfl
  refine ⟨fun h => ?_, fun h => ?_, fun h => ?_, fun h => ?_, fun h => ?_, fun h => ?_⟩
  · rw [resolve_zoneSizing env s g ov _ h]
    show _ * _ = _
    congr 1
    split_ifs
    · rfl
    · exact zoneWaterCoil_frac env s g _
    · exact (zoneDX_DesVolFlow env s g _).2
  · rw [resolve_designSizeFromParent env s g ov _ h]
  · rw [resolve_sysOASys env s g ov _ h, hv]
    rfl
  · rw [resolve_sysUnitary env s g ov _ h, hv, sysUnitary_autoSizedValue]
  · rw [resolve_sysDOAS env s g ov _ h, hv]
    unfold sysDOAS
    dsimp only
    split_ifs <;> rfl
  · rw [resolve_sysPrimary env s g ov _ h, hv, sysPrimary_scaled]
    rfl

/-- C24, witness: the parent-computed load of 1200 W with the fraction one half
gives 600 W in zone scope. -/
theorem fraction_scaling_witness :
    (resolve exEnv exParentHalf exGlobals (-99999)
      (initSt exParentHalf exGlobals false)).autoSizedValue = 600 := by
  have hz : reachesZoneSizing exParentHalf :=
    ⟨⟨rfl, by norm_num [exParentHalf, exSizer]⟩, by decide, Or.inl rfl, rfl⟩
  rw [(fraction_scaling exEnv exParentHalf exGlobals (-99999) false).1 hz]
  norm_num [exParentHalf, zoneFromParent, exZoneEqSizing, exSizer]

/-! ## Handoff slots (C25) -/

theorem guard_airState (env : Env) (s : CoolingCapacitySizer) (g : Globals) (st : St) :
    (guard env s g st).airStateLocals = st.airStateLocals ∧
      (guard env s g st).handoffSlots = st.handoffSlots := by
  unfold guard guardCorrect St.emit
  dsimp only
  split_ifs <;> exact ⟨rfl, rfl⟩

theorem size_airState (env : Env) (s : CoolingCapacitySizer) (g : Globals)
    (ov : Real64) (ef : Bool) :
    (CoolingCapacitySizer.size env s g ov ef).airStateLocals =
        (resolve env s g ov (initSt s g ef)).airStateLocals ∧
      (CoolingCapacitySizer.size env s g ov ef).handoffSlots =
        (resolve env s g ov (initSt s g ef)).handoffSlots :=
  guard_airState env s g (resolve env s g ov (initSt s g ef))

theorem zoneDX_handoff (env : Env) (s : CoolingCapacitySizer) (g : Globals) (st : St)
    (h : s.dataFlowUsedForSizing ≥ g.SmallAirVolFlow) :
    (zoneDX env s g st).handoffSlots = (zoneDX env s g st).airStateLocals := by
  unfold zoneDX
  dsimp only
  rw [if_pos h]
  rfl

theorem sysPrimary_handoff (env : Env) (s : CoolingCapacitySizer) (g : Globals) (st : St)
    (hM1 : (s.finalSysSizing s.curSysNum).CoolingCapMethod ≠ env.CapacityPerFloorArea)
    (hM2 : ¬ ((s.finalSysSizing s.curSysNum).CoolingCapMethod = env.CoolingDesignCapacity ∧
        (s.finalSysSizing s.curSysNum).CoolingTotalCapacity > 0))
    (h : s.dataFlowUsedForSizing ≥ g.SmallAirVolFlow) :
    (sysPrimary env s g st).handoffSlots = (sysPrimary env s g st).airStateLocals := by
  unfold sysPrimary
  dsimp only
  rw [if_neg hM1, if_neg hM2, if_pos h]
  unfold sysPrimaryDerive
  dsimp only
  split_ifs <;> rfl

theorem zoneWaterCoil_handoff (env : Env) (s : CoolingCapacitySizer) (g : Globals) (st : St) :
    (zoneWaterCoil env s g st).handoffSlots = st.handoffSlots := by
  unfold zoneWaterCoil
  dsimp only
  split_ifs <;> rfl

theorem sysDOAS_handoff (env : Env) (s : CoolingCapacitySizer) (g : Globals) (st : St) :
    (sysDOAS env s g st).handoffSlots = st.handoffSlots := by
  unfold sysDOAS
  dsimp only
  split_ifs <;> rfl

theorem sysUnitary_reads (env : Env) (s : CoolingCapacitySizer) (st : St) :
    (sysUnitary env s st).airStateLocals = st.handoffSlots := by
  unfold sysUnitary
  dsimp only
  split_ifs <;> rfl

theorem resolve_zoneFromParent (env : Env) (s : CoolingCapacitySizer) (g : Globals)
    (ov : Real64) (st : St) (h : reachesZoneFromParent s) :
    resolve env s g ov st = zoneWarnings env s g (zoneScale (zoneFromParent s st)) := by
  obtain ⟨hz, hCC⟩ := h
  rw [resolve_zoneSizing env s g ov st hz]
  simp only [hCC, if_true]

theorem resolve_derivation_handoff (env : Env) (s : CoolingCapacitySizer) (g : Globals)
    (ov : Real64) (st : St)
    (h : reachesZoneDXDerivation s g ∨ reachesSysPrimaryDerivation env s g) :
    (resolve env s g ov st).handoffSlots = (resolve env s g ov st).airStateLocals := by
  rcases h with ⟨hz, hf⟩ | ⟨⟨hp, hM1, hM2⟩, hf⟩
  · rw [resolve_zoneDX env s g ov st hz]
    exact zoneDX_handoff env s g st hf
  · rw [resolve_sysPrimary env s g ov st hp]
    exact sysPrimary_handoff env s g _ hM1 hM2 hf

theorem resolve_inherit_reads (env : Env) (s : CoolingCapacitySizer) (g : Globals)
    (ov : Real64) (ef : Bool) (h : reachesZoneFromParent s ∨ reachesUnitary s) :
    (resolve env s g ov (initSt s g ef)).airStateLocals = g.handoffSlots := by
  rcases h with h | h
  · rw [resolve_zoneFromParent env s g ov _ h]
    rfl
  · rw [resolve_sysUnitary env s g ov _ h]
    exact sysUnitary_reads env s _

theorem resolve_no_handoff (env : Env) (s : CoolingCapacitySizer) (g : Globals)
    (ov : Real64) (ef : Bool) (h : reachesZoneWaterDerivation s ∨ reachesDOASDerivation s) :
    (resolve env s g ov (initSt s g ef)).handoffSlots = g.handoffSlots := by
  rcases h with h | ⟨h, _⟩
  · rw [resolve_zoneWater env s g ov _ h]
    exact zoneWaterCoil_handoff env s g _
  · rw [resolve_sysDOAS env s g ov _ h]
    exact sysDOAS_handoff env s g _

/-- C25, counterexample: the zone-scope water-coil derivation computes with a
coil inlet of 30 C and the dedicated-outdoor-air-system derivation with one of
10 C, and both leave the 26 C of an earlier call in the slot
`DataCoilSizingAirInTemp`. -/
theorem handoff_slots_not_written :
    (reachesZoneWaterDerivation exZoneWaterWarm ∧
      (CoolingCapacitySizer.size exEnv exZoneWaterWarm exGlobals (-99999) false).CoilInTemp
        = 30 ∧
      (CoolingCapacitySizer.size exEnv exZoneWaterWarm exGlobals (-99999)
        false).DataCoilSizingAirInTemp = 26) ∧
    (reachesDOASDerivation exDOAS ∧
      (CoolingCapacitySizer.size exEnv exDOAS exGlobals (-99999) false).CoilInTemp = 10 ∧
      (CoolingCapacitySizer.size exEnv exDOAS exGlobals (-99999)
        false).DataCoilSizingAirInTemp = 26) := by
  have hw : reachesZoneWaterDerivation exZoneWaterWarm :=
    ⟨⟨⟨rfl, by norm_num [exZoneWaterWarm, exZoneWater, exSizer]⟩, by decide, Or.inl rfl, rfl⟩,
      rfl, by decide, by decide, rfl⟩
  have hd : reachesDOASDerivation exDOAS :=
    ⟨⟨⟨⟨rfl, by norm_num [exDOAS, exSizer]⟩, by decide, by decide, Or.inl rfl⟩, rfl, rfl,
      by decide⟩, rfl⟩
  have hz1 : ∀ st : St, (overrideStrings exEnv exZoneWaterWarm
      (zoneWarnings exEnv exZoneWaterWarm exGlobals (zoneScale st))).CoilInTemp =
        st.CoilInTemp := fun _ => rfl
  have hz2 : ∀ st : St, (overrideStrings exEnv exZoneWaterWarm
      (zoneWarnings exEnv exZoneWaterWarm exGlobals (zoneScale st))).DataCoilSizingAirInTemp =
        st.DataCoilSizingAirInTemp := fun _ => rfl
  have hs1 : ∀ st : St, (overrideStrings exEnv exDOAS (sysWarnings exEnv exDOAS exGlobals
      { st with dataDesAccountForFanHeat := true })).CoilInTemp = st.CoilInTemp := fun _ => rfl
  have hs2 : ∀ st : St, (overrideStrings exEnv exDOAS (sysWarnings exEnv exDOAS exGlobals
      { st with dataDesAccountForFanHeat := true })).DataCoilSizingAirInTemp =
        st.DataCoilSizingAirInTemp := fun _ => rfl
  refine ⟨⟨hw, ?_, ?_⟩, ⟨hd, ?_, ?_⟩⟩
  · rw [size_of_not_applies _ _ _ _ _ (by decide), resolve_zoneWater _ _ _ _ _ hw, hz1]
    unfold zoneWaterCoil
    rw [if_neg (by decide), if_neg (by decide)]
    rfl
  · rw [size_of_not_applies _ _ _ _ _ (by decide), resolve_zoneWater _ _ _ _ _ hw, hz2]
    unfold zoneWaterCoil
    rw [if_neg (by decide), if_neg (by decide)]
    rfl
  · rw [size_of_not_applies _ _ _ _ _ (by decide), resolve_sysDOAS _ _ _ _ _ hd.1, hs1]
    unfold sysDOAS
    dsimp only
    rw [if_neg (by decide), if_neg (by decide)]
    rfl
  · rw [size_of_not_applies _ _ _ _ _ (by decide), resolve_sysDOAS _ _ _ _ _ hd.1, hs2]
    unfold sysDOAS
    dsimp only
    rw [if_neg (by decide)]
    rfl

/-- C25, amended: a call that computes the capacity in the zone-scope
derivation for the other component types or in the full primary-air-system
derivation (design flow at least `SmallAirVolFlow`) leaves in the six handoff
slots the coil inlet and outlet temperature and humidity ratio, the fan heat
and the modifier factor it ends with, and a later inheriting call
(parent-computed capacity in zone scope, unitary-owned in air-system scope) that
finds the slots as that call left them reads exactly those values.  The
zone-scope water-coil derivation and the dedicated-outdoor-air-system derivation
leave the six slots as they found them. -/
theorem handoff_slots_written (env : Env) (s : CoolingCapacitySizer) (g : Globals)
    (ov : Real64) (ef : Bool) (s2 : CoolingCapacitySizer) (ov2 : Real64) (ef2 : Bool) :
    (reachesZoneDXDerivation s g ∨ reachesSysPrimaryDerivation env s g →
      (CoolingCapacitySizer.size env s g ov ef).handoffSlots =
        (CoolingCapacitySizer.size env s g ov ef).airStateLocals ∧
      (reachesZoneFromParent s2 ∨ reachesUnitary s2 →
        (CoolingCapacitySizer.size env s2 (g.after (CoolingCapacitySizer.size env s g ov ef))
          ov2 ef2).airStateLocals = (CoolingCapacitySizer.size env s g ov ef).airStateLocals)) ∧
    (reachesZoneWaterDerivation s ∨ reachesDOASDerivation s →
      (CoolingCapacitySizer.size env s g ov ef).handoffSlots = g.handoffSlots) := by
  constructor
  · intro h
    have h1 : (CoolingCapacitySizer.size env s g ov ef).handoffSlots =
        (CoolingCapacitySizer.size env s g ov ef).airStateLocals := by
      rw [(size_airState env s g ov ef).1, (size_airState env s g ov ef).2]
      exact resolve_derivation_handoff env s g ov _ h
    refine ⟨h1, fun h2 => ?_⟩
    rw [(size_airState env s2 _ ov2 ef2).1, resolve_inherit_reads env s2 _ ov2 ef2 h2, ← h1]
    rfl
  · intro h
    rw [(size_airState env s g ov ef).2]
    exact resolve_no_handoff env s g ov ef h

/-- C25, witness: the example DX coil derives its capacity in zone scope from a
26 C inlet and a 13 C outlet and leaves them in the slots, also when the slots
held other values before; the coil sized next from its parent reads them. -/
theorem handoff_slots_written_witness :
    (CoolingCapacitySizer.size exEnv exSizer
        { exGlobals with DataCoilSizingAirInTemp := 0, DataCoilSizingAirOutTemp := 0 }
        (-99999) false).handoffSlots = [26, 1 / 100, 13, 8 / 1000, 0, 1] ∧
      (CoolingCapacitySizer.size exEnv exParentDX
        (Globals.after { exGlobals with DataCoilSizingAirInTemp := 0, DataCoilSizingAirOutTemp := 0 }
          (CoolingCapacitySizer.size exEnv exSizer
            { exGlobals with DataCoilSizingAirInTemp := 0, DataCoilSizingAirOutTemp := 0 }
            (-99999) false))
        (-99999) false).airStateLocals = [26, 1 / 100, 13, 8 / 1000, 0, 1] := by
  have hz : reachesZoneDXDerivation exSizer
      { exGlobals with DataCoilSizingAirInTemp := 0, DataCoilSizingAirOutTemp := 0 } :=
    ⟨⟨⟨⟨rfl, by norm_num [exSizer]⟩, by decide, Or.inl rfl, rfl⟩, rfl, by decide⟩,
      by norm_num [exSizer, exGlobals]⟩
  have hp : reachesZoneFromParent exParentDX :=
    ⟨⟨⟨rfl, by norm_num [exParentDX, exSizer]⟩, by decide, Or.inl rfl, rfl⟩, rfl⟩
  have h := (handoff_slots_written exEnv exSizer
    { exGlobals with DataCoilSizingAirInTemp := 0, DataCoilSizingAirOutTemp := 0 }
    (-99999) false exParentDX (-99999) false).1 (Or.inl hz)
  have hl : (CoolingCapacitySizer.size exEnv exSizer
      { exGlobals with DataCoilSizingAirInTemp := 0, DataCoilSizingAirOutTemp := 0 }
      (-99999) false).airStateLocals = [26, 1 / 100, 13, 8 / 1000, 0, 1] := by
    rw [(size_airState _ _ _ _ _).1, resolve_zoneDX _ _ _ _ _ hz.1]
    show (zoneDX exEnv exSizer _ _).airStateLocals = _
    unfold zoneDX
    dsimp only
    rw [if_pos hz.2]
    norm_num [St.airStateLocals, zoneDXCoilInTemp, zoneDXCoilInHumRat, exGlobals, exSizer,
      exZoneSizing, zoneFanCoolLoad, initSt, exEnv, zoneTotCapTempModFac]
  exact ⟨h.1.trans hl, (h.2 (Or.inl hp)).trans hl⟩

/-! ## Fan placement and the coil air states (C26, C27) -/

theorem zoneDX_airState (env : Env) (s : CoolingCapacitySizer) (g : Globals) (st : St)
    (h : s.dataFlowUsedForSizing ≥ g.SmallAirVolFlow) :
    (zoneDX env s g st).DesVolFlow = s.dataFlowUsedForSizing ∧
      (zoneDX env s g st).CoilInHumRat = zoneDXCoilInHumRat env s g s.dataFlowUsedForSizing ∧
      (zoneDX env s g st).CoilOutHumRat =
        min (zoneDXCoilInHumRat env s g s.dataFlowUsedForSizing)
          (s.finalZoneSizing s.curZoneEqNum).CoolDesHumRat ∧
      (zoneDX env s g st).FanCoolLoad = zoneFanCoolLoad env st s.dataFlowUsedForSizing ∧
      (zoneDX env s g st).CoilInTemp =
        (if st.dataDesAccountForFanHeat = true ∧ g.DataFanPlacement = zoneFanPlacement.zoneBlowThru
          then zoneDXCoilInTemp env s g s.dataFlowUsedForSizing + fanTempRise env g (zoneDX env s g st)
          else zoneDXCoilInTemp env s g s.dataFlowUsedForSizing) ∧
      (zoneDX env s g st).CoilOutTemp =
        (if st.dataDesAccountForFanHeat = true ∧ g.DataFanPlacement = zoneFanPlacement.zoneDrawThru
          then min (zoneDXCoilInTemp env s g s.dataFlowUsedForSizing)
              (s.finalZoneSizing s.curZoneEqNum).CoolDesTemp - fanTempRise env g (zoneDX env s g st)
          else min (zoneDXCoilInTemp env s g s.dataFlowUsedForSizing)
              (s.finalZoneSizing s.curZoneEqNum).CoolDesTemp) ∧
      (zoneDX env s g st).TotCapTempModFac =
        zoneTotCapTempModFac env s
          (env.PsyTwbFnTdbWPb (zoneDX env s g st).CoilInTemp (zoneDX env s g st).CoilInHumRat
            g.StdBaroPress s.callingRoutine)
          (if (s.finalZoneSizing s.curZoneEqNum).CoolDDNum > 0 ∧
              (s.finalZoneSizing s.curZoneEqNum).TimeStepNumAtCoolMax > 0 then
            g.DesDayWeathTemp (s.finalZoneSizing s.curZoneEqNum).CoolDDNum
              (s.finalZoneSizing s.curZoneEqNum).TimeStepNumAtCoolMax
           else 0) := by
  unfold fanTempRise zoneDX
  dsimp only
  rw [if_pos h]
  exact ⟨rfl, rfl, rfl, rfl, rfl, rfl, rfl⟩

theorem sysPrimary_airState (env : Env) (s : CoolingCapacitySizer) (g : Globals) (st : St)
    (hM1 : (s.finalSysSizing s.curSysNum).CoolingCapMethod ≠ env.CapacityPerFloorArea)
    (hM2 : ¬ ((s.finalSysSizing s.curSysNum).CoolingCapMethod = env.CoolingDesignCapacity ∧
        (s.finalSysSizing s.curSysNum).CoolingTotalCapacity > 0))
    (h : s.dataFlowUsedForSizing ≥ g.SmallAirVolFlow) :
    (sysPrimary env s g st).DesVolFlow = sysPrimaryDesVolFlow s ∧
      (sysPrimary env s g st).CoilInHumRat = sysPrimaryCoilInHumRat s ∧
      (sysPrimary env s g st).CoilOutHumRat =
        min (sysPrimaryCoilInHumRat s) (sysPrimaryCoilOutHumRat0 s) ∧
      (sysPrimary env s g st).FanCoolLoad =
        sysPrimaryFanCoolLoad env s st (sysPrimaryDesVolFlow s) (sysPrimaryOutAirFrac s) ∧
      (sysPrimary env s g st).CoilInTemp =
        (if st.dataDesAccountForFanHeat = true ∧
            (s.primaryAirSystem s.curSysNum).supFanLocation = fanPlacement.BlowThru
          then sysPrimaryCoilInTemp s + fanTempRise env g (sysPrimary env s g st)
          else sysPrimaryCoilInTemp s) ∧
      (sysPrimary env s g st).CoilOutTemp =
        (if st.dataDesAccountForFanHeat = true ∧
            (s.primaryAirSystem s.curSysNum).supFanLocation = fanPlacement.DrawThru
          then min (sysPrimaryCoilInTemp s) (sysPrimaryCoilOutTemp0 s) -
              fanTempRise env g (sysPrimary env s g st)
          else min (sysPrimaryCoilInTemp s) (sysPrimaryCoilOutTemp0 s)) ∧
      (sysPrimary env s g st).TotCapTempModFac =
        (if s.dataTotCapCurveIndex > 0 then
          env.CurveValue s.dataTotCapCurveIndex
            (env.PsyTwbFnTdbWPb (sysPrimary env s g st).CoilInTemp
              (sysPrimary env s g st).CoilInHumRat g.StdBaroPress s.callingRoutine)
            (s.finalSysSizing s.curSysNum).OutTempAtCoolPeak
         else 1) := by
  unfold fanTempRise sysPrimary
  dsimp only
  rw [if_neg hM1, if_neg hM2, if_pos h]
  unfold sysPrimaryDerive
  dsimp only
  refine ⟨?_, ?_, ?_, ?_, ?_, ?_, ?_⟩ <;> first | rfl | (split_ifs <;> rfl)

/-- C27: with `dataDesAccountForFanHeat` set and
`dT = FanCoolLoad / (CpAir * StdRhoAir * DesVolFlow)`, in the zone-scope
derivation for the other component types and in the full primary-air-system
derivation: with a blow-through fan the coil inlet temperature is the selected
inlet temperature plus `dT` and the outlet temperature is the clamped design
outlet temperature; with a draw-through fan the inlet temperature is the
selected one and the outlet temperature is the clamped one minus `dT`; in every
case at least one of the two is unadjusted; and when a capacity curve is
attached the modifier factor is the curve evaluated at the wet-bulb of the
adjusted inlet temperature. -/
theorem fan_placement_direction (env : Env) (s : CoolingCapacitySizer) (g : Globals)
    (ov : Real64) (ef : Bool) (hFan : s.dataDesAccountForFanHeat = true) :
    (reachesZoneDXDerivation s g →
      (g.DataFanPlacement = zoneFanPlacement.zoneBlowThru →
        (resolve env s g ov (initSt s g ef)).CoilInTemp =
          zoneDXCoilInTemp env s g s.dataFlowUsedForSizing +
            fanTempRise env g (resolve env s g ov (initSt s g ef)) ∧
        (resolve env s g ov (initSt s g ef)).CoilOutTemp =
          min (zoneDXCoilInTemp env s g s.dataFlowUsedForSizing)
            (s.finalZoneSizing s.curZoneEqNum).CoolDesTemp) ∧
      (g.DataFanPlacement = zoneFanPlacement.zoneDrawThru →
        (resolve env s g ov (initSt s g ef)).CoilInTemp =
          zoneDXCoilInTemp env s g s.dataFlowUsedForSizing ∧
        (resolve env s g ov (initSt s g ef)).CoilOutTemp =
          min (zoneDXCoilInTemp env s g s.dataFlowUsedForSizing)
            (s.finalZoneSizing s.curZoneEqNum).CoolDesTemp -
            fanTempRise env g (resolve env s g ov (initSt s g ef))) ∧
      ((resolve env s g ov (initSt s g ef)).CoilInTemp =
          zoneDXCoilInTemp env s g s.dataFlowUsedForSizing ∨
        (resolve env s g ov (initSt s g ef)).CoilOutTemp =
          min (zoneDXCoilInTemp env s g s.dataFlowUsedForSizing)
            (s.finalZoneSizing s.curZoneEqNum).CoolDesTemp) ∧
      (s.dataTotCapCurveIndex > 0 →
        (resolve env s g ov (initSt s g ef)).TotCapTempModFac =
          env.CurveValue s.dataTotCapCurveIndex
            (env.PsyTwbFnTdbWPb (resolve env s g ov (initSt s g ef)).CoilInTemp
              (resolve env s g ov (initSt s g ef)).CoilInHumRat g.StdBaroPress s.callingRoutine)
            (if (s.finalZoneSizing s.curZoneEqNum).CoolDDNum > 0 ∧
                (s.finalZoneSizing s.curZoneEqNum).TimeStepNumAtCoolMax > 0 then
              g.DesDayWeathTemp (s.finalZoneSizing s.curZoneEqNum).CoolDDNum
                (s.finalZoneSizing s.curZoneEqNum).TimeStepNumAtCoolMax
             else 0))) ∧
    (reachesSysPrimaryDerivation env s g →
      ((s.primaryAirSystem s.curSysNum).supFanLocation = fanPlacement.BlowThru →
        (resolve env s g ov (initSt s g ef)).CoilInTemp =
          sysPrimaryCoilInTemp s + fanTempRise env g (resolve env s g ov (initSt s g ef)) ∧
        (resolve env s g ov (initSt s g ef)).CoilOutTemp =
          min (sysPrimaryCoilInTemp s) (sysPrimaryCoilOutTemp0 s)) ∧
      ((s.primaryAirSystem s.curSysNum).supFanLocation = fanPlacement.DrawThru →
        (resolve env s g ov (initSt s g ef)).CoilInTemp = sysPrimaryCoilInTemp s ∧
        (resolve env s g ov (initSt s g ef)).CoilOutTemp =
          min (sysPrimaryCoilInTemp s) (sysPrimaryCoilOutTemp0 s) -
            fanTempRise env g (resolve env s g ov (initSt s g ef))) ∧
      ((resolve env s g ov (initSt s g ef)).CoilInTemp = sysPrimaryCoilInTemp s ∨
        (resolve env s g ov (initSt s g ef)).CoilOutTemp =
          min (sysPrimaryCoilInTemp s) (sysPrimaryCoilOutTemp0 s)) ∧
      (s.dataTotCapCurveIndex > 0 →
        (resolve env s g ov (initSt s g ef)).TotCapTempModFac =
          env.CurveValue s.dataTotCapCurveIndex
            (env.PsyTwbFnTdbWPb (resolve env s g ov (initSt s g ef)).CoilInTemp
              (resolve env s g ov (initSt s g ef)).CoilInHumRat g.StdBaroPress s.callingRoutine)
            (s.finalSysSizing s.curSysNum).OutTempAtCoolPeak)) := by
  constructor
  · rintro ⟨hz, hf⟩
    rw [resolve_zoneDX env s g ov _ hz]
    obtain ⟨_, _, _, _, hIn, hOut, hFac⟩ := zoneDX_airState env s g (initSt s g ef) hf
    have hA : (initSt s g ef).dataDesAccountForFanHeat = true := hFan
    show (_ → (zoneDX env s g (initSt s g ef)).CoilInTemp = _ + fanTempRise env g
          (zoneDX env s g (initSt s g ef)) ∧ (zoneDX env s g (initSt s g ef)).CoilOutTemp = _) ∧
      (_ → (zoneDX env s g (initSt s g ef)).CoilInTemp = _ ∧
          (zoneDX env s g (initSt s g ef)).CoilOutTemp = _ - fanTempRise env g
            (zoneDX env s g (initSt s g ef))) ∧
      ((zoneDX env s g (initSt s g ef)).CoilInTemp = _ ∨
          (zoneDX env s g (initSt s g ef)).CoilOutTemp = _) ∧
      (_ → (zoneDX env s g (initSt s g ef)).TotCapTempModFac = _)
    refine ⟨fun hb => ?_, fun hd => ?_, ?_, fun hc => ?_⟩
    · rw [hIn, if_pos ⟨hA, hb⟩, hOut,
        if_neg (fun hh => by rw [hb] at hh; exact absurd hh.2 (by decide))]
      exact ⟨rfl, rfl⟩
    · rw [hIn, if_neg (fun hh => by rw [hd] at hh; exact absurd hh.2 (by decide)), hOut,
        if_pos ⟨hA, hd⟩]
      exact ⟨rfl, rfl⟩
    · by_cases hb : g.DataFanPlacement = zoneFanPlacement.zoneBlowThru
      · right
        rw [hOut, if_neg (fun hh => by rw [hb] at hh; exact absurd hh.2 (by decide))]
      · left
        rw [hIn, if_neg (fun hh => hb hh.2)]
    · rw [hFac]
      unfold zoneTotCapTempModFac
      rw [if_pos hc]
      rfl
  · rintro ⟨⟨hp, hM1, hM2⟩, hf⟩
    rw [resolve_sysPrimary env s g ov _ hp]
    obtain ⟨_, _, _, _, hIn, hOut, hFac⟩ := sysPrimary_airState env s g
      { initSt s g ef with OutAirFrac := 0, dataFracOfAutosizedCoolingCapacity := 1 } hM1 hM2 hf
    have hA : ({ initSt s g ef with OutAirFrac := 0, dataFracOfAutosizedCoolingCapacity := 1 } :
        St).dataDesAccountForFanHeat = true := hFan
    show (_ → (sysPrimary env s g _).CoilInTemp = _ + fanTempRise env g
          (sysPrimary env s g
            { initSt s g ef with OutAirFrac := 0, dataFracOfAutosizedCoolingCapacity := 1 }) ∧
          (sysPrimary env s g _).CoilOutTemp = _) ∧
      (_ → (sysPrimary env s g _).CoilInTemp = _ ∧
          (sysPrimary env s g _).CoilOutTemp = _ - fanTempRise env g
            (sysPrimary env s g
              { initSt s g ef with OutAirFrac := 0, dataFracOfAutosizedCoolingCapacity := 1 })) ∧
      ((sysPrimary env s g _).CoilInTemp = _ ∨ (sysPrimary env s g _).CoilOutTemp = _) ∧
      (_ → (sysPrimary env s g _).TotCapTempModFac = _)
    refine ⟨fun hb => ?_, fun hd => ?_, ?_, fun hc => ?_⟩
    · rw [hIn, if_pos ⟨hA, hb⟩, hOut,
        if_neg (fun hh => by rw [hb] at hh; exact absurd hh.2 (by decide))]
      exact ⟨rfl, rfl⟩
    · rw [hIn, if_neg (fun hh => by rw [hd] at hh; exact absurd hh.2 (by decide)), hOut,
        if_pos ⟨hA, hd⟩]
      exact ⟨rfl, rfl⟩
    · by_cases hb : (s.primaryAirSystem s.curSysNum).supFanLocation = fanPlacement.BlowThru
      · right
        rw [hOut, if_neg (fun hh => by rw [hb] at hh; exact absurd hh.2 (by decide))]
      · left
        rw [hIn, if_neg (fun hh => hb hh.2)]
    · rw [hFac, if_pos hc]
      rfl

/-- C27, witness: a fan heat gain that warms the design flow by 1 K moves the
26 C coil inlet of the example zone to 27 C with a blow-through fan and leaves
the 13 C outlet; with a draw-through fan it leaves the inlet and moves the
outlet to 12 C. -/
theorem fan_placement_direction_witness :
    (resolve exEnvFan exSizer exGlobalsBlowThru (-99999)
        (initSt exSizer exGlobalsBlowThru false)).CoilInTemp = 27 ∧
      (resolve exEnvFan exSizer exGlobalsBlowThru (-99999)
        (initSt exSizer exGlobalsBlowThru false)).CoilOutTemp = 13 ∧
      (resolve exEnvFan exSizer exGlobalsDrawThru (-99999)
        (initSt exSizer exGlobalsDrawThru false)).CoilInTemp = 26 ∧
      (resolve exEnvFan exSizer exGlobalsDrawThru (-99999)
        (initSt exSizer exGlobalsDrawThru false)).CoilOutTemp = 12 := by
  have hz : reachesZoneDX exSizer :=
    ⟨⟨⟨rfl, by norm_num [exSizer]⟩, by decide, Or.inl rfl, rfl⟩, rfl, by decide⟩
  have hfB : exSizer.dataFlowUsedForSizing ≥ exGlobalsBlowThru.SmallAirVolFlow := by
    norm_num [exSizer, exGlobalsBlowThru, exGlobals]
  have hfD : exSizer.dataFlowUsedForSizing ≥ exGlobalsDrawThru.SmallAirVolFlow := by
    norm_num [exSizer, exGlobalsDrawThru, exGlobals]
  have hrise : ∀ g : Globals, g.StdRhoAir = 12 / 10 → g.ZoneEqDXCoil = false →
      exSizer.dataFlowUsedForSizing ≥ g.SmallAirVolFlow →
      fanTempRise exEnvFan g (resolve exEnvFan exSizer g (-99999) (initSt exSizer g false)) = 1 := by
    intro g hrho hdx hf
    rw [resolve_zoneDX _ _ _ _ _ hz]
    obtain ⟨h1, h2, _, h4, _, _, _⟩ := zoneDX_airState exEnvFan exSizer g (initSt exSizer g false) hf
    show (zoneDX exEnvFan exSizer g (initSt exSizer g false)).FanCoolLoad /
      (exEnvFan.PsyCpAirFnW (zoneDX exEnvFan exSizer g (initSt exSizer g false)).CoilInHumRat *
        g.StdRhoAir * (zoneDX exEnvFan exSizer g (initSt exSizer g false)).DesVolFlow) = 1
    rw [h1, h2, h4, hrho]
    norm_num [zoneDXCoilInHumRat, hdx, exSizer, exZoneSizing, zoneFanCoolLoad, initSt, exEnvFan,
      exEnv]
  have hbase : ∀ g : Globals, g.ZoneEqDXCoil = false →
      zoneDXCoilInTemp exEnvFan exSizer g exSizer.dataFlowUsedForSizing = 26 := by
    intro g hdx
    norm_num [zoneDXCoilInTemp, hdx, exSizer, exZoneSizing]
  have hB := (fan_placement_direction exEnvFan exSizer exGlobalsBlowThru (-99999) false rfl).1
    ⟨hz, hfB⟩
  have hD := (fan_placement_direction exEnvFan exSizer exGlobalsDrawThru (-99999) false rfl).1
    ⟨hz, hfD⟩
  obtain ⟨hB1, hB2⟩ := hB.1 rfl
  obtain ⟨hD1, hD2⟩ := hD.2.1 rfl
  rw [hrise _ rfl rfl hfB, hbase _ rfl] at hB1
  rw [hbase _ rfl] at hB2 hD1 hD2
  rw [hrise _ rfl rfl hfD] at hD2
  refine ⟨?_, ?_, ?_, ?_⟩
  · rw [hB1]; norm_num
  · rw [hB2]; norm_num [exSizer, exZoneSizing]
  · exact hD1
  · rw [hD2]; norm_num [exSizer, exZoneSizing]

theorem sysPrimaryOutAirFrac_le_one (s : CoolingCapacitySizer) : sysPrimaryOutAirFrac s ≤ 1 := by
  unfold sysPrimaryOutAirFrac outAirFrac
  dsimp only
  split_ifs <;> exact min_le_left _ _

theorem sysPrimaryFanCoolLoad_nonneg (env : Env) (s : CoolingCapacitySizer) (st : St)
    (v : Real64) (hGain : ∀ v, 0 ≤ env.calcFanDesHeatGain v) (h0 : 0 ≤ st.FanCoolLoad) :
    0 ≤ sysPrimaryFanCoolLoad env s st v (sysPrimaryOutAirFrac s) := by
  have hf : 0 ≤ (1 - sysPrimaryOutAirFrac s) * env.calcFanDesHeatGain v :=
    mul_nonneg (sub_nonneg.mpr (sysPrimaryOutAirFrac_le_one s)) (hGain v)
  unfold sysPrimaryFanCoolLoad
  split_ifs
  · exact h0
  · cases (s.primaryAirSystem s.curSysNum).supFanModelTypeEnum <;>
      cases (s.primaryAirSystem s.curSysNum).retFanModelTypeEnum <;>
      first | exact h0 | exact hGain v | exact add_nonneg h0 hf | exact add_nonneg (hGain v) hf

/-- Where the derivation clamps the outlet state at the inlet state (lines
113-114, 162-163 and 368-369) the outlet does not exceed the inlet: in the
zone-scope water-coil derivation, the zone-scope derivation for the other component types
and the full primary-air-system derivation, given a non-negative fan heat gain
and a positive `CpAir * StdRhoAir * DesVolFlow`, the coil outlet temperature and
humidity ratio the resolver ends with, which are the values written to the
handoff slots, do not exceed the inlet ones. -/
theorem outlet_le_inlet_clamped_derivations (env : Env) (s : CoolingCapacitySizer)
    (g : Globals) (ov : Real64) (ef : Bool)
    (hGain : ∀ v, 0 ≤ env.calcFanDesHeatGain v)
    (hPos : 0 < env.PsyCpAirFnW (resolve env s g ov (initSt s g ef)).CoilInHumRat * g.StdRhoAir *
      (resolve env s g ov (initSt s g ef)).DesVolFlow)
    (h : reachesZoneWaterDerivation s ∨ reachesZoneDXDerivation s g ∨
      reachesSysPrimaryDerivation env s g) :
    (resolve env s g ov (initSt s g ef)).CoilOutTemp ≤
        (resolve env s g ov (initSt s g ef)).CoilInTemp ∧
      (resolve env s g ov (initSt s g ef)).CoilOutHumRat ≤
        (resolve env s g ov (initSt s g ef)).CoilInHumRat := by
  have hrise : 0 ≤ (resolve env s g ov (initSt s g ef)).FanCoolLoad →
      0 ≤ fanTempRise env g (resolve env s g ov (initSt s g ef)) :=
    fun hF => div_nonneg hF hPos.le
  rcases h with h | ⟨hz, hf⟩ | ⟨⟨hp, hM1, hM2⟩, hf⟩
  · rw [resolve_zoneWater env s g ov _ h]
    obtain ⟨_, _, _, hTU, hFC⟩ := h
    show (zoneWaterCoil env s g (initSt s g ef)).CoilOutTemp ≤
        (zoneWaterCoil env s g (initSt s g ef)).CoilInTemp ∧
      (zoneWaterCoil env s g (initSt s g ef)).CoilOutHumRat ≤
        (zoneWaterCoil env s g (initSt s g ef)).CoilInHumRat
    unfold zoneWaterCoil
    rw [if_neg hTU, if_neg (by simp [hFC])]
    exact ⟨min_le_left _ _, min_le_left _ _⟩
  · have hF : 0 ≤ (resolve env s g ov (initSt s g ef)).FanCoolLoad := by
      rw [resolve_zoneDX env s g ov _ hz]
      show 0 ≤ (zoneDX env s g (initSt s g ef)).FanCoolLoad
      rw [(zoneDX_airState env s g _ hf).2.2.2.1]
      exact add_nonneg (le_refl (0 : ℚ)) (hGain _)
    have hr := hrise hF
    rw [resolve_zoneDX env s g ov _ hz] at hr ⊢
    obtain ⟨_, hH, hOH, _, hIn, hOut, _⟩ := zoneDX_airState env s g (initSt s g ef) hf
    have hr' : 0 ≤ fanTempRise env g (zoneDX env s g (initSt s g ef)) := hr
    show (zoneDX env s g (initSt s g ef)).CoilOutTemp ≤ (zoneDX env s g (initSt s g ef)).CoilInTemp ∧
      (zoneDX env s g (initSt s g ef)).CoilOutHumRat ≤ (zoneDX env s g (initSt s g ef)).CoilInHumRat
    rw [hIn, hOut, hH, hOH]
    refine ⟨?_, min_le_left _ _⟩
    have hm := min_le_left (zoneDXCoilInTemp env s g s.dataFlowUsedForSizing)
      (s.finalZoneSizing s.curZoneEqNum).CoolDesTemp
    split_ifs <;> linarith
  · have hF : 0 ≤ (resolve env s g ov (initSt s g ef)).FanCoolLoad := by
      rw [resolve_sysPrimary env s g ov _ hp]
      show 0 ≤ (sysPrimary env s g _).FanCoolLoad
      rw [(sysPrimary_airState env s g _ hM1 hM2 hf).2.2.2.1]
      exact sysPrimaryFanCoolLoad_nonneg env s _ _ hGain (le_refl (0 : ℚ))
    have hr := hrise hF
    rw [resolve_sysPrimary env s g ov _ hp] at hr ⊢
    obtain ⟨_, hH, hOH, _, hIn, hOut, _⟩ := sysPrimary_airState env s g
      { initSt s g ef with OutAirFrac := 0, dataFracOfAutosizedCoolingCapacity := 1 } hM1 hM2 hf
    have hr' : 0 ≤ fanTempRise env g (sysPrimary env s g
      { initSt s g ef with OutAirFrac := 0, dataFracOfAutosizedCoolingCapacity := 1 }) := hr
    show (sysPrimary env s g _).CoilOutTemp ≤ (sysPrimary env s g _).CoilInTemp ∧
      (sysPrimary env s g _).CoilOutHumRat ≤ (sysPrimary env s g _).CoilInHumRat
    rw [hIn, hOut, hH, hOH]
    refine ⟨?_, min_le_left _ _⟩
    have hm := min_le_left (sysPrimaryCoilInTemp s) (sysPrimaryCoilOutTemp0 s)
    split_ifs <;> linarith

/-- C26, the code at the failing input: in the dedicated-outdoor-air-system
derivation with outdoor air at 10 C and a precool target of 20 C the coil
outlet temperature used for sizing is 20 C, above the 10 C inlet. -/
theorem doas_outlet_above_inlet :
    reachesDOASDerivation exDOAS ∧
      (resolve exEnv exDOAS exGlobals (-99999) (initSt exDOAS exGlobals false)).CoilInTemp
        = 10 ∧
      (resolve exEnv exDOAS exGlobals (-99999) (initSt exDOAS exGlobals false)).CoilOutTemp
        = 20 ∧
      (CoolingCapacitySizer.size exEnv exDOAS exGlobals (-99999) false).CoilInTemp <
        (CoolingCapacitySizer.size exEnv exDOAS exGlobals (-99999) false).CoilOutTemp := by
  have hd : reachesDOASDerivation exDOAS :=
    ⟨⟨⟨⟨rfl, by norm_num [exDOAS, exSizer]⟩, by decide, by decide, Or.inl rfl⟩, rfl, rfl,
      by decide⟩, rfl⟩
  have hs1 : ∀ st : St, (sysWarnings exEnv exDOAS exGlobals
      { st with dataDesAccountForFanHeat := true }).CoilInTemp = st.CoilInTemp := fun _ => rfl
  have hs2 : ∀ st : St, (sysWarnings exEnv exDOAS exGlobals
      { st with dataDesAccountForFanHeat := true }).CoilOutTemp = st.CoilOutTemp := fun _ => rfl
  have h1 : (resolve exEnv exDOAS exGlobals (-99999) (initSt exDOAS exGlobals false)).CoilInTemp
      = 10 := by
    rw [resolve_sysDOAS _ _ _ _ _ hd.1, hs1]
    unfold sysDOAS
    dsimp only
    rw [if_neg (by decide), if_neg (by decide)]
    rfl
  have h2 : (resolve exEnv exDOAS exGlobals (-99999) (initSt exDOAS exGlobals false)).CoilOutTemp
      = 20 := by
    rw [resolve_sysDOAS _ _ _ _ _ hd.1, hs2]
    unfold sysDOAS
    dsimp only
    rw [if_neg (by decide)]
    rfl
  refine ⟨hd, h1, h2, ?_⟩
  rw [size_of_not_applies _ _ _ _ _ (by decide)]
  show (resolve exEnv exDOAS exGlobals (-99999) (initSt exDOAS exGlobals false)).CoilInTemp <
    (resolve exEnv exDOAS exGlobals (-99999) (initSt exDOAS exGlobals false)).CoilOutTemp
  rw [h1, h2]
  norm_num

/-! ## Zone scope takes precedence (C28) -/

theorem zoneWaterCoil_fanTable (env : Env) (s : CoolingCapacitySizer) (g : Globals) (st : St)
    (f : Int → Real64) :
    zoneWaterCoil env s g { st with FanDesCoolLoad := f } =
      { zoneWaterCoil env s g st with FanDesCoolLoad := f } := by
  unfold zoneWaterCoil
  dsimp only
  split_ifs <;> rfl

theorem zoneDX_fanTable (env : Env) (s : CoolingCapacitySizer) (g : Globals) (st : St)
    (f : Int → Real64) :
    zoneDX env s g { st with FanDesCoolLoad := f } =
      { zoneDX env s g st with FanDesCoolLoad := f } := by
  unfold zoneDX
  dsimp only
  split_ifs <;> rfl

theorem zoneWarnings_fanTable (env : Env) (s : CoolingCapacitySizer) (g : Globals) (st : St)
    (f : Int → Real64) :
    zoneWarnings env s g (zoneScale { st with FanDesCoolLoad := f }) =
      { zoneWarnings env s g (zoneScale st) with FanDesCoolLoad := f } := rfl

theorem sizeZone_fanTable (env : Env) (s : CoolingCapacitySizer) (g : Globals) (ov : Real64)
    (st : St) (f : Int → Real64) :
    sizeZone env s g ov { st with FanDesCoolLoad := f } =
      { sizeZone env s g ov st with FanDesCoolLoad := f } := by
  unfold sizeZone
  dsimp only
  split_ifs
  · rfl
  · rfl
  · exact zoneWarnings_fanTable env s g (zoneFromParent s st) f
  · rw [zoneWaterCoil_fanTable]
    exact zoneWarnings_fanTable env s g _ f
  · rw [zoneDX_fanTable]
    exact zoneWarnings_fanTable env s g _ f

theorem guard_fanTable (env : Env) (s : CoolingCapacitySizer) (g : Globals) (st : St)
    (f : Int → Real64) :
    guard env s g { st with FanDesCoolLoad := f } =
      { guard env s g st with FanDesCoolLoad := f } := by
  unfold guard guardCorrect
  dsimp only
  split_ifs <;> rfl

theorem resolve_zone (env : Env) (s : CoolingCapacitySizer) (g : Globals) (ov : Real64)
    (st : St) (hd : reachesScopeDispatch s) (hz : s.curZoneEqNum > 0) :
    resolve env s g ov st = sizeZone env s g ov st := by
  obtain ⟨hEMS, hConst⟩ := hd
  unfold resolve
  rw [if_neg (by simp [hEMS]), if_neg hConst, if_pos hz]

/-- C28: with the zone-equipment scope active (override off, constant times
fraction not taken) the cooling capacity resolver returns what the zone branch
resolves, also when the air-system scope is active too, and replacing the
air-system inputs `sizingDesRunThisAirSys`, `oaSysFlag`, `airLoopSysFlag`,
`finalSysSizing` and `primaryAirSystem` by any other values changes nothing in
the state handed on but the fan load table that belongs to `primaryAirSystem`:
the capacity is the same.  Likewise the UA sizer returns what its zone branch
resolves and replacing its air-system inputs `sizingDesRunThisAirSys` and
`finalSysSizing`, the only ones it reads, changes nothing at all. -/
theorem zone_scope_precedence (env : Env) (s : CoolingCapacitySizer) (g : Globals)
    (ov : Real64) (ef : Bool) (a b c : Bool) (fs : Int → SystemSizingData)
    (pas : Int → DefinePrimaryAirSystem)
    (uenv : WaterHeatingCoilUA.Collaborators) (us : WaterHeatingCoilUASizer)
    (ug : WaterHeatingCoilUA.UAGlobals) (uov : Real64) (uef : Bool) (ua : Bool)
    (ufs : Int → WaterHeatingCoilUA.SystemSizingData) :
    (reachesScopeDispatch s → s.curZoneEqNum > 0 →
      resolve env s g ov (initSt s g ef) = sizeZone env s g ov (initSt s g ef) ∧
      CoolingCapacitySizer.size env (s.withAirSystemInputs a b c fs pas) g ov ef =
        { CoolingCapacitySizer.size env s g ov ef with
          FanDesCoolLoad := fun i => (pas i).FanDesCoolLoad } ∧
      (CoolingCapacitySizer.size env (s.withAirSystemInputs a b c fs pas) g ov ef).autoSizedValue =
        (CoolingCapacitySizer.size env s g ov ef).autoSizedValue) ∧
    (us.curZoneEqNum > 0 →
      WaterHeatingCoilUA.resolve uenv us ug uov (WaterHeatingCoilUA.initSt us ug uef) =
        WaterHeatingCoilUA.sizeZone uenv us uov (WaterHeatingCoilUA.initSt us ug uef) ∧
      WaterHeatingCoilUASizer.size uenv (us.withAirSystemInputs ua ufs) ug uov uef =
        WaterHeatingCoilUASizer.size uenv us ug uov uef) := by
  constructor
  · intro hd hz
    have hd' : reachesScopeDispatch (s.withAirSystemInputs a b c fs pas) := hd
    have hz' : (s.withAirSystemInputs a b c fs pas).curZoneEqNum > 0 := hz
    have hs : CoolingCapacitySizer.size env (s.withAirSystemInputs a b c fs pas) g ov ef =
        { CoolingCapacitySizer.size env s g ov ef with
          FanDesCoolLoad := fun i => (pas i).FanDesCoolLoad } := by
      unfold CoolingCapacitySizer.size
      rw [resolve_zone env s g ov _ hd hz, resolve_zone env _ g ov _ hd' hz']
      have h1 : sizeZone env (s.withAirSystemInputs a b c fs pas) g ov
            (initSt (s.withAirSystemInputs a b c fs pas) g ef) =
          sizeZone env s g ov
            { initSt s g ef with FanDesCoolLoad := fun i => (pas i).FanDesCoolLoad } := rfl
      have h2 : ∀ st : St, guard env (s.withAirSystemInputs a b c fs pas) g st =
          guard env s g st := fun _ => rfl
      have h3 : ∀ st : St, overrideStrings env (s.withAirSystemInputs a b c fs pas) st =
          overrideStrings env s st := fun _ => rfl
      rw [h1, h2, h3, sizeZone_fanTable, guard_fanTable]
      rfl
    refine ⟨resolve_zone env s g ov _ hd hz, hs, ?_⟩
    rw [hs]
  · intro hz
    have hr : ∀ (x : WaterHeatingCoilUASizer), x.curZoneEqNum > 0 →
        WaterHeatingCoilUA.resolve uenv x ug uov (WaterHeatingCoilUA.initSt x ug uef) =
          WaterHeatingCoilUA.sizeZone uenv x uov (WaterHeatingCoilUA.initSt x ug uef) := by
      intro x hx
      unfold WaterHeatingCoilUA.resolve
      rw [if_pos hx]
    refine ⟨hr us hz, ?_⟩
    unfold WaterHeatingCoilUASizer.size
    rw [hr us hz, hr (us.withAirSystemInputs ua ufs) hz]
    rfl

/-- C28, witness: with both scopes active the example DX coil and the example
heating coil get what they get in zone scope, also when the air-system inputs
say that the coil belongs to an outdoor air system after a system design
run. -/
theorem zone_scope_precedence_witness :
    exBothScopes.curZoneEqNum > 0 ∧ exBothScopes.curSysNum > 0 ∧
      (CoolingCapacitySizer.size exEnv
          (exBothScopes.withAirSystemInputs true true true (fun _ => exSysSizingOther)
            (fun _ => exPrimaryAirSystemBlowThru))
          exGlobals (-99999) false).autoSizedValue =
        (CoolingCapacitySizer.size exEnv exBothScopes exGlobals (-99999) false).autoSizedValue ∧
      WaterHeatingCoilUASizer.size WaterHeatingCoilUA.exCollaborators
          (WaterHeatingCoilUA.exBothScopes.withAirSystemInputs true
            (fun _ => WaterHeatingCoilUA.SystemSizingData.mk "AIRLOOP2"))
          WaterHeatingCoilUA.exGlobals 0 false =
        WaterHeatingCoilUASizer.size WaterHeatingCoilUA.exCollaborators
          WaterHeatingCoilUA.exBothScopes WaterHeatingCoilUA.exGlobals 0 false := by
  have h := zone_scope_precedence exEnv exBothScopes exGlobals (-99999) false true true true
    (fun _ => exSysSizingOther) (fun _ => exPrimaryAirSystemBlowThru)
    WaterHeatingCoilUA.exCollaborators
    WaterHeatingCoilUA.exBothScopes WaterHeatingCoilUA.exGlobals 0 false true
    (fun _ => WaterHeatingCoilUA.SystemSizingData.mk "AIRLOOP2")
  exact ⟨by decide, by decide,
    (h.1 ⟨rfl, by norm_num [exBothScopes, exSizer]⟩ (by decide)).2.2, (h.2 (by decide)).2⟩

/-! ## Divisions of the guard and the guard without a design flow (C29, C30) -/

/-- With positive bounds the ratio test divides by zero exactly when the
resolved capacity is zero: then the minimum branch divides by the capacity at
lines 503-504; for any other capacity every divisor is non-zero. -/
theorem guardDivisors_zero_iff (g : Globals) (st : St)
    (hmin : 0 < g.MinRatedVolFlowPerRatedTotCap g.DXCT)
    (hmax : 0 < g.MaxRatedVolFlowPerRatedTotCap g.DXCT) :
    (0 : Real64) ∈ guardDivisors g st ↔ st.autoSizedValue = 0 := by
  unfold guardDivisors
  dsimp only
  constructor
  · intro h
    rw [List.mem_append] at h
    rcases h with h | h
    · split_ifs at h with hc
      · rw [List.mem_singleton] at h
        exact h.symm
      · simp at h
    · split_ifs at h
      · simp only [List.mem_cons, List.mem_singleton, List.not_mem_nil, or_false] at h
        rcases h with h | h | h
        · exact absurd h.symm (ne_of_gt hmin)
        · exact h.symm
        · exact absurd h.symm (ne_of_gt hmin)
      · simp only [List.mem_cons, List.mem_singleton, List.not_mem_nil, or_false] at h
        rcases h with h | h | h
        · exact absurd h.symm (ne_of_gt hmax)
        · exact h.symm
        · exact absurd h.symm (ne_of_gt hmax)
      · simp at h
  · intro h
    rw [h, ratedVolFlowPerRatedTotCap_nonpos _ _ (le_refl (0 : ℚ)), if_pos hmin]
    simp

/-- C29, the code at the failing input: for the auto-sized DX coil whose design
flow is below the small-flow threshold the guard applies with positive bounds,
the resolved capacity is exactly 0, the minimum branch is taken, and the
divisors it uses are the minimum bound, the capacity 0 (lines 503-504) and the
minimum bound again. -/
theorem guard_divides_by_zero_capacity :
    guardApplies exSmallFlow = true ∧
      0 < exGlobals.MinRatedVolFlowPerRatedTotCap exGlobals.DXCT ∧
      0 < exGlobals.MaxRatedVolFlowPerRatedTotCap exGlobals.DXCT ∧
      (resolve exEnv exSmallFlow exGlobals (-99999)
        (initSt exSmallFlow exGlobals false)).autoSizedValue = 0 ∧
      guardDivisors exGlobals
          (resolve exEnv exSmallFlow exGlobals (-99999) (initSt exSmallFlow exGlobals false)) =
        [4027 / 100000000, 0, 4027 / 100000000] ∧
      (0 : Real64) ∈ guardDivisors exGlobals
        (resolve exEnv exSmallFlow exGlobals (-99999) (initSt exSmallFlow exGlobals false)) := by
  have hp : reachesZoneDX exSmallFlow := by
    refine ⟨⟨⟨rfl, ?_⟩, ?_, Or.inl rfl, rfl⟩, rfl, ?_⟩
    · norm_num [exSmallFlow, exSizer]
    · decide
    · decide
  have hlt : exSmallFlow.dataFlowUsedForSizing < exGlobals.SmallAirVolFlow := by
    norm_num [exSmallFlow, exGlobals]
  have hr := small_flow_resolved exEnv exSmallFlow exGlobals (-99999) false (Or.inl hp) hlt
  have hmin : 0 < exGlobals.MinRatedVolFlowPerRatedTotCap exGlobals.DXCT := by
    norm_num [exGlobals]
  have hmax : 0 < exGlobals.MaxRatedVolFlowPerRatedTotCap exGlobals.DXCT := by
    norm_num [exGlobals]
  have hd : guardDivisors exGlobals
      (resolve exEnv exSmallFlow exGlobals (-99999) (initSt exSmallFlow exGlobals false)) =
        [4027 / 100000000, 0, 4027 / 100000000] := by
    unfold guardDivisors
    dsimp only
    rw [hr.1, ratedVolFlowPerRatedTotCap_nonpos _ _ (le_refl (0 : ℚ)), if_pos hmin,
      if_neg (lt_irrefl (0 : ℚ))]
    rfl
  refine ⟨by decide, hmin, hmax, hr.1, hd, ?_⟩
  rw [hd]
  simp

theorem resolve_DesVolFlow_unset (env : Env) (s : CoolingCapacitySizer) (g : Globals)
    (ov : Real64) (ef : Bool) (h : leavesDesVolFlowUnset s) :
    (resolve env s g ov (initSt s g ef)).DesVolFlow = 0 := by
  rcases h with h | ⟨h1, h2⟩ | h | ⟨hz, hCC, hW, hI⟩ | ⟨⟨h1, h2⟩, h3, h4, h5⟩
  · unfold resolve
    rw [if_pos h]
    rfl
  · unfold resolve
    rw [if_neg (by simp [h1]), if_pos h2]
    rfl
  · rw [resolve_designSizeFromParent env s g ov _ h]
    rfl
  · rw [resolve_zoneSizing env s g ov _ hz]
    simp only [hCC, hW, if_false, if_true, Bool.false_eq_true]
    show (zoneWaterCoil env s g (initSt s g ef)).DesVolFlow = 0
    unfold zoneWaterCoil
    rcases hI with hI | hI
    · rw [if_pos hI]
      rfl
    · by_cases hT : s.termUnitIU = true ∧ s.curTermUnitSizingNum > 0
      · rw [if_pos hT]
        rfl
      · rw [if_neg hT, if_pos hI]
        rfl
  · unfold resolve
    rw [if_neg (by simp [h1]), if_neg h2, if_neg (not_lt.mpr h3), if_neg (not_lt.mpr h4),
      if_pos h5]
    rfl

/-- C30: when the guard applies with a minimum bound `min > 0` and the resolver
took a branch that never assigns the design flow (external override, constant
times fraction, `DesignSizeFromParent`, terminal-unit or fan-coil water coil,
standalone value), the design flow is still 0, the ratio the guard tests is 0,
below `min`, so the minimum branch is taken (the ratio of the maximum branch
stays 1), and the capacity handed on is 0 whatever the resolver had selected. -/
theorem guard_no_design_flow (env : Env) (s : CoolingCapacitySizer) (g : Globals)
    (ov : Real64) (ef : Bool) (hg : guardApplies s = true)
    (hmin : 0 < g.MinRatedVolFlowPerRatedTotCap g.DXCT) (hb : leavesDesVolFlowUnset s) :
    (resolve env s g ov (initSt s g ef)).DesVolFlow = 0 ∧
      ratedVolFlowPerRatedTotCap (resolve env s g ov (initSt s g ef)).DesVolFlow
        (resolve env s g ov (initSt s g ef)).autoSizedValue = 0 ∧
      ratedVolFlowPerRatedTotCap (resolve env s g ov (initSt s g ef)).DesVolFlow
          (resolve env s g ov (initSt s g ef)).autoSizedValue <
        g.MinRatedVolFlowPerRatedTotCap g.DXCT ∧
      (CoolingCapacitySizer.size env s g ov ef).DXFlowPerCapMaxRatio = 1 ∧
      (CoolingCapacitySizer.size env s g ov ef).autoSizedValue = 0 := by
  have hD := resolve_DesVolFlow_unset env s g ov ef hb
  have hR : ratedVolFlowPerRatedTotCap (resolve env s g ov (initSt s g ef)).DesVolFlow
      (resolve env s g ov (initSt s g ef)).autoSizedValue = 0 := by
    rw [hD]
    unfold ratedVolFlowPerRatedTotCap
    split_ifs
    · exact zero_div _
    · rfl
  have hlt : ratedVolFlowPerRatedTotCap (resolve env s g ov (initSt s g ef)).DesVolFlow
      (resolve env s g ov (initSt s g ef)).autoSizedValue <
        g.MinRatedVolFlowPerRatedTotCap g.DXCT := by
    rw [hR]
    exact hmin
  refine ⟨hD, hR, hlt, ?_, ?_⟩
  · rw [size_of_applies _ _ _ _ _ hg, guardCorrect_min env s g _ hlt]
    show (resolve env s g ov (initSt s g ef)).DXFlowPerCapMaxRatio = 1
    exact (resolve_init_ratios env s g ov ef).2
  · rw [size_of_applies _ _ _ _ _ hg, guardCorrect_min env s g _ hlt]
    show (resolve env s g ov (initSt s g ef)).DesVolFlow / _ = 0
    rw [hD]
    exact zero_div _

/-- C30, witness: the auto-sized DX coil with an external override of 1000 W is
handed on with capacity 0. -/
theorem guard_no_design_flow_witness :
    (resolve exEnv exEMSOverride exGlobals (-99999)
        (initSt exEMSOverride exGlobals false)).DesVolFlow = 0 ∧
      (CoolingCapacitySizer.size exEnv exEMSOverride exGlobals (-99999) false).autoSizedValue
        = 0 := by
  have h := guard_no_design_flow exEnv exEMSOverride exGlobals (-99999) false (by decide)
    (by norm_num [exGlobals]) (Or.inl rfl)
  exact ⟨h.1, h.2.2.2.2⟩

/-! ## Rounding to binary64 -/

namespace Binary64

theorem roundHalfEven_intCast (n : ℤ) : roundHalfEven (n : ℚ) = n := by
  unfold roundHalfEven
  rw [Int.fract_intCast, if_pos (by norm_num), Int.floor_intCast]

theorem floor_le_roundHalfEven (x : ℚ) : ⌊x⌋ ≤ roundHalfEven x := by
  unfold roundHalfEven
  split_ifs <;> omega

theorem roundHalfEven_le_floor_add_one (x : ℚ) : roundHalfEven x ≤ ⌊x⌋ + 1 := by
  unfold roundHalfEven
  split_ifs <;> omega

theorem roundHalfEven_mono {x y : ℚ} (h : x ≤ y) : roundHalfEven x ≤ roundHalfEven y := by
  have hf : ⌊x⌋ ≤ ⌊y⌋ := Int.floor_le_floor h
  rcases hf.lt_or_eq with hlt | heq
  · calc roundHalfEven x ≤ ⌊x⌋ + 1 := roundHalfEven_le_floor_add_one x
      _ ≤ ⌊y⌋ := hlt
      _ ≤ roundHalfEven y := floor_le_roundHalfEven y
  · have hfr : Int.fract x ≤ Int.fract y := by
      unfold Int.fract
      rw [heq]
      linarith
    unfold roundHalfEven
    rw [heq]
    split_ifs <;> first | omega | (exfalso; linarith)

theorem abs_roundHalfEven_sub_le (x : ℚ) : |(roundHalfEven x : ℚ) - x| ≤ 1 / 2 := by
  have h0 := Int.fract_nonneg x
  have h1 := Int.fract_lt_one x
  have hx : x = ⌊x⌋ + Int.fract x := (Int.floor_add_fract x).symm
  rw [abs_le]
  unfold roundHalfEven
  split_ifs with ha hb hc
  · constructor <;> linarith
  · push_cast
    constructor <;> linarith
  · constructor <;> linarith
  · push_cast
    constructor <;> linarith

theorem ulp_pos (x : ℚ) : 0 < ulp x := zpow_pos (by norm_num) _

theorem exponent_ge (x : ℚ) : -1022 ≤ exponent x := le_max_right _ _

theorem lt_zpow_exponent_succ {x : ℚ} (hx : 0 ≤ x) : x < (2 : ℚ) ^ (exponent x + 1) := by
  have h := Int.lt_zpow_succ_log_self (b := 2) (by norm_num) x
  have h2 : ((2 : ℕ) : ℚ) ^ (Int.log 2 x + 1) ≤ (2 : ℚ) ^ (exponent x + 1) := by
    rw [Nat.cast_ofNat]
    apply zpow_le_zpow_right₀ (by norm_num)
    unfold exponent
    rw [abs_of_nonneg hx]
    have := le_max_left (Int.log 2 x) (-1022)
    omega
  exact lt_of_lt_of_le h h2

theorem zpow_exponent_le {x : ℚ} (hx : (2 : ℚ) ^ (-1022 : ℤ) ≤ x) :
    (2 : ℚ) ^ exponent x ≤ x := by
  have hpos : 0 < x := lt_of_lt_of_le (zpow_pos (by norm_num) _) hx
  unfold exponent
  rw [abs_of_pos hpos]
  rcases le_total (Int.log 2 x) (-1022) with h | h
  · rw [max_eq_right h]; exact hx
  · rw [max_eq_left h]
    have := Int.zpow_log_le_self (b := 2) (by norm_num) hpos
    rwa [Nat.cast_ofNat] at this

theorem exponent_mono {x y : ℚ} (hx : 0 < x) (h : x ≤ y) : exponent x ≤ exponent y := by
  unfold exponent
  rw [abs_of_pos hx, abs_of_pos (lt_of_lt_of_le hx h)]
  exact max_le_max (Int.log_mono_right hx h) le_rfl

theorem zpow_shift53 (e : ℤ) : (9007199254740992 : ℚ) * 2 ^ (e - 52) = 2 ^ (e + 1) := by
  have h : (2 : ℚ) ^ (e + 1) = 2 ^ (53 : ℤ) * 2 ^ (e - 52) := by
    rw [← zpow_add₀ (by norm_num)]
    congr 1
    ring
  rw [h]
  norm_num

theorem zpow_shift52 (e : ℤ) : (4503599627370496 : ℚ) * 2 ^ (e - 52) = 2 ^ e := by
  have h : (2 : ℚ) ^ e = 2 ^ (52 : ℤ) * 2 ^ (e - 52) := by
    rw [← zpow_add₀ (by norm_num)]
    congr 1
    ring
  rw [h]
  norm_num

theorem round_zero : round 0 = 0 := by
  unfold round
  rw [zero_div]
  have : roundHalfEven (0 : ℚ) = 0 := by exact_mod_cast roundHalfEven_intCast 0
  rw [this]
  simp

theorem round_nonneg {x : ℚ} (hx : 0 ≤ x) : 0 ≤ round x := by
  unfold round
  apply mul_nonneg _ (ulp_pos x).le
  have h0 : roundHalfEven (0 : ℚ) = 0 := by exact_mod_cast roundHalfEven_intCast 0
  have := roundHalfEven_mono (div_nonneg hx (ulp_pos x).le)
  rw [h0] at this
  exact_mod_cast this

theorem round_nonpos {x : ℚ} (hx : x ≤ 0) : round x ≤ 0 := by
  unfold round
  apply mul_nonpos_of_nonpos_of_nonneg _ (ulp_pos x).le
  have h0 : roundHalfEven (0 : ℚ) = 0 := by exact_mod_cast roundHalfEven_intCast 0
  have := roundHalfEven_mono (div_nonpos_of_nonpos_of_nonneg hx (ulp_pos x).le)
  rw [h0] at this
  exact_mod_cast this

theorem round_le_zpow {x : ℚ} (hx : 0 ≤ x) : round x ≤ (2 : ℚ) ^ (exponent x + 1) := by
  unfold round ulp
  have hu : (0 : ℚ) < 2 ^ (exponent x - 52) := zpow_pos (by norm_num) _
  have h1 : x / 2 ^ (exponent x - 52) ≤ ((2 ^ 53 : ℤ) : ℚ) := by
    rw [div_le_iff₀ hu]
    have h2 : (((2 : ℤ) ^ 53 : ℤ) : ℚ) * 2 ^ (exponent x - 52) = 2 ^ (exponent x + 1) := by
      push_cast
      exact zpow_shift53 _
    rw [h2]
    exact (lt_zpow_exponent_succ hx).le
  have h3 := roundHalfEven_mono h1
  rw [roundHalfEven_intCast] at h3
  have h4 : ((roundHalfEven (x / 2 ^ (exponent x - 52)) : ℤ) : ℚ) ≤ ((2 ^ 53 : ℤ) : ℚ) := by
    exact_mod_cast h3
  calc (roundHalfEven (x / 2 ^ (exponent x - 52)) : ℚ) * 2 ^ (exponent x - 52)
      ≤ ((2 ^ 53 : ℤ) : ℚ) * 2 ^ (exponent x - 52) := mul_le_mul_of_nonneg_right h4 hu.le
    _ = 2 ^ (exponent x + 1) := by
      push_cast
      exact zpow_shift53 _

theorem zpow_le_round {x : ℚ} (hx : (2 : ℚ) ^ (-1022 : ℤ) ≤ x) :
    (2 : ℚ) ^ exponent x ≤ round x := by
  unfold round ulp
  have hu : (0 : ℚ) < 2 ^ (exponent x - 52) := zpow_pos (by norm_num) _
  have h2 : (((2 : ℤ) ^ 52 : ℤ) : ℚ) * 2 ^ (exponent x - 52) = 2 ^ exponent x := by
    push_cast
    exact zpow_shift52 _
  have h1 : ((2 ^ 52 : ℤ) : ℚ) ≤ x / 2 ^ (exponent x - 52) := by
    rw [le_div_iff₀ hu, h2]
    exact zpow_exponent_le hx
  have h3 := roundHalfEven_mono h1
  rw [roundHalfEven_intCast] at h3
  have h4 : ((2 ^ 52 : ℤ) : ℚ) ≤ ((roundHalfEven (x / 2 ^ (exponent x - 52)) : ℤ) : ℚ) := by
    exact_mod_cast h3
  calc (2 : ℚ) ^ exponent x = ((2 ^ 52 : ℤ) : ℚ) * 2 ^ (exponent x - 52) := h2.symm
    _ ≤ _ := mul_le_mul_of_nonneg_right h4 hu.le

/-- Rounding is monotone on the non-negative numbers. -/
theorem round_mono_of_nonneg {x y : ℚ} (hx : 0 ≤ x) (h : x ≤ y) : round x ≤ round y := by
  rcases hx.lt_or_eq with hxpos | hx0
  swap
  · rw [← hx0, round_zero]
    exact round_nonneg (le_trans hx h)
  have he := exponent_mono hxpos h
  rcases he.lt_or_eq with hlt | heq
  · have hy : (2 : ℚ) ^ (-1022 : ℤ) ≤ y := by
      have hlog : exponent y = Int.log 2 y := by
        unfold exponent at hlt ⊢
        rw [abs_of_nonneg (le_trans hx h)] at hlt ⊢
        apply max_eq_left
        by_contra hn
        rw [max_eq_right (not_le.mp hn).le] at hlt
        have := exponent_ge x
        unfold exponent at this
        omega
      have hypos : 0 < y := by
        by_contra hn
        have hy0 : y = 0 := le_antisymm (not_lt.mp hn) (le_trans hx h)
        have hx0 : x = 0 := le_antisymm (hy0 ▸ h) hx
        rw [hx0, hy0] at hlt
        exact lt_irrefl _ hlt
      have h1 : (-1022 : ℤ) ≤ Int.log 2 y := by
        rw [← hlog]; exact exponent_ge y
      have h2 := Int.zpow_log_le_self (b := 2) (by norm_num) hypos
      rw [Nat.cast_ofNat] at h2
      exact le_trans (zpow_le_zpow_right₀ (by norm_num) h1) h2
    calc round x ≤ (2 : ℚ) ^ (exponent x + 1) := round_le_zpow hx
      _ ≤ (2 : ℚ) ^ exponent y := zpow_le_zpow_right₀ (by norm_num) hlt
      _ ≤ round y := zpow_le_round hy
  · unfold round ulp
    rw [heq]
    have hu : (0 : ℚ) < 2 ^ (exponent y - 52) := zpow_pos (by norm_num) _
    apply mul_le_mul_of_nonneg_right _ hu.le
    have := roundHalfEven_mono (div_le_div_of_nonneg_right h hu.le)
    exact_mod_cast this

/-- Rounding is monotone below a non-negative number. -/
theorem round_mono {x y : ℚ} (hy : 0 ≤ y) (h : x ≤ y) : round x ≤ round y := by
  rcases le_total 0 x with hx | hx
  · exact round_mono_of_nonneg hx h
  · exact le_trans (round_nonpos hx) (round_nonneg hy)

theorem roundHalfEven_eq_of_lt {x : ℚ} {n : ℤ} (h1 : (n : ℚ) - 1 / 2 < x)
    (h2 : x < n + 1 / 2) : roundHalfEven x = n := by
  have h := abs_roundHalfEven_sub_le x
  rw [abs_le] at h
  have h3 : ((roundHalfEven x - n : ℤ) : ℚ) < 1 := by
    push_cast
    linarith [h.2]
  have h4 : ((-1 : ℤ) : ℚ) < ((roundHalfEven x - n : ℤ) : ℚ) := by
    push_cast
    linarith [h.1]
  have h5 : roundHalfEven x - n < 1 := by exact_mod_cast h3
  have h6 : -1 < roundHalfEven x - n := by exact_mod_cast h4
  omega

theorem exponent_eq {x : ℚ} {e : ℤ} (he : -1022 ≤ e) (h1 : (2 : ℚ) ^ e ≤ x)
    (h2 : x < (2 : ℚ) ^ (e + 1)) : exponent x = e := by
  have hpos : 0 < x := lt_of_lt_of_le (zpow_pos (by norm_num) _) h1
  have h3 : e ≤ Int.log 2 x := by
    rw [← Int.zpow_le_iff_le_log (by norm_num) hpos]
    rw [Nat.cast_ofNat]
    exact h1
  have h4 : Int.log 2 x < e + 1 := by
    rw [← Int.lt_zpow_iff_log_lt (by norm_num) hpos]
    rw [Nat.cast_ofNat]
    exact h2
  unfold exponent
  rw [abs_of_pos hpos]
  omega

theorem exponent_eq_of_lt {x : ℚ} (h0 : 0 < x) (h : x < (2 : ℚ) ^ (-1022 : ℤ)) :
    exponent x = -1022 := by
  have h4 : Int.log 2 x < -1022 := by
    rw [← Int.lt_zpow_iff_log_lt (by norm_num) h0]
    rw [Nat.cast_ofNat]
    exact h
  unfold exponent
  rw [abs_of_pos h0]
  omega

/-- Evaluation of a rounding in the normal range: the binade and the nearest
multiple of the spacing. -/
theorem round_eq {x : ℚ} (e n : ℤ) (he : -1022 ≤ e) (h1 : (2 : ℚ) ^ e ≤ x)
    (h2 : x < (2 : ℚ) ^ (e + 1)) (h3 : (n : ℚ) - 1 / 2 < x / (2 : ℚ) ^ (e - 52))
    (h4 : x / (2 : ℚ) ^ (e - 52) < n + 1 / 2) : round x = n * (2 : ℚ) ^ (e - 52) := by
  unfold round ulp
  rw [exponent_eq he h1 h2, roundHalfEven_eq_of_lt h3 h4]

/-- Evaluation of a rounding below the normal range. -/
theorem round_eq_of_lt {x : ℚ} (n : ℤ) (h0 : 0 < x) (h : x < (2 : ℚ) ^ (-1022 : ℤ))
    (h3 : (n : ℚ) - 1 / 2 < x / (2 : ℚ) ^ (-1074 : ℤ))
    (h4 : x / (2 : ℚ) ^ (-1074 : ℤ) < n + 1 / 2) : round x = n * (2 : ℚ) ^ (-1074 : ℤ) := by
  unfold round ulp
  rw [exponent_eq_of_lt h0 h]
  have : (-1022 : ℤ) - 52 = -1074 := by norm_num
  rw [this, roundHalfEven_eq_of_lt h3 h4]


theorem roundHalfEven_neg (x : ℚ) : roundHalfEven (-x) = -roundHalfEven x := by
  have h0 := Int.fract_nonneg x
  have h1 := Int.fract_lt_one x
  have hx : x = ⌊x⌋ + Int.fract x := (Int.floor_add_fract x).symm
  by_cases hf : Int.fract x = 0
  · have hxi : x = ((⌊x⌋ : ℤ) : ℚ) := by
      rw [hf, add_zero] at hx
      exact hx
    obtain ⟨n, rfl⟩ : ∃ n : ℤ, x = n := ⟨⌊x⌋, hxi⟩
    rw [roundHalfEven_intCast, ← Int.cast_neg, roundHalfEven_intCast]
  · have hpos : 0 < Int.fract x := lt_of_le_of_ne h0 (Ne.symm hf)
    have hfl : ⌊-x⌋ = -⌊x⌋ - 1 := by
      rw [Int.floor_eq_iff]
      push_cast
      constructor <;> linarith
    have hfr : Int.fract (-x) = 1 - Int.fract x := by
      have h2 : Int.fract (-x) = -x - ⌊-x⌋ := rfl
      rw [h2, hfl]
      push_cast
      linarith
    unfold roundHalfEven
    rw [hfr, hfl]
    split_ifs <;> first | omega | (exfalso; linarith)

theorem exponent_neg (x : ℚ) : exponent (-x) = exponent x := by
  unfold exponent
  rw [abs_neg]

theorem round_neg (x : ℚ) : round (-x) = -round x := by
  unfold round ulp
  rw [exponent_neg, neg_div, roundHalfEven_neg]
  push_cast
  ring

/-- Rounding to binary64 is monotone. -/
theorem round_le_round {x y : ℚ} (h : x ≤ y) : round x ≤ round y := by
  rcases le_total 0 y with hy | hy
  · exact round_mono hy h
  · have h1 : round (-y) ≤ round (-x) :=
      round_mono (neg_nonneg.mpr (le_trans h hy)) (neg_le_neg h)
    rw [round_neg, round_neg] at h1
    linarith

theorem minNormal_eq : minNormal = (2 : ℚ) ^ (-1022 : ℤ) := by
  unfold minNormal
  rw [zpow_neg, one_div]
  norm_cast

theorem unitRoundoff_eq : unitRoundoff = (2 : ℚ) ^ (-53 : ℤ) := by
  unfold unitRoundoff
  rw [zpow_neg, one_div]
  norm_cast

/-- A rounding is off by at most half the spacing. -/
theorem abs_round_sub_le_ulp (x : ℚ) :
    |round x - x| ≤ unitRoundoff * (2 : ℚ) ^ exponent x := by
  have hu := ulp_pos x
  have h1 := abs_roundHalfEven_sub_le (x / ulp x)
  have h2 : round x - x = ((roundHalfEven (x / ulp x) : ℚ) - x / ulp x) * ulp x := by
    unfold round
    field_simp
  rw [h2, abs_mul, abs_of_pos hu]
  have h3 : ulp x = (2 : ℚ) ^ (-52 : ℤ) * (2 : ℚ) ^ exponent x := by
    unfold ulp
    rw [← zpow_add₀ (by norm_num)]
    congr 1
    ring
  calc |(roundHalfEven (x / ulp x) : ℚ) - x / ulp x| * ulp x
      ≤ 1 / 2 * ulp x := mul_le_mul_of_nonneg_right h1 hu.le
    _ = unitRoundoff * (2 : ℚ) ^ exponent x := by
      rw [h3, unitRoundoff_eq]
      norm_num
      ring

/-- In the normal range a rounding changes the number by at most the unit
roundoff, relative to the number. -/
theorem abs_round_sub_le_mul {x : ℚ} (hx : minNormal ≤ x) :
    |round x - x| ≤ unitRoundoff * x := by
  rw [minNormal_eq] at hx
  have h4 := zpow_exponent_le hx
  have hu : (0 : ℚ) ≤ unitRoundoff := by unfold unitRoundoff; positivity
  exact le_trans (abs_round_sub_le_ulp x) (mul_le_mul_of_nonneg_left h4 hu)

/-- When the rounded number is in the normal range, the rounding changed the
number by at most the unit roundoff, relative to the rounded number. -/
theorem abs_round_sub_le_mul_round {x : ℚ} (h0 : 0 ≤ x) (hx : minNormal ≤ round x) :
    |round x - x| ≤ unitRoundoff * round x := by
  have hu : (0 : ℚ) ≤ unitRoundoff := by unfold unitRoundoff; positivity
  have hmp : (0 : ℚ) < minNormal := by unfold minNormal; positivity
  refine le_trans (abs_round_sub_le_ulp x) (mul_le_mul_of_nonneg_left ?_ hu)
  rcases le_or_lt minNormal x with h | h
  · rw [minNormal_eq] at h
    exact zpow_le_round h
  · have hxpos : 0 < x := by
      rcases h0.lt_or_eq with h1 | h1
      · exact h1
      · exfalso
        rw [← h1, round_zero] at hx
        linarith
    rw [minNormal_eq] at h
    rw [exponent_eq_of_lt hxpos h, ← minNormal_eq]
    exact hx

theorem round_one : round 1 = 1 :=
  (round_eq 0 4503599627370496 (by norm_num) (by norm_num) (by norm_num) (by norm_num)
    (by norm_num)).trans (by norm_num)

theorem round_maxFinite : round maxFinite = maxFinite :=
  (round_eq 1023 9007199254740991 (by norm_num) (by norm_num [maxFinite])
    (by norm_num [maxFinite]) (by norm_num [maxFinite]) (by norm_num [maxFinite])).trans
    (by norm_num [maxFinite])

end Binary64

/-! ## The plausibility guard in binary64 (C7, C8, C11) -/

theorem guardWith_of_applies (quot : Real64 → Real64 → Real64) (env : Env)
    (s : CoolingCapacitySizer) (g : Globals) (st : St) (h : guardApplies s = true) :
    guardWith quot env s g st = guardCorrectWith quot env s g st := by
  simp only [guardApplies, Bool.and_eq_true, Bool.or_eq_true, Bool.not_eq_true'] at h
  obtain ⟨⟨h1, h2⟩, h3, h4⟩ := h
  have h1' : ¬ s.hardSizeNoDesignRun = true ∨ s.dataScalableSizingON = true ∨
      s.dataScalableCapSizingON = true := by
    rcases h1 with (h1 | h1) | h1
    · exact Or.inl (by simp [h1])
    · exact Or.inr (Or.inl h1)
    · exact Or.inr (Or.inr h1)
  rw [guardWith, if_pos h1', if_pos h2, if_pos ⟨h3, h4⟩]

theorem sizeBinary64_of_applies (env : Env) (s : CoolingCapacitySizer) (g : Globals)
    (ov : Real64) (ef : Bool) (h : guardApplies s = true) :
    CoolingCapacitySizer.sizeBinary64 env s g ov ef =
      overrideStrings env s
        (guardCorrectWith Binary64.div env s g (resolve env s g ov (initSt s g ef))) := by
  rw [CoolingCapacitySizer.sizeBinary64, CoolingCapacitySizer.sizeWith,
    guardWith_of_applies _ _ _ _ _ h]

/-- With the exact quotient the parametrised body is the exact embedding. -/
theorem sizeWith_exact (env : Env) (s : CoolingCapacitySizer) (g : Globals) (ov : Real64)
    (ef : Bool) :
    CoolingCapacitySizer.sizeWith (fun a b => a / b) env s g ov ef =
      CoolingCapacitySizer.size env s g ov ef := rfl

theorem guardCorrectWith_min (quot : Real64 → Real64 → Real64) (env : Env)
    (s : CoolingCapacitySizer) (g : Globals) (st : St)
    (h : ratedVolFlowPerRatedTotCapWith quot st.DesVolFlow st.autoSizedValue <
      g.MinRatedVolFlowPerRatedTotCap g.DXCT) :
    guardCorrectWith quot env s g st =
      { st.emit (guardMinLinesWith quot env s g st) with
        DXFlowPerCapMinRatio :=
          quot (quot st.DesVolFlow (g.MinRatedVolFlowPerRatedTotCap g.DXCT)) st.autoSizedValue
        autoSizedValue := quot st.DesVolFlow (g.MinRatedVolFlowPerRatedTotCap g.DXCT) } := by
  unfold guardCorrectWith
  dsimp only
  rw [if_pos h]

theorem guardCorrectWith_max (quot : Real64 → Real64 → Real64) (env : Env)
    (s : CoolingCapacitySizer) (g : Globals) (st : St)
    (h1 : ¬ ratedVolFlowPerRatedTotCapWith quot st.DesVolFlow st.autoSizedValue <
      g.MinRatedVolFlowPerRatedTotCap g.DXCT)
    (h2 : ratedVolFlowPerRatedTotCapWith quot st.DesVolFlow st.autoSizedValue >
      g.MaxRatedVolFlowPerRatedTotCap g.DXCT) :
    guardCorrectWith quot env s g st =
      { st.emit (guardMaxLinesWith quot env s g st) with
        DXFlowPerCapMaxRatio :=
          quot (quot st.DesVolFlow (g.MaxRatedVolFlowPerRatedTotCap g.DXCT)) st.autoSizedValue
        autoSizedValue := quot st.DesVolFlow (g.MaxRatedVolFlowPerRatedTotCap g.DXCT) } := by
  unfold guardCorrectWith
  dsimp only
  rw [if_neg h1, if_pos h2]

theorem guardCorrectWith_inrange (quot : Real64 → Real64 → Real64) (env : Env)
    (s : CoolingCapacitySizer) (g : Globals) (st : St)
    (h1 : ¬ ratedVolFlowPerRatedTotCapWith quot st.DesVolFlow st.autoSizedValue <
      g.MinRatedVolFlowPerRatedTotCap g.DXCT)
    (h2 : ¬ ratedVolFlowPerRatedTotCapWith quot st.DesVolFlow st.autoSizedValue >
      g.MaxRatedVolFlowPerRatedTotCap g.DXCT) :
    guardCorrectWith quot env s g st = st := by
  unfold guardCorrectWith
  dsimp only
  rw [if_neg h1, if_neg h2]

theorem ratedVolFlowPerRatedTotCapWith_pos (quot : Real64 → Real64 → Real64) (D c : Real64)
    (hc : 0 < c) : ratedVolFlowPerRatedTotCapWith quot D c = quot D c := by
  unfold ratedVolFlowPerRatedTotCapWith
  rw [if_pos hc]

theorem ratedVolFlowPerRatedTotCapWith_nonpos (quot : Real64 → Real64 → Real64) (D c : Real64)
    (hc : c ≤ 0) : ratedVolFlowPerRatedTotCapWith quot D c = 0 := by
  unfold ratedVolFlowPerRatedTotCapWith
  rw [if_neg (not_lt.mpr hc)]

/-- A binary64 quotient below a binary64 number: the exact quotient is below
it too. -/
theorem Binary64.lt_of_div_lt {a b m : Real64} (hm : Binary64.round m = m)
    (h : Binary64.div a b < m) : a / b < m := by
  by_contra hn
  have h1 := Binary64.round_le_round (not_lt.mp hn)
  rw [hm] at h1
  exact absurd h (not_lt.mpr h1)

/-- A binary64 quotient above a binary64 number: the exact quotient is above
it too. -/
theorem Binary64.lt_of_lt_div {a b m : Real64} (hm : Binary64.round m = m)
    (h : m < Binary64.div a b) : m < a / b := by
  by_contra hn
  have h1 := Binary64.round_le_round (not_lt.mp hn)
  rw [hm] at h1
  exact absurd h (not_lt.mpr h1)

/-- C7: in binary64, when the guard's ratio test is reached with a minimum
bound `min > 0` and a capacity `c > 0` left by the resolver, both finite
binary64 numbers, the quotients of the branch do not overflow, and the machine's
quotient of `DesVolFlow` by `c` is below `min`, then the capacity handed on is
the machine's quotient of `DesVolFlow` by `min`; the exact quotient
`DesVolFlow / min` is strictly less than `c` and the capacity handed on is at
most `c`; the recorded `DXFlowPerCapMinRatio` is the machine's quotient of the
corrected capacity by `c` and at most 1; an exact ratio of `min / k` with
`k > 1` gives `c / k` rounded; and `DXFlowPerCapMaxRatio` stays 1. -/
theorem guard_min_branch_binary64 (env : Env) (s : CoolingCapacitySizer) (g : Globals)
    (ov : Real64) (ef : Bool) (p : St)
    (hp : p = resolve env s g ov (initSt s g ef))
    (hg : guardApplies s = true)
    (hmin : 0 < g.MinRatedVolFlowPerRatedTotCap g.DXCT)
    (hminF : Binary64.isFinite (g.MinRatedVolFlowPerRatedTotCap g.DXCT))
    (hc : 0 < p.autoSizedValue)
    (hcF : Binary64.isFinite p.autoSizedValue)
    (hq : -Binary64.maxFinite ≤ p.DesVolFlow / g.MinRatedVolFlowPerRatedTotCap g.DXCT)
    (hr : -Binary64.maxFinite ≤
      Binary64.div p.DesVolFlow (g.MinRatedVolFlowPerRatedTotCap g.DXCT) / p.autoSizedValue)
    (hlt : Binary64.div p.DesVolFlow p.autoSizedValue <
      g.MinRatedVolFlowPerRatedTotCap g.DXCT) :
    (CoolingCapacitySizer.sizeBinary64 env s g ov ef).autoSizedValue =
        Binary64.div p.DesVolFlow (g.MinRatedVolFlowPerRatedTotCap g.DXCT) ∧
      p.DesVolFlow / g.MinRatedVolFlowPerRatedTotCap g.DXCT < p.autoSizedValue ∧
      (CoolingCapacitySizer.sizeBinary64 env s g ov ef).autoSizedValue ≤ p.autoSizedValue ∧
      -Binary64.maxFinite ≤ (CoolingCapacitySizer.sizeBinary64 env s g ov ef).autoSizedValue ∧
      (CoolingCapacitySizer.sizeBinary64 env s g ov ef).DXFlowPerCapMinRatio =
        Binary64.div (CoolingCapacitySizer.sizeBinary64 env s g ov ef).autoSizedValue
          p.autoSizedValue ∧
      (CoolingCapacitySizer.sizeBinary64 env s g ov ef).DXFlowPerCapMinRatio ≤ 1 ∧
      -Binary64.maxFinite ≤
        (CoolingCapacitySizer.sizeBinary64 env s g ov ef).DXFlowPerCapMinRatio ∧
      (∀ k : Real64, 1 < k →
        p.DesVolFlow / p.autoSizedValue = g.MinRatedVolFlowPerRatedTotCap g.DXCT / k →
        (CoolingCapacitySizer.sizeBinary64 env s g ov ef).autoSizedValue =
          Binary64.round (p.autoSizedValue / k)) ∧
      (CoolingCapacitySizer.sizeBinary64 env s g ov ef).DXFlowPerCapMaxRatio = 1 := by
  have hrt : ratedVolFlowPerRatedTotCapWith Binary64.div p.DesVolFlow p.autoSizedValue <
      g.MinRatedVolFlowPerRatedTotCap g.DXCT := by
    rw [ratedVolFlowPerRatedTotCapWith_pos _ _ _ hc]; exact hlt
  have hs : CoolingCapacitySizer.sizeBinary64 env s g ov ef =
      overrideStrings env s (guardCorrectWith Binary64.div env s g p) := by
    rw [sizeBinary64_of_applies _ _ _ _ _ hg, hp]
  have hex : p.DesVolFlow / p.autoSizedValue < g.MinRatedVolFlowPerRatedTotCap g.DXCT :=
    Binary64.lt_of_div_lt hminF.1 hlt
  have hD : p.DesVolFlow < g.MinRatedVolFlowPerRatedTotCap g.DXCT * p.autoSizedValue :=
    (div_lt_iff₀ hc).mp hex
  have hqc : p.DesVolFlow / g.MinRatedVolFlowPerRatedTotCap g.DXCT < p.autoSizedValue := by
    rw [div_lt_iff₀ hmin]
    linarith [mul_comm (g.MinRatedVolFlowPerRatedTotCap g.DXCT) p.autoSizedValue]
  have hle : Binary64.div p.DesVolFlow (g.MinRatedVolFlowPerRatedTotCap g.DXCT) ≤
      p.autoSizedValue := by
    have h1 := Binary64.round_le_round hqc.le
    rw [hcF.1] at h1
    exact h1
  have hlo : -Binary64.maxFinite ≤
      Binary64.div p.DesVolFlow (g.MinRatedVolFlowPerRatedTotCap g.DXCT) := by
    have h1 := Binary64.round_le_round hq
    rw [Binary64.round_neg, Binary64.round_maxFinite] at h1
    exact h1
  rw [hs, guardCorrectWith_min Binary64.div env s g p hrt]
  refine ⟨rfl, hqc, hle, hlo, rfl, ?_, ?_, ?_, ?_⟩
  · show Binary64.div (Binary64.div p.DesVolFlow (g.MinRatedVolFlowPerRatedTotCap g.DXCT))
      p.autoSizedValue ≤ 1
    have h1 := Binary64.round_le_round ((div_le_one hc).mpr hle)
    rw [Binary64.round_one] at h1
    exact h1
  · show -Binary64.maxFinite ≤
      Binary64.div (Binary64.div p.DesVolFlow (g.MinRatedVolFlowPerRatedTotCap g.DXCT))
        p.autoSizedValue
    have h1 := Binary64.round_le_round hr
    rw [Binary64.round_neg, Binary64.round_maxFinite] at h1
    exact h1
  · intro k hk hk2
    show Binary64.round (p.DesVolFlow / g.MinRatedVolFlowPerRatedTotCap g.DXCT) =
      Binary64.round (p.autoSizedValue / k)
    have hk0 : (0 : ℚ) < k := lt_trans zero_lt_one hk
    rw [div_eq_div_iff hc.ne' hk0.ne'] at hk2
    have : p.DesVolFlow / g.MinRatedVolFlowPerRatedTotCap g.DXCT = p.autoSizedValue / k := by
      rw [div_eq_div_iff hmin.ne' hk0.ne']
      linarith [mul_comm (g.MinRatedVolFlowPerRatedTotCap g.DXCT) p.autoSizedValue]
    rw [this]
  · show p.DXFlowPerCapMaxRatio = 1
    rw [hp]
    exact (resolve_init_ratios env s g ov ef).2

/-- C8: in binary64, when the guard's ratio test is reached with bounds
`0 < min <= max`, a capacity `c > 0` left by the resolver, `max` and `c` finite
binary64 numbers, the quotients of the branch do not overflow, and the
machine's quotient of `DesVolFlow` by `c` is above `max`, then the capacity
handed on is the machine's quotient of `DesVolFlow` by `max`; the exact quotient
`DesVolFlow / max` is strictly greater than `c` and the capacity handed on is
at least `c`; the recorded `DXFlowPerCapMaxRatio` is the machine's quotient of
the corrected capacity by `c` and at least 1; and `DXFlowPerCapMinRatio` stays
1. -/
theorem guard_max_branch_binary64 (env : Env) (s : CoolingCapacitySizer) (g : Globals)
    (ov : Real64) (ef : Bool) (p : St)
    (hp : p = resolve env s g ov (initSt s g ef))
    (hg : guardApplies s = true)
    (hmin : 0 < g.MinRatedVolFlowPerRatedTotCap g.DXCT)
    (hle : g.MinRatedVolFlowPerRatedTotCap g.DXCT ≤ g.MaxRatedVolFlowPerRatedTotCap g.DXCT)
    (hmaxF : Binary64.isFinite (g.MaxRatedVolFlowPerRatedTotCap g.DXCT))
    (hc : 0 < p.autoSizedValue)
    (hcF : Binary64.isFinite p.autoSizedValue)
    (hq : p.DesVolFlow / g.MaxRatedVolFlowPerRatedTotCap g.DXCT ≤ Binary64.maxFinite)
    (hr : Binary64.div p.DesVolFlow (g.MaxRatedVolFlowPerRatedTotCap g.DXCT) / p.autoSizedValue ≤
      Binary64.maxFinite)
    (hgt : Binary64.div p.DesVolFlow p.autoSizedValue >
      g.MaxRatedVolFlowPerRatedTotCap g.DXCT) :
    (CoolingCapacitySizer.sizeBinary64 env s g ov ef).autoSizedValue =
        Binary64.div p.DesVolFlow (g.MaxRatedVolFlowPerRatedTotCap g.DXCT) ∧
      p.DesVolFlow / g.MaxRatedVolFlowPerRatedTotCap g.DXCT > p.autoSizedValue ∧
      (CoolingCapacitySizer.sizeBinary64 env s g ov ef).autoSizedValue ≥ p.autoSizedValue ∧
      (CoolingCapacitySizer.sizeBinary64 env s g ov ef).autoSizedValue ≤ Binary64.maxFinite ∧
      (CoolingCapacitySizer.sizeBinary64 env s g ov ef).DXFlowPerCapMaxRatio =
        Binary64.div (CoolingCapacitySizer.sizeBinary64 env s g ov ef).autoSizedValue
          p.autoSizedValue ∧
      (CoolingCapacitySizer.sizeBinary64 env s g ov ef).DXFlowPerCapMaxRatio ≥ 1 ∧
      (CoolingCapacitySizer.sizeBinary64 env s g ov ef).DXFlowPerCapMaxRatio ≤
        Binary64.maxFinite ∧
      (CoolingCapacitySizer.sizeBinary64 env s g ov ef).DXFlowPerCapMinRatio = 1 := by
  have hmax : 0 < g.MaxRatedVolFlowPerRatedTotCap g.DXCT := lt_of_lt_of_le hmin hle
  have h1 : ¬ ratedVolFlowPerRatedTotCapWith Binary64.div p.DesVolFlow p.autoSizedValue <
      g.MinRatedVolFlowPerRatedTotCap g.DXCT := by
    rw [ratedVolFlowPerRatedTotCapWith_pos _ _ _ hc]
    exact not_lt.mpr (le_trans hle hgt.le)
  have h2 : ratedVolFlowPerRatedTotCapWith Binary64.div p.DesVolFlow p.autoSizedValue >
      g.MaxRatedVolFlowPerRatedTotCap g.DXCT := by
    rw [ratedVolFlowPerRatedTotCapWith_pos _ _ _ hc]; exact hgt
  have hs : CoolingCapacitySizer.sizeBinary64 env s g ov ef =
      overrideStrings env s (guardCorrectWith Binary64.div env s g p) := by
    rw [sizeBinary64_of_applies _ _ _ _ _ hg, hp]
  have hex : g.MaxRatedVolFlowPerRatedTotCap g.DXCT < p.DesVolFlow / p.autoSizedValue :=
    Binary64.lt_of_lt_div hmaxF.1 hgt
  have hD : g.MaxRatedVolFlowPerRatedTotCap g.DXCT * p.autoSizedValue < p.DesVolFlow :=
    (lt_div_iff₀ hc).mp hex
  have hqc : p.autoSizedValue < p.DesVolFlow / g.MaxRatedVolFlowPerRatedTotCap g.DXCT := by
    rw [lt_div_iff₀ hmax]
    linarith [mul_comm (g.MaxRatedVolFlowPerRatedTotCap g.DXCT) p.autoSizedValue]
  have hge : p.autoSizedValue ≤
      Binary64.div p.DesVolFlow (g.MaxRatedVolFlowPerRatedTotCap g.DXCT) := by
    have h3 := Binary64.round_le_round hqc.le
    rw [hcF.1] at h3
    exact h3
  have hhi : Binary64.div p.DesVolFlow (g.MaxRatedVolFlowPerRatedTotCap g.DXCT) ≤
      Binary64.maxFinite := by
    have h3 := Binary64.round_le_round hq
    rw [Binary64.round_maxFinite] at h3
    exact h3
  rw [hs, guardCorrectWith_max Binary64.div env s g p h1 h2]
  refine ⟨rfl, hqc, hge, hhi, rfl, ?_, ?_, ?_⟩
  · show Binary64.div (Binary64.div p.DesVolFlow (g.MaxRatedVolFlowPerRatedTotCap g.DXCT))
      p.autoSizedValue ≥ 1
    have h3 := Binary64.round_le_round ((one_le_div hc).mpr hge)
    rw [Binary64.round_one] at h3
    exact h3
  · show Binary64.div (Binary64.div p.DesVolFlow (g.MaxRatedVolFlowPerRatedTotCap g.DXCT))
      p.autoSizedValue ≤ Binary64.maxFinite
    have h3 := Binary64.round_le_round hr
    rw [Binary64.round_maxFinite] at h3
    exact h3
  · show p.DXFlowPerCapMinRatio = 1
    rw [hp]
    exact (resolve_init_ratios env s g ov ef).1

/-- The quotient of a positive design flow by a positive bound, rounded in the
normal range, keeps the flow per capacity within one unit roundoff of the
bound. -/
theorem Binary64.quotient_envelope {D m : Real64} (hD : 0 < D) (hm : 0 < m)
    (hy : Binary64.minNormal ≤ D / m) :
    0 < Binary64.div D m ∧
      m * (1 - Binary64.unitRoundoff) ≤ D / Binary64.div D m ∧
      D / Binary64.div D m * (1 - Binary64.unitRoundoff) ≤ m := by
  have hu0 : (0 : ℚ) < Binary64.unitRoundoff := by unfold Binary64.unitRoundoff; positivity
  have hu1 : Binary64.unitRoundoff < 1 := by unfold Binary64.unitRoundoff; norm_num
  have hypos : 0 < D / m := div_pos hD hm
  have hab := abs_le.mp (Binary64.abs_round_sub_le_mul hy)
  have hDm : D / m * m = D := div_mul_cancel₀ D hm.ne'
  have hrlo : D / m * (1 - Binary64.unitRoundoff) ≤ Binary64.div D m := by
    unfold Binary64.div
    linarith [hab.1]
  have hrhi : Binary64.div D m ≤ D / m * (1 + Binary64.unitRoundoff) := by
    unfold Binary64.div
    linarith [hab.2]
  have hrpos : 0 < Binary64.div D m :=
    lt_of_lt_of_le (mul_pos hypos (by linarith)) hrlo
  refine ⟨hrpos, ?_, ?_⟩
  · rw [le_div_iff₀ hrpos]
    have h1 : m * (1 - Binary64.unitRoundoff) * Binary64.div D m ≤
        m * (1 - Binary64.unitRoundoff) * (D / m * (1 + Binary64.unitRoundoff)) :=
      mul_le_mul_of_nonneg_left hrhi (mul_nonneg hm.le (by linarith))
    have h2 : m * (1 - Binary64.unitRoundoff) * (D / m * (1 + Binary64.unitRoundoff)) =
        D * (1 - Binary64.unitRoundoff * Binary64.unitRoundoff) := by
      rw [← hDm]
      field_simp
      ring
    have h3 : D * (1 - Binary64.unitRoundoff * Binary64.unitRoundoff) ≤ D := by
      have := mul_nonneg hD.le (mul_nonneg hu0.le hu0.le)
      linarith
    linarith
  · rw [div_mul_eq_mul_div, div_le_iff₀ hrpos]
    have h1 : m * (D / m * (1 - Binary64.unitRoundoff)) ≤ m * Binary64.div D m :=
      mul_le_mul_of_nonneg_left hrlo hm.le
    have h2 : m * (D / m * (1 - Binary64.unitRoundoff)) = D * (1 - Binary64.unitRoundoff) := by
      rw [← mul_assoc, mul_comm m (D / m), hDm]
    linarith

/-- C11: in binary64, when the guard's ratio test is reached with bounds
`min <= max` in the normal range, a design flow `DesVolFlow > 0` and a finite
capacity left by the resolver, and the quotients `DesVolFlow / max` and
`DesVolFlow / min` neither underflow nor overflow, the guard leaves the design
flow alone and hands on a positive finite capacity whose flow per capacity is
within one unit roundoff `2 ^ (-53)` of the envelope:
`min * (1 - 2 ^ (-53)) <= DesVolFlow / capacity` and
`DesVolFlow / capacity * (1 - 2 ^ (-53)) <= max`. -/
theorem guard_envelope_binary64 (env : Env) (s : CoolingCapacitySizer) (g : Globals)
    (ov : Real64) (ef : Bool) (p : St)
    (hp : p = resolve env s g ov (initSt s g ef))
    (hg : guardApplies s = true)
    (hmin : Binary64.minNormal ≤ g.MinRatedVolFlowPerRatedTotCap g.DXCT)
    (hle : g.MinRatedVolFlowPerRatedTotCap g.DXCT ≤ g.MaxRatedVolFlowPerRatedTotCap g.DXCT)
    (hD : 0 < p.DesVolFlow)
    (hcF : Binary64.isFinite p.autoSizedValue)
    (hlo : Binary64.minNormal ≤ p.DesVolFlow / g.MaxRatedVolFlowPerRatedTotCap g.DXCT)
    (hhi : p.DesVolFlow / g.MinRatedVolFlowPerRatedTotCap g.DXCT ≤ Binary64.maxFinite) :
    (CoolingCapacitySizer.sizeBinary64 env s g ov ef).DesVolFlow = p.DesVolFlow ∧
      g.MinRatedVolFlowPerRatedTotCap g.DXCT * (1 - Binary64.unitRoundoff) ≤
        (CoolingCapacitySizer.sizeBinary64 env s g ov ef).DesVolFlow /
          (CoolingCapacitySizer.sizeBinary64 env s g ov ef).autoSizedValue ∧
      (CoolingCapacitySizer.sizeBinary64 env s g ov ef).DesVolFlow /
          (CoolingCapacitySizer.sizeBinary64 env s g ov ef).autoSizedValue *
          (1 - Binary64.unitRoundoff) ≤
        g.MaxRatedVolFlowPerRatedTotCap g.DXCT ∧
      0 < (CoolingCapacitySizer.sizeBinary64 env s g ov ef).autoSizedValue ∧
      (CoolingCapacitySizer.sizeBinary64 env s g ov ef).autoSizedValue ≤ Binary64.maxFinite := by
  have hu0 : (0 : ℚ) < Binary64.unitRoundoff := by unfold Binary64.unitRoundoff; positivity
  have hu1 : Binary64.unitRoundoff < 1 := by unfold Binary64.unitRoundoff; norm_num
  have hmp : (0 : ℚ) < Binary64.minNormal := by unfold Binary64.minNormal; positivity
  have hminpos : 0 < g.MinRatedVolFlowPerRatedTotCap g.DXCT := lt_of_lt_of_le hmp hmin
  have hmaxpos : 0 < g.MaxRatedVolFlowPerRatedTotCap g.DXCT := lt_of_lt_of_le hminpos hle
  have hqle : p.DesVolFlow / g.MaxRatedVolFlowPerRatedTotCap g.DXCT ≤
      p.DesVolFlow / g.MinRatedVolFlowPerRatedTotCap g.DXCT :=
    div_le_div_of_nonneg_left hD.le hminpos hle
  have hs : CoolingCapacitySizer.sizeBinary64 env s g ov ef =
      overrideStrings env s (guardCorrectWith Binary64.div env s g p) := by
    rw [sizeBinary64_of_applies _ _ _ _ _ hg, hp]
  rw [hs]
  by_cases h1 : ratedVolFlowPerRatedTotCapWith Binary64.div p.DesVolFlow p.autoSizedValue <
      g.MinRatedVolFlowPerRatedTotCap g.DXCT
  · rw [guardCorrectWith_min Binary64.div env s g p h1]
    obtain ⟨e1, e2, e3⟩ := Binary64.quotient_envelope hD hminpos (le_trans hlo hqle)
    refine ⟨rfl, e2, le_trans e3 hle, e1, ?_⟩
    have h3 := Binary64.round_le_round hhi
    rw [Binary64.round_maxFinite] at h3
    exact h3
  · by_cases h2 : ratedVolFlowPerRatedTotCapWith Binary64.div p.DesVolFlow p.autoSizedValue >
        g.MaxRatedVolFlowPerRatedTotCap g.DXCT
    · rw [guardCorrectWith_max Binary64.div env s g p h1 h2]
      obtain ⟨e1, e2, e3⟩ := Binary64.quotient_envelope hD hmaxpos hlo
      refine ⟨rfl, le_trans ?_ e2, e3, e1, ?_⟩
      · exact mul_le_mul_of_nonneg_right hle (by linarith)
      · have h3 := Binary64.round_le_round (le_trans hqle hhi)
        rw [Binary64.round_maxFinite] at h3
        exact h3
    · rw [guardCorrectWith_inrange Binary64.div env s g p h1 h2]
      have hc : 0 < p.autoSizedValue := by
        by_contra hn
        rw [ratedVolFlowPerRatedTotCapWith_nonpos _ _ _ (not_lt.mp hn)] at h1
        exact h1 hminpos
      rw [ratedVolFlowPerRatedTotCapWith_pos _ _ _ hc] at h1 h2
      have hr1 : g.MinRatedVolFlowPerRatedTotCap g.DXCT ≤
          Binary64.round (p.DesVolFlow / p.autoSizedValue) := not_lt.mp h1
      have hr2 : Binary64.round (p.DesVolFlow / p.autoSizedValue) ≤
          g.MaxRatedVolFlowPerRatedTotCap g.DXCT := not_lt.mp h2
      have hab := abs_le.mp (Binary64.abs_round_sub_le_mul_round (div_pos hD hc).le
        (le_trans hmin hr1))
      refine ⟨rfl, ?_, ?_, hc, le_trans (le_abs_self _) hcF.2⟩
      · show _ ≤ p.DesVolFlow / p.autoSizedValue
        have h3 : g.MinRatedVolFlowPerRatedTotCap g.DXCT * (1 - Binary64.unitRoundoff) ≤
            Binary64.round (p.DesVolFlow / p.autoSizedValue) * (1 - Binary64.unitRoundoff) :=
          mul_le_mul_of_nonneg_right hr1 (by linarith)
        linarith [hab.1]
      · show p.DesVolFlow / p.autoSizedValue * (1 - Binary64.unitRoundoff) ≤ _
        have hrpos : 0 ≤ Binary64.round (p.DesVolFlow / p.autoSizedValue) :=
          le_trans hminpos.le hr1
        have h3 : p.DesVolFlow / p.autoSizedValue * (1 - Binary64.unitRoundoff) ≤
            Binary64.round (p.DesVolFlow / p.autoSizedValue) *
              (1 + Binary64.unitRoundoff) * (1 - Binary64.unitRoundoff) :=
          mul_le_mul_of_nonneg_right (by linarith [hab.2]) (by linarith)
        have h4 : Binary64.round (p.DesVolFlow / p.autoSizedValue) *
              (1 + Binary64.unitRoundoff) * (1 - Binary64.unitRoundoff) ≤
            Binary64.round (p.DesVolFlow / p.autoSizedValue) := by
          have := mul_nonneg hrpos (mul_nonneg hu0.le hu0.le)
          nlinarith
        linarith

/-! ## The guard in binary64 on concrete coils -/

theorem round_exMin :
    Binary64.round (5942803070786269 / 147573952589676412928) =
      5942803070786269 / 147573952589676412928 :=
  (Binary64.round_eq (-15) 5942803070786269 (by norm_num) (by norm_num) (by norm_num)
    (by norm_num) (by norm_num)).trans (by norm_num)

theorem round_exMax :
    Binary64.round (557183904746397 / 9223372036854775808) =
      557183904746397 / 9223372036854775808 :=
  (Binary64.round_eq (-15) 8914942475942352 (by norm_num) (by norm_num) (by norm_num)
    (by norm_num) (by norm_num)).trans (by norm_num)

theorem round_exCapacityMin :
    Binary64.round (300338413348299 / 1099511627776) = 300338413348299 / 1099511627776 :=
  (Binary64.round_eq 8 4805414613572784 (by norm_num) (by norm_num) (by norm_num)
    (by norm_num) (by norm_num)).trans (by norm_num)

theorem round_exCapacityMax :
    Binary64.round (2329705154036219 / 140737488355328) = 2329705154036219 / 140737488355328 :=
  (Binary64.round_eq 4 4659410308072438 (by norm_num) (by norm_num) (by norm_num)
    (by norm_num) (by norm_num)).trans (by norm_num)

theorem round_hundred_thousand : Binary64.round 100000 = 100000 :=
  (Binary64.round_eq 16 6871947673600000 (by norm_num) (by norm_num) (by norm_num)
    (by norm_num) (by norm_num)).trans (by norm_num)

theorem round_hundred : Binary64.round 100 = 100 :=
  (Binary64.round_eq 6 7036874417766400 (by norm_num) (by norm_num) (by norm_num)
    (by norm_num) (by norm_num)).trans (by norm_num)

/-- The machine's quotient 0.011 / 273.15619567916565 is 4.026999999999999e-05, one
spacing below the bound 4.027e-5. -/
theorem div_exRoundsToMin_capacity :
    Binary64.div (3170534137668829 / 288230376151711744) (300338413348299 / 1099511627776) =
      1485700767696567 / 36893488147419103232 :=
  (Binary64.round_eq (-15) 5942803070786268 (by norm_num) (by norm_num) (by norm_num)
    (by norm_num) (by norm_num)).trans (by norm_num)

/-- The machine's quotient 0.011 / 4.027e-5 is 273.15619567916565. -/
theorem div_exRoundsToMin_bound :
    Binary64.div (3170534137668829 / 288230376151711744)
        (5942803070786269 / 147573952589676412928) =
      300338413348299 / 1099511627776 :=
  (Binary64.round_eq 8 4805414613572784 (by norm_num) (by norm_num) (by norm_num)
    (by norm_num) (by norm_num)).trans (by norm_num)

/-- The machine's quotient 0.001 / 16.553550736633007 is 6.0410000000000006e-05,
one spacing above the bound 6.041e-5. -/
theorem div_exRoundsToMax_capacity :
    Binary64.div (1152921504606847 / 1152921504606846976) (2329705154036219 / 140737488355328) =
      8914942475942353 / 147573952589676412928 :=
  (Binary64.round_eq (-15) 8914942475942353 (by norm_num) (by norm_num) (by norm_num)
    (by norm_num) (by norm_num)).trans (by norm_num)

/-- The machine's quotient 0.001 / 6.041e-5 is 16.553550736633007. -/
theorem div_exRoundsToMax_bound :
    Binary64.div (1152921504606847 / 1152921504606846976)
        (557183904746397 / 9223372036854775808) =
      2329705154036219 / 140737488355328 :=
  (Binary64.round_eq 4 4659410308072438 (by norm_num) (by norm_num) (by norm_num)
    (by norm_num) (by norm_num)).trans (by norm_num)

/-- The machine's quotient 0.011 / 100000 is 1.0999999999999999e-07. -/
theorem div_exOversized_capacity :
    Binary64.div (3170534137668829 / 288230376151711744) 100000 =
      8311365009850575 / 75557863725914323419136 :=
  (Binary64.round_eq (-24) 8311365009850575 (by norm_num) (by norm_num) (by norm_num)
    (by norm_num) (by norm_num)).trans (by norm_num)

/-- The machine's quotient 0.011 / 100 is 1.1e-4. -/
theorem div_exUndersized_capacity :
    Binary64.div (3170534137668829 / 288230376151711744) 100 =
      4058283696216101 / 36893488147419103232 :=
  (Binary64.round_eq (-14) 8116567392432202 (by norm_num) (by norm_num) (by norm_num)
    (by norm_num) (by norm_num)).trans (by norm_num)

/-- The machine's quotient 0.011 / 6.041e-5 is 182.08905810296309. -/
theorem div_exUndersized_bound :
    Binary64.div (3170534137668829 / 288230376151711744)
        (557183904746397 / 9223372036854775808) =
      3203344586799801 / 17592186044416 :=
  (Binary64.round_eq 7 6406689173599602 (by norm_num) (by norm_num) (by norm_num)
    (by norm_num) (by norm_num)).trans (by norm_num)

/-- The machine's quotient 273.15619567916565 / 100000 is 0.0027315619567916563. -/
theorem div_exOversized_ratio :
    Binary64.div (300338413348299 / 1099511627776) 100000 =
      6298553042302119 / 2305843009213693952 :=
  (Binary64.round_eq (-9) 6298553042302119 (by norm_num) (by norm_num) (by norm_num)
    (by norm_num) (by norm_num)).trans (by norm_num)

/-- The machine's quotient 182.08905810296309 / 100 is 1.8208905810296309. -/
theorem div_exUndersized_ratio :
    Binary64.div (3203344586799801 / 17592186044416) 100 =
      8200562142207491 / 4503599627370496 :=
  (Binary64.round_eq 0 8200562142207491 (by norm_num) (by norm_num) (by norm_num)
    (by norm_num) (by norm_num)).trans (by norm_num)

theorem exRoundsToMin_resolve :
    (resolve exEnv exRoundsToMin exGlobalsBinary64 (-99999)
        (initSt exRoundsToMin exGlobalsBinary64 false)).autoSizedValue
      = 300338413348299 / 1099511627776 ∧
    (resolve exEnv exRoundsToMin exGlobalsBinary64 (-99999)
        (initSt exRoundsToMin exGlobalsBinary64 false)).DesVolFlow
      = 3170534137668829 / 288230376151711744 := by
  have hv := resolve_zone_parent_values exEnv exRoundsToMin exGlobalsBinary64 (-99999) false rfl
    (by norm_num [exRoundsToMin, exSizer]) (by decide) (Or.inl rfl) rfl rfl
  refine ⟨?_, ?_⟩
  · rw [hv.1]; norm_num [exRoundsToMin, exSizer, exZoneEqSizing]
  · rw [hv.2]; rfl

theorem exRoundsToMax_resolve :
    (resolve exEnv exRoundsToMax exGlobalsBinary64 (-99999)
        (initSt exRoundsToMax exGlobalsBinary64 false)).autoSizedValue
      = 2329705154036219 / 140737488355328 ∧
    (resolve exEnv exRoundsToMax exGlobalsBinary64 (-99999)
        (initSt exRoundsToMax exGlobalsBinary64 false)).DesVolFlow
      = 1152921504606847 / 1152921504606846976 := by
  have hv := resolve_zone_parent_values exEnv exRoundsToMax exGlobalsBinary64 (-99999) false rfl
    (by norm_num [exRoundsToMax, exSizer]) (by decide) (Or.inl rfl) rfl rfl
  refine ⟨?_, ?_⟩
  · rw [hv.1]; norm_num [exRoundsToMax, exSizer, exZoneEqSizing]
  · rw [hv.2]; rfl

theorem exOversizedBinary64_resolve :
    (resolve exEnv exOversizedBinary64 exGlobalsBinary64 (-99999)
        (initSt exOversizedBinary64 exGlobalsBinary64 false)).autoSizedValue = 100000 ∧
    (resolve exEnv exOversizedBinary64 exGlobalsBinary64 (-99999)
        (initSt exOversizedBinary64 exGlobalsBinary64 false)).DesVolFlow
      = 3170534137668829 / 288230376151711744 := by
  have hv := resolve_zone_parent_values exEnv exOversizedBinary64 exGlobalsBinary64 (-99999)
    false rfl (by norm_num [exOversizedBinary64, exOversized, exSizer]) (by decide) (Or.inl rfl)
    rfl rfl
  refine ⟨?_, ?_⟩
  · rw [hv.1]; norm_num [exOversizedBinary64, exOversized, exSizer, exZoneEqSizing]
  · rw [hv.2]; rfl

theorem exUndersizedBinary64_resolve :
    (resolve exEnv exUndersizedBinary64 exGlobalsBinary64 (-99999)
        (initSt exUndersizedBinary64 exGlobalsBinary64 false)).autoSizedValue = 100 ∧
    (resolve exEnv exUndersizedBinary64 exGlobalsBinary64 (-99999)
        (initSt exUndersizedBinary64 exGlobalsBinary64 false)).DesVolFlow
      = 3170534137668829 / 288230376151711744 := by
  have hv := resolve_zone_parent_values exEnv exUndersizedBinary64 exGlobalsBinary64 (-99999)
    false rfl (by norm_num [exUndersizedBinary64, exSizer]) (by decide) (Or.inl rfl) rfl rfl
  refine ⟨?_, ?_⟩
  · rw [hv.1]; norm_num [exUndersizedBinary64, exSizer, exZoneEqSizing]
  · rw [hv.2]; rfl

theorem exGlobalsBinary64_min :
    exGlobalsBinary64.MinRatedVolFlowPerRatedTotCap exGlobalsBinary64.DXCT =
      5942803070786269 / 147573952589676412928 := rfl

theorem exGlobalsBinary64_max :
    exGlobalsBinary64.MaxRatedVolFlowPerRatedTotCap exGlobalsBinary64.DXCT =
      557183904746397 / 9223372036854775808 := rfl

/-- The guard in binary64 on the coil with 273.15619567916565 W on 0.011 m3/s:
the minimum branch hands on 273.15619567916565 W with the ratio 1. -/
theorem exRoundsToMin_size :
    (CoolingCapacitySizer.sizeBinary64 exEnv exRoundsToMin exGlobalsBinary64 (-99999)
        false).autoSizedValue = 300338413348299 / 1099511627776 ∧
      (CoolingCapacitySizer.sizeBinary64 exEnv exRoundsToMin exGlobalsBinary64 (-99999)
        false).DesVolFlow = 3170534137668829 / 288230376151711744 ∧
      (CoolingCapacitySizer.sizeBinary64 exEnv exRoundsToMin exGlobalsBinary64 (-99999)
        false).DXFlowPerCapMinRatio = 1 := by
  obtain ⟨hc, hd⟩ := exRoundsToMin_resolve
  have ht : ratedVolFlowPerRatedTotCapWith Binary64.div
      (resolve exEnv exRoundsToMin exGlobalsBinary64 (-99999)
        (initSt exRoundsToMin exGlobalsBinary64 false)).DesVolFlow
      (resolve exEnv exRoundsToMin exGlobalsBinary64 (-99999)
        (initSt exRoundsToMin exGlobalsBinary64 false)).autoSizedValue <
      exGlobalsBinary64.MinRatedVolFlowPerRatedTotCap exGlobalsBinary64.DXCT := by
    rw [hc, hd, ratedVolFlowPerRatedTotCapWith_pos _ _ _ (by norm_num),
      div_exRoundsToMin_capacity, exGlobalsBinary64_min]
    norm_num
  have hs : CoolingCapacitySizer.sizeBinary64 exEnv exRoundsToMin exGlobalsBinary64 (-99999)
      false = overrideStrings exEnv exRoundsToMin
        (guardCorrectWith Binary64.div exEnv exRoundsToMin exGlobalsBinary64
          (resolve exEnv exRoundsToMin exGlobalsBinary64 (-99999)
            (initSt exRoundsToMin exGlobalsBinary64 false))) :=
    sizeBinary64_of_applies _ _ _ _ _ (by decide)
  rw [hs, guardCorrectWith_min _ _ _ _ _ ht]
  refine ⟨?_, hd, ?_⟩
  · show Binary64.div _ _ = _
    rw [hd, exGlobalsBinary64_min, div_exRoundsToMin_bound]
  · show Binary64.div (Binary64.div _ _) _ = _
    rw [hd, hc, exGlobalsBinary64_min, div_exRoundsToMin_bound]
    unfold Binary64.div
    rw [div_self (by norm_num), Binary64.round_one]

/-- The guard in binary64 on the coil with 16.553550736633007 W on 0.001 m3/s:
the maximum branch hands on 16.553550736633007 W with the ratio 1. -/
theorem exRoundsToMax_size :
    (CoolingCapacitySizer.sizeBinary64 exEnv exRoundsToMax exGlobalsBinary64 (-99999)
        false).autoSizedValue = 2329705154036219 / 140737488355328 ∧
      (CoolingCapacitySizer.sizeBinary64 exEnv exRoundsToMax exGlobalsBinary64 (-99999)
        false).DesVolFlow = 1152921504606847 / 1152921504606846976 ∧
      (CoolingCapacitySizer.sizeBinary64 exEnv exRoundsToMax exGlobalsBinary64 (-99999)
        false).DXFlowPerCapMaxRatio = 1 := by
  obtain ⟨hc, hd⟩ := exRoundsToMax_resolve
  have ht1 : ¬ ratedVolFlowPerRatedTotCapWith Binary64.div
      (resolve exEnv exRoundsToMax exGlobalsBinary64 (-99999)
        (initSt exRoundsToMax exGlobalsBinary64 false)).DesVolFlow
      (resolve exEnv exRoundsToMax exGlobalsBinary64 (-99999)
        (initSt exRoundsToMax exGlobalsBinary64 false)).autoSizedValue <
      exGlobalsBinary64.MinRatedVolFlowPerRatedTotCap exGlobalsBinary64.DXCT := by
    rw [hc, hd, ratedVolFlowPerRatedTotCapWith_pos _ _ _ (by norm_num),
      div_exRoundsToMax_capacity, exGlobalsBinary64_min]
    norm_num
  have ht2 : ratedVolFlowPerRatedTotCapWith Binary64.div
      (resolve exEnv exRoundsToMax exGlobalsBinary64 (-99999)
        (initSt exRoundsToMax exGlobalsBinary64 false)).DesVolFlow
      (resolve exEnv exRoundsToMax exGlobalsBinary64 (-99999)
        (initSt exRoundsToMax exGlobalsBinary64 false)).autoSizedValue >
      exGlobalsBinary64.MaxRatedVolFlowPerRatedTotCap exGlobalsBinary64.DXCT := by
    rw [hc, hd, ratedVolFlowPerRatedTotCapWith_pos _ _ _ (by norm_num),
      div_exRoundsToMax_capacity, exGlobalsBinary64_max]
    norm_num
  have hs : CoolingCapacitySizer.sizeBinary64 exEnv exRoundsToMax exGlobalsBinary64 (-99999)
      false = overrideStrings exEnv exRoundsToMax
        (guardCorrectWith Binary64.div exEnv exRoundsToMax exGlobalsBinary64
          (resolve exEnv exRoundsToMax exGlobalsBinary64 (-99999)
            (initSt exRoundsToMax exGlobalsBinary64 false))) :=
    sizeBinary64_of_applies _ _ _ _ _ (by decide)
  rw [hs, guardCorrectWith_max _ _ _ _ _ ht1 ht2]
  refine ⟨?_, hd, ?_⟩
  · show Binary64.div _ _ = _
    rw [hd, exGlobalsBinary64_max, div_exRoundsToMax_bound]
  · show Binary64.div (Binary64.div _ _) _ = _
    rw [hd, hc, exGlobalsBinary64_max, div_exRoundsToMax_bound]
    unfold Binary64.div
    rw [div_self (by norm_num), Binary64.round_one]

/-- The guard in binary64 on the coil with 100 kW on 0.011 m3/s: the minimum
branch hands on 273.15619567916565 W with the ratio 0.0027315619567916563. -/
theorem exOversizedBinary64_size :
    (CoolingCapacitySizer.sizeBinary64 exEnv exOversizedBinary64 exGlobalsBinary64 (-99999)
        false).autoSizedValue = 300338413348299 / 1099511627776 ∧
      (CoolingCapacitySizer.sizeBinary64 exEnv exOversizedBinary64 exGlobalsBinary64 (-99999)
        false).DesVolFlow = 3170534137668829 / 288230376151711744 ∧
      (CoolingCapacitySizer.sizeBinary64 exEnv exOversizedBinary64 exGlobalsBinary64 (-99999)
        false).DXFlowPerCapMinRatio = 6298553042302119 / 2305843009213693952 := by
  obtain ⟨hc, hd⟩ := exOversizedBinary64_resolve
  have ht : ratedVolFlowPerRatedTotCapWith Binary64.div
      (resolve exEnv exOversizedBinary64 exGlobalsBinary64 (-99999)
        (initSt exOversizedBinary64 exGlobalsBinary64 false)).DesVolFlow
      (resolve exEnv exOversizedBinary64 exGlobalsBinary64 (-99999)
        (initSt exOversizedBinary64 exGlobalsBinary64 false)).autoSizedValue <
      exGlobalsBinary64.MinRatedVolFlowPerRatedTotCap exGlobalsBinary64.DXCT := by
    rw [hc, hd, ratedVolFlowPerRatedTotCapWith_pos _ _ _ (by norm_num),
      div_exOversized_capacity, exGlobalsBinary64_min]
    norm_num
  have hs : CoolingCapacitySizer.sizeBinary64 exEnv exOversizedBinary64 exGlobalsBinary64
      (-99999) false = overrideStrings exEnv exOversizedBinary64
        (guardCorrectWith Binary64.div exEnv exOversizedBinary64 exGlobalsBinary64
          (resolve exEnv exOversizedBinary64 exGlobalsBinary64 (-99999)
            (initSt exOversizedBinary64 exGlobalsBinary64 false))) :=
    sizeBinary64_of_applies _ _ _ _ _ (by decide)
  rw [hs, guardCorrectWith_min _ _ _ _ _ ht]
  refine ⟨?_, hd, ?_⟩
  · show Binary64.div _ _ = _
    rw [hd, exGlobalsBinary64_min, div_exRoundsToMin_bound]
  · show Binary64.div (Binary64.div _ _) _ = _
    rw [hd, hc, exGlobalsBinary64_min, div_exRoundsToMin_bound, div_exOversized_ratio]

/-- The guard in binary64 on the coil with 100 W on 0.011 m3/s: the maximum
branch hands on 182.08905810296309 W with the ratio 1.8208905810296309. -/
theorem exUndersizedBinary64_size :
    (CoolingCapacitySizer.sizeBinary64 exEnv exUndersizedBinary64 exGlobalsBinary64 (-99999)
        false).autoSizedValue = 3203344586799801 / 17592186044416 ∧
      (CoolingCapacitySizer.sizeBinary64 exEnv exUndersizedBinary64 exGlobalsBinary64 (-99999)
        false).DesVolFlow = 3170534137668829 / 288230376151711744 ∧
      (CoolingCapacitySizer.sizeBinary64 exEnv exUndersizedBinary64 exGlobalsBinary64 (-99999)
        false).DXFlowPerCapMaxRatio = 8200562142207491 / 4503599627370496 := by
  obtain ⟨hc, hd⟩ := exUndersizedBinary64_resolve
  have ht1 : ¬ ratedVolFlowPerRatedTotCapWith Binary64.div
      (resolve exEnv exUndersizedBinary64 exGlobalsBinary64 (-99999)
        (initSt exUndersizedBinary64 exGlobalsBinary64 false)).DesVolFlow
      (resolve exEnv exUndersizedBinary64 exGlobalsBinary64 (-99999)
        (initSt exUndersizedBinary64 exGlobalsBinary64 false)).autoSizedValue <
      exGlobalsBinary64.MinRatedVolFlowPerRatedTotCap exGlobalsBinary64.DXCT := by
    rw [hc, hd, ratedVolFlowPerRatedTotCapWith_pos _ _ _ (by norm_num),
      div_exUndersized_capacity, exGlobalsBinary64_min]
    norm_num
  have ht2 : ratedVolFlowPerRatedTotCapWith Binary64.div
      (resolve exEnv exUndersizedBinary64 exGlobalsBinary64 (-99999)
        (initSt exUndersizedBinary64 exGlobalsBinary64 false)).DesVolFlow
      (resolve exEnv exUndersizedBinary64 exGlobalsBinary64 (-99999)
        (initSt exUndersizedBinary64 exGlobalsBinary64 false)).autoSizedValue >
      exGlobalsBinary64.MaxRatedVolFlowPerRatedTotCap exGlobalsBinary64.DXCT := by
    rw [hc, hd, ratedVolFlowPerRatedTotCapWith_pos _ _ _ (by norm_num),
      div_exUndersized_capacity, exGlobalsBinary64_max]
    norm_num
  have hs : CoolingCapacitySizer.sizeBinary64 exEnv exUndersizedBinary64 exGlobalsBinary64
      (-99999) false = overrideStrings exEnv exUndersizedBinary64
        (guardCorrectWith Binary64.div exEnv exUndersizedBinary64 exGlobalsBinary64
          (resolve exEnv exUndersizedBinary64 exGlobalsBinary64 (-99999)
            (initSt exUndersizedBinary64 exGlobalsBinary64 false))) :=
    sizeBinary64_of_applies _ _ _ _ _ (by decide)
  rw [hs, guardCorrectWith_max _ _ _ _ _ ht1 ht2]
  refine ⟨?_, hd, ?_⟩
  · show Binary64.div _ _ = _
    rw [hd, exGlobalsBinary64_max, div_exUndersized_bound]
  · show Binary64.div (Binary64.div _ _) _ = _
    rw [hd, hc, exGlobalsBinary64_max, div_exUndersized_bound, div_exUndersized_ratio]

/-- C7, counterexample, in binary64 with the minimum bound 4.027e-5.  First
coil: 273.15619567916565 W from the parent on 0.011 m3/s.  The ratio test is
reached, the exact ratio and the machine's quotient are both below the bound,
so the minimum branch runs; the machine's quotient 0.011 / 4.027e-5 is
273.15619567916565 again: the capacity handed on equals the capacity before
the correction, it is not the exact quotient, and the recorded ratio is 1.
Second coil: 100 kW on 0.011 m3/s; the recorded ratio is the double
0.0027315619567916563, not the exact quotient of the corrected capacity by
100 kW. -/
theorem guard_min_rounds_to_capacity :
    guardApplies exRoundsToMin = true ∧
      0 < exGlobalsBinary64.MinRatedVolFlowPerRatedTotCap exGlobalsBinary64.DXCT ∧
      0 < (resolve exEnv exRoundsToMin exGlobalsBinary64 (-99999)
        (initSt exRoundsToMin exGlobalsBinary64 false)).autoSizedValue ∧
      (resolve exEnv exRoundsToMin exGlobalsBinary64 (-99999)
          (initSt exRoundsToMin exGlobalsBinary64 false)).DesVolFlow /
        (resolve exEnv exRoundsToMin exGlobalsBinary64 (-99999)
          (initSt exRoundsToMin exGlobalsBinary64 false)).autoSizedValue <
        exGlobalsBinary64.MinRatedVolFlowPerRatedTotCap exGlobalsBinary64.DXCT ∧
      Binary64.div
          (resolve exEnv exRoundsToMin exGlobalsBinary64 (-99999)
            (initSt exRoundsToMin exGlobalsBinary64 false)).DesVolFlow
          (resolve exEnv exRoundsToMin exGlobalsBinary64 (-99999)
            (initSt exRoundsToMin exGlobalsBinary64 false)).autoSizedValue <
        exGlobalsBinary64.MinRatedVolFlowPerRatedTotCap exGlobalsBinary64.DXCT ∧
      (CoolingCapacitySizer.sizeBinary64 exEnv exRoundsToMin exGlobalsBinary64 (-99999)
          false).autoSizedValue =
        (resolve exEnv exRoundsToMin exGlobalsBinary64 (-99999)
          (initSt exRoundsToMin exGlobalsBinary64 false)).autoSizedValue ∧
      (CoolingCapacitySizer.sizeBinary64 exEnv exRoundsToMin exGlobalsBinary64 (-99999)
          false).autoSizedValue ≠
        (resolve exEnv exRoundsToMin exGlobalsBinary64 (-99999)
            (initSt exRoundsToMin exGlobalsBinary64 false)).DesVolFlow /
          exGlobalsBinary64.MinRatedVolFlowPerRatedTotCap exGlobalsBinary64.DXCT ∧
      (CoolingCapacitySizer.sizeBinary64 exEnv exRoundsToMin exGlobalsBinary64 (-99999)
          false).DXFlowPerCapMinRatio = 1 ∧
      guardApplies exOversizedBinary64 = true ∧
      (CoolingCapacitySizer.sizeBinary64 exEnv exOversizedBinary64 exGlobalsBinary64 (-99999)
          false).DXFlowPerCapMinRatio ≠
        (CoolingCapacitySizer.sizeBinary64 exEnv exOversizedBinary64 exGlobalsBinary64 (-99999)
            false).autoSizedValue /
          (resolve exEnv exOversizedBinary64 exGlobalsBinary64 (-99999)
            (initSt exOversizedBinary64 exGlobalsBinary64 false)).autoSizedValue := by
  obtain ⟨hc, hd⟩ := exRoundsToMin_resolve
  obtain ⟨ha, -, hr⟩ := exRoundsToMin_size
  obtain ⟨ha2, -, hr2⟩ := exOversizedBinary64_size
  refine ⟨by decide, by rw [exGlobalsBinary64_min]; norm_num, by rw [hc]; norm_num, ?_, ?_, ?_,
    ?_, hr, by decide, ?_⟩
  · rw [hc, hd, exGlobalsBinary64_min]; norm_num
  · rw [hc, hd, div_exRoundsToMin_capacity, exGlobalsBinary64_min]; norm_num
  · rw [ha, hc]
  · rw [ha, hd, exGlobalsBinary64_min]; norm_num
  · rw [hr2, ha2, exOversizedBinary64_resolve.1]; norm_num

/-- C8, counterexample, in binary64 with the maximum bound 6.041e-5.  First
coil: 16.553550736633007 W from the parent on 0.001 m3/s.  The ratio test is
reached, the exact ratio and the machine's quotient are both above the bound,
so the maximum branch runs; the machine's quotient 0.001 / 6.041e-5 is
16.553550736633007 again: the capacity handed on equals the capacity before the
correction, it is not the exact quotient, and the recorded ratio is 1.  Second
coil: 100 W on 0.011 m3/s; the recorded ratio is the double
1.8208905810296309, not the exact quotient of the corrected capacity by
100 W. -/
theorem guard_max_rounds_to_capacity :
    guardApplies exRoundsToMax = true ∧
      0 < exGlobalsBinary64.MinRatedVolFlowPerRatedTotCap exGlobalsBinary64.DXCT ∧
      exGlobalsBinary64.MinRatedVolFlowPerRatedTotCap exGlobalsBinary64.DXCT ≤
        exGlobalsBinary64.MaxRatedVolFlowPerRatedTotCap exGlobalsBinary64.DXCT ∧
      0 < (resolve exEnv exRoundsToMax exGlobalsBinary64 (-99999)
        (initSt exRoundsToMax exGlobalsBinary64 false)).autoSizedValue ∧
      (resolve exEnv exRoundsToMax exGlobalsBinary64 (-99999)
          (initSt exRoundsToMax exGlobalsBinary64 false)).DesVolFlow /
        (resolve exEnv exRoundsToMax exGlobalsBinary64 (-99999)
          (initSt exRoundsToMax exGlobalsBinary64 false)).autoSizedValue >
        exGlobalsBinary64.MaxRatedVolFlowPerRatedTotCap exGlobalsBinary64.DXCT ∧
      Binary64.div
          (resolve exEnv exRoundsToMax exGlobalsBinary64 (-99999)
            (initSt exRoundsToMax exGlobalsBinary64 false)).DesVolFlow
          (resolve exEnv exRoundsToMax exGlobalsBinary64 (-99999)
            (initSt exRoundsToMax exGlobalsBinary64 false)).autoSizedValue >
        exGlobalsBinary64.MaxRatedVolFlowPerRatedTotCap exGlobalsBinary64.DXCT ∧
      (CoolingCapacitySizer.sizeBinary64 exEnv exRoundsToMax exGlobalsBinary64 (-99999)
          false).autoSizedValue =
        (resolve exEnv exRoundsToMax exGlobalsBinary64 (-99999)
          (initSt exRoundsToMax exGlobalsBinary64 false)).autoSizedValue ∧
      (CoolingCapacitySizer.sizeBinary64 exEnv exRoundsToMax exGlobalsBinary64 (-99999)
          false).autoSizedValue ≠
        (resolve exEnv exRoundsToMax exGlobalsBinary64 (-99999)
            (initSt exRoundsToMax exGlobalsBinary64 false)).DesVolFlow /
          exGlobalsBinary64.MaxRatedVolFlowPerRatedTotCap exGlobalsBinary64.DXCT ∧
      (CoolingCapacitySizer.sizeBinary64 exEnv exRoundsToMax exGlobalsBinary64 (-99999)
          false).DXFlowPerCapMaxRatio = 1 ∧
      guardApplies exUndersizedBinary64 = true ∧
      (CoolingCapacitySizer.sizeBinary64 exEnv exUndersizedBinary64 exGlobalsBinary64 (-99999)
          false).DXFlowPerCapMaxRatio ≠
        (CoolingCapacitySizer.sizeBinary64 exEnv exUndersizedBinary64 exGlobalsBinary64
            (-99999) false).autoSizedValue /
          (resolve exEnv exUndersizedBinary64 exGlobalsBinary64 (-99999)
            (initSt exUndersizedBinary64 exGlobalsBinary64 false)).autoSizedValue := by
  obtain ⟨hc, hd⟩ := exRoundsToMax_resolve
  obtain ⟨ha, -, hr⟩ := exRoundsToMax_size
  obtain ⟨ha2, -, hr2⟩ := exUndersizedBinary64_size
  refine ⟨by decide, by rw [exGlobalsBinary64_min]; norm_num,
    by rw [exGlobalsBinary64_min, exGlobalsBinary64_max]; norm_num, by rw [hc]; norm_num,
    ?_, ?_, ?_, ?_, hr, by decide, ?_⟩
  · rw [hc, hd, exGlobalsBinary64_max]; norm_num
  · rw [hc, hd, div_exRoundsToMax_capacity, exGlobalsBinary64_max]; norm_num
  · rw [ha, hc]
  · rw [ha, hd, exGlobalsBinary64_max]; norm_num
  · rw [hr2, ha2, exUndersizedBinary64_resolve.1]; norm_num

/-- C11, counterexample, in binary64 with the bounds 4.027e-5 and 6.041e-5, so
`0 < min <= max`, and positive design flows.  First coil: 100 kW from the
parent on 0.011 m3/s; the minimum branch hands on the machine's quotient
0.011 / 4.027e-5 = 273.15619567916565 W, which is above the exact quotient,
so `DesVolFlow / capacity` is below `min`.  Second coil: 16.553550736633007 W
on 0.001 m3/s; the maximum branch hands on the machine's quotient
0.001 / 6.041e-5 = 16.553550736633007 W, which is below the exact quotient, so
`DesVolFlow / capacity` is above `max`. -/
theorem guard_envelope_rounding_escapes :
    guardApplies exOversizedBinary64 = true ∧
      guardApplies exRoundsToMax = true ∧
      0 < exGlobalsBinary64.MinRatedVolFlowPerRatedTotCap exGlobalsBinary64.DXCT ∧
      exGlobalsBinary64.MinRatedVolFlowPerRatedTotCap exGlobalsBinary64.DXCT ≤
        exGlobalsBinary64.MaxRatedVolFlowPerRatedTotCap exGlobalsBinary64.DXCT ∧
      0 < (resolve exEnv exOversizedBinary64 exGlobalsBinary64 (-99999)
        (initSt exOversizedBinary64 exGlobalsBinary64 false)).DesVolFlow ∧
      0 < (resolve exEnv exRoundsToMax exGlobalsBinary64 (-99999)
        (initSt exRoundsToMax exGlobalsBinary64 false)).DesVolFlow ∧
      (CoolingCapacitySizer.sizeBinary64 exEnv exOversizedBinary64 exGlobalsBinary64 (-99999)
          false).DesVolFlow /
        (CoolingCapacitySizer.sizeBinary64 exEnv exOversizedBinary64 exGlobalsBinary64 (-99999)
          false).autoSizedValue <
        exGlobalsBinary64.MinRatedVolFlowPerRatedTotCap exGlobalsBinary64.DXCT ∧
      (CoolingCapacitySizer.sizeBinary64 exEnv exRoundsToMax exGlobalsBinary64 (-99999)
          false).DesVolFlow /
        (CoolingCapacitySizer.sizeBinary64 exEnv exRoundsToMax exGlobalsBinary64 (-99999)
          false).autoSizedValue >
        exGlobalsBinary64.MaxRatedVolFlowPerRatedTotCap exGlobalsBinary64.DXCT := by
  obtain ⟨ha, hd, -⟩ := exOversizedBinary64_size
  obtain ⟨ha2, hd2, -⟩ := exRoundsToMax_size
  refine ⟨by decide, by decide, by rw [exGlobalsBinary64_min]; norm_num,
    by rw [exGlobalsBinary64_min, exGlobalsBinary64_max]; norm_num,
    by rw [exOversizedBinary64_resolve.2]; norm_num,
    by rw [exRoundsToMax_resolve.2]; norm_num, ?_, ?_⟩
  · rw [ha, hd, exGlobalsBinary64_min]
    norm_num
  · rw [ha2, hd2, exGlobalsBinary64_max]
    norm_num

/-- C7, witness: the coil with 100 kW on 0.011 m3/s has the machine's ratio
1.0999999999999999e-07, below the bound 4.027e-5; the capacity handed on is the
machine's quotient 0.011 / 4.027e-5 = 273.15619567916565 W, below 100 kW, which
is 100 kW / k rounded for the k with `DesVolFlow / c = min / k`, about 366. -/
theorem guard_min_branch_binary64_witness :
    guardApplies exOversizedBinary64 = true ∧
      Binary64.div
          (resolve exEnv exOversizedBinary64 exGlobalsBinary64 (-99999)
            (initSt exOversizedBinary64 exGlobalsBinary64 false)).DesVolFlow
          (resolve exEnv exOversizedBinary64 exGlobalsBinary64 (-99999)
            (initSt exOversizedBinary64 exGlobalsBinary64 false)).autoSizedValue <
        exGlobalsBinary64.MinRatedVolFlowPerRatedTotCap exGlobalsBinary64.DXCT ∧
      (CoolingCapacitySizer.sizeBinary64 exEnv exOversizedBinary64 exGlobalsBinary64 (-99999)
          false).autoSizedValue = 300338413348299 / 1099511627776 ∧
      (CoolingCapacitySizer.sizeBinary64 exEnv exOversizedBinary64 exGlobalsBinary64 (-99999)
          false).autoSizedValue ≤ 100000 ∧
      (CoolingCapacitySizer.sizeBinary64 exEnv exOversizedBinary64 exGlobalsBinary64 (-99999)
          false).DXFlowPerCapMinRatio ≤ 1 ∧
      (CoolingCapacitySizer.sizeBinary64 exEnv exOversizedBinary64 exGlobalsBinary64 (-99999)
          false).autoSizedValue =
        Binary64.round (100000 /
          (5942803070786269 * 100000 / (512 * 3170534137668829))) ∧
      (CoolingCapacitySizer.sizeBinary64 exEnv exOversizedBinary64 exGlobalsBinary64 (-99999)
          false).DXFlowPerCapMaxRatio = 1 := by
  obtain ⟨hc, hd⟩ := exOversizedBinary64_resolve
  have hlt : Binary64.div
      (resolve exEnv exOversizedBinary64 exGlobalsBinary64 (-99999)
        (initSt exOversizedBinary64 exGlobalsBinary64 false)).DesVolFlow
      (resolve exEnv exOversizedBinary64 exGlobalsBinary64 (-99999)
        (initSt exOversizedBinary64 exGlobalsBinary64 false)).autoSizedValue <
      exGlobalsBinary64.MinRatedVolFlowPerRatedTotCap exGlobalsBinary64.DXCT := by
    rw [hc, hd, div_exOversized_capacity, exGlobalsBinary64_min]
    norm_num
  have h := guard_min_branch_binary64 exEnv exOversizedBinary64 exGlobalsBinary64 (-99999) false
    _ rfl (by decide) (by rw [exGlobalsBinary64_min]; norm_num)
    ⟨by rw [exGlobalsBinary64_min]; exact round_exMin,
      by rw [exGlobalsBinary64_min]; norm_num [Binary64.maxFinite, abs_of_pos]⟩
    (by rw [hc]; norm_num)
    ⟨by rw [hc]; exact round_hundred_thousand,
      by rw [hc]; norm_num [Binary64.maxFinite, abs_of_pos]⟩
    (by rw [hd, exGlobalsBinary64_min]; norm_num [Binary64.maxFinite])
    (by rw [hd, hc, exGlobalsBinary64_min, div_exRoundsToMin_bound]
        norm_num [Binary64.maxFinite])
    hlt
  refine ⟨by decide, hlt, ?_, ?_, h.2.2.2.2.2.1, ?_, h.2.2.2.2.2.2.2.2⟩
  · rw [h.1, hd, exGlobalsBinary64_min, div_exRoundsToMin_bound]
  · rw [← hc]; exact h.2.2.1
  · have hk := h.2.2.2.2.2.2.2.1 (5942803070786269 * 100000 / (512 * 3170534137668829))
      (by norm_num) (by rw [hd, hc, exGlobalsBinary64_min]; norm_num)
    rw [hc] at hk
    exact hk

/-- C8, witness: the coil with 100 W on 0.011 m3/s has the machine's ratio
1.1e-4, above the bound 6.041e-5; the capacity handed on is the machine's
quotient 0.011 / 6.041e-5 = 182.08905810296309 W, above 100 W. -/
theorem guard_max_branch_binary64_witness :
    guardApplies exUndersizedBinary64 = true ∧
      Binary64.div
          (resolve exEnv exUndersizedBinary64 exGlobalsBinary64 (-99999)
            (initSt exUndersizedBinary64 exGlobalsBinary64 false)).DesVolFlow
          (resolve exEnv exUndersizedBinary64 exGlobalsBinary64 (-99999)
            (initSt exUndersizedBinary64 exGlobalsBinary64 false)).autoSizedValue >
        exGlobalsBinary64.MaxRatedVolFlowPerRatedTotCap exGlobalsBinary64.DXCT ∧
      (CoolingCapacitySizer.sizeBinary64 exEnv exUndersizedBinary64 exGlobalsBinary64 (-99999)
          false).autoSizedValue = 3203344586799801 / 17592186044416 ∧
      (CoolingCapacitySizer.sizeBinary64 exEnv exUndersizedBinary64 exGlobalsBinary64 (-99999)
          false).autoSizedValue ≥ 100 ∧
      (CoolingCapacitySizer.sizeBinary64 exEnv exUndersizedBinary64 exGlobalsBinary64 (-99999)
          false).DXFlowPerCapMinRatio = 1 := by
  obtain ⟨hc, hd⟩ := exUndersizedBinary64_resolve
  have hgt : Binary64.div
      (resolve exEnv exUndersizedBinary64 exGlobalsBinary64 (-99999)
        (initSt exUndersizedBinary64 exGlobalsBinary64 false)).DesVolFlow
      (resolve exEnv exUndersizedBinary64 exGlobalsBinary64 (-99999)
        (initSt exUndersizedBinary64 exGlobalsBinary64 false)).autoSizedValue >
      exGlobalsBinary64.MaxRatedVolFlowPerRatedTotCap exGlobalsBinary64.DXCT := by
    rw [hc, hd, div_exUndersized_capacity, exGlobalsBinary64_max]
    norm_num
  have h := guard_max_branch_binary64 exEnv exUndersizedBinary64 exGlobalsBinary64 (-99999) false
    _ rfl (by decide) (by rw [exGlobalsBinary64_min]; norm_num)
    (by rw [exGlobalsBinary64_min, exGlobalsBinary64_max]; norm_num)
    ⟨by rw [exGlobalsBinary64_max]; exact round_exMax,
      by rw [exGlobalsBinary64_max]; norm_num [Binary64.maxFinite, abs_of_pos]⟩
    (by rw [hc]; norm_num)
    ⟨by rw [hc]; exact round_hundred,
      by rw [hc]; norm_num [Binary64.maxFinite, abs_of_pos]⟩
    (by rw [hd, exGlobalsBinary64_max]; norm_num [Binary64.maxFinite])
    (by rw [hd, hc, exGlobalsBinary64_max, div_exUndersized_bound]
        norm_num [Binary64.maxFinite])
    hgt
  refine ⟨by decide, hgt, ?_, ?_, h.2.2.2.2.2.2.2⟩
  · rw [h.1, hd, exGlobalsBinary64_max, div_exUndersized_bound]
  · rw [← hc]; exact h.2.2.1

/-- C11, witness: the coil with 100 kW on 0.011 m3/s leaves the guard with
273.15619567916565 W; its flow per capacity is below the bound 4.027e-5 and
within one unit roundoff of it. -/
theorem guard_envelope_binary64_witness :
    guardApplies exOversizedBinary64 = true ∧
      exGlobalsBinary64.MinRatedVolFlowPerRatedTotCap exGlobalsBinary64.DXCT *
          (1 - Binary64.unitRoundoff) ≤
        (CoolingCapacitySizer.sizeBinary64 exEnv exOversizedBinary64 exGlobalsBinary64 (-99999)
            false).DesVolFlow /
          (CoolingCapacitySizer.sizeBinary64 exEnv exOversizedBinary64 exGlobalsBinary64 (-99999)
            false).autoSizedValue ∧
      (CoolingCapacitySizer.sizeBinary64 exEnv exOversizedBinary64 exGlobalsBinary64 (-99999)
            false).DesVolFlow /
          (CoolingCapacitySizer.sizeBinary64 exEnv exOversizedBinary64 exGlobalsBinary64 (-99999)
            false).autoSizedValue * (1 - Binary64.unitRoundoff) ≤
        exGlobalsBinary64.MaxRatedVolFlowPerRatedTotCap exGlobalsBinary64.DXCT := by
  obtain ⟨hc, hd⟩ := exOversizedBinary64_resolve
  have h := guard_envelope_binary64 exEnv exOversizedBinary64 exGlobalsBinary64 (-99999) false
    _ rfl (by decide)
    (by rw [exGlobalsBinary64_min]; norm_num [Binary64.minNormal])
    (by rw [exGlobalsBinary64_min, exGlobalsBinary64_max]; norm_num)
    (by rw [hd]; norm_num)
    ⟨by rw [hc]; exact round_hundred_thousand,
      by rw [hc]; norm_num [Binary64.maxFinite, abs_of_pos]⟩
    (by rw [hd, exGlobalsBinary64_max]; norm_num [Binary64.minNormal])
    (by rw [hd, exGlobalsBinary64_min]; norm_num [Binary64.maxFinite])
  exact ⟨by decide, h.2.1, h.2.2.1⟩

/-! ## The bracket of the UA solve in binary64 (C17) -/

namespace WaterHeatingCoilUA

/-- With `Acc` and `UA0` the parametrised body is the exact embedding. -/
theorem ua_sizeWith_exact (env : Collaborators) (s : WaterHeatingCoilUASizer) (g : UAGlobals)
    (ov : Real64) (ef : Bool) :
    WaterHeatingCoilUASizer.sizeWith Acc (UA0 s) env s g ov ef =
      WaterHeatingCoilUASizer.size env s g ov ef := rfl

theorem resolveWith_zone_solve (acc lower : Real64) (env : Collaborators)
    (s : WaterHeatingCoilUASizer) (g : UAGlobals) (ov : Real64) (st : St)
    (h : s.curZoneEqNum > 0 ∧ (s.wasAutoSized = true ∨ s.sizingDesRunThisZone = true) ∧
      s.dataCapacityUsedForSizing > 0 ∧ s.dataWaterFlowUsedForSizing > 0 ∧
      s.dataFlowUsedForSizing > 0) :
    resolveWith acc lower env s g ov st =
      if (callSolveRootWith acc lower env s st).SolFla = -1 then
        zoneIterationLimitWith lower env s (callSolveRootWith acc lower env s st)
      else if (callSolveRootWith acc lower env s st).SolFla = -2 then
        zoneBadStartWith lower env s (callSolveRootWith acc lower env s st)
      else callSolveRootWith acc lower env s st := by
  obtain ⟨hz, ha, hc⟩ := h
  have h1 : ¬ (¬ s.wasAutoSized = true ∧ ¬ s.sizingDesRunThisZone = true) := by
    rcases ha with h | h <;> simp [h]
  unfold resolveWith sizeZoneWith
  rw [if_pos hz, if_neg h1, if_pos hc]

theorem resolveWith_sys_solve (acc lower : Real64) (env : Collaborators)
    (s : WaterHeatingCoilUASizer) (g : UAGlobals) (ov : Real64) (st : St)
    (h : s.curZoneEqNum ≤ 0 ∧ s.curSysNum > 0 ∧
      (s.wasAutoSized = true ∨ s.sizingDesRunThisAirSys = true) ∧
      s.dataCapacityUsedForSizing ≥ g.SmallLoad ∧ s.dataWaterFlowUsedForSizing > 0 ∧
      s.dataFlowUsedForSizing > 0) :
    resolveWith acc lower env s g ov st =
      if (callSolveRootWith acc lower env s st).SolFla = -1 then
        sysIterationLimitWith lower env s (callSolveRootWith acc lower env s st)
      else if (callSolveRootWith acc lower env s st).SolFla = -2 then
        sysBadStartWith lower env s (callSolveRootWith acc lower env s st)
      else callSolveRootWith acc lower env s st := by
  obtain ⟨hz, hs, ha, hc⟩ := h
  have h1 : ¬ (¬ s.wasAutoSized = true ∧ ¬ s.sizingDesRunThisAirSys = true) := by
    rcases ha with h | h <;> simp [h]
  unfold resolveWith sizeSysWith
  rw [if_neg (not_lt.mpr hz), if_pos hs, if_neg h1, if_pos hc]

/-- Without the solve conditions the root-finder is not called and `SolFla`
keeps its value. -/
theorem resolveWith_not_performed (acc lower : Real64) (env : Collaborators)
    (s : WaterHeatingCoilUASizer) (g : UAGlobals) (ov : Real64) (st : St)
    (h : ¬ solvePerformed s g) :
    (resolveWith acc lower env s g ov st).solveRootCalls = st.solveRootCalls ∧
      (resolveWith acc lower env s g ov st).SolFla = st.SolFla := by
  unfold solvePerformed at h
  unfold resolveWith
  by_cases hz : s.curZoneEqNum > 0
  · rw [if_pos hz]
    unfold sizeZoneWith
    by_cases h1 : ¬ s.wasAutoSized = true ∧ ¬ s.sizingDesRunThisZone = true
    · rw [if_pos h1]
      exact ⟨rfl, rfl⟩
    · rw [if_neg h1]
      have ha : s.wasAutoSized = true ∨ s.sizingDesRunThisZone = true := by
        by_contra hn
        exact h1 ⟨fun hh => hn (Or.inl hh), fun hh => hn (Or.inr hh)⟩
      have hc : ¬ (s.dataCapacityUsedForSizing > 0 ∧ s.dataWaterFlowUsedForSizing > 0 ∧
          s.dataFlowUsedForSizing > 0) := fun hc => h (Or.inl ⟨hz, ha, hc⟩)
      rw [if_neg hc]
      exact ⟨rfl, rfl⟩
  · rw [if_neg hz]
    by_cases hs : s.curSysNum > 0
    · rw [if_pos hs]
      unfold sizeSysWith
      by_cases h1 : ¬ s.wasAutoSized = true ∧ ¬ s.sizingDesRunThisAirSys = true
      · rw [if_pos h1]
        exact ⟨rfl, rfl⟩
      · rw [if_neg h1]
        have ha : s.wasAutoSized = true ∨ s.sizingDesRunThisAirSys = true := by
          by_contra hn
          exact h1 ⟨fun hh => hn (Or.inl hh), fun hh => hn (Or.inr hh)⟩
        have hc : ¬ (s.dataCapacityUsedForSizing ≥ g.SmallLoad ∧
            s.dataWaterFlowUsedForSizing > 0 ∧ s.dataFlowUsedForSizing > 0) :=
          fun hc => h (Or.inr ⟨not_lt.mp hz, hs, ha, hc⟩)
        rw [if_neg hc]
        exact ⟨rfl, rfl⟩
    · rw [if_neg hs]
      exact ⟨rfl, rfl⟩

/-- With the solve conditions the root-finder is applied once, to the accuracy,
the ceiling, the residual, the bracket and the parameters, and the state takes
its flag and its result whatever the flag is. -/
theorem resolveWith_performed (acc lower : Real64) (env : Collaborators)
    (s : WaterHeatingCoilUASizer) (g : UAGlobals) (ov : Real64) (st : St)
    (h : solvePerformed s g) :
    (resolveWith acc lower env s g ov st).solveRootCalls = st.solveRootCalls ++
        [{ Eps := acc, MaxIte := MaxIte, X_0 := lower, X_1 := UA1 s, Par := Par s }] ∧
      (resolveWith acc lower env s g ov st).SolFla =
        (env.SolveRoot acc MaxIte env.SimpleHeatingCoilUAResidual lower (UA1 s) (Par s)).1 ∧
      (resolveWith acc lower env s g ov st).autoSizedValue =
        (env.SolveRoot acc MaxIte env.SimpleHeatingCoilUAResidual lower (UA1 s) (Par s)).2 := by
  rcases h with h | h
  · rw [resolveWith_zone_solve acc lower env s g ov st h]
    split_ifs <;> exact ⟨rfl, rfl, rfl⟩
  · rw [resolveWith_sys_solve acc lower env s g ov st h]
    split_ifs <;> exact ⟨rfl, rfl, rfl⟩

/-- The double nearest to 0.001. -/
theorem round_thousandth :
    Binary64.round (1 / 1000) = 1152921504606847 / 1152921504606846976 :=
  (Binary64.round_eq (-10) 4611686018427388 (by norm_num) (by norm_num) (by norm_num)
    (by norm_num) (by norm_num)).trans (by norm_num)

/-- The double nearest to 0.0001. -/
theorem round_Acc : Binary64.round (1 / 10000) = 7378697629483821 / 73786976294838206464 :=
  (Binary64.round_eq (-14) 7378697629483821 (by norm_num) (by norm_num) (by norm_num)
    (by norm_num) (by norm_num)).trans (by norm_num)

/-- The machine's lower bracket end is never negative for a positive load, is
at most the load when the load is a binary64 number, and lies strictly between
0 and the load when the load is at least `1024 * 2 ^ (-1022)`. -/
theorem UA0Binary64_bounds (L : Real64) (hL : 0 < L) :
    0 ≤ Binary64.mul (Binary64.round (1 / 1000)) L ∧
      (Binary64.round L = L → Binary64.mul (Binary64.round (1 / 1000)) L ≤ L) ∧
      (1024 * Binary64.minNormal ≤ L →
        0 < Binary64.mul (Binary64.round (1 / 1000)) L ∧
          Binary64.mul (Binary64.round (1 / 1000)) L < L) := by
  rw [round_thousandth]
  have hy0 : (0 : ℚ) ≤ 1152921504606847 / 1152921504606846976 * L := by positivity
  have hyL : (1152921504606847 / 1152921504606846976 : ℚ) * L ≤ L := by
    have : (1152921504606847 / 1152921504606846976 : ℚ) * L ≤ 1 * L :=
      mul_le_mul_of_nonneg_right (by norm_num) hL.le
    linarith
  refine ⟨Binary64.round_nonneg hy0, ?_, ?_⟩
  · intro hrep
    have h1 := Binary64.round_le_round hyL
    rw [hrep] at h1
    exact h1
  · intro hbig
    have hmp : (0 : ℚ) < Binary64.minNormal := by unfold Binary64.minNormal; positivity
    have hy : Binary64.minNormal ≤ 1152921504606847 / 1152921504606846976 * L := by
      have h1 : (1152921504606847 / 1152921504606846976 : ℚ) * (1024 * Binary64.minNormal) ≤
          1152921504606847 / 1152921504606846976 * L :=
        mul_le_mul_of_nonneg_left hbig (by norm_num)
      have h2 : Binary64.minNormal ≤
          1152921504606847 / 1152921504606846976 * (1024 * Binary64.minNormal) := by
        have : (1 : ℚ) ≤ 1152921504606847 / 1152921504606846976 * 1024 := by norm_num
        nlinarith
      linarith
    have hab := abs_le.mp (Binary64.abs_round_sub_le_mul hy)
    have hu : Binary64.unitRoundoff = 1 / 9007199254740992 := by
      unfold Binary64.unitRoundoff
      norm_num
    rw [hu] at hab
    unfold Binary64.mul
    constructor
    · have hypos : (0 : ℚ) < 1152921504606847 / 1152921504606846976 * L := by positivity
      nlinarith [hab.1]
    · nlinarith [hab.2]

/-- C17: in binary64, on every request the sizer invokes the root-finder
exactly when the solve conditions of its scope hold, in zone scope and in
air-system scope alike, and then once: it applies the root-finder to the
accuracy `0.0001` (the nearest double), the iteration ceiling 500, the
residual, the bracket from the machine's product `0.001 * L` to `L`, and the
parameters `(L, coil number, fan operating mode, 1.0)`, where `L` is
`dataCapacityUsedForSizing`, and takes the solver flag and the UA from that
application.  With a positive `SmallLoad` every such call has `L > 0` and
`0 <= lower`; `lower <= upper` when `L` is a binary64 number; and
`0 < lower < upper` when `L` is at least `1024 * 2 ^ (-1022)`.  Without the
solve conditions there is no call and the solver flag stays 0. -/
theorem ua_bracket_binary64 (env : Collaborators) (s : WaterHeatingCoilUASizer) (g : UAGlobals)
    (ov : Real64) (ef : Bool) :
    (solvePerformed s g →
      (WaterHeatingCoilUASizer.sizeBinary64 env s g ov ef).solveRootCalls =
        [{ Eps := Binary64.round (1 / 10000), MaxIte := 500,
           X_0 := Binary64.mul (Binary64.round (1 / 1000)) s.dataCapacityUsedForSizing,
           X_1 := s.dataCapacityUsedForSizing,
           Par := [s.dataCapacityUsedForSizing, (s.dataCoilNum : Real64),
             (s.dataFanOpMode : Real64), 1] }] ∧
      (WaterHeatingCoilUASizer.sizeBinary64 env s g ov ef).SolFla =
        (env.SolveRoot (Binary64.round (1 / 10000)) 500 env.SimpleHeatingCoilUAResidual
          (Binary64.mul (Binary64.round (1 / 1000)) s.dataCapacityUsedForSizing)
          s.dataCapacityUsedForSizing
          [s.dataCapacityUsedForSizing, (s.dataCoilNum : Real64),
            (s.dataFanOpMode : Real64), 1]).1 ∧
      (WaterHeatingCoilUASizer.sizeBinary64 env s g ov ef).autoSizedValue =
        (env.SolveRoot (Binary64.round (1 / 10000)) 500 env.SimpleHeatingCoilUAResidual
          (Binary64.mul (Binary64.round (1 / 1000)) s.dataCapacityUsedForSizing)
          s.dataCapacityUsedForSizing
          [s.dataCapacityUsedForSizing, (s.dataCoilNum : Real64),
            (s.dataFanOpMode : Real64), 1]).2 ∧
      (0 < g.SmallLoad →
        0 < s.dataCapacityUsedForSizing ∧
        0 ≤ Binary64.mul (Binary64.round (1 / 1000)) s.dataCapacityUsedForSizing ∧
        (Binary64.round s.dataCapacityUsedForSizing = s.dataCapacityUsedForSizing →
          Binary64.mul (Binary64.round (1 / 1000)) s.dataCapacityUsedForSizing ≤
            s.dataCapacityUsedForSizing) ∧
        (1024 * Binary64.minNormal ≤ s.dataCapacityUsedForSizing →
          0 < Binary64.mul (Binary64.round (1 / 1000)) s.dataCapacityUsedForSizing ∧
          Binary64.mul (Binary64.round (1 / 1000)) s.dataCapacityUsedForSizing <
            s.dataCapacityUsedForSizing))) ∧
    (¬ solvePerformed s g →
      (WaterHeatingCoilUASizer.sizeBinary64 env s g ov ef).solveRootCalls = [] ∧
      (WaterHeatingCoilUASizer.sizeBinary64 env s g ov ef).SolFla = 0) := by
  constructor
  · intro h
    obtain ⟨h1, h2, h3⟩ := resolveWith_performed AccBinary64 (UA0Binary64 s) env s g ov
      (initSt s g ef) h
    refine ⟨h1, h2, h3, ?_⟩
    intro hS
    have hL : 0 < s.dataCapacityUsedForSizing := by
      rcases h with h | h
      · exact h.2.2.1
      · exact lt_of_lt_of_le hS h.2.2.2.1
    exact ⟨hL, UA0Binary64_bounds _ hL⟩
  · intro h
    exact resolveWith_not_performed AccBinary64 (UA0Binary64 s) env s g ov (initSt s g ef) h

theorem Binary64.minSubnormal_eq : Binary64.minSubnormal = (2 : ℚ) ^ (-1074 : ℤ) := by
  unfold Binary64.minSubnormal
  rw [one_div, ← zpow_natCast, ← zpow_neg, Nat.cast_ofNat]

theorem Binary64.minSubnormal_pos : 0 < Binary64.minSubnormal := by
  unfold Binary64.minSubnormal
  positivity

theorem exTinyLoad_solvePerformed : solvePerformed exTinyLoad exGlobals :=
  Or.inl ⟨by decide, Or.inl rfl, Binary64.minSubnormal_pos, by norm_num [exTinyLoad, exSizer],
    by norm_num [exTinyLoad, exSizer]⟩

/-- The machine's product of 0.001 and the smallest positive double is 0. -/
theorem UA0Binary64_exTinyLoad : UA0Binary64 exTinyLoad = 0 := by
  unfold UA0Binary64 Binary64.mul
  rw [round_thousandth]
  have hL : exTinyLoad.dataCapacityUsedForSizing = (2 : ℚ) ^ (-1074 : ℤ) :=
    Binary64.minSubnormal_eq
  rw [hL]
  have hpos : (0 : ℚ) < 1152921504606847 / 1152921504606846976 * (2 : ℚ) ^ (-1074 : ℤ) := by
    positivity
  have hdiv : (1152921504606847 / 1152921504606846976 : ℚ) * (2 : ℚ) ^ (-1074 : ℤ) /
      (2 : ℚ) ^ (-1074 : ℤ) = 1152921504606847 / 1152921504606846976 := by
    have h2 : (0 : ℚ) < (2 : ℚ) ^ (-1074 : ℤ) := zpow_pos (by norm_num) _
    rw [mul_div_assoc, div_self h2.ne', mul_one]
  have hsmall : (1152921504606847 / 1152921504606846976 : ℚ) * (2 : ℚ) ^ (-1074 : ℤ) <
      (2 : ℚ) ^ (-1022 : ℤ) := by
    have h1 : (2 : ℚ) ^ (-1074 : ℤ) < (2 : ℚ) ^ (-1022 : ℤ) :=
      zpow_lt_zpow_right₀ (by norm_num) (by norm_num)
    have h2 : (0 : ℚ) < (2 : ℚ) ^ (-1074 : ℤ) := zpow_pos (by norm_num) _
    nlinarith
  rw [Binary64.round_eq_of_lt 0 hpos hsmall (by rw [hdiv]; norm_num) (by rw [hdiv]; norm_num)]
  norm_num

/-- The smallest positive double is a binary64 number. -/
theorem round_exTinyLoad :
    Binary64.round exTinyLoad.dataCapacityUsedForSizing = exTinyLoad.dataCapacityUsedForSizing := by
  have hL : exTinyLoad.dataCapacityUsedForSizing = (2 : ℚ) ^ (-1074 : ℤ) :=
    Binary64.minSubnormal_eq
  rw [hL]
  have h2 : (0 : ℚ) < (2 : ℚ) ^ (-1074 : ℤ) := zpow_pos (by norm_num) _
  rw [Binary64.round_eq_of_lt 1 h2 (zpow_lt_zpow_right₀ (by norm_num) (by norm_num))
    (by rw [div_self h2.ne']; norm_num) (by rw [div_self h2.ne']; norm_num)]
  norm_num

/-- C17, counterexample: the coil in zone scope with the design load
`2 ^ (-1074)` W, the smallest positive double, and positive flows.  The solve
conditions of line 73 hold, so the root-finder is invoked; the machine's
product `0.001 * L` is 0, so the lower end of the bracket handed over is 0, not
above 0 and not `0.001 * L`: the echoing root-finder reports that its lower end
was not positive. -/
theorem ua_bracket_lower_end_zero :
    solvePerformed exTinyLoad exGlobals ∧
      0 < exTinyLoad.dataCapacityUsedForSizing ∧
      Binary64.round exTinyLoad.dataCapacityUsedForSizing =
        exTinyLoad.dataCapacityUsedForSizing ∧
      (WaterHeatingCoilUASizer.sizeBinary64 exEcho exTinyLoad exGlobals 0 false).solveRootCalls =
        [{ Eps := Binary64.round (1 / 10000), MaxIte := 500, X_0 := 0,
           X_1 := exTinyLoad.dataCapacityUsedForSizing,
           Par := [exTinyLoad.dataCapacityUsedForSizing, 1, 1, 1] }] ∧
      (WaterHeatingCoilUASizer.sizeBinary64 exEcho exTinyLoad exGlobals 0 false).SolFla = 0 ∧
      (WaterHeatingCoilUASizer.sizeBinary64 exEcho exTinyLoad exGlobals 0 false).autoSizedValue
        = 0 := by
  obtain ⟨h1, h2, h3⟩ := resolveWith_performed AccBinary64 (UA0Binary64 exTinyLoad) exEcho
    exTinyLoad exGlobals 0 (initSt exTinyLoad exGlobals false) exTinyLoad_solvePerformed
  rw [UA0Binary64_exTinyLoad] at h1 h2 h3
  have hs : WaterHeatingCoilUASizer.sizeBinary64 exEcho exTinyLoad exGlobals 0 false =
      finish exTinyLoad (resolveWith AccBinary64 0 exEcho exTinyLoad exGlobals 0
        (initSt exTinyLoad exGlobals false)) := by
    show finish exTinyLoad (resolveWith AccBinary64 (UA0Binary64 exTinyLoad) exEcho exTinyLoad
      exGlobals 0 (initSt exTinyLoad exGlobals false)) = _
    rw [UA0Binary64_exTinyLoad]
  have hf : ∀ st : St, (finish exTinyLoad st).solveRootCalls = st.solveRootCalls ∧
      (finish exTinyLoad st).SolFla = st.SolFla ∧
      (finish exTinyLoad st).autoSizedValue = st.autoSizedValue := fun _ => ⟨rfl, rfl, rfl⟩
  rw [hs, (hf _).1, (hf _).2.1, (hf _).2.2, h1, h2, h3]
  refine ⟨exTinyLoad_solvePerformed, Binary64.minSubnormal_pos, round_exTinyLoad, rfl, ?_, ?_⟩
  · simp [exEcho]
  · simp [exEcho]

/-- The machine's product of 0.001 and 1000 is 1. -/
theorem UA0Binary64_exSizer : UA0Binary64 exSizer = 1 := by
  unfold UA0Binary64 Binary64.mul
  rw [round_thousandth]
  exact (Binary64.round_eq 0 4503599627370496 (by norm_num) (by norm_num [exSizer])
    (by norm_num [exSizer]) (by norm_num [exSizer]) (by norm_num [exSizer])).trans (by norm_num)

/-- The design load of the example coil, 1000 W, is a binary64 number. -/
theorem round_exSizer_load :
    Binary64.round exSizer.dataCapacityUsedForSizing = exSizer.dataCapacityUsedForSizing :=
  (Binary64.round_eq 9 8796093022208000 (by norm_num) (by norm_num [exSizer])
    (by norm_num [exSizer]) (by norm_num [exSizer]) (by norm_num [exSizer])).trans
    (by norm_num [exSizer])

/-- C17, witness: for a design load of 1000 W in zone scope and in air-system
scope the bracket handed to the root-finder is from 1 to 1000 W/K, so that
`0 < lower < upper`, and the echoing root-finder reports a positive lower end
and the upper end 1000; for a zero design load there is no call. -/
theorem ua_bracket_binary64_witness :
    (WaterHeatingCoilUASizer.sizeBinary64 exEcho exSizer exGlobals 0 false).solveRootCalls =
        [{ Eps := 7378697629483821 / 73786976294838206464, MaxIte := 500, X_0 := 1,
           X_1 := 1000, Par := [1000, 1, 1, 1] }] ∧
      (WaterHeatingCoilUASizer.sizeBinary64 exEcho exSizer exGlobals 0 false).SolFla = 1 ∧
      (WaterHeatingCoilUASizer.sizeBinary64 exEcho exSizer exGlobals 0 false).autoSizedValue
        = 1000 ∧
      (WaterHeatingCoilUASizer.sizeBinary64 exEcho exSysSizer exGlobals 0 false).solveRootCalls =
        [{ Eps := 7378697629483821 / 73786976294838206464, MaxIte := 500, X_0 := 1,
           X_1 := 1000, Par := [1000, 1, 1, 1] }] ∧
      Binary64.mul (Binary64.round (1 / 1000)) exSizer.dataCapacityUsedForSizing ≤
        exSizer.dataCapacityUsedForSizing ∧
      (0 < Binary64.mul (Binary64.round (1 / 1000)) exSizer.dataCapacityUsedForSizing ∧
        Binary64.mul (Binary64.round (1 / 1000)) exSizer.dataCapacityUsedForSizing <
          exSizer.dataCapacityUsedForSizing) ∧
      (WaterHeatingCoilUASizer.sizeBinary64 exEcho exZeroLoad exGlobals 0 false).solveRootCalls
        = [] ∧
      (WaterHeatingCoilUASizer.sizeBinary64 exEcho exZeroLoad exGlobals 0 false).SolFla = 0 := by
  have hU : Binary64.mul (Binary64.round (1 / 1000)) exSizer.dataCapacityUsedForSizing = 1 :=
    UA0Binary64_exSizer
  have hUs : Binary64.mul (Binary64.round (1 / 1000)) exSysSizer.dataCapacityUsedForSizing = 1 :=
    UA0Binary64_exSizer
  have h0 := (ua_bracket_binary64 exEcho exSizer exGlobals 0 false).1 exSizer_solvePerformed
  have h1 := h0
  have h2 := (ua_bracket_binary64 exEcho exSysSizer exGlobals 0 false).1
    exSysSizer_solvePerformed
  have h3 := (ua_bracket_binary64 exEcho exZeroLoad exGlobals 0 false).2 (by
    rintro (h | h)
    · exact absurd h.2.2.1 (by norm_num [exZeroLoad])
    · exact absurd h.2.1 (by decide))
  rw [hU, round_Acc] at h1
  rw [hUs, round_Acc] at h2
  refine ⟨?_, ?_, ?_, ?_, ?_, ?_, h3.1, h3.2⟩
  · rw [h1.1]; norm_num [exSizer]
  · rw [h1.2.1]; simp [exEcho]
  · rw [h1.2.2.1]; simp [exEcho, exSizer]
  · rw [h2.1]; norm_num [exSysSizer, exSizer]
  · exact (h0.2.2.2 (by norm_num [exGlobals])).2.2.1 round_exSizer_load
  · exact (h0.2.2.2 (by norm_num [exGlobals])).2.2.2 (by norm_num [exSizer, Binary64.minNormal])

end WaterHeatingCoilUA

end EnergyPlus
